import Mathlib

/-! GD-ROM register file of WashingtonDC.

A shallow embedding of `src/hw/gdrom/gdrom_reg.c`: the register table, the
dispatch entry points `gdrom_reg_read` / `gdrom_reg_write`, the ATA command and
ATAPI packet handlers, and the buffer queue that feeds the data register.
Two smaller pieces follow it: the address packing of `src/hw/maple/maple.c`
and the register dispatch of `src/hw/sys/sys_block.c`.

Conventions of the embedding

* The file-scope variables of the C file are the fields of `World`.
* `uint32_t` / `unsigned` values are `Nat`; `x &= ~m` is `mask_clear x m`
  (complement taken in 32 bits), `x |= m` is `x ||| m`.
* `void *buf` is a list of bytes; `memcpy` to and from a `uint32_t` uses the
  little-endian layout of the hosts the emulator is built for.
* `RAISE_ERROR` does not return: a function that raises yields `Ret.RAISED`
  (or an `Exec` whose `raised` field is set) together with the world as it
  was at the raise.  `PENDING_ERROR` records the error and lets the caller
  return `MEM_ACCESS_FAILURE`.
* `GDROM_TRACE` only prints; it is not modelled.
* `malloc` is taken to succeed (most call sites of the source do not check
  it), so the `ERROR_FAILED_ALLOC` exits are not modelled.
* External collaborators are either logged in `World` (`holly`, `mount_reads`,
  `dma_xfers`) or supplied by `Env` (the mounted disc, constants of headers).
-/

namespace Gdrom

/-! ## Constants of the source -/

def GDROM_CMD_RESET : Nat := 0x08
def GDROM_CMD_DIAG : Nat := 0x90
def GDROM_CMD_NOP : Nat := 0x00
def GDROM_CMD_PKT : Nat := 0xa0
def GDROM_CMD_IDENTIFY : Nat := 0xa1
def GDROM_CMD_SET_FEAT : Nat := 0xef

def GDROM_PKT_TEST_UNIT : Nat := 0x00
def GDROM_PKT_REQ_STAT : Nat := 0x10
def GDROM_PKT_REQ_MODE : Nat := 0x11
def GDROM_PKT_SET_MODE : Nat := 0x12
def GDROM_PKT_REQ_ERROR : Nat := 0x13
def GDROM_PKT_READ_TOC : Nat := 0x14
def GDROM_PKT_READ : Nat := 0x30
def GDROM_PKT_START_DISK : Nat := 0x70
def GDROM_PKT_UNKNOWN_71 : Nat := 0x71

def TRANS_MODE_PIO_DFLT_MASK : Nat := 0xfe
def TRANS_MODE_PIO_DFLT_VAL : Nat := 0x00
def TRANS_MODE_PIO_FLOW_CTRL_MASK : Nat := 0xf8
def TRANS_MODE_PIO_FLOW_CTRL_VAL : Nat := 0x08
def TRANS_MODE_SINGLE_WORD_DMA_MASK : Nat := 0xf8
def TRANS_MODE_SINGLE_WORD_DMA_VAL : Nat := 0x10
def TRANS_MODE_MULTI_WORD_DMA_MASK : Nat := 0xf8
def TRANS_MODE_MULTI_WORD_DMA_VAL : Nat := 0x20
def TRANS_MODE_PSEUDO_DMA_MASK : Nat := 0xf8
def TRANS_MODE_PSEUDO_DMA_VAL : Nat := 0x18

def STAT_BSY_SHIFT : Nat := 7
def STAT_BSY_MASK : Nat := 1 <<< STAT_BSY_SHIFT
def STAT_DRDY_SHIFT : Nat := 6
def STAT_DRDY_MASK : Nat := 1 <<< STAT_DRDY_SHIFT
def STAT_DF_SHIFT : Nat := 5
def STAT_DF_MASK : Nat := 1 <<< STAT_DF_SHIFT
def STAT_DSC_SHIFT : Nat := 4
def STAT_DSC_MASK : Nat := 1 <<< STAT_DSC_SHIFT
def STAT_DRQ_SHIFT : Nat := 3
def STAT_DRQ_MASK : Nat := 1 <<< STAT_DRQ_SHIFT
def STAT_CORR_SHIFT : Nat := 2
def STAT_CORR_MASK : Nat := 1 <<< STAT_CORR_SHIFT
def STAT_CHECK_SHIFT : Nat := 0
def STAT_CHECK_MASK : Nat := 1 <<< STAT_CHECK_SHIFT

def INT_REASON_COD_SHIFT : Nat := 0
def INT_REASON_COD_MASK : Nat := 1 <<< INT_REASON_COD_SHIFT
def INT_REASON_IO_SHIFT : Nat := 1
def INT_REASON_IO_MASK : Nat := 1 <<< INT_REASON_IO_SHIFT

def DEV_CTRL_NIEN_SHIFT : Nat := 1
def DEV_CTRL_NIEN_MASK : Nat := 1 <<< DEV_CTRL_NIEN_SHIFT
def DEV_CTRL_SRST_SHIFT : Nat := 2
def DEV_CTRL_SRST_MASK : Nat := 1 <<< DEV_CTRL_SRST_SHIFT

def FEAT_REG_DMA_SHIFT : Nat := 0
def FEAT_REG_DMA_MASK : Nat := 1 <<< FEAT_REG_DMA_SHIFT

/-- Values of `enum gdrom_disc_state` used by the sector-number register. -/
def GDROM_STATE_PAUSE : Nat := 0x1
def GDROM_STATE_NODISC : Nat := 0x7
def DISC_TYPE_GDROM : Nat := 8
def SEC_NUM_STATUS_SHIFT : Nat := 0
def SEC_NUM_DISC_TYPE_SHIFT : Nat := 4

def SENSE_KEY_NONE : Nat := 0
def SENSE_KEY_NOT_READY : Nat := 2
def SENSE_KEY_ILLEGAL_REQ : Nat := 5
def ADDITIONAL_SENSE_NO_ERROR : Nat := 0
def ADDITIONAL_SENSE_NO_DISC : Nat := 0x3a

def GDROM_GDAPRO_DEFAULT : Nat := 0x00007f00
def GDROM_G1GDRC_DEFAULT : Nat := 0x0000ffff
def GDROM_GDSTAR_DEFAULT : Nat := 0x00000000
def GDROM_GDLEN_DEFAULT : Nat := 0x00000000
def GDROM_GDDIR_DEFAULT : Nat := 0x00000000
def GDROM_GDEN_DEFAULT : Nat := 0x00000000
def GDROM_GDST_DEFAULT : Nat := 0x00000000
def GDROM_GDLEND_DEFAULT : Nat := 0x00000000

def TRANS_MODE_PIO_DFLT : Nat := 0
def TRANS_MODE_PIO_FLOW_CTRL : Nat := 1
def TRANS_MODE_SINGLE_WORD_DMA : Nat := 2
def TRANS_MODE_MULTI_WORD_DMA : Nat := 3
def TRANS_MODE_PSEUDO_DMA : Nat := 4
def PKT_LEN : Nat := 12
def PKT_71_RESP_LEN : Nat := 960

/-! ## Machine arithmetic -/

/-- The largest `uint32_t`. -/
def U32_MAX : Nat := 0xffffffff

/-- The C statement `x &= ~m` on a `uint32_t` (also `x & ~m` as an rvalue). -/
def mask_clear (x m : Nat) : Nat := x &&& (U32_MAX ^^^ m)

/-- Conversion of an `unsigned` to `int` (two's complement). -/
def int_of_unsigned (x : Nat) : Int :=
  if x % 2 ^ 32 < 2 ^ 31 then ((x % 2 ^ 32 : Nat) : Int) else ((x % 2 ^ 32 : Nat) : Int) - 2 ^ 32

/-- Conversion of an `int` to `unsigned`. -/
def unsigned_of_int (x : Int) : Nat := (x % 2 ^ 32).toNat

/-- The byte of `buf` at offset `i`; a `void *` buffer is read bytewise. -/
def buf_byte (buf : List Nat) (i : Nat) : Nat := buf.getD i 0 % 256

/-- Byte `i` of the little-endian representation of `v`. -/
def le_byte (v i : Nat) : Nat := (v / 256 ^ i) % 256

/-- The first `n` bytes of the little-endian representation of `v`:
what `memcpy(buf, &v, n)` stores. -/
def le_bytes (v n : Nat) : List Nat := (List.range n).map (le_byte v)

/-- Little-endian value of a list of bytes. -/
def le_val : List Nat → Nat
  | [] => 0
  | b :: bs => b % 256 + 256 * le_val bs

/-- The C statement `memcpy(&x, buf, n)` for a `uint32_t x` holding `old` and
`n <= 4`: the low `n` bytes come from `buf`, the others are kept. -/
def memcpy_u32 (old : Nat) (buf : List Nat) (n : Nat) : Nat :=
  le_val ((List.range 4).map (fun i => if i < n then buf_byte buf i else le_byte old i))

/-! ## State -/

/-- The error kinds of error.h that the modelled files raise. -/
inductive error_type where
  | ERROR_UNIMPLEMENTED
  | ERROR_FAILED_ALLOC
  | ERROR_INTEGRITY
  deriving DecidableEq, Repr

/-- The protocol state, `enum gdrom_state`. -/
inductive gdrom_state where
  | GDROM_STATE_NORM
  | GDROM_STATE_INPUT_PKT
  | GDROM_STATE_SET_MODE
  deriving DecidableEq, Repr

/-- The bit-field `struct error_reg`. -/
structure error_reg_t where
  ili : Nat
  eomf : Nat
  abrt : Nat
  mcr : Nat
  sense_key : Nat
  deriving DecidableEq, Repr

/-- The value left by `memset(&error_reg, 0, sizeof(error_reg))`. -/
def error_reg_zero : error_reg_t :=
  { ili := 0, eomf := 0, abrt := 0, mcr := 0, sense_key := 0 }

/-- The `uint32_t` read by `memcpy(&tmp, &error_reg, 4)`: the bit-fields are
allocated from the least significant bit. -/
def error_reg_raw (e : error_reg_t) : Nat :=
  (e.ili % 2) ||| ((e.eomf % 2) <<< 1) ||| ((e.abrt % 2) <<< 2) ||| ((e.mcr % 2) <<< 3)
    ||| ((e.sense_key % 16) <<< 4)

/-- A node of the buffer queue, `struct gdrom_bufq_node`.  `dat` lists the
bytes stored so far; the rest of the C array is indeterminate and reads as 0
here. -/
structure gdrom_bufq_node where
  idx : Nat
  len : Nat
  dat : List Nat
  deriving DecidableEq, Repr

/-- The element `dat[i]` of a node, a `uint8_t`. -/
def gdrom_bufq_node.byte (n : gdrom_bufq_node) (i : Nat) : Nat := n.dat.getD i 0 % 256

/-- Calls into the interrupt controller for the line HOLLY_EXT_INT_GDROM. -/
inductive holly_call where
  | raise_ext_int
  | clear_ext_int
  deriving DecidableEq, Repr

/-- One call `sh4_dmac_transfer_to_mem(addr, sz, 1, dat)`. -/
structure dma_xfer where
  addr : Nat
  sz : Nat
  dat : List Nat
  deriving DecidableEq, Repr

/-- The error attributes of error.h written by this file. -/
structure error_attrs where
  feature : Option String
  address : Option Nat
  length : Option Nat
  gdrom_command : Option Nat
  pending : Option error_type
  deriving DecidableEq, Repr

/-- Every file-scope variable of gdrom_reg.c, and the logs of the calls made
into the collaborators. -/
structure World where
  stat_reg : Nat
  feat_reg : Nat
  sect_cnt_reg : Nat
  int_reason_reg : Nat
  dev_ctrl_reg : Nat
  data_byte_count : Nat
  gdapro_reg : Nat
  g1gdrc_reg : Nat
  dma_start_addr_reg : Nat
  dma_len_reg : Nat
  dma_dir_reg : Nat
  dma_en_reg : Nat
  dma_start_reg : Nat
  gdlend_reg : Nat
  error_reg : error_reg_t
  additional_sense : Nat
  trans_mode_vals : Nat → Nat
  state : gdrom_state
  set_mode_bytes_remaining : Int
  pkt_buf : Nat → Nat
  bufq : List gdrom_bufq_node
  n_bytes_received : Nat
  gdrom_regs : Nat → Nat
  holly : List holly_call
  mount_reads : List (Nat × Nat)
  dma_xfers : List dma_xfer
  err : error_attrs

/-- The state at program start: the static initialisers of the source. -/
def World.init : World :=
  { stat_reg := 0, feat_reg := 0, sect_cnt_reg := 0, int_reason_reg := 0,
    dev_ctrl_reg := 0, data_byte_count := 0,
    gdapro_reg := GDROM_GDAPRO_DEFAULT, g1gdrc_reg := GDROM_G1GDRC_DEFAULT,
    dma_start_addr_reg := GDROM_GDSTAR_DEFAULT, dma_len_reg := GDROM_GDLEN_DEFAULT,
    dma_dir_reg := GDROM_GDDIR_DEFAULT, dma_en_reg := GDROM_GDEN_DEFAULT,
    dma_start_reg := GDROM_GDST_DEFAULT, gdlend_reg := GDROM_GDLEND_DEFAULT,
    error_reg := error_reg_zero, additional_sense := 0,
    trans_mode_vals := fun _ => 0,
    state := gdrom_state.GDROM_STATE_NORM,
    set_mode_bytes_remaining := 0,
    pkt_buf := fun _ => 0,
    bufq := [],
    n_bytes_received := 0,
    gdrom_regs := fun _ => 0,
    holly := [], mount_reads := [], dma_xfers := [],
    err := { feature := none, address := none, length := none,
             gdrom_command := none, pending := none } }

/-- What the source takes from headers and collaborators that are not part of
this file: constants of MemoryMap.h and cdrom.h, and the mounted disc.
`mount_read_sectors k fad n` is the answer to the call number `k` (counted
over the whole run) of `mount_read_sectors(dat, fad, n)`: `none` for a
negative return value, otherwise the bytes stored into `dat`. -/
structure Env where
  ADDR_GDROM_FIRST : Nat
  CDROM_FRAME_DATA_SIZE : Nat
  CDROM_TOC_SIZE : Nat
  mount_check : Bool
  mount_read_sectors : Nat → Nat → Nat → Option (List Nat)
  mount_read_toc : Nat → List Nat
  mount_encode_toc : List Nat → List Nat

/-- How a register access ends: one of the two return codes of mem_code.h, or
no return at all because `RAISE_ERROR` was reached. -/
inductive Ret where
  | MEM_ACCESS_SUCCESS
  | MEM_ACCESS_FAILURE
  | RAISED (e : error_type)
  deriving DecidableEq, Repr

/-- Outcome of a register access: return code, bytes stored into `buf` (for a
read), and the state afterwards. -/
structure Result where
  ret : Ret
  buf : List Nat
  w : World

/-- Outcome of a `void` function that may reach `RAISE_ERROR`. -/
structure Exec where
  raised : Option error_type
  w : World

/-! ## Error attributes and interrupts -/

def error_set_feature (w : World) (s : String) : World :=
  { w with err := { w.err with feature := some s } }

def error_set_address (w : World) (a : Nat) : World :=
  { w with err := { w.err with address := some a } }

def error_set_length (w : World) (l : Nat) : World :=
  { w with err := { w.err with length := some l } }

def error_set_gdrom_command (w : World) (c : Nat) : World :=
  { w with err := { w.err with gdrom_command := some c } }

/-- The effect of `PENDING_ERROR(tp)`. -/
def error_set_pending (w : World) (e : error_type) : World :=
  { w with err := { w.err with pending := some e } }

def holly_raise_ext_int (w : World) : World :=
  { w with holly := w.holly ++ [holly_call.raise_ext_int] }

def holly_clear_ext_int (w : World) : World :=
  { w with holly := w.holly ++ [holly_call.clear_ext_int] }

/-- The recurring statement
`if (!(dev_ctrl_reg & DEV_CTRL_NIEN_MASK)) holly_raise_ext_int(HOLLY_EXT_INT_GDROM);` -/
def raise_int_unless_nien (w : World) : World :=
  if w.dev_ctrl_reg &&& DEV_CTRL_NIEN_MASK = 0 then holly_raise_ext_int w else w

/-- The source's `bsy_signal`. -/
def bsy_signal (w : World) : Bool := w.stat_reg &&& STAT_BSY_MASK != 0

/-- The source's `drq_signal`. -/
def drq_signal (w : World) : Bool := w.stat_reg &&& STAT_DRQ_MASK != 0

def gdrom_dma_prot_top (w : World) : Nat :=
  (((w.gdapro_reg &&& 0x7f00) >>> 8) <<< 20) ||| 0x08000000

def gdrom_dma_prot_bot (w : World) : Nat :=
  ((w.gdapro_reg &&& 0x7f) <<< 20) ||| 0x080fffff

/-! ## Buffer queue -/

/-- The source's `bufq_clear`: pop and free every node. -/
def bufq_clear (w : World) : World := { w with bufq := [] }

/-- The source's `bufq_consume_byte`: `none` is the return value -1 (queue
empty); otherwise the byte at the cursor of the front node, which is popped
once its cursor reaches its length. -/
def bufq_consume_byte (q : List gdrom_bufq_node) : Option Nat × List gdrom_bufq_node :=
  match q with
  | [] => (none, [])
  | n :: rest =>
    let byte := n.byte n.idx
    let n1 : gdrom_bufq_node := { n with idx := n.idx + 1 }
    if n1.idx ≥ n1.len then (some byte, rest) else (some byte, n1 :: rest)

/-! ## Generic register handlers -/

/-- Index computation of the default handlers,
`(addr - ADDR_GDROM_FIRST) >> 2` on an `addr32_t`. -/
def gdrom_reg_idx (env : Env) (addr : Nat) : Nat :=
  ((addr + 2 ^ 32 - env.ADDR_GDROM_FIRST % 2 ^ 32) % 2 ^ 32) >>> 2

/-- The source's `default_gdrom_reg_read_handler`.  `gdrom_regs` is kept as
bytes: register `idx` occupies the offsets `4 * idx .. 4 * idx + 3`. -/
def default_gdrom_reg_read_handler (env : Env) (w : World) (addr len : Nat) : Result :=
  let idx := gdrom_reg_idx env addr
  { ret := Ret.MEM_ACCESS_SUCCESS,
    buf := (List.range len).map (fun i => w.gdrom_regs (4 * idx + i) % 256),
    w := w }

/-- The source's `default_gdrom_reg_write_handler`. -/
def default_gdrom_reg_write_handler (env : Env) (w : World) (buf : List Nat)
    (addr len : Nat) : Result :=
  let idx := gdrom_reg_idx env addr
  { ret := Ret.MEM_ACCESS_SUCCESS,
    buf := [],
    w := { w with gdrom_regs := fun o =>
             if 4 * idx ≤ o ∧ o < 4 * idx + len then buf_byte buf (o - 4 * idx)
             else w.gdrom_regs o } }

/-- The source's `warn_gdrom_reg_read_handler`: the default handler plus a
trace line. -/
def warn_gdrom_reg_read_handler (env : Env) (w : World) (addr len : Nat) : Result :=
  default_gdrom_reg_read_handler env w addr len

/-- The source's `warn_gdrom_reg_write_handler`: a trace line, then the
default handler. -/
def warn_gdrom_reg_write_handler (env : Env) (w : World) (buf : List Nat)
    (addr len : Nat) : Result :=
  default_gdrom_reg_write_handler env w buf addr len

/-- The source's `ignore_gdrom_reg_write_handler`. -/
def ignore_gdrom_reg_write_handler (_env : Env) (w : World) (_buf : List Nat)
    (_addr _len : Nat) : Result :=
  { ret := Ret.MEM_ACCESS_SUCCESS, buf := [], w := w }

/-- The source's `gdrom_alt_status_read_handler`. -/
def gdrom_alt_status_read_handler (_env : Env) (w : World) (_addr len : Nat) : Result :=
  { ret := Ret.MEM_ACCESS_SUCCESS,
    buf := le_bytes w.stat_reg (if len > 4 then 4 else len),
    w := w }

/-- The source's `gdrom_status_read_handler`. -/
def gdrom_status_read_handler (_env : Env) (w : World) (_addr len : Nat) : Result :=
  let w := holly_clear_ext_int w
  { ret := Ret.MEM_ACCESS_SUCCESS,
    buf := le_bytes w.stat_reg (if len > 4 then 4 else len),
    w := w }

/-- The source's `gdrom_error_reg_read_handler`. -/
def gdrom_error_reg_read_handler (_env : Env) (w : World) (_addr len : Nat) : Result :=
  { ret := Ret.MEM_ACCESS_SUCCESS,
    buf := le_bytes (error_reg_raw w.error_reg) (if len > 4 then 4 else len),
    w := w }

/-- The source's `gdrom_features_reg_write_handler`. -/
def gdrom_features_reg_write_handler (_env : Env) (w : World) (buf : List Nat)
    (_addr len : Nat) : Result :=
  let n_bytes := if len < 4 then len else 4
  { ret := Ret.MEM_ACCESS_SUCCESS, buf := [],
    w := { w with feat_reg := memcpy_u32 w.feat_reg buf n_bytes } }

/-- The source's `gdrom_sect_cnt_reg_write_handler` (defined in the source but
bound to no entry of the register table). -/
def gdrom_sect_cnt_reg_write_handler (_env : Env) (w : World) (buf : List Nat)
    (_addr len : Nat) : Result :=
  let n_bytes := if len < 4 then len else 4
  { ret := Ret.MEM_ACCESS_SUCCESS, buf := [],
    w := { w with sect_cnt_reg := memcpy_u32 w.sect_cnt_reg buf n_bytes } }

/-- The source's `gdrom_dev_ctrl_reg_write_handler`. -/
def gdrom_dev_ctrl_reg_write_handler (_env : Env) (w : World) (buf : List Nat)
    (_addr len : Nat) : Result :=
  let n_bytes := if len < 4 then len else 4
  { ret := Ret.MEM_ACCESS_SUCCESS, buf := [],
    w := { w with dev_ctrl_reg := memcpy_u32 w.dev_ctrl_reg buf n_bytes } }

/-- The source's `gdrom_int_reason_reg_read_handler`. -/
def gdrom_int_reason_reg_read_handler (_env : Env) (w : World) (_addr len : Nat) : Result :=
  let n_bytes := if len < 4 then len else 4
  { ret := Ret.MEM_ACCESS_SUCCESS, buf := le_bytes w.int_reason_reg n_bytes, w := w }

/-- The source's `gdrom_sector_num_reg_read_handler`. -/
def gdrom_sector_num_reg_read_handler (env : Env) (w : World) (_addr len : Nat) : Result :=
  let status :=
    if env.mount_check then
      (GDROM_STATE_PAUSE <<< SEC_NUM_STATUS_SHIFT) ||| (DISC_TYPE_GDROM <<< SEC_NUM_DISC_TYPE_SHIFT)
    else GDROM_STATE_NODISC <<< SEC_NUM_STATUS_SHIFT
  { ret := Ret.MEM_ACCESS_SUCCESS, buf := le_bytes status (if len < 4 then len else 4), w := w }

/-- The source's `gdrom_byte_count_low_reg_read_handler`. -/
def gdrom_byte_count_low_reg_read_handler (_env : Env) (w : World) (_addr len : Nat) : Result :=
  let low := w.data_byte_count &&& 0xff
  { ret := Ret.MEM_ACCESS_SUCCESS, buf := le_bytes low (if len < 4 then len else 4), w := w }

/-- The source's `gdrom_byte_count_low_reg_write_handler`. -/
def gdrom_byte_count_low_reg_write_handler (_env : Env) (w : World) (buf : List Nat)
    (_addr len : Nat) : Result :=
  let tmp := memcpy_u32 0 buf (if len < 4 then len else 4)
  { ret := Ret.MEM_ACCESS_SUCCESS, buf := [],
    w := { w with data_byte_count := (mask_clear w.data_byte_count 0xff) ||| (tmp &&& 0xff) } }

/-- The source's `gdrom_byte_count_high_reg_read_handler`. -/
def gdrom_byte_count_high_reg_read_handler (_env : Env) (w : World) (_addr len : Nat) : Result :=
  let high := (w.data_byte_count &&& 0xff00) >>> 8
  { ret := Ret.MEM_ACCESS_SUCCESS, buf := le_bytes high (if len < 4 then len else 4), w := w }

/-- The source's `gdrom_byte_count_high_reg_write_handler`. -/
def gdrom_byte_count_high_reg_write_handler (_env : Env) (w : World) (buf : List Nat)
    (_addr len : Nat) : Result :=
  let tmp := memcpy_u32 0 buf (if len < 4 then len else 4)
  { ret := Ret.MEM_ACCESS_SUCCESS, buf := [],
    w := { w with
           data_byte_count := (mask_clear w.data_byte_count 0xff00) ||| ((tmp &&& 0xff) <<< 8) } }

/-! ## ATA commands -/

/-- The source's `gdrom_cmd_set_features`. -/
def gdrom_cmd_set_features (w : World) : World :=
  if (w.feat_reg &&& 0x7f) = 3 then
    let w1 : World :=
      if (w.sect_cnt_reg &&& TRANS_MODE_PIO_DFLT_MASK) = TRANS_MODE_PIO_DFLT_VAL then
        { w with trans_mode_vals :=
            Function.update w.trans_mode_vals TRANS_MODE_PIO_DFLT w.sect_cnt_reg }
      else if (w.sect_cnt_reg &&& TRANS_MODE_PIO_FLOW_CTRL_MASK) = TRANS_MODE_PIO_FLOW_CTRL_VAL then
        { w with trans_mode_vals :=
            Function.update w.trans_mode_vals TRANS_MODE_PIO_FLOW_CTRL
                    (mask_clear w.sect_cnt_reg TRANS_MODE_PIO_FLOW_CTRL_MASK) }
      else if (w.sect_cnt_reg &&& TRANS_MODE_SINGLE_WORD_DMA_MASK)
          = TRANS_MODE_SINGLE_WORD_DMA_VAL then
        { w with trans_mode_vals :=
            Function.update w.trans_mode_vals TRANS_MODE_SINGLE_WORD_DMA
                    (mask_clear w.sect_cnt_reg TRANS_MODE_SINGLE_WORD_DMA_MASK) }
      else if (w.sect_cnt_reg &&& TRANS_MODE_MULTI_WORD_DMA_MASK)
          = TRANS_MODE_MULTI_WORD_DMA_MASK then
        { w with trans_mode_vals :=
            Function.update w.trans_mode_vals TRANS_MODE_MULTI_WORD_DMA
                    (mask_clear w.sect_cnt_reg TRANS_MODE_MULTI_WORD_DMA_MASK) }
      else if (w.sect_cnt_reg &&& TRANS_MODE_PSEUDO_DMA_MASK) = TRANS_MODE_PSEUDO_DMA_VAL then
        { w with trans_mode_vals :=
            Function.update w.trans_mode_vals TRANS_MODE_PSEUDO_DMA
                    (mask_clear w.sect_cnt_reg TRANS_MODE_PSEUDO_DMA_MASK) }
      else w
    { w1 with stat_reg := mask_clear w1.stat_reg STAT_CHECK_MASK, error_reg := error_reg_zero }
  else w

/-- The string of bytes returned by the IDENTIFY command. -/
def gdrom_ident_str : List Nat := [
  0x20, 0x20, 0x20, 0x00, 0x00, 0x00, 0x00, 0x00, 0x00, 0x00,
  0x00, 0x00, 0x00, 0x00, 0x00, 0x00, 0x53, 0x45, 0x20, 0x20,
  0x20, 0x20, 0x20, 0x20, 0x20, 0x20, 0x20, 0x20, 0x20, 0x20,
  0x20, 0x20, 0x43, 0x44, 0x2d, 0x52, 0x4f, 0x4d, 0x20, 0x44,
  0x52, 0x49, 0x56, 0x45, 0x20, 0x20, 0x20, 0x20, 0x36, 0x2e,
  0x34, 0x32, 0x20, 0x20, 0x20, 0x20, 0x20, 0x20, 0x20, 0x20,
  0x20, 0x20, 0x20, 0x20, 0x00, 0x00, 0x00, 0x00, 0x00, 0x00,
  0x00, 0x00, 0x00, 0x00, 0x00, 0x00, 0x00, 0x00, 0x00, 0x00]

/-- The source's `gdrom_cmd_identify`. -/
def gdrom_cmd_identify (w : World) : World :=
  let w := { w with state := gdrom_state.GDROM_STATE_NORM }
  let w := { w with stat_reg := mask_clear w.stat_reg STAT_BSY_MASK }
  let w := { w with stat_reg := w.stat_reg ||| STAT_DRQ_MASK }
  let w := raise_int_unless_nien w
  let w := bufq_clear w
  let node : gdrom_bufq_node := { idx := 0, len := 80, dat := gdrom_ident_str }
  let w := { w with data_byte_count := 80 }
  let w := { w with bufq := w.bufq ++ [node] }
  let w := { w with stat_reg := mask_clear w.stat_reg STAT_CHECK_MASK }
  { w with error_reg := error_reg_zero }

/-- The source's `gdrom_cmd_begin_packet`. -/
def gdrom_cmd_begin_packet (w : World) : World :=
  let w := { w with stat_reg := mask_clear w.stat_reg STAT_CHECK_MASK }
  let w := { w with int_reason_reg := mask_clear w.int_reason_reg INT_REASON_IO_MASK }
  let w := { w with int_reason_reg := w.int_reason_reg ||| INT_REASON_COD_MASK }
  let w := { w with stat_reg := w.stat_reg ||| STAT_DRQ_MASK }
  let w := { w with n_bytes_received := 0 }
  { w with state := gdrom_state.GDROM_STATE_INPUT_PKT }

/-! ## Packet commands -/

/-- The element `pkt_buf[i]`, a `uint8_t`. -/
def pkt_byte (w : World) (i : Nat) : Nat := w.pkt_buf i % 256

/-- The source's `gdrom_input_test_unit_packet`. -/
def gdrom_input_test_unit_packet (env : Env) (w : World) : World :=
  let w := { w with
    int_reason_reg := w.int_reason_reg ||| (INT_REASON_COD_MASK ||| INT_REASON_IO_MASK) }
  let w := { w with stat_reg := w.stat_reg ||| STAT_DRDY_MASK }
  let w := { w with stat_reg := mask_clear w.stat_reg (STAT_BSY_MASK ||| STAT_DRQ_MASK) }
  let w := { w with state := gdrom_state.GDROM_STATE_NORM }
  let w := { w with error_reg := error_reg_zero }
  if env.mount_check then
    { w with stat_reg := mask_clear w.stat_reg STAT_CHECK_MASK }
  else
    let w := { w with stat_reg := w.stat_reg ||| STAT_CHECK_MASK }
    let w := { w with error_reg := { w.error_reg with sense_key := SENSE_KEY_NOT_READY } }
    { w with additional_sense := ADDITIONAL_SENSE_NO_DISC }

/-- The source's `gdrom_input_req_error_packet`. -/
def gdrom_input_req_error_packet (w : World) : World :=
  let len := pkt_byte w 4
  let dat_out : List Nat :=
    [0xf0, 0, w.error_reg.sense_key &&& 0xf, 0, 0, 0, 0, 0, w.additional_sense % 256, 0]
  let len := if len > 10 then 10 else len
  let w := bufq_clear w
  let w : World :=
    if len ≠ 0 then
      let node : gdrom_bufq_node := { idx := 0, len := len, dat := dat_out.take len }
      let w := { w with bufq := w.bufq ++ [node] }
      { w with data_byte_count := node.len }
    else w
  let w := { w with int_reason_reg := w.int_reason_reg ||| INT_REASON_IO_MASK }
  let w := { w with int_reason_reg := mask_clear w.int_reason_reg INT_REASON_COD_MASK }
  let w := { w with stat_reg := w.stat_reg ||| STAT_DRQ_MASK }
  let w := raise_int_unless_nien w
  { w with state := gdrom_state.GDROM_STATE_NORM }

/-- The source's `gdrom_input_start_disk_packet`. -/
def gdrom_input_start_disk_packet (w : World) : World :=
  let w := { w with
    int_reason_reg := w.int_reason_reg ||| (INT_REASON_COD_MASK ||| INT_REASON_IO_MASK) }
  let w := { w with stat_reg := w.stat_reg ||| STAT_DRDY_MASK }
  let w := { w with stat_reg := mask_clear w.stat_reg (STAT_BSY_MASK ||| STAT_DRQ_MASK) }
  let w := { w with state := gdrom_state.GDROM_STATE_NORM }
  let w := { w with stat_reg := mask_clear w.stat_reg STAT_CHECK_MASK }
  { w with error_reg := error_reg_zero }

/-- The recorded response to packet 0x71, `pkt71_resp`. -/
def pkt71_resp : List Nat := [
  0x42, 0x07, 0xf0, 0x47, 0x07, 0x1b, 0x10, 0xed, 0x05, 0xbc,
  0xc0, 0x00, 0x06, 0x08, 0x94, 0x78, 0x6a, 0x0a, 0x4b, 0x00,
  0x46, 0x0e, 0xdd, 0xc4, 0xa8, 0x38, 0x82, 0xb1, 0xfc, 0xd5,
  0x5e, 0x2a, 0xb7, 0x00, 0x9a, 0x0b, 0xec, 0x1d, 0xbe, 0x85,
  0x5c, 0x96, 0xf4, 0x82, 0x00, 0x69, 0x0a, 0x9e, 0x34, 0xe7,
  0x3d, 0x9f, 0x22, 0x83, 0x00, 0x09, 0x0f, 0x3f, 0x7c, 0x26,
  0x83, 0x28, 0xbf, 0x6d, 0xb3, 0x23, 0x0f, 0x07, 0x42, 0x00,
  0xe1, 0x07, 0xd8, 0xfe, 0x23, 0xfc, 0x00, 0x00, 0x04, 0x67,
  0x00, 0x30, 0x03, 0x00, 0xca, 0x08, 0x55, 0x75, 0xe0, 0xbf,
  0x92, 0x00, 0xed, 0x05, 0x36, 0x7b, 0x00, 0x9a, 0x0c, 0x08,
  0xb1, 0x79, 0x88, 0x13, 0xce, 0xec, 0x96, 0x00, 0x00, 0xcd,
  0x04, 0x68, 0x00, 0xa6, 0x03, 0x00, 0x89, 0x0e, 0x22, 0xd2,
  0x32, 0x4c, 0x8f, 0x97, 0xd2, 0x7d, 0xc0, 0x41, 0x7e, 0x00,
  0x51, 0x0e, 0x63, 0xc0, 0xd0, 0x82, 0x12, 0xe6, 0x93, 0x90,
  0xc2, 0xa0, 0xa3, 0x00, 0x15, 0x06, 0xc3, 0x97, 0x5c, 0x00,
  0xf1, 0x03, 0x00, 0x0b, 0x03, 0x00, 0x55, 0x04, 0xc3, 0x00,
  0x88, 0x0b, 0x9e, 0x41, 0x2b, 0x4b, 0x2d, 0x5a, 0xce, 0x2b,
  0x00, 0x67, 0x0c, 0xb8, 0x0d, 0xc4, 0x53, 0x63, 0xdc, 0x65,
  0xa2, 0xa6, 0x00, 0x61, 0x0c, 0x96, 0x18, 0xd6, 0xeb, 0x66,
  0xa9, 0x05, 0x29, 0xf0, 0x00, 0xdd, 0x0b, 0x79, 0x9d, 0xd9,
  0x9e, 0xdb, 0x35, 0x03, 0x14, 0x00, 0xcb, 0x04, 0xe0, 0x00,
  0x51, 0x08, 0x5f, 0xfc, 0x14, 0x6a, 0x6c, 0x00, 0x60, 0x10,
  0xa6, 0xde, 0x2c, 0x8f, 0x38, 0x6d, 0x28, 0xd6, 0xc4, 0x8a,
  0xe8, 0xcb, 0xec, 0x00, 0x3c, 0x11, 0x01, 0xe6, 0x1d, 0x80,
  0xaa, 0x1b, 0x22, 0x2e, 0x0e, 0x0d, 0xf5, 0x29, 0x51, 0xe3,
  0x00, 0x60, 0x07, 0xb6, 0x4d, 0x4e, 0x3c, 0x00, 0x22, 0x05,
  0x5a, 0xb9, 0x00, 0x9b, 0x08, 0x9b, 0x70, 0xb6, 0xbd, 0x29,
  0x00, 0x1a, 0x06, 0xfe, 0x3a, 0xbe, 0x00, 0x0a, 0x09, 0xf6,
  0x38, 0xb1, 0xb5, 0x1d, 0xa1, 0x00, 0x45, 0x0e, 0xe5, 0xc0,
  0xd2, 0x62, 0x62, 0xe1, 0x98, 0x70, 0x01, 0x1b, 0x11, 0x00,
  0x4a, 0x05, 0xbe, 0xbd, 0x00, 0xcb, 0x0c, 0xf5, 0xa0, 0xa4,
  0x4c, 0x2e, 0xea, 0x17, 0x9e, 0x37, 0x00, 0x6c, 0x0e, 0xb0,
  0xbf, 0xca, 0x1f, 0xe9, 0x22, 0xc5, 0x49, 0xb7, 0x7e, 0x6f,
  0x00, 0x4f, 0x10, 0xec, 0xea, 0x92, 0xc5, 0x5c, 0x72, 0x6a,
  0x6f, 0x5d, 0x95, 0xac, 0x8f, 0xcb, 0x00, 0x81, 0x0f, 0x12,
  0xba, 0x67, 0x89, 0x0f, 0xb2, 0x97, 0xbf, 0x93, 0x59, 0xc4,
  0xba, 0x00, 0x7b, 0x09, 0x4c, 0xc3, 0xdd, 0xd8, 0xd8, 0x5e,
  0x00, 0xd3, 0x11, 0x06, 0x2d, 0xff, 0x81, 0x8f, 0x49, 0x3b,
  0xe0, 0x93, 0x41, 0xec, 0x01, 0x5d, 0x7f, 0x00, 0xff, 0x0c,
  0x6e, 0xde, 0xf0, 0x89, 0x50, 0x92, 0x6b, 0xca, 0xd9, 0x00,
  0x8f, 0x0a, 0x10, 0xe3, 0xc0, 0x20, 0x69, 0xbe, 0x5b, 0xf9,
  0x5f, 0xb5, 0x81, 0x0f, 0x89, 0xc9, 0x96, 0xc8, 0x8b, 0x6e,
  0x6c, 0x41, 0xa0, 0xe7, 0x83, 0xc0, 0x6b, 0x9c, 0xdb, 0x43,
  0xbd, 0x34, 0x2a, 0x40, 0xf9, 0x6b, 0xf2, 0xc9, 0xa5, 0xdd,
  0xce, 0x58, 0xbf, 0xa7, 0xf9, 0xcb, 0xce, 0xf7, 0x6d, 0xc9,
  0xe5, 0xf6, 0x90, 0x87, 0x1c, 0x5b, 0xe0, 0xd0, 0xea, 0x55,
  0x2e, 0xa0, 0x19, 0x7e, 0x2b, 0x07, 0xf6, 0xda, 0x16, 0xbe,
  0xfb, 0x9f, 0x5b, 0xc2, 0x89, 0x76, 0xb1, 0x19, 0xcb, 0x28,
  0xe0, 0x9b, 0xb2, 0x86, 0x15, 0x1d, 0x1b, 0xac, 0x15, 0xf2,
  0x75, 0x18, 0xb3, 0xe7, 0xe2, 0x2f, 0xfd, 0xfd, 0x1e, 0x83,
  0x1a, 0xb5, 0x2c, 0x45, 0xe9, 0x4a, 0x44, 0x0a, 0x72, 0xff,
  0x40, 0x34, 0xbb, 0xf8, 0xe0, 0x16, 0xed, 0x32, 0x9c, 0xfc,
  0x0a, 0xf9, 0xbc, 0x93, 0xa4, 0x46, 0x73, 0x16, 0xd9, 0x3f,
  0x32, 0xa7, 0xa7, 0xcc, 0xe8, 0xac, 0xe0, 0xba, 0xa6, 0xff,
  0x30, 0xe9, 0x10, 0x19, 0xe8, 0x7c, 0x5c, 0x20, 0x43, 0x9c,
  0xbc, 0xe7, 0x24, 0xdf, 0x51, 0x73, 0x0e, 0x60, 0x5d, 0x3d,
  0x6a, 0x8a, 0x64, 0x73, 0xcf, 0x57, 0x24, 0xa2, 0x10, 0x64,
  0xba, 0xcd, 0xef, 0x00, 0x40, 0x23, 0xd5, 0xdd, 0x42, 0x31,
  0x38, 0x13, 0xb9, 0x9c, 0xd5, 0xa8, 0x43, 0x34, 0xfd, 0x91,
  0x88, 0x3e, 0xaa, 0x42, 0x45, 0x63, 0xfa, 0x10, 0xd9, 0xc5,
  0xa7, 0x7f, 0xde, 0x12, 0x64, 0xa9, 0x2e, 0x88, 0x0a, 0xa9,
  0x30, 0xda, 0x63, 0xcc, 0xb5, 0x2c, 0xe0, 0x22, 0x2e, 0x6c,
  0x5d, 0x14, 0xc9, 0x4b, 0xbd, 0x3b, 0xef, 0xdd, 0x9c, 0x97,
  0xf5, 0x4d, 0xd3, 0x99, 0x01, 0x5e, 0xb0, 0xed, 0xe7, 0xa9,
  0xc8, 0x21, 0x06, 0x91, 0x34, 0x74, 0x75, 0x5f, 0x85, 0x0a,
  0x74, 0x1d, 0x74, 0x42, 0xd0, 0x5a, 0xac, 0x45, 0x11, 0x06,
  0xf9, 0x41, 0xa1, 0x61, 0xe1, 0x0f, 0xd4, 0xd2, 0x98, 0x41,
  0xb7, 0x81, 0x9d, 0x24, 0xf8, 0x40, 0xa0, 0x87, 0x7b, 0x63,
  0x8f, 0xaa, 0xcc, 0x96, 0x9e, 0xb4, 0xac, 0x72, 0xb8, 0xf2,
  0x8a, 0xde, 0x55, 0xa6, 0xf2, 0x47, 0x84, 0xe2, 0x99, 0xf4,
  0xd4, 0xee, 0xe4, 0x22, 0x7b, 0xca, 0x51, 0xde, 0xa4, 0x1c,
  0xae, 0x3a, 0x8d, 0x1f, 0x7c, 0x1b, 0xec, 0xfb, 0x6f, 0x9a,
  0x8b, 0xf2, 0x39, 0xa4, 0x6d, 0xc9, 0x9d, 0x7b, 0xa9, 0x2e,
  0xef, 0xc2, 0xe3, 0x5f, 0xb5, 0x55, 0x1d, 0xad, 0x1a, 0x83,
  0xc8, 0xb1, 0x03, 0x1e, 0x67, 0x98, 0xa5, 0xb1, 0x39, 0x29,
  0xaa, 0x09, 0x39, 0x6b, 0x05, 0x12, 0x0b, 0x85, 0x6d, 0x26,
  0xad, 0xa4, 0xc4, 0x21, 0x54, 0xfd, 0x37, 0x6f, 0xb8, 0xe4,
  0x76, 0x3b, 0xc2, 0x46, 0xf0, 0x82, 0xb9, 0xce, 0x9f, 0x5b,
  0xbe, 0x18, 0x0e, 0x83, 0x81, 0x4b, 0xfe, 0xc2, 0x0b, 0xb8,
  0x1e, 0xae, 0xf5, 0x36, 0x0d, 0x8d, 0xef, 0xbd, 0x2e, 0xe5,
  0xdf, 0xd7, 0x12, 0xde, 0x6b, 0x92, 0xfb, 0xb6, 0xea, 0xba,
  0x14, 0x49, 0x7a, 0xb5, 0x08, 0xff, 0xaf, 0x8e, 0x14, 0xc7,
  0x0e, 0x7a, 0x41, 0xd3, 0x05, 0x9f, 0x29, 0xe4, 0xdb, 0x5e,
  0x87, 0x03, 0xe4, 0xe5, 0x47, 0x75, 0x9e, 0x59, 0x7b, 0x82,
  0x9c, 0x70, 0xae, 0x44, 0xaa, 0xa4, 0x6d, 0x22, 0x31, 0x6e,
  0x64, 0x0b, 0xe2, 0xd0, 0x5e, 0xdc, 0xf3, 0x2d, 0x97, 0xf6,
  0xf4, 0xa2, 0x3b, 0x68, 0x1e, 0xa4, 0x9b, 0x36, 0x0b, 0x64,
  0x92, 0x8d, 0x5d, 0xa6, 0x63, 0x03, 0x98, 0x71, 0x75, 0x29,
  0xac, 0xfc, 0x4d, 0xe5, 0x6a, 0xe5, 0xc8, 0x7c, 0xc7, 0xa3,
  0xda, 0x68, 0x4e, 0x17, 0xf0, 0x0f, 0x13, 0x08, 0xe1, 0xa7,
  0x0c, 0xfc, 0xad, 0x08, 0xc2, 0x68, 0xbe, 0xfd, 0x66, 0x79,
  0x14, 0x77, 0x66, 0xf4, 0x1c, 0x8c, 0x54, 0x24, 0x78, 0x0f,
  0x91, 0x93, 0x55, 0x64, 0x58, 0x96, 0xe0, 0x55, 0xe4, 0xfb,
  0x45, 0x9b, 0x0b, 0xfc, 0x15, 0x35, 0x96, 0x59, 0xc9, 0xde,
  0x91, 0xa4, 0x04, 0xb8, 0x12, 0x47, 0x13, 0xea, 0xbf, 0x5a,
  0x2f, 0xbe, 0x24, 0xe6, 0x62, 0x71, 0xf1, 0xb1, 0xf3, 0x8d]

/-- The source's `gdrom_input_packet_71`. -/
def gdrom_input_packet_71 (w : World) : World :=
  let w := bufq_clear w
  let node : gdrom_bufq_node := { idx := 0, len := PKT_71_RESP_LEN, dat := pkt71_resp }
  let w := { w with data_byte_count := PKT_71_RESP_LEN }
  let w := { w with bufq := w.bufq ++ [node] }
  let w := { w with int_reason_reg := w.int_reason_reg ||| INT_REASON_IO_MASK }
  let w := { w with int_reason_reg := mask_clear w.int_reason_reg INT_REASON_COD_MASK }
  let w := { w with stat_reg := w.stat_reg ||| STAT_DRQ_MASK }
  let w := raise_int_unless_nien w
  let w := { w with state := gdrom_state.GDROM_STATE_NORM }
  let w := { w with stat_reg := mask_clear w.stat_reg STAT_CHECK_MASK }
  { w with error_reg := error_reg_zero }

/-- The source's `gdrom_input_set_mode_packet`. -/
def gdrom_input_set_mode_packet (w : World) : Exec :=
  let w := { w with set_mode_bytes_remaining := int_of_unsigned w.data_byte_count }
  if w.feat_reg &&& 1 ≠ 0 then
    { raised := some error_type.ERROR_UNIMPLEMENTED,
      w := error_set_feature w "GD-ROM SET_MODE command DMA support" }
  else
    let w := { w with int_reason_reg := w.int_reason_reg ||| INT_REASON_IO_MASK }
    let w := { w with int_reason_reg := mask_clear w.int_reason_reg INT_REASON_COD_MASK }
    { raised := none, w := { w with stat_reg := w.stat_reg ||| STAT_DRQ_MASK } }

/-- The 32-byte block `info` of `gdrom_input_req_mode_packet`
(bytes 10..31 spell "SE      Rev 6.42990316"). -/
def req_mode_info : List Nat := [
  0x00, 0x00, 0x00, 0x00, 0x00, 0xb4, 0x19, 0x00,
  0x00, 0x08, 0x53, 0x45, 0x20, 0x20, 0x20, 0x20,
  0x20, 0x20, 0x52, 0x65, 0x76, 0x20, 0x36, 0x2e,
  0x34, 0x32, 0x39, 0x39, 0x30, 0x33, 0x31, 0x36
]

/-- The source's `gdrom_input_req_mode_packet`. -/
def gdrom_input_req_mode_packet (w : World) : World :=
  let starting_addr := pkt_byte w 2
  let len := pkt_byte w 4
  let w := bufq_clear w
  let w : World :=
    if len ≠ 0 then
      let first_idx := starting_addr
      let last_idx := starting_addr + (len - 1)
      let first_idx := if first_idx > 31 then 31 else first_idx
      let last_idx := if last_idx > 31 then 31 else last_idx
      let node_len := last_idx - first_idx + 1
      let node : gdrom_bufq_node :=
        { idx := 0, len := node_len, dat := (req_mode_info.drop first_idx).take node_len }
      let w := bufq_clear w
      let w := { w with bufq := w.bufq ++ [node] }
      { w with data_byte_count := node.len }
    else w
  let w := { w with int_reason_reg := w.int_reason_reg ||| INT_REASON_IO_MASK }
  let w := { w with int_reason_reg := mask_clear w.int_reason_reg INT_REASON_COD_MASK }
  let w := { w with stat_reg := w.stat_reg ||| STAT_DRQ_MASK }
  let w := raise_int_unless_nien w
  let w := { w with state := gdrom_state.GDROM_STATE_NORM }
  let w := { w with stat_reg := mask_clear w.stat_reg STAT_CHECK_MASK }
  { w with error_reg := error_reg_zero }

/-- The source's `gdrom_input_read_toc_packet`. -/
def gdrom_input_read_toc_packet (env : Env) (w : World) : World :=
  let session := pkt_byte w 1 &&& 1
  let len := ((pkt_byte w 3) <<< 8) ||| pkt_byte w 4
  let toc := env.mount_read_toc session
  let w := bufq_clear w
  let ptr := env.mount_encode_toc toc
  let len := if len > env.CDROM_TOC_SIZE then env.CDROM_TOC_SIZE else len
  let node : gdrom_bufq_node :=
    { idx := 0, len := len, dat := (List.range len).map (fun i => ptr.getD i 0) }
  let w := { w with data_byte_count := len }
  let w := { w with bufq := w.bufq ++ [node] }
  let w := { w with int_reason_reg := w.int_reason_reg ||| INT_REASON_IO_MASK }
  let w := { w with int_reason_reg := mask_clear w.int_reason_reg INT_REASON_COD_MASK }
  let w := { w with stat_reg := w.stat_reg ||| STAT_DRQ_MASK }
  let w := raise_int_unless_nien w
  let w := { w with state := gdrom_state.GDROM_STATE_NORM }
  let w := { w with stat_reg := mask_clear w.stat_reg STAT_CHECK_MASK }
  { w with error_reg := error_reg_zero }

/-- The loop `while (trans_len--)` of `gdrom_input_read_packet`.  The boolean
is false when a sector read failed and the function returned from inside the
loop.  `start_addr` is the same in every iteration, as in the source. -/
def gdrom_input_read_packet_loop (env : Env) (start_addr : Nat) : Nat → World → World × Bool
  | 0, w => (w, true)
  | trans_len + 1, w =>
    let answer := env.mount_read_sectors w.mount_reads.length start_addr 1
    let w := { w with mount_reads := w.mount_reads ++ [(start_addr, 1)] }
    match answer with
    | none =>
      let w := { w with error_reg := { w.error_reg with sense_key := SENSE_KEY_ILLEGAL_REQ } }
      let w := { w with stat_reg := w.stat_reg ||| STAT_CHECK_MASK }
      ({ w with state := gdrom_state.GDROM_STATE_NORM }, false)
    | some dat =>
      let node : gdrom_bufq_node := { idx := 0, len := env.CDROM_FRAME_DATA_SIZE, dat := dat }
      gdrom_input_read_packet_loop env start_addr trans_len { w with bufq := w.bufq ++ [node] }

/-- The statements of `gdrom_input_read_packet` that follow its loop.  `r` is
the outcome of the loop: nothing more is done when `r.2` is false, the
function having returned from inside the loop. -/
def gdrom_input_read_packet_tail (r : World × Bool) : Exec :=
  if r.2 = false then { raised := none, w := r.1 }
  else
    let w := r.1
    if w.feat_reg &&& FEAT_REG_DMA_MASK ≠ 0 then { raised := none, w := w }
    else
      let w := { w with int_reason_reg := w.int_reason_reg ||| INT_REASON_IO_MASK }
      let w := { w with int_reason_reg := mask_clear w.int_reason_reg INT_REASON_COD_MASK }
      let w := { w with stat_reg := w.stat_reg ||| STAT_DRQ_MASK }
      let w := raise_int_unless_nien w
      let w := { w with state := gdrom_state.GDROM_STATE_NORM }
      let w := { w with stat_reg := mask_clear w.stat_reg STAT_CHECK_MASK }
      { raised := none, w := { w with error_reg := error_reg_zero } }

/-- The source's `gdrom_input_read_packet`. -/
def gdrom_input_read_packet (env : Env) (w : World) : Exec :=
  let start_addr := ((pkt_byte w 2) <<< 16) ||| ((pkt_byte w 3) <<< 8) ||| pkt_byte w 4
  let trans_len := ((pkt_byte w 8) <<< 16) ||| ((pkt_byte w 9) <<< 8) ||| pkt_byte w 10
  let data_sel := pkt_byte w 1 >>> 4
  let param_tp := pkt_byte w 1 &&& 1
  if data_sel ≠ 0x2 then
    { raised := some error_type.ERROR_UNIMPLEMENTED,
      w := error_set_feature w "CD-ROM header/subheader access" }
  else if param_tp ≠ 0 then
    { raised := some error_type.ERROR_UNIMPLEMENTED,
      w := error_set_feature w "MSF format CD-ROM access" }
  else
    let w := bufq_clear w
    let w := { w with data_byte_count := (env.CDROM_FRAME_DATA_SIZE * trans_len) % 2 ^ 32 }
    gdrom_input_read_packet_tail (gdrom_input_read_packet_loop env start_addr trans_len w)

/-- The source's `gdrom_input_packet`, called once 12 bytes have been
written to the data register. -/
def gdrom_input_packet (env : Env) (w : World) : Exec :=
  let w := { w with stat_reg := mask_clear w.stat_reg (STAT_DRQ_MASK ||| STAT_BSY_MASK) }
  let w := raise_int_unless_nien w
  let op := pkt_byte w 0
  if op = GDROM_PKT_TEST_UNIT then { raised := none, w := gdrom_input_test_unit_packet env w }
  else if op = GDROM_PKT_REQ_STAT then
    { raised := none, w := { w with state := gdrom_state.GDROM_STATE_NORM } }
  else if op = GDROM_PKT_REQ_MODE then { raised := none, w := gdrom_input_req_mode_packet w }
  else if op = GDROM_PKT_SET_MODE then gdrom_input_set_mode_packet w
  else if op = GDROM_PKT_REQ_ERROR then { raised := none, w := gdrom_input_req_error_packet w }
  else if op = GDROM_PKT_START_DISK then { raised := none, w := gdrom_input_start_disk_packet w }
  else if op = GDROM_PKT_READ_TOC then { raised := none, w := gdrom_input_read_toc_packet env w }
  else if op = GDROM_PKT_READ then gdrom_input_read_packet env w
  else if op = GDROM_PKT_UNKNOWN_71 then { raised := none, w := gdrom_input_packet_71 w }
  else
    let w := error_set_feature w "unknown GD-ROM packet command"
    let w := error_set_gdrom_command w op
    { raised := some error_type.ERROR_UNIMPLEMENTED, w := w }

/-! ## Command and data registers -/

/-- A write handler's outcome after a call of a `void` function: the call
either reached `RAISE_ERROR`, or the handler goes on to `return ret`. -/
def Exec.returning (e : Exec) (ret : Ret) : Result :=
  match e.raised with
  | some err => { ret := Ret.RAISED err, buf := [], w := e.w }
  | none => { ret := ret, buf := [], w := e.w }

/-- The source's `gdrom_cmd_reg_write_handler`. -/
def gdrom_cmd_reg_write_handler (_env : Env) (w : World) (buf : List Nat)
    (_addr len : Nat) : Result :=
  let n_bytes := if len < 4 then len else 4
  let cmd := memcpy_u32 0 buf n_bytes
  if cmd = GDROM_CMD_PKT then
    { ret := Ret.MEM_ACCESS_SUCCESS, buf := [], w := gdrom_cmd_begin_packet w }
  else if cmd = GDROM_CMD_IDENTIFY then
    { ret := Ret.MEM_ACCESS_SUCCESS, buf := [], w := gdrom_cmd_identify w }
  else if cmd = GDROM_CMD_SET_FEAT then
    let w := gdrom_cmd_set_features w
    let w := { w with int_reason_reg := w.int_reason_reg ||| INT_REASON_COD_MASK }
    let w := raise_int_unless_nien w
    { ret := Ret.MEM_ACCESS_SUCCESS, buf := [], w := w }
  else
    let w := error_set_feature w "unknown GD-ROM command"
    let w := error_set_gdrom_command w cmd
    { ret := Ret.RAISED error_type.ERROR_UNIMPLEMENTED, buf := [], w := w }

/-- The loop `while (len--)` of `gdrom_data_reg_read_handler`: the bytes
stored through `ptr`, and the queue afterwards. -/
def gdrom_data_reg_read_loop : Nat → List gdrom_bufq_node → List Nat × List gdrom_bufq_node
  | 0, q => ([], q)
  | len + 1, q =>
    let r := bufq_consume_byte q
    let b := match r.1 with
      | some dat => dat % 256
      | none => 0
    let rest := gdrom_data_reg_read_loop len r.2
    (b :: rest.1, rest.2)

/-- The source's `gdrom_data_reg_read_handler`. -/
def gdrom_data_reg_read_handler (_env : Env) (w : World) (_addr len : Nat) : Result :=
  let r := gdrom_data_reg_read_loop len w.bufq
  let w := { w with bufq := r.2 }
  let w : World :=
    if w.bufq.isEmpty then
      let w := { w with stat_reg := mask_clear w.stat_reg (STAT_DRQ_MASK ||| STAT_BSY_MASK) }
      let w := { w with stat_reg := w.stat_reg ||| STAT_DRDY_MASK }
      raise_int_unless_nien w
    else w
  { ret := Ret.MEM_ACCESS_SUCCESS, buf := r.1, w := w }

/-- The source's `gdrom_data_reg_write_handler`. -/
def gdrom_data_reg_write_handler (env : Env) (w : World) (buf : List Nat)
    (_addr len : Nat) : Result :=
  let n_bytes := if len < 4 then len else 4
  let dat := memcpy_u32 0 buf n_bytes
  if w.state = gdrom_state.GDROM_STATE_INPUT_PKT then
    let n := w.n_bytes_received
    let w := { w with pkt_buf := Function.update w.pkt_buf n (dat &&& 0xff) }
    let w := { w with pkt_buf := Function.update w.pkt_buf (n + 1) ((dat >>> 8) &&& 0xff) }
    let w := { w with n_bytes_received := (n + 2) % 2 ^ 32 }
    if w.n_bytes_received ≥ 12 then
      let w := { w with n_bytes_received := 0 }
      (gdrom_input_packet env w).returning Ret.MEM_ACCESS_SUCCESS
    else { ret := Ret.MEM_ACCESS_SUCCESS, buf := [], w := w }
  else if w.state = gdrom_state.GDROM_STATE_SET_MODE then
    let remaining := int_of_unsigned
      ((unsigned_of_int w.set_mode_bytes_remaining + 2 ^ 32 - len % 2 ^ 32) % 2 ^ 32)
    let w := { w with set_mode_bytes_remaining := remaining }
    let w : World :=
      if w.set_mode_bytes_remaining ≤ 0 then
        let w := { w with stat_reg := mask_clear w.stat_reg STAT_DRQ_MASK }
        let w := { w with state := gdrom_state.GDROM_STATE_NORM }
        raise_int_unless_nien w
      else w
    { ret := Ret.MEM_ACCESS_SUCCESS, buf := [], w := w }
  else { ret := Ret.MEM_ACCESS_SUCCESS, buf := [], w := w }

/-! ## Register table and dispatch -/

/-- An entry of the register table, `struct gdrom_mem_mapped_reg`.  The
handlers of the source also receive a pointer to their entry, which they use
only for the register name in trace lines. -/
structure gdrom_mem_mapped_reg where
  reg_name : String
  addr : Nat
  len : Nat
  on_read : Env → World → Nat → Nat → Result
  on_write : Env → World → List Nat → Nat → Nat → Result

/-- The register table of the source; its terminating `{ NULL }` entry is the
end of the list. -/
def gdrom_reg_info : List gdrom_mem_mapped_reg := [
  { reg_name := "Drive Select", addr := 0x5f7098, len := 4,
    on_read := warn_gdrom_reg_read_handler, on_write := warn_gdrom_reg_write_handler },
  { reg_name := "Alt status/device control", addr := 0x5f7018, len := 4,
    on_read := gdrom_alt_status_read_handler, on_write := gdrom_dev_ctrl_reg_write_handler },
  { reg_name := "status/command", addr := 0x5f709c, len := 4,
    on_read := gdrom_status_read_handler, on_write := gdrom_cmd_reg_write_handler },
  { reg_name := "GD-ROM Data", addr := 0x5f7080, len := 4,
    on_read := gdrom_data_reg_read_handler, on_write := gdrom_data_reg_write_handler },
  { reg_name := "Error/features", addr := 0x5f7084, len := 4,
    on_read := gdrom_error_reg_read_handler, on_write := gdrom_features_reg_write_handler },
  { reg_name := "Interrupt reason/sector count", addr := 0x5f7088, len := 4,
    on_read := gdrom_int_reason_reg_read_handler, on_write := warn_gdrom_reg_write_handler },
  { reg_name := "Sector number", addr := 0x5f708c, len := 4,
    on_read := gdrom_sector_num_reg_read_handler, on_write := warn_gdrom_reg_write_handler },
  { reg_name := "Byte Count (low)", addr := 0x5f7090, len := 4,
    on_read := gdrom_byte_count_low_reg_read_handler,
    on_write := gdrom_byte_count_low_reg_write_handler },
  { reg_name := "Byte Count (high)", addr := 0x5f7094, len := 4,
    on_read := gdrom_byte_count_high_reg_read_handler,
    on_write := gdrom_byte_count_high_reg_write_handler }
]

/-- The loop of `gdrom_reg_read` from the table position `curs` onwards, with
the statements that follow the loop. -/
def gdrom_reg_read_from (curs : List gdrom_mem_mapped_reg) (env : Env) (w : World)
    (addr len : Nat) : Result :=
  match curs with
  | [] =>
    let w := error_set_feature w "reading from one of the gdrom registers"
    let w := error_set_address w addr
    { ret := Ret.RAISED error_type.ERROR_UNIMPLEMENTED, buf := [], w := w }
  | c :: rest =>
    if c.addr = addr then
      if c.len ≥ len then c.on_read env w addr len
      else
        let w := error_set_feature w
          "Whatever happens when you use an inappropriate length while reading from a gdrom register"
        let w := error_set_address w addr
        let w := error_set_length w len
        let w := error_set_pending w error_type.ERROR_UNIMPLEMENTED
        { ret := Ret.MEM_ACCESS_FAILURE, buf := [], w := w }
    else gdrom_reg_read_from rest env w addr len

/-- The source's `gdrom_reg_read`. -/
def gdrom_reg_read (env : Env) (w : World) (addr len : Nat) : Result :=
  gdrom_reg_read_from gdrom_reg_info env w addr len

/-- The loop of `gdrom_reg_write` from the table position `curs` onwards,
with the statements that follow the loop. -/
def gdrom_reg_write_from (curs : List gdrom_mem_mapped_reg) (env : Env) (w : World)
    (buf : List Nat) (addr len : Nat) : Result :=
  match curs with
  | [] =>
    let w := error_set_feature w "writing to one of the gdrom registers"
    let w := error_set_address w addr
    { ret := Ret.RAISED error_type.ERROR_UNIMPLEMENTED, buf := [], w := w }
  | c :: rest =>
    if c.addr = addr then
      if c.len ≥ len then c.on_write env w buf addr len
      else
        let w := error_set_feature w
          "Whatever happens when you use an inappropriate length while writing to a gdrom register"
        let w := error_set_address w addr
        let w := error_set_length w len
        let w := error_set_pending w error_type.ERROR_UNIMPLEMENTED
        { ret := Ret.MEM_ACCESS_FAILURE, buf := [], w := w }
    else gdrom_reg_write_from rest env w buf addr len

/-- The source's `gdrom_reg_write`. -/
def gdrom_reg_write (env : Env) (w : World) (buf : List Nat) (addr len : Nat) : Result :=
  gdrom_reg_write_from gdrom_reg_info env w buf addr len


/-! ## GD-ROM DMA registers

The handlers of GDAPRO, G1GDRC, GDSTAR, GDLEN, GDDIR, GDEN, GDST and GDLEND are
called by the G1 bus code, which passes `len = 4`.  They return 0, which is
`MEM_ACCESS_SUCCESS`. -/

/-- The C expression `a - b` on two `unsigned` operands. -/
def u32_sub (a b : Nat) : Nat := (a % 2 ^ 32 + 2 ^ 32 - b % 2 ^ 32) % 2 ^ 32

/-- The C expression `a + b` on two `unsigned` operands. -/
def u32_add (a b : Nat) : Nat := (a + b) % 2 ^ 32

/-- The statements of the loop body of `gdrom_complete_dma` from the test
of the bottom bound to the label `chunk_finished` inclusive: the new `addr`
and the call `sh4_dmac_transfer_to_mem(addr, chunk_sz, 1, bufq_node->dat)`. -/
def gdrom_complete_dma_transfer (bot addr chunk_sz : Nat) (dat : List Nat) :
    Nat × Option dma_xfer :=
  let chunk_sz :=
    if u32_sub (u32_add addr chunk_sz) 1 > bot then u32_add (u32_sub bot addr) 1 else chunk_sz
  (u32_add addr chunk_sz, some { addr := addr, sz := chunk_sz, dat := dat })

/-- The statements of the loop body of `gdrom_complete_dma` from the
enforcement of GDAPRO to the label `chunk_finished` inclusive, for a chunk of
`chunk_sz` bytes of a node whose array is `dat`: the new `addr`, and the
transfer made, if any. -/
def gdrom_complete_dma_chunk (top bot addr chunk_sz : Nat) (dat : List Nat) :
    Nat × Option dma_xfer :=
  if addr < top then
    if u32_add chunk_sz addr < top then (u32_add addr chunk_sz, none)
    else gdrom_complete_dma_transfer bot top (u32_sub chunk_sz (u32_sub top addr)) dat
  else gdrom_complete_dma_transfer bot addr chunk_sz dat

/-- The loop of `gdrom_complete_dma` on the queue, with the local variables
`bytes_transmitted` and `addr` and the log of the transfers made: the queue
left, the final `bytes_transmitted` and the log.  On an empty queue both the
exit of the loop and the `goto done` of a failed `fifo_pop` lead here. -/
def gdrom_complete_dma_loop (top bot bytes_to_transmit : Nat) :
    List gdrom_bufq_node → Nat → Nat → List dma_xfer →
      List gdrom_bufq_node × Nat × List dma_xfer
  | [], bytes_transmitted, _, xfers => ([], bytes_transmitted, xfers)
  | node :: rest, bytes_transmitted, addr, xfers =>
    if bytes_transmitted < bytes_to_transmit then
      let chunk_sz :=
        if u32_add node.len bytes_transmitted > bytes_to_transmit then
          u32_sub bytes_to_transmit bytes_transmitted
        else node.len
      let r := gdrom_complete_dma_chunk top bot addr chunk_sz node.dat
      gdrom_complete_dma_loop top bot bytes_to_transmit rest
        (u32_add bytes_transmitted chunk_sz) r.1 (xfers ++ r.2.toList)
    else (node :: rest, bytes_transmitted, xfers)

/-- The source's `gdrom_complete_dma`. -/
def gdrom_complete_dma (w : World) : World :=
  let r := gdrom_complete_dma_loop (gdrom_dma_prot_top w) (gdrom_dma_prot_bot w)
    w.dma_len_reg w.bufq 0 w.dma_start_addr_reg w.dma_xfers
  { w with bufq := r.1, dma_xfers := r.2.2, gdlend_reg := r.2.1, dma_start_reg := 0 }

/-- The source's `gdrom_gdapro_reg_read_handler`. -/
def gdrom_gdapro_reg_read_handler (_env : Env) (w : World) (_addr len : Nat) : Result :=
  { ret := Ret.MEM_ACCESS_SUCCESS, buf := le_bytes w.gdapro_reg len, w := w }

/-- The source's `gdrom_gdapro_reg_write_handler`. -/
def gdrom_gdapro_reg_write_handler (_env : Env) (w : World) (buf : List Nat)
    (_addr _len : Nat) : Result :=
  let val := memcpy_u32 0 buf 4
  if val &&& 0xffff0000 ≠ 0x88430000 then
    { ret := Ret.MEM_ACCESS_SUCCESS, buf := [], w := w }
  else { ret := Ret.MEM_ACCESS_SUCCESS, buf := [], w := { w with gdapro_reg := val } }

/-- The source's `gdrom_g1gdrc_reg_read_handler`. -/
def gdrom_g1gdrc_reg_read_handler (_env : Env) (w : World) (_addr len : Nat) : Result :=
  { ret := Ret.MEM_ACCESS_SUCCESS, buf := le_bytes w.g1gdrc_reg len, w := w }

/-- The source's `gdrom_g1gdrc_reg_write_handler`. -/
def gdrom_g1gdrc_reg_write_handler (_env : Env) (w : World) (buf : List Nat)
    (_addr _len : Nat) : Result :=
  { ret := Ret.MEM_ACCESS_SUCCESS, buf := [],
    w := { w with g1gdrc_reg := memcpy_u32 w.g1gdrc_reg buf 4 } }

/-- The source's `gdrom_gdstar_reg_read_handler`. -/
def gdrom_gdstar_reg_read_handler (_env : Env) (w : World) (_addr len : Nat) : Result :=
  { ret := Ret.MEM_ACCESS_SUCCESS, buf := le_bytes w.dma_start_addr_reg len, w := w }

/-- The source's `gdrom_gdstar_reg_write_handler`. -/
def gdrom_gdstar_reg_write_handler (_env : Env) (w : World) (buf : List Nat)
    (_addr _len : Nat) : Result :=
  let w := { w with dma_start_addr_reg := memcpy_u32 w.dma_start_addr_reg buf 4 }
  { ret := Ret.MEM_ACCESS_SUCCESS, buf := [],
    w := { w with dma_start_addr_reg := mask_clear w.dma_start_addr_reg 0xe0000000 } }

/-- The source's `gdrom_gdlen_reg_read_handler`. -/
def gdrom_gdlen_reg_read_handler (_env : Env) (w : World) (_addr len : Nat) : Result :=
  { ret := Ret.MEM_ACCESS_SUCCESS, buf := le_bytes w.dma_len_reg len, w := w }

/-- The source's `gdrom_gdlen_reg_write_handler`. -/
def gdrom_gdlen_reg_write_handler (_env : Env) (w : World) (buf : List Nat)
    (_addr _len : Nat) : Result :=
  { ret := Ret.MEM_ACCESS_SUCCESS, buf := [],
    w := { w with dma_len_reg := memcpy_u32 w.dma_len_reg buf 4 } }

/-- The source's `gdrom_gddir_reg_read_handler`. -/
def gdrom_gddir_reg_read_handler (_env : Env) (w : World) (_addr len : Nat) : Result :=
  { ret := Ret.MEM_ACCESS_SUCCESS, buf := le_bytes w.dma_dir_reg len, w := w }

/-- The source's `gdrom_gddir_reg_write_handler`. -/
def gdrom_gddir_reg_write_handler (_env : Env) (w : World) (buf : List Nat)
    (_addr _len : Nat) : Result :=
  { ret := Ret.MEM_ACCESS_SUCCESS, buf := [],
    w := { w with dma_dir_reg := memcpy_u32 w.dma_dir_reg buf 4 } }

/-- The source's `gdrom_gden_reg_read_handler`. -/
def gdrom_gden_reg_read_handler (_env : Env) (w : World) (_addr len : Nat) : Result :=
  { ret := Ret.MEM_ACCESS_SUCCESS, buf := le_bytes w.dma_en_reg len, w := w }

/-- The source's `gdrom_gden_reg_write_handler`. -/
def gdrom_gden_reg_write_handler (_env : Env) (w : World) (buf : List Nat)
    (_addr _len : Nat) : Result :=
  { ret := Ret.MEM_ACCESS_SUCCESS, buf := [],
    w := { w with dma_en_reg := memcpy_u32 w.dma_en_reg buf 4 } }

/-- The source's `gdrom_gdst_reg_read_handler`. -/
def gdrom_gdst_reg_read_handler (_env : Env) (w : World) (_addr len : Nat) : Result :=
  { ret := Ret.MEM_ACCESS_SUCCESS, buf := le_bytes w.dma_start_reg len, w := w }

/-- The source's `gdrom_gdst_reg_write_handler`. -/
def gdrom_gdst_reg_write_handler (_env : Env) (w : World) (buf : List Nat)
    (_addr _len : Nat) : Result :=
  let w := { w with dma_start_reg := memcpy_u32 w.dma_start_reg buf 4 }
  let w : World :=
    if w.dma_start_reg ≠ 0 then
      let w := { w with
        int_reason_reg := w.int_reason_reg ||| (INT_REASON_IO_MASK ||| INT_REASON_COD_MASK) }
      let w := { w with stat_reg := w.stat_reg ||| STAT_DRDY_MASK }
      let w := { w with stat_reg := mask_clear w.stat_reg STAT_DRQ_MASK }
      gdrom_complete_dma w
    else w
  let w := raise_int_unless_nien w
  let w := { w with state := gdrom_state.GDROM_STATE_NORM }
  let w := { w with stat_reg := mask_clear w.stat_reg STAT_CHECK_MASK }
  { ret := Ret.MEM_ACCESS_SUCCESS, buf := [], w := { w with error_reg := error_reg_zero } }

/-- The source's `gdrom_gdlend_reg_read_handler`. -/
def gdrom_gdlend_reg_read_handler (_env : Env) (w : World) (_addr len : Nat) : Result :=
  { ret := Ret.MEM_ACCESS_SUCCESS, buf := le_bytes w.gdlend_reg len, w := w }
/-! ## Vocabulary of the properties -/

/-- The C test `(bool)(r & mask)`. -/
def flag (r mask : Nat) : Bool := r &&& mask != 0

/-- The value a write handler takes from its buffer:
`uint32_t x = 0; memcpy(&x, buf, len < sizeof(x) ? len : sizeof(x));`. -/
def written_word (buf : List Nat) (len : Nat) : Nat :=
  memcpy_u32 0 buf (if len < 4 then len else 4)

/-- The bytes of a node that are still to be read: from its cursor up to its
valid length. -/
def node_remaining (n : gdrom_bufq_node) : List Nat :=
  (List.range' n.idx (n.len - n.idx)).map n.byte

/-- The remaining byte sequence of a queue, in FIFO order. -/
def bufq_remaining : List gdrom_bufq_node → List Nat
  | [] => []
  | n :: q => node_remaining n ++ bufq_remaining q

/-- The two packet bytes that a data-register write of the buffer `x.1` with
access length `x.2` contributes: the low byte of the written word, then its
second byte. -/
def word_bytes (x : List Nat × Nat) : List Nat :=
  [written_word x.1 x.2 &&& 0xff, (written_word x.1 x.2 >>> 8) &&& 0xff]

/-- The packet bytes contributed by a sequence of data-register writes. -/
def packet_bytes : List (List Nat × Nat) → List Nat
  | [] => []
  | x :: rest => word_bytes x ++ packet_bytes rest

/-- The array `p` with the bytes `bs` stored from index `n` onwards. -/
def pkt_buf_with (p : Nat → Nat) (n : Nat) (bs : List Nat) : Nat → Nat :=
  fun i => if n ≤ i then bs.getD (i - n) (p i) else p i

/-- The calls of `mount_read_sectors(dat, fad, 1)` numbered `first`,
`first + 1`, ..., `first + k - 1` all succeed. -/
def reads_succeed (env : Env) (first fad k : Nat) : Prop :=
  ∀ i, i < k → (env.mount_read_sectors (first + i) fad 1).isSome = true

/-- Successive writes to the data register (0x5f7080) through
`gdrom_reg_write`, continuing from the outcome `r` of the access before them.
Each write is a buffer and an access length.  Nothing more is executed once
`RAISE_ERROR` has been reached. -/
def data_reg_writes (env : Env) (r : Result) : List (List Nat × Nat) → Result
  | [] => r
  | x :: rest =>
    match r.ret with
    | Ret.RAISED _ => r
    | _ => data_reg_writes env (gdrom_reg_write env r.w x.1 0x5f7080 x.2) rest

/-- A PACKET command: the write of `cbuf` with access length `clen` to the
command register (0x5f709c), followed by the data-register writes `ws`. -/
def packet_command (env : Env) (w : World) (cbuf : List Nat) (clen : Nat)
    (ws : List (List Nat × Nat)) : Result :=
  data_reg_writes env (gdrom_reg_write env w cbuf 0x5f709c clen) ws

/-- The statements of `gdrom_input_packet` that precede its `switch`. -/
def input_packet_entry (w : World) : World :=
  raise_int_unless_nien
    { w with stat_reg := mask_clear w.stat_reg (STAT_DRQ_MASK ||| STAT_BSY_MASK) }

/-- The state in which the handler of a packet starts, after a PACKET command
written in state `w` and the six data-register writes `ws`: the packet buffer
holds the twelve bytes and the statements of `gdrom_input_packet` before its
`switch` have run. -/
def packet_entry_world (w : World) (ws : List (List Nat × Nat)) : World :=
  input_packet_entry
    { gdrom_cmd_begin_packet w with
      pkt_buf := pkt_buf_with w.pkt_buf 0 (packet_bytes ws),
      n_bytes_received := 0 }

/-- The nodes queued by `k` successful calls of `mount_read_sectors(dat, fad, 1)`
numbered from `first`: each has cursor 0, length CDROM_FRAME_DATA_SIZE and the
bytes the call stored. -/
def read_nodes (env : Env) (first fad : Nat) : Nat → List gdrom_bufq_node
  | 0 => []
  | k + 1 =>
    { idx := 0, len := env.CDROM_FRAME_DATA_SIZE,
      dat := (env.mount_read_sectors first fad 1).getD [] }
      :: read_nodes env (first + 1) fad k

/-- The first index of the mode block returned by a REQ_MODE packet:
min(start, 31) with start = packet byte 2. -/
def req_mode_first (pb : List Nat) : Nat := min (pb.getD 2 0) 31

/-- The last index of the mode block returned by a REQ_MODE packet:
min(start + len - 1, 31) with start = packet byte 2 and len = packet byte 4. -/
def req_mode_last (pb : List Nat) : Nat := min (pb.getD 2 0 + pb.getD 4 0 - 1) 31

/-- The response of a REQ_ERROR packet in state `w`, before it is cut to the
requested length. -/
def req_error_response (w : World) : List Nat :=
  [0xf0, 0, w.error_reg.sense_key &&& 0xf, 0, 0, 0, 0, 0, w.additional_sense % 256, 0]

/-- The start FAD of a READ packet: packet bytes 2..4, big-endian. -/
def read_start_addr (pb : List Nat) : Nat :=
  ((pb.getD 2 0) <<< 16) ||| ((pb.getD 3 0) <<< 8) ||| pb.getD 4 0

/-- The sector count of a READ packet: packet bytes 8..10, big-endian. -/
def read_trans_len (pb : List Nat) : Nat :=
  ((pb.getD 8 0) <<< 16) ||| ((pb.getD 9 0) <<< 8) ||| pb.getD 10 0

/-- The state after `k` successive one-byte reads of the data register
(0x5f7080) through `gdrom_reg_read`. -/
def data_reg_reads (env : Env) (w : World) : Nat → World
  | 0 => w
  | k + 1 => (gdrom_reg_read env (data_reg_reads env w k) 0x5f7080 1).w

/-- A sample environment with a disc mounted: every sector read succeeds and
yields 2048 bytes. -/
def Env.sample : Env :=
  { ADDR_GDROM_FIRST := 0x5f7000, CDROM_FRAME_DATA_SIZE := 2048, CDROM_TOC_SIZE := 408,
    mount_check := true,
    mount_read_sectors := fun _ fad n => some (List.replicate (2048 * n) (fad % 256)),
    mount_read_toc := fun session => [session],
    mount_encode_toc := fun toc => toc ++ List.replicate 407 0 }

/-- A sample environment with no disc mounted: every sector read fails. -/
def Env.no_disc : Env :=
  { ADDR_GDROM_FIRST := 0x5f7000, CDROM_FRAME_DATA_SIZE := 2048, CDROM_TOC_SIZE := 408,
    mount_check := false,
    mount_read_sectors := fun _ _ _ => none,
    mount_read_toc := fun _ => [],
    mount_encode_toc := fun _ => List.replicate 408 0 }

/-- A sample environment with a disc mounted in which the call of
`mount_read_sectors` numbered `n` (counting from 0) fails and every other call
succeeds. -/
def Env.read_failure_at (n : Nat) : Env :=
  { Env.sample with
    mount_read_sectors := fun call fad k =>
      if call = n then none else some (List.replicate (2048 * k) (fad % 256)) }

/-- The session field of a READ_TOC packet: bit 0 of packet byte 1. -/
def read_toc_session (pb : List Nat) : Nat := pb.getD 1 0 &&& 1

/-- The length of the response to a READ_TOC packet: the requested length,
big-endian in packet bytes 3 and 4, cut to CDROM_TOC_SIZE. -/
def read_toc_len (env : Env) (pb : List Nat) : Nat :=
  min (((pb.getD 3 0) <<< 8) ||| pb.getD 4 0) env.CDROM_TOC_SIZE

/-- The encoded table of contents of a session: what `mount_encode_toc`
returns for the table filled in by `mount_read_toc`. -/
def encoded_toc (env : Env) (session : Nat) : List Nat :=
  env.mount_encode_toc (env.mount_read_toc session)

/-- The number of calls `holly_raise_ext_int(HOLLY_EXT_INT_GDROM)` made so
far. -/
def raised_count (w : World) : Nat := w.holly.count holly_call.raise_ext_int

/-- The sum of the valid lengths of the nodes of a queue. -/
def bufq_total (q : List gdrom_bufq_node) : Nat := (q.map (fun n => n.len)).sum

/-- The final `bytes_transmitted` of the loop of `gdrom_complete_dma`, as a
function of the valid lengths of the queued nodes alone. -/
def dma_bytes_transmitted (bytes_to_transmit : Nat) : List Nat → Nat → Nat
  | [], bytes_transmitted => bytes_transmitted
  | len :: rest, bytes_transmitted =>
    if bytes_transmitted < bytes_to_transmit then
      dma_bytes_transmitted bytes_to_transmit rest
        (u32_add bytes_transmitted
          (if u32_add len bytes_transmitted > bytes_to_transmit then
             u32_sub bytes_to_transmit bytes_transmitted
           else len))
    else bytes_transmitted

/-- The byte that the transfer `x` stores at the guest address `a`: the
transfer copies `x.sz` bytes from the start of the source array to the
addresses from `x.addr` on. -/
def dma_xfer.byte_at (x : dma_xfer) (a : Nat) : Option Nat :=
  if x.addr ≤ a ∧ a < x.addr + x.sz then some (x.dat.getD (a - x.addr) 0) else none

/-- The read handlers of the GD-ROM DMA registers. -/
def gdrom_dma_read_handlers : List (Env → World → Nat → Nat → Result) :=
  [gdrom_gdapro_reg_read_handler, gdrom_g1gdrc_reg_read_handler,
   gdrom_gdstar_reg_read_handler, gdrom_gdlen_reg_read_handler,
   gdrom_gddir_reg_read_handler, gdrom_gden_reg_read_handler,
   gdrom_gdst_reg_read_handler, gdrom_gdlend_reg_read_handler]

/-- The write handlers of the GD-ROM DMA registers other than GDST. -/
def gdrom_dma_write_handlers_but_gdst :
    List (Env → World → List Nat → Nat → Nat → Result) :=
  [gdrom_gdapro_reg_write_handler, gdrom_g1gdrc_reg_write_handler,
   gdrom_gdstar_reg_write_handler, gdrom_gdlen_reg_write_handler,
   gdrom_gddir_reg_write_handler, gdrom_gden_reg_write_handler]

/-- The state after an IDENTIFY command and the programming of a DMA
transfer, all from the initial state: a 1-byte write of 0xa1 to the command
register, then 4-byte writes of `gdapro` to GDAPRO, `gdstar` to GDSTAR,
`gdlen` to GDLEN and 1 to GDST (these handlers do not look at the address
they are given). -/
def identify_then_dma (env : Env) (gdapro gdstar gdlen : Nat) : World :=
  let w := (gdrom_reg_write env World.init [0xa1] 0x5f709c 1).w
  let w := (gdrom_gdapro_reg_write_handler env w (le_bytes gdapro 4) 0 4).w
  let w := (gdrom_gdstar_reg_write_handler env w (le_bytes gdstar 4) 0 4).w
  let w := (gdrom_gdlen_reg_write_handler env w (le_bytes gdlen 4) 0 4).w
  (gdrom_gdst_reg_write_handler env w (le_bytes 1 4) 0 4).w


/-! ## Sequences of accesses -/

/-- The GD-ROM DMA registers that have a read handler. -/
inductive gdrom_dma_reg where
  | GDAPRO
  | G1GDRC
  | GDSTAR
  | GDLEN
  | GDDIR
  | GDEN
  | GDST
  | GDLEND
  deriving DecidableEq, Repr

/-- The read handler of a GD-ROM DMA register. -/
def gdrom_dma_reg.on_read : gdrom_dma_reg → Env → World → Nat → Nat → Result
  | gdrom_dma_reg.GDAPRO => gdrom_gdapro_reg_read_handler
  | gdrom_dma_reg.G1GDRC => gdrom_g1gdrc_reg_read_handler
  | gdrom_dma_reg.GDSTAR => gdrom_gdstar_reg_read_handler
  | gdrom_dma_reg.GDLEN => gdrom_gdlen_reg_read_handler
  | gdrom_dma_reg.GDDIR => gdrom_gddir_reg_read_handler
  | gdrom_dma_reg.GDEN => gdrom_gden_reg_read_handler
  | gdrom_dma_reg.GDST => gdrom_gdst_reg_read_handler
  | gdrom_dma_reg.GDLEND => gdrom_gdlend_reg_read_handler

/-- The GD-ROM DMA registers that have a write handler: all but GDLEND. -/
inductive gdrom_dma_wreg where
  | GDAPRO
  | G1GDRC
  | GDSTAR
  | GDLEN
  | GDDIR
  | GDEN
  | GDST
  deriving DecidableEq, Repr

/-- The write handler of a GD-ROM DMA register. -/
def gdrom_dma_wreg.on_write : gdrom_dma_wreg → Env → World → List Nat → Nat → Nat → Result
  | gdrom_dma_wreg.GDAPRO => gdrom_gdapro_reg_write_handler
  | gdrom_dma_wreg.G1GDRC => gdrom_g1gdrc_reg_write_handler
  | gdrom_dma_wreg.GDSTAR => gdrom_gdstar_reg_write_handler
  | gdrom_dma_wreg.GDLEN => gdrom_gdlen_reg_write_handler
  | gdrom_dma_wreg.GDDIR => gdrom_gddir_reg_write_handler
  | gdrom_dma_wreg.GDEN => gdrom_gden_reg_write_handler
  | gdrom_dma_wreg.GDST => gdrom_gdst_reg_write_handler

/-- One access to the drive: a read or a write through `gdrom_reg_read` /
`gdrom_reg_write`, or a call of the read or write handler of a GD-ROM DMA
register. -/
inductive access where
  | reg_read (addr len : Nat)
  | reg_write (buf : List Nat) (addr len : Nat)
  | dma_read (reg : gdrom_dma_reg) (addr len : Nat)
  | dma_write (reg : gdrom_dma_wreg) (buf : List Nat) (addr len : Nat)
  deriving DecidableEq, Repr

/-- The outcome of one access made in the state `w`. -/
def access.run (env : Env) (w : World) : access → Result
  | access.reg_read addr len => gdrom_reg_read env w addr len
  | access.reg_write buf addr len => gdrom_reg_write env w buf addr len
  | access.dma_read reg addr len => reg.on_read env w addr len
  | access.dma_write reg buf addr len => reg.on_write env w buf addr len

/-- The state after a sequence of accesses made from the state `w`.  Nothing
more is executed once an access has reached `RAISE_ERROR`: the state is then
the one at the raise. -/
def run_accesses (env : Env) : World → List access → World
  | w, [] => w
  | w, a :: rest =>
    match (a.run env w).ret with
    | Ret.RAISED _ => (a.run env w).w
    | _ => run_accesses env (a.run env w).w rest

/-- The states reachable from the initial state by register and DMA-register
accesses. -/
def reachable (env : Env) (w : World) : Prop :=
  ∃ accs : List access, run_accesses env World.init accs = w

/-- The accesses that send the packet `pb`: a one-byte write of the PACKET
command (0xa0) to the command register, then six two-byte writes of the
twelve packet bytes to the data register. -/
def packet_accesses (pb : List Nat) : List access :=
  access.reg_write [0xa0] 0x5f709c 1 ::
    (List.range 6).map
      (fun i => access.reg_write [pb.getD (2 * i) 0, pb.getD (2 * i + 1) 0] 0x5f7080 2)

/-- The condition "cursor below the valid length" on a node of the queue. -/
def node_cursor_valid (n : gdrom_bufq_node) : Prop := n.idx < n.len

instance (n : gdrom_bufq_node) : Decidable (node_cursor_valid n) :=
  inferInstanceAs (Decidable (n.idx < n.len))

/-- The range of `n_bytes_received` in which both stores of a data-register
write, `pkt_buf[n]` and `pkt_buf[n + 1]`, fall inside the 12-byte buffer. -/
def pkt_stores_in_bounds (n : Nat) : Prop := n + 1 < PKT_LEN

/-! ## Maple bus addresses (src/hw/maple/maple.c) -/

/-- What maple.c takes from its build and from maple.h: whether `INVARIANTS`
is defined, and the constants MAPLE_PORT_COUNT and MAPLE_UNIT_COUNT. -/
structure maple_config where
  INVARIANTS : Bool
  MAPLE_PORT_COUNT : Nat
  MAPLE_UNIT_COUNT : Nat

/-- The source's `maple_addr_unpack`: the pair `(*port_out, *unit_out)`, or
the error raised. -/
def maple_addr_unpack (addr : Nat) : Except error_type (Nat × Nat) :=
  let unit : Option Nat :=
    if addr &&& 0x3f = 0x20 then some 0
    else if addr &&& 0x1f = 1 then some 1
    else if addr &&& 0x1f = 2 then some 2
    else if addr &&& 0x1f = 4 then some 3
    else if addr &&& 0x1f = 8 then some 4
    else if addr &&& 0x1f = 16 then some 5
    else none
  match unit with
  | none => Except.error error_type.ERROR_INTEGRITY
  | some unit =>
    let port := (addr >>> 6) &&& 0x3
    Except.ok (port, unit)

/-- The source's `maple_addr_pack`.  The shift `1 << (unit - 1)` is defined in
C for `unit - 1 <= 30`; beyond that the model gives the bits that a wider
shift leaves below bit 5, that is 0. -/
def maple_addr_pack (cfg : maple_config) (port unit : Nat) : Except error_type Nat :=
  if cfg.INVARIANTS = true ∧ (port ≥ cfg.MAPLE_PORT_COUNT ∨ unit ≥ cfg.MAPLE_UNIT_COUNT) then
    Except.error error_type.ERROR_INTEGRITY
  else
    let addr := if unit > 0 then (1 <<< (unit - 1)) &&& 0x1f else 0x20
    let addr := addr ||| ((port <<< 6) % 2 ^ 32)
    Except.ok addr

/-- The source's round trip `maple_addr_unpack(maple_addr_pack(port, unit))`. -/
def maple_addr_round_trip (cfg : maple_config) (port unit : Nat) :
    Except error_type (Nat × Nat) :=
  match maple_addr_pack cfg port unit with
  | Except.error e => Except.error e
  | Except.ok addr => maple_addr_unpack addr

/-! ## System block registers (src/hw/sys/sys_block.c) -/

/-- The registers of holly_intc.c that the system block maps. -/
inductive holly_reg where
  | iml2nrm
  | iml2ext
  | iml2err
  | iml4nrm
  | iml4ext
  | iml4err
  | iml6nrm
  | iml6ext
  | iml6err
  | istnrm
  | istext
  | isterr
  deriving DecidableEq, Repr

/-- The file-scope variables of sys_block.c, with the state of the
collaborators its handlers call: the registers of holly_intc.c and the log of
the calls `sh4_dmac_channel2(cpu, reg_sb_c2dstat, reg_sb_c2dlen)`.
`sys_regs` is kept as bytes, register `idx` at the offsets `4 * idx ..`. -/
structure SysWorld where
  sys_regs : Nat → Nat
  reg_sb_c2dstat : Nat
  reg_sb_c2dlen : Nat
  holly_intc : Nat → Nat
  dmac_calls : List (Nat × Nat)
  err : error_attrs

/-- Outcome of a system-block access. -/
structure SysResult where
  ret : Ret
  buf : List Nat
  w : SysWorld

/-- What sys_block.c takes from elsewhere: ADDR_SYS_FIRST of MemoryMap.h and
the handlers `holly_reg_<name>_read_handler` / `holly_reg_<name>_write_handler`
of holly_intc.c, which are left arbitrary. -/
structure SysEnv where
  ADDR_SYS_FIRST : Nat
  holly_reg_read_handler : holly_reg → SysWorld → Nat → Nat → SysResult
  holly_reg_write_handler : holly_reg → SysWorld → List Nat → Nat → Nat → SysResult

/-- Index computation of the default handlers,
`(addr - ADDR_SYS_FIRST) >> 2` on an `addr32_t`. -/
def sys_reg_idx (env : SysEnv) (addr : Nat) : Nat :=
  ((addr + 2 ^ 32 - env.ADDR_SYS_FIRST % 2 ^ 32) % 2 ^ 32) >>> 2

/-- The source's `default_sys_reg_read_handler`. -/
def default_sys_reg_read_handler (env : SysEnv) (w : SysWorld) (addr len : Nat) : SysResult :=
  let idx := sys_reg_idx env addr
  { ret := Ret.MEM_ACCESS_SUCCESS,
    buf := (List.range len).map (fun i => w.sys_regs (4 * idx + i) % 256),
    w := w }

/-- The source's `default_sys_reg_write_handler`. -/
def default_sys_reg_write_handler (env : SysEnv) (w : SysWorld) (buf : List Nat)
    (addr len : Nat) : SysResult :=
  let idx := sys_reg_idx env addr
  { ret := Ret.MEM_ACCESS_SUCCESS,
    buf := [],
    w := { w with sys_regs := fun o =>
             if 4 * idx ≤ o ∧ o < 4 * idx + len then buf_byte buf (o - 4 * idx)
             else w.sys_regs o } }

/-- The source's `warn_sys_reg_read_handler`: the default handler, a trace
line, and the return value MEM_ACCESS_SUCCESS. -/
def warn_sys_reg_read_handler (env : SysEnv) (w : SysWorld) (addr len : Nat) : SysResult :=
  let r := default_sys_reg_read_handler env w addr len
  { r with ret := Ret.MEM_ACCESS_SUCCESS }

/-- The source's `warn_sys_reg_write_handler`: a trace line, then the default
handler. -/
def warn_sys_reg_write_handler (env : SysEnv) (w : SysWorld) (buf : List Nat)
    (addr len : Nat) : SysResult :=
  default_sys_reg_write_handler env w buf addr len

/-- The source's `sys_read_only_reg_write_handler`. -/
def sys_read_only_reg_write_handler (_env : SysEnv) (w : SysWorld) (_buf : List Nat)
    (addr len : Nat) : SysResult :=
  { ret := Ret.MEM_ACCESS_FAILURE, buf := [],
    w := { w with err := { w.err with
             feature := some
               "Whatever happens when you try to write to a read-only system block register",
             address := some addr, length := some len,
             pending := some error_type.ERROR_UNIMPLEMENTED } } }

/-- The source's `ignore_sys_reg_write_handler` (bound to no entry). -/
def ignore_sys_reg_write_handler (_env : SysEnv) (w : SysWorld) (_buf : List Nat)
    (_addr _len : Nat) : SysResult :=
  { ret := Ret.MEM_ACCESS_SUCCESS, buf := [], w := w }

/-- The source's `sys_sbrev_reg_read_handler`. -/
def sys_sbrev_reg_read_handler (_env : SysEnv) (w : SysWorld) (_addr len : Nat) : SysResult :=
  { ret := Ret.MEM_ACCESS_SUCCESS, buf := le_bytes 16 len, w := w }

/-- The source's `sb_c2dst_reg_read_handler`. -/
def sb_c2dst_reg_read_handler (_env : SysEnv) (w : SysWorld) (_addr len : Nat) : SysResult :=
  { ret := Ret.MEM_ACCESS_SUCCESS, buf := List.replicate len 0, w := w }

/-- The source's `sb_c2dst_reg_write_handler`. -/
def sb_c2dst_reg_write_handler (_env : SysEnv) (w : SysWorld) (buf : List Nat)
    (_addr _len : Nat) : SysResult :=
  let dat := memcpy_u32 0 buf 4
  if dat ≠ 0 then
    { ret := Ret.MEM_ACCESS_SUCCESS, buf := [],
      w := { w with dmac_calls := w.dmac_calls ++ [(w.reg_sb_c2dstat, w.reg_sb_c2dlen)] } }
  else { ret := Ret.MEM_ACCESS_SUCCESS, buf := [], w := w }

/-- The source's `sb_c2dlen_reg_read_handler`. -/
def sb_c2dlen_reg_read_handler (_env : SysEnv) (w : SysWorld) (_addr len : Nat) : SysResult :=
  { ret := Ret.MEM_ACCESS_SUCCESS, buf := le_bytes w.reg_sb_c2dlen len, w := w }

/-- The source's `sb_c2dlen_reg_write_handler`. -/
def sb_c2dlen_reg_write_handler (_env : SysEnv) (w : SysWorld) (buf : List Nat)
    (_addr _len : Nat) : SysResult :=
  { ret := Ret.MEM_ACCESS_SUCCESS, buf := [],
    w := { w with reg_sb_c2dlen := memcpy_u32 w.reg_sb_c2dlen buf 4 } }

/-- The source's `sb_c2dstat_reg_read_handler`. -/
def sb_c2dstat_reg_read_handler (_env : SysEnv) (w : SysWorld) (_addr len : Nat) : SysResult :=
  { ret := Ret.MEM_ACCESS_SUCCESS, buf := le_bytes w.reg_sb_c2dstat len, w := w }

/-- The source's `sb_c2dstat_reg_write_handler`. -/
def sb_c2dstat_reg_write_handler (_env : SysEnv) (w : SysWorld) (buf : List Nat)
    (_addr _len : Nat) : SysResult :=
  { ret := Ret.MEM_ACCESS_SUCCESS, buf := [],
    w := { w with reg_sb_c2dstat := memcpy_u32 w.reg_sb_c2dstat buf 4 } }

/-- An entry of the table, `struct sys_mapped_reg`. -/
structure sys_mapped_reg where
  reg_name : String
  addr : Nat
  len : Nat
  on_read : SysEnv → SysWorld → Nat → Nat → SysResult
  on_write : SysEnv → SysWorld → List Nat → Nat → Nat → SysResult

/-- An entry bound to the two warning handlers. -/
def sys_warn_entry (name : String) (addr : Nat) : sys_mapped_reg :=
  { reg_name := name, addr := addr, len := 4,
    on_read := warn_sys_reg_read_handler, on_write := warn_sys_reg_write_handler }

/-- An entry bound to the handlers of the register `r` of holly_intc.c. -/
def sys_holly_entry (name : String) (addr : Nat) (r : holly_reg) : sys_mapped_reg :=
  { reg_name := name, addr := addr, len := 4,
    on_read := fun env => env.holly_reg_read_handler r,
    on_write := fun env => env.holly_reg_write_handler r }

/-- The register table of the source, in its order; its terminating
`{ NULL }` entry is the end of the list. -/
def sys_reg_info : List sys_mapped_reg := [
  { reg_name := "SB_C2DSTAT", addr := 0x005f6800, len := 4,
    on_read := sb_c2dstat_reg_read_handler, on_write := sb_c2dstat_reg_write_handler },
  { reg_name := "SB_C2DLEN", addr := 0x005f6804, len := 4,
    on_read := sb_c2dlen_reg_read_handler, on_write := sb_c2dlen_reg_write_handler },
  { reg_name := "SB_C2DST", addr := 0x005f6808, len := 4,
    on_read := sb_c2dst_reg_read_handler, on_write := sb_c2dst_reg_write_handler },
  sys_warn_entry "SB_SDSTAW" 0x5f6810,
  sys_warn_entry "SB_SDBAAW" 0x5f6814,
  sys_warn_entry "SB_SDWLT" 0x5f6818,
  sys_warn_entry "SB_SDLAS" 0x5f681c,
  sys_warn_entry "SB_SDST" 0x5f6820,
  sys_warn_entry "SB_DBREQM" 0x5f6840,
  sys_warn_entry "SB_BAVLWC" 0x5f6844,
  sys_warn_entry "SB_C2DPRYC" 0x5f6848,
  sys_warn_entry "SB_C2DMAXL" 0x5f684c,
  sys_warn_entry "SB_LMMODE0" 0x5f6884,
  sys_warn_entry "SB_LMMODE1" 0x5f6888,
  { reg_name := "SB_FFST", addr := 0x5f688c, len := 4,
    on_read := default_sys_reg_read_handler, on_write := sys_read_only_reg_write_handler },
  { reg_name := "SB_SBREV", addr := 0x5f689c, len := 4,
    on_read := sys_sbrev_reg_read_handler, on_write := sys_read_only_reg_write_handler },
  sys_warn_entry "SB_RBSPLT" 0x5f68a0,
  sys_warn_entry "UNKNOWN_REG_5f68a4" 0x5f68a4,
  sys_warn_entry "UNKNOWN_REG_5f68ac" 0x5f68ac,
  sys_holly_entry "SB_IML2NRM" 0x5f6910 holly_reg.iml2nrm,
  sys_holly_entry "SB_IML2EXT" 0x5f6914 holly_reg.iml2ext,
  sys_holly_entry "SB_IML2ERR" 0x5f6918 holly_reg.iml2err,
  sys_holly_entry "SB_IML4NRM" 0x5f6920 holly_reg.iml4nrm,
  sys_holly_entry "SB_IML4EXT" 0x5f6924 holly_reg.iml4ext,
  sys_holly_entry "SB_IML4ERR" 0x5f6928 holly_reg.iml4err,
  sys_holly_entry "SB_IML6NRM" 0x5f6930 holly_reg.iml6nrm,
  sys_holly_entry "SB_IML6EXT" 0x5f6934 holly_reg.iml6ext,
  sys_holly_entry "SB_IML6ERR" 0x5f6938 holly_reg.iml6err,
  sys_warn_entry "SB_PDTNRM" 0x5f6940,
  sys_warn_entry "SB_PDTEXT" 0x5f6944,
  sys_warn_entry "SB_G2DTNRM" 0x5f6950,
  sys_warn_entry "SB_G2DTEXT" 0x5f6954,
  sys_holly_entry "SB_ISTNRM" 0x5f6900 holly_reg.istnrm,
  sys_holly_entry "SB_ISTEXT" 0x5f6904 holly_reg.istext,
  sys_holly_entry "SB_ISTERR" 0x5f6908 holly_reg.isterr
]

/-- The state left by the failure exit of the dispatch for a length that is
not the declared one: `error_set_feature`, `error_set_address`,
`error_set_length` and `PENDING_ERROR(ERROR_UNIMPLEMENTED)`. -/
def sys_length_failure (w : SysWorld) (feature : String) (addr len : Nat) : SysResult :=
  { ret := Ret.MEM_ACCESS_FAILURE, buf := [],
    w := { w with err := { w.err with
             feature := some feature, address := some addr, length := some len,
             pending := some error_type.ERROR_UNIMPLEMENTED } } }

/-- The state left by the failure exit of the dispatch after the loop, no
entry having the address: `error_set_feature`, `error_set_address` and
`PENDING_ERROR(ERROR_UNIMPLEMENTED)`. -/
def sys_address_failure (w : SysWorld) (addr : Nat) : SysResult :=
  { ret := Ret.MEM_ACCESS_FAILURE, buf := [],
    w := { w with err := { w.err with
             feature := some "accessing one of the system block registers",
             address := some addr,
             pending := some error_type.ERROR_UNIMPLEMENTED } } }

/-- The loop of `sys_block_read` from the table position `curs` onwards, with
the statements that follow the loop. -/
def sys_block_read_from (curs : List sys_mapped_reg) (env : SysEnv) (w : SysWorld)
    (addr len : Nat) : SysResult :=
  match curs with
  | [] => sys_address_failure w addr
  | c :: rest =>
    if c.addr = addr then
      if c.len = len then c.on_read env w addr len
      else sys_length_failure w
        "Whatever happens when you use an inappropriate length while writing to a system register"
        addr len
    else sys_block_read_from rest env w addr len

/-- The source's `sys_block_read`. -/
def sys_block_read (env : SysEnv) (w : SysWorld) (addr len : Nat) : SysResult :=
  sys_block_read_from sys_reg_info env w addr len

/-- The loop of `sys_block_write` from the table position `curs` onwards,
with the statements that follow the loop. -/
def sys_block_write_from (curs : List sys_mapped_reg) (env : SysEnv) (w : SysWorld)
    (buf : List Nat) (addr len : Nat) : SysResult :=
  match curs with
  | [] => sys_address_failure w addr
  | c :: rest =>
    if c.addr = addr then
      if c.len = len then c.on_write env w buf addr len
      else sys_length_failure w
        "Whatever happens when you use an inappropriate length while reading from a system register"
        addr len
    else sys_block_write_from rest env w buf addr len

/-- The source's `sys_block_write`. -/
def sys_block_write (env : SysEnv) (w : SysWorld) (buf : List Nat) (addr len : Nat) :
    SysResult :=
  sys_block_write_from sys_reg_info env w buf addr len

/-- That two states of the system block differ at most in the error
attributes: no register of sys_block.c or of holly_intc.c has changed and no
DMA was started. -/
def sys_registers_unchanged (w w2 : SysWorld) : Prop :=
  w2.sys_regs = w.sys_regs ∧ w2.reg_sb_c2dstat = w.reg_sb_c2dstat
  ∧ w2.reg_sb_c2dlen = w.reg_sb_c2dlen ∧ w2.holly_intc = w.holly_intc
  ∧ w2.dmac_calls = w.dmac_calls

/-- A sample state of the system block. -/
def SysWorld.sample : SysWorld :=
  { sys_regs := fun _ => 0, reg_sb_c2dstat := 0, reg_sb_c2dlen := 0,
    holly_intc := fun _ => 0, dmac_calls := [],
    err := { feature := none, address := none, length := none,
             gdrom_command := none, pending := none } }

/-- A sample environment of the system block: the handlers of holly_intc.c
read and write the register file `holly_intc`. -/
def SysEnv.sample : SysEnv :=
  { ADDR_SYS_FIRST := 0x5f6800,
    holly_reg_read_handler := fun _ w addr len =>
      { ret := Ret.MEM_ACCESS_SUCCESS,
        buf := (List.range len).map (fun i => w.holly_intc (addr + i) % 256), w := w },
    holly_reg_write_handler := fun _ w buf addr len =>
      { ret := Ret.MEM_ACCESS_SUCCESS, buf := [],
        w := { w with holly_intc := fun o =>
                 if addr ≤ o ∧ o < addr + len then buf_byte buf (o - addr)
                 else w.holly_intc o } } }

/-- What one step may do to the variables followed through a run: the
sector-count register is kept; `n_bytes_received` is kept, reset to 0, or
advanced by 2 to a value below 12; the protocol state is kept or becomes
NORMAL or AWAITING_PACKET; a data-byte-count below 2^32 stays below 2^32;
`additional_sense` is kept or becomes NO_DISC. -/
def access_frame (w w2 : World) : Prop :=
  w2.sect_cnt_reg = w.sect_cnt_reg
  ∧ (w2.n_bytes_received = w.n_bytes_received ∨ w2.n_bytes_received = 0
      ∨ (w2.n_bytes_received = (w.n_bytes_received + 2) % 2 ^ 32 ∧ w2.n_bytes_received < 12))
  ∧ (w2.state = w.state ∨ w2.state = gdrom_state.GDROM_STATE_NORM
      ∨ w2.state = gdrom_state.GDROM_STATE_INPUT_PKT)
  ∧ (w.data_byte_count < 2 ^ 32 → w2.data_byte_count < 2 ^ 32)
  ∧ (w2.additional_sense = w.additional_sense
      ∨ w2.additional_sense = ADDITIONAL_SENSE_NO_DISC)

/-- The same for the handler of a packet, which leaves `n_bytes_received`
alone and moves the protocol state to NORMAL if at all. -/
def packet_frame (w w2 : World) : Prop :=
  w2.sect_cnt_reg = w.sect_cnt_reg
  ∧ w2.n_bytes_received = w.n_bytes_received
  ∧ (w2.state = w.state ∨ w2.state = gdrom_state.GDROM_STATE_NORM)
  ∧ (w.data_byte_count < 2 ^ 32 → w2.data_byte_count < 2 ^ 32)
  ∧ (w2.additional_sense = w.additional_sense
      ∨ w2.additional_sense = ADDITIONAL_SENSE_NO_DISC)

/-- The state after a write to the byte-count-low register (0x5f7090) through
`gdrom_reg_write`. -/
def byte_count_low_write (env : Env) (w : World) (buf : List Nat) (len : Nat) : World :=
  (gdrom_reg_write env w buf 0x5f7090 len).w

/-- The state after a write to the byte-count-high register (0x5f7094)
through `gdrom_reg_write`. -/
def byte_count_high_write (env : Env) (w : World) (buf : List Nat) (len : Nat) : World :=
  (gdrom_reg_write env w buf 0x5f7094 len).w

/-- The six two-byte data-register writes that carry the twelve packet bytes
`pb`. -/
def packet_words (pb : List Nat) : List (List Nat × Nat) :=
  (List.range 6).map (fun i => ([pb.getD (2 * i) 0, pb.getD (2 * i + 1) 0], 2))

theorem flag_two_pow (x k : Nat) : flag x (2 ^ k) = x.testBit k := by
  unfold flag
  rw [Nat.and_two_pow]
  cases h : x.testBit k <;> simp

@[simp] theorem flag_1 (x : Nat) : flag x 1 = x.testBit 0 := flag_two_pow x 0
@[simp] theorem flag_2 (x : Nat) : flag x 2 = x.testBit 1 := flag_two_pow x 1
@[simp] theorem flag_8 (x : Nat) : flag x 8 = x.testBit 3 := flag_two_pow x 3
@[simp] theorem flag_64 (x : Nat) : flag x 64 = x.testBit 6 := flag_two_pow x 6
@[simp] theorem flag_128 (x : Nat) : flag x 128 = x.testBit 7 := flag_two_pow x 7

theorem testBit_mask_clear (x m i : Nat) (hi : i < 32) :
    (mask_clear x m).testBit i = (x.testBit i && !m.testBit i) := by
  unfold mask_clear U32_MAX
  rw [Nat.testBit_and, Nat.testBit_xor, show (0xffffffff : Nat) = 2 ^ 32 - 1 from rfl,
    Nat.testBit_two_pow_sub_one]
  simp [hi]

attribute [simp] STAT_BSY_MASK STAT_BSY_SHIFT STAT_DRDY_MASK STAT_DRDY_SHIFT STAT_DRQ_MASK
  STAT_DRQ_SHIFT STAT_CHECK_MASK STAT_CHECK_SHIFT INT_REASON_COD_MASK INT_REASON_COD_SHIFT
  INT_REASON_IO_MASK INT_REASON_IO_SHIFT DEV_CTRL_NIEN_MASK DEV_CTRL_NIEN_SHIFT
  FEAT_REG_DMA_MASK FEAT_REG_DMA_SHIFT

/-! ## Properties of the dispatch -/

theorem gdrom_reg_read_from_miss (curs : List gdrom_mem_mapped_reg) (env : Env) (w : World)
    (addr len : Nat) (h : ∀ c ∈ curs, c.addr ≠ addr) :
    gdrom_reg_read_from curs env w addr len =
      { ret := Ret.RAISED error_type.ERROR_UNIMPLEMENTED, buf := [],
        w := error_set_address
          (error_set_feature w "reading from one of the gdrom registers") addr } := by
  induction curs with
  | nil => rfl
  | cons c rest ih =>
    have hc : c.addr ≠ addr := h c (List.mem_cons_self _ _)
    have hr : ∀ d ∈ rest, d.addr ≠ addr := fun d hd => h d (List.mem_cons_of_mem _ hd)
    simp only [gdrom_reg_read_from, if_neg hc, ih hr]

theorem gdrom_reg_write_from_miss (curs : List gdrom_mem_mapped_reg) (env : Env) (w : World)
    (buf : List Nat) (addr len : Nat) (h : ∀ c ∈ curs, c.addr ≠ addr) :
    gdrom_reg_write_from curs env w buf addr len =
      { ret := Ret.RAISED error_type.ERROR_UNIMPLEMENTED, buf := [],
        w := error_set_address
          (error_set_feature w "writing to one of the gdrom registers") addr } := by
  induction curs with
  | nil => rfl
  | cons c rest ih =>
    have hc : c.addr ≠ addr := h c (List.mem_cons_self _ _)
    have hr : ∀ d ∈ rest, d.addr ≠ addr := fun d hd => h d (List.mem_cons_of_mem _ hd)
    simp only [gdrom_reg_write_from, if_neg hc, ih hr]

/-- C1: an access to an address that is the base address of no entry of
`gdrom_reg_info` does not return: it raises ERROR_UNIMPLEMENTED with the
address recorded in the error attributes, whatever the length.  Apart from
the error attributes `feature` and `address` the state is the one before the
access (every register, the protocol state, the queue, the interrupt log),
and the outcome is the same for every table that holds no entry at that
address, whatever its handlers: no handler runs. -/
theorem C1_unknown_address_raises (env : Env) (w : World) (buf : List Nat) (addr len : Nat)
    (h : addr ∉ gdrom_reg_info.map gdrom_mem_mapped_reg.addr) :
    gdrom_reg_read env w addr len =
      { ret := Ret.RAISED error_type.ERROR_UNIMPLEMENTED, buf := [],
        w := { w with err := { w.err with
                 feature := some "reading from one of the gdrom registers",
                 address := some addr } } }
    ∧ gdrom_reg_write env w buf addr len =
      { ret := Ret.RAISED error_type.ERROR_UNIMPLEMENTED, buf := [],
        w := { w with err := { w.err with
                 feature := some "writing to one of the gdrom registers",
                 address := some addr } } }
    ∧ ∀ tbl : List gdrom_mem_mapped_reg, (∀ c ∈ tbl, c.addr ≠ addr) →
        gdrom_reg_read_from tbl env w addr len = gdrom_reg_read env w addr len
        ∧ gdrom_reg_write_from tbl env w buf addr len = gdrom_reg_write env w buf addr len := by
  have h0 : ∀ c ∈ gdrom_reg_info, c.addr ≠ addr := by
    intro c hc hEq
    exact h (List.mem_map.mpr ⟨c, hc, hEq⟩)
  have hr := gdrom_reg_read_from_miss gdrom_reg_info env w addr len h0
  have hw := gdrom_reg_write_from_miss gdrom_reg_info env w buf addr len h0
  refine ⟨hr, hw, ?_⟩
  intro tbl ht
  exact ⟨(gdrom_reg_read_from_miss tbl env w addr len ht).trans hr.symm,
    (gdrom_reg_write_from_miss tbl env w buf addr len ht).trans hw.symm⟩

/-- Witness for C1: the address 0x5f7000 is in no entry of the table, and both accesses to it
raise. -/
theorem C1_unknown_address_raises_witness :
    (0x5f7000 ∉ gdrom_reg_info.map gdrom_mem_mapped_reg.addr)
    ∧ (gdrom_reg_read Env.sample World.init 0x5f7000 4).ret
        = Ret.RAISED error_type.ERROR_UNIMPLEMENTED
    ∧ (gdrom_reg_write Env.sample World.init [1, 0, 0, 0] 0x5f7000 4).w.err.address
        = some 0x5f7000 :=
  have h : 0x5f7000 ∉ gdrom_reg_info.map gdrom_mem_mapped_reg.addr := by decide
  have t := C1_unknown_address_raises Env.sample World.init [1, 0, 0, 0] 0x5f7000 4 h
  ⟨h, by rw [t.1], by rw [t.2.1]⟩

/-- The outcome of `gdrom_reg_read` on an access longer than the entry allows. -/
theorem gdrom_reg_read_from_hit (curs : List gdrom_mem_mapped_reg) (env : Env) (w : World)
    (e : gdrom_mem_mapped_reg) (len : Nat) (he : e ∈ curs)
    (hnd : (curs.map gdrom_mem_mapped_reg.addr).Nodup) :
    gdrom_reg_read_from curs env w e.addr len =
      if e.len ≥ len then e.on_read env w e.addr len
      else
        { ret := Ret.MEM_ACCESS_FAILURE, buf := [],
          w := error_set_pending (error_set_length (error_set_address (error_set_feature w
            "Whatever happens when you use an inappropriate length while reading from a gdrom register")
            e.addr) len) error_type.ERROR_UNIMPLEMENTED } := by
  induction curs with
  | nil => cases he
  | cons c rest ih =>
    rw [List.map_cons, List.nodup_cons] at hnd
    rcases List.mem_cons.mp he with rfl | hr
    · simp only [gdrom_reg_read_from, if_true]
    · have hne : c.addr ≠ e.addr := by
        intro hEq
        exact hnd.1 (List.mem_map.mpr ⟨e, hr, hEq.symm⟩)
      simp only [gdrom_reg_read_from, if_neg hne, ih hr hnd.2]

theorem gdrom_reg_write_from_hit (curs : List gdrom_mem_mapped_reg) (env : Env) (w : World)
    (buf : List Nat) (e : gdrom_mem_mapped_reg) (len : Nat) (he : e ∈ curs)
    (hnd : (curs.map gdrom_mem_mapped_reg.addr).Nodup) :
    gdrom_reg_write_from curs env w buf e.addr len =
      if e.len ≥ len then e.on_write env w buf e.addr len
      else
        { ret := Ret.MEM_ACCESS_FAILURE, buf := [],
          w := error_set_pending (error_set_length (error_set_address (error_set_feature w
            "Whatever happens when you use an inappropriate length while writing to a gdrom register")
            e.addr) len) error_type.ERROR_UNIMPLEMENTED } := by
  induction curs with
  | nil => cases he
  | cons c rest ih =>
    rw [List.map_cons, List.nodup_cons] at hnd
    rcases List.mem_cons.mp he with rfl | hr
    · simp only [gdrom_reg_write_from, if_true]
    · have hne : c.addr ≠ e.addr := by
        intro hEq
        exact hnd.1 (List.mem_map.mpr ⟨e, hr, hEq.symm⟩)
      simp only [gdrom_reg_write_from, if_neg hne, ih hr hnd.2]

theorem gdrom_reg_read_from_too_long (curs : List gdrom_mem_mapped_reg) (env : Env) (w : World)
    (addr len : Nat) (h1 : ∀ c ∈ curs, c.addr = addr → c.len < len)
    (h2 : ∃ c ∈ curs, c.addr = addr) :
    gdrom_reg_read_from curs env w addr len =
      { ret := Ret.MEM_ACCESS_FAILURE, buf := [],
        w := error_set_pending (error_set_length (error_set_address (error_set_feature w
          "Whatever happens when you use an inappropriate length while reading from a gdrom register")
          addr) len) error_type.ERROR_UNIMPLEMENTED } := by
  induction curs with
  | nil => obtain ⟨c, hc, _⟩ := h2; cases hc
  | cons c rest ih =>
    by_cases hc : c.addr = addr
    · have hl : ¬ c.len ≥ len := Nat.not_le.mpr (h1 c (List.mem_cons_self _ _) hc)
      simp only [gdrom_reg_read_from, if_pos hc, if_neg hl]
    · have h2r : ∃ d ∈ rest, d.addr = addr := by
        obtain ⟨d, hd, hda⟩ := h2
        rcases List.mem_cons.mp hd with rfl | hd
        · exact absurd hda hc
        · exact ⟨d, hd, hda⟩
      simp only [gdrom_reg_read_from, if_neg hc,
        ih (fun d hd => h1 d (List.mem_cons_of_mem _ hd)) h2r]

theorem gdrom_reg_write_from_too_long (curs : List gdrom_mem_mapped_reg) (env : Env) (w : World)
    (buf : List Nat) (addr len : Nat) (h1 : ∀ c ∈ curs, c.addr = addr → c.len < len)
    (h2 : ∃ c ∈ curs, c.addr = addr) :
    gdrom_reg_write_from curs env w buf addr len =
      { ret := Ret.MEM_ACCESS_FAILURE, buf := [],
        w := error_set_pending (error_set_length (error_set_address (error_set_feature w
          "Whatever happens when you use an inappropriate length while writing to a gdrom register")
          addr) len) error_type.ERROR_UNIMPLEMENTED } := by
  induction curs with
  | nil => obtain ⟨c, hc, _⟩ := h2; cases hc
  | cons c rest ih =>
    by_cases hc : c.addr = addr
    · have hl : ¬ c.len ≥ len := Nat.not_le.mpr (h1 c (List.mem_cons_self _ _) hc)
      simp only [gdrom_reg_write_from, if_pos hc, if_neg hl]
    · have h2r : ∃ d ∈ rest, d.addr = addr := by
        obtain ⟨d, hd, hda⟩ := h2
        rcases List.mem_cons.mp hd with rfl | hd
        · exact absurd hda hc
        · exact ⟨d, hd, hda⟩
      simp only [gdrom_reg_write_from, if_neg hc,
        ih (fun d hd => h1 d (List.mem_cons_of_mem _ hd)) h2r]

theorem err_chain_eq (w : World) (s : String) (addr len : Nat) :
    error_set_pending (error_set_length (error_set_address (error_set_feature w s) addr) len)
      error_type.ERROR_UNIMPLEMENTED
    = { w with err := { w.err with
          feature := some s, address := some addr, length := some len,
          pending := some error_type.ERROR_UNIMPLEMENTED } } := rfl

theorem gdrom_reg_info_addr_nodup : (gdrom_reg_info.map gdrom_mem_mapped_reg.addr).Nodup := by
  decide

theorem gdrom_reg_info_len (e : gdrom_mem_mapped_reg) (he : e ∈ gdrom_reg_info) : e.len = 4 := by
  simp only [gdrom_reg_info, List.mem_cons, List.mem_singleton, List.not_mem_nil, or_false] at he
  rcases he with rfl | rfl | rfl | rfl | rfl | rfl | rfl | rfl | rfl <;> rfl

/-- C2: every entry of `gdrom_reg_info` declares the length 4.  An access at
an entry's address with a greater length returns MEM_ACCESS_FAILURE with
ERROR_UNIMPLEMENTED pending; apart from the error attributes the state is the
one before the access, and the outcome is the same for every table whose
entries at that address declare a smaller length, whatever their handlers: no
handler runs.  An access with a length up to the declared one is exactly the
call of the entry's own handler with that address and length. -/
theorem C2_length_checked_before_handler (env : Env) (w : World) (buf : List Nat)
    (e : gdrom_mem_mapped_reg) (len : Nat) (he : e ∈ gdrom_reg_info) :
    e.len = 4
    ∧ (e.len < len →
        gdrom_reg_read env w e.addr len =
          { ret := Ret.MEM_ACCESS_FAILURE, buf := [],
            w := { w with err := { w.err with
              feature := some
                "Whatever happens when you use an inappropriate length while reading from a gdrom register",
              address := some e.addr, length := some len,
              pending := some error_type.ERROR_UNIMPLEMENTED } } }
        ∧ gdrom_reg_write env w buf e.addr len =
          { ret := Ret.MEM_ACCESS_FAILURE, buf := [],
            w := { w with err := { w.err with
              feature := some
                "Whatever happens when you use an inappropriate length while writing to a gdrom register",
              address := some e.addr, length := some len,
              pending := some error_type.ERROR_UNIMPLEMENTED } } }
        ∧ ∀ tbl : List gdrom_mem_mapped_reg,
            (∀ c ∈ tbl, c.addr = e.addr → c.len < len) → (∃ c ∈ tbl, c.addr = e.addr) →
            gdrom_reg_read_from tbl env w e.addr len = gdrom_reg_read env w e.addr len
            ∧ gdrom_reg_write_from tbl env w buf e.addr len
                = gdrom_reg_write env w buf e.addr len)
    ∧ (len ≤ e.len →
        gdrom_reg_read env w e.addr len = e.on_read env w e.addr len
        ∧ gdrom_reg_write env w buf e.addr len = e.on_write env w buf e.addr len) := by
  have hr := gdrom_reg_read_from_hit gdrom_reg_info env w e len he gdrom_reg_info_addr_nodup
  have hw := gdrom_reg_write_from_hit gdrom_reg_info env w buf e len he gdrom_reg_info_addr_nodup
  refine ⟨gdrom_reg_info_len e he, ?_, ?_⟩
  · intro hlt
    have hl : ¬ e.len ≥ len := Nat.not_le.mpr hlt
    rw [if_neg hl, err_chain_eq] at hr hw
    refine ⟨hr, hw, ?_⟩
    intro tbl h1 h2
    have tr := gdrom_reg_read_from_too_long tbl env w e.addr len h1 h2
    have tw := gdrom_reg_write_from_too_long tbl env w buf e.addr len h1 h2
    rw [err_chain_eq] at tr tw
    exact ⟨tr.trans hr.symm, tw.trans hw.symm⟩
  · intro hle
    have hl : e.len ≥ len := hle
    rw [if_pos hl] at hr hw
    exact ⟨hr, hw⟩

/-- Witness for C2 at the data-register entry: a 5-byte read fails with the error pending, a
2-byte write is the call of the data-register write handler. -/
theorem C2_length_checked_before_handler_witness :
    (gdrom_reg_info.get ⟨3, by decide⟩ ∈ gdrom_reg_info)
    ∧ (gdrom_reg_info.get ⟨3, by decide⟩).addr = 0x5f7080
    ∧ (gdrom_reg_read Env.sample World.init 0x5f7080 5).ret = Ret.MEM_ACCESS_FAILURE
    ∧ (gdrom_reg_read Env.sample World.init 0x5f7080 5).w.err.pending
        = some error_type.ERROR_UNIMPLEMENTED
    ∧ gdrom_reg_write Env.sample World.init [0, 0] 0x5f7080 2
        = gdrom_data_reg_write_handler Env.sample World.init [0, 0] 0x5f7080 2 :=
  have he : gdrom_reg_info.get ⟨3, by decide⟩ ∈ gdrom_reg_info := List.get_mem _ _ _
  have t5 := C2_length_checked_before_handler Env.sample World.init [0, 0]
    (gdrom_reg_info.get ⟨3, by decide⟩) 5 he
  have t2 := C2_length_checked_before_handler Env.sample World.init [0, 0]
    (gdrom_reg_info.get ⟨3, by decide⟩) 2 he
  have r5 := (t5.2.1 (by decide)).1
  ⟨he, rfl, congrArg Result.ret r5, congrArg (fun r => r.w.err.pending) r5,
    (t2.2.2 (by decide)).2⟩

/-! ## Command register -/

theorem raise_int_unless_nien_eq (w : World) :
    raise_int_unless_nien w
      = { w with holly := if flag w.dev_ctrl_reg DEV_CTRL_NIEN_MASK then w.holly
                          else w.holly ++ [holly_call.raise_ext_int] } := by
  unfold raise_int_unless_nien flag holly_raise_ext_int
  have e : DEV_CTRL_NIEN_MASK = 2 := rfl
  rw [e]
  by_cases hn : w.dev_ctrl_reg &&& 2 = 0 <;> simp [hn]

theorem error_reg_raw_zero : error_reg_raw error_reg_zero = 0 := by decide

theorem gdrom_reg_write_cmd (env : Env) (w : World) (buf : List Nat) (len : Nat) (h : len ≤ 4) :
    gdrom_reg_write env w buf 0x5f709c len
      = gdrom_cmd_reg_write_handler env w buf 0x5f709c len := by
  have h4 : (4 : Nat) ≥ len := h
  simp [gdrom_reg_write, gdrom_reg_info, gdrom_reg_write_from, h4]

theorem gdrom_reg_write_data (env : Env) (w : World) (buf : List Nat) (len : Nat) (h : len ≤ 4) :
    gdrom_reg_write env w buf 0x5f7080 len
      = gdrom_data_reg_write_handler env w buf 0x5f7080 len := by
  have h4 : (4 : Nat) ≥ len := h
  simp [gdrom_reg_write, gdrom_reg_info, gdrom_reg_write_from, h4]

theorem gdrom_reg_read_data (env : Env) (w : World) (len : Nat) (h : len ≤ 4) :
    gdrom_reg_read env w 0x5f7080 len = gdrom_data_reg_read_handler env w 0x5f7080 len := by
  have h4 : (4 : Nat) ≥ len := h
  simp [gdrom_reg_read, gdrom_reg_info, gdrom_reg_read_from, h4]

theorem gdrom_cmd_reg_write_handler_identify (env : Env) (w : World) (buf : List Nat)
    (addr len : Nat) (hcmd : written_word buf len = GDROM_CMD_IDENTIFY) :
    gdrom_cmd_reg_write_handler env w buf addr len
      = { ret := Ret.MEM_ACCESS_SUCCESS, buf := [], w := gdrom_cmd_identify w } := by
  unfold written_word at hcmd
  simp [gdrom_cmd_reg_write_handler, hcmd, GDROM_CMD_IDENTIFY, GDROM_CMD_PKT]

theorem gdrom_cmd_reg_write_handler_pkt (env : Env) (w : World) (buf : List Nat)
    (addr len : Nat) (hcmd : written_word buf len = GDROM_CMD_PKT) :
    gdrom_cmd_reg_write_handler env w buf addr len
      = { ret := Ret.MEM_ACCESS_SUCCESS, buf := [], w := gdrom_cmd_begin_packet w } := by
  unfold written_word at hcmd
  simp [gdrom_cmd_reg_write_handler, hcmd, GDROM_CMD_PKT]

theorem written_word_le_bytes_a1 : written_word [0xa1, 0, 0, 0] 4 = GDROM_CMD_IDENTIFY := by
  decide

theorem written_word_le_bytes_a0 : written_word [0xa0] 1 = GDROM_CMD_PKT := by
  decide

/-- C6: an IDENTIFY command write (0xa1) to the command register, from any
state and any queue content, returns success and leaves the queue holding
exactly one node with cursor 0 and valid length 80 whose bytes are the 80
bytes of `gdrom_ident_str`; data_byte_count is 80, BSY and CHECK are clear,
DRQ is set, the error register is zero, the protocol state is NORMAL, and the
GD-ROM interrupt is raised exactly when NIEN is clear. -/
theorem C6_identify_queues_ident_str (env : Env) (w : World) (buf : List Nat) (len : Nat)
    (hlen : len ≤ 4) (hcmd : written_word buf len = GDROM_CMD_IDENTIFY) :
    (gdrom_reg_write env w buf 0x5f709c len).ret = Ret.MEM_ACCESS_SUCCESS
    ∧ (gdrom_reg_write env w buf 0x5f709c len).w.bufq
        = [{ idx := 0, len := 80, dat := gdrom_ident_str }]
    ∧ gdrom_ident_str.length = 80
    ∧ (gdrom_reg_write env w buf 0x5f709c len).w.data_byte_count = 80
    ∧ bsy_signal (gdrom_reg_write env w buf 0x5f709c len).w = false
    ∧ flag (gdrom_reg_write env w buf 0x5f709c len).w.stat_reg STAT_CHECK_MASK = false
    ∧ drq_signal (gdrom_reg_write env w buf 0x5f709c len).w = true
    ∧ (gdrom_reg_write env w buf 0x5f709c len).w.error_reg = error_reg_zero
    ∧ error_reg_raw (gdrom_reg_write env w buf 0x5f709c len).w.error_reg = 0
    ∧ (gdrom_reg_write env w buf 0x5f709c len).w.state = gdrom_state.GDROM_STATE_NORM
    ∧ (gdrom_reg_write env w buf 0x5f709c len).w.holly
        = if flag w.dev_ctrl_reg DEV_CTRL_NIEN_MASK then w.holly
          else w.holly ++ [holly_call.raise_ext_int] := by
  rw [gdrom_reg_write_cmd env w buf len hlen,
    gdrom_cmd_reg_write_handler_identify env w buf _ len hcmd]
  simp only [gdrom_cmd_identify, raise_int_unless_nien_eq, bufq_clear, bsy_signal, drq_signal,
    ← flag.eq_1]
  simp +decide [-Nat.testBit_zero, STAT_BSY_MASK, STAT_BSY_SHIFT, STAT_DRQ_MASK,
    STAT_DRQ_SHIFT, STAT_CHECK_MASK, STAT_CHECK_SHIFT, testBit_mask_clear, error_reg_raw_zero]

/-- Witness for C6: a 4-byte write of 0xa1 to the command register in the initial state. -/
theorem C6_identify_queues_ident_str_witness :
    (4 ≤ 4) ∧ written_word [0xa1, 0, 0, 0] 4 = GDROM_CMD_IDENTIFY
    ∧ (gdrom_reg_write Env.sample World.init [0xa1, 0, 0, 0] 0x5f709c 4).w.bufq
        = [{ idx := 0, len := 80, dat := gdrom_ident_str }] :=
  ⟨Nat.le_refl 4, written_word_le_bytes_a1,
    (C6_identify_queues_ident_str Env.sample World.init [0xa1, 0, 0, 0] 4 (Nat.le_refl 4)
      written_word_le_bytes_a1).2.1⟩

/-- C7: a PACKET command write (0xa0) to the command register returns
success, clears CHECK, sets COD and clears IO in the interrupt-reason
register, sets DRQ, resets n_bytes_received to 0 and sets the protocol state
to GDROM_STATE_INPUT_PKT; the error register, the buffer queue and
data_byte_count are unchanged and no call to the interrupt controller is
made. -/
theorem C7_packet_command_begins_input (env : Env) (w : World) (buf : List Nat) (len : Nat)
    (hlen : len ≤ 4) (hcmd : written_word buf len = GDROM_CMD_PKT) :
    (gdrom_reg_write env w buf 0x5f709c len).ret = Ret.MEM_ACCESS_SUCCESS
    ∧ flag (gdrom_reg_write env w buf 0x5f709c len).w.stat_reg STAT_CHECK_MASK = false
    ∧ flag (gdrom_reg_write env w buf 0x5f709c len).w.int_reason_reg INT_REASON_COD_MASK = true
    ∧ flag (gdrom_reg_write env w buf 0x5f709c len).w.int_reason_reg INT_REASON_IO_MASK = false
    ∧ drq_signal (gdrom_reg_write env w buf 0x5f709c len).w = true
    ∧ (gdrom_reg_write env w buf 0x5f709c len).w.n_bytes_received = 0
    ∧ (gdrom_reg_write env w buf 0x5f709c len).w.state = gdrom_state.GDROM_STATE_INPUT_PKT
    ∧ (gdrom_reg_write env w buf 0x5f709c len).w.error_reg = w.error_reg
    ∧ (gdrom_reg_write env w buf 0x5f709c len).w.bufq = w.bufq
    ∧ (gdrom_reg_write env w buf 0x5f709c len).w.data_byte_count = w.data_byte_count
    ∧ (gdrom_reg_write env w buf 0x5f709c len).w.holly = w.holly := by
  rw [gdrom_reg_write_cmd env w buf len hlen,
    gdrom_cmd_reg_write_handler_pkt env w buf _ len hcmd]
  simp only [gdrom_cmd_begin_packet, drq_signal, ← flag.eq_1]
  simp +decide [-Nat.testBit_zero, testBit_mask_clear]

/-- Witness for C7: a 1-byte write of 0xa0 to the command register in the initial state. -/
theorem C7_packet_command_begins_input_witness :
    (1 ≤ 4) ∧ written_word [0xa0] 1 = GDROM_CMD_PKT
    ∧ (gdrom_reg_write Env.sample World.init [0xa0] 0x5f709c 1).w.state
        = gdrom_state.GDROM_STATE_INPUT_PKT :=
  ⟨by decide, written_word_le_bytes_a0,
    (C7_packet_command_begins_input Env.sample World.init [0xa0] 1 (by decide)
      written_word_le_bytes_a0).2.2.2.2.2.2.1⟩

/-! ## Data register reads -/

theorem node_remaining_step (n : gdrom_bufq_node) (h : n.idx < n.len) :
    node_remaining n = n.byte n.idx :: node_remaining { n with idx := n.idx + 1 } := by
  unfold node_remaining
  have hlen : n.len - n.idx = (n.len - (n.idx + 1)) + 1 := by omega
  rw [hlen, List.range'_succ]
  rfl

theorem node_remaining_done (n : gdrom_bufq_node) (h : n.len ≤ n.idx) :
    node_remaining n = [] := by
  unfold node_remaining
  have : n.len - n.idx = 0 := by omega
  rw [this]
  rfl

theorem node_byte_lt (n : gdrom_bufq_node) (i : Nat) : n.byte i < 256 :=
  Nat.mod_lt _ (by decide)

/-- One call of `bufq_consume_byte` on a queue whose nodes all have their
cursor below their length. -/
theorem bufq_consume_byte_spec (q : List gdrom_bufq_node) (h : ∀ n ∈ q, n.idx < n.len) :
    (bufq_consume_byte q).1 = (bufq_remaining q).head?
    ∧ bufq_remaining (bufq_consume_byte q).2 = (bufq_remaining q).tail
    ∧ ∀ n ∈ (bufq_consume_byte q).2, n.idx < n.len := by
  cases q with
  | nil => exact ⟨rfl, rfl, fun n hn => by cases hn⟩
  | cons n rest =>
    have hn : n.idx < n.len := h n (List.mem_cons_self _ _)
    have hrest : ∀ m ∈ rest, m.idx < m.len := fun m hm => h m (List.mem_cons_of_mem _ hm)
    have hstep := node_remaining_step n hn
    by_cases hlast : n.idx + 1 ≥ n.len
    · have hdone : node_remaining { n with idx := n.idx + 1 } = [] :=
        node_remaining_done _ hlast
      simp only [bufq_consume_byte, if_pos hlast, bufq_remaining, hstep, hdone]
      exact ⟨rfl, rfl, hrest⟩
    · simp only [bufq_consume_byte, if_neg hlast, bufq_remaining, hstep]
      refine ⟨rfl, rfl, ?_⟩
      intro m hm
      rcases List.mem_cons.mp hm with rfl | hm
      · exact Nat.not_le.mp hlast
      · exact hrest m hm

theorem bufq_remaining_lt (q : List gdrom_bufq_node) : ∀ b ∈ bufq_remaining q, b < 256 := by
  induction q with
  | nil => intro b hb; cases hb
  | cons n rest ih =>
    intro b hb
    simp only [bufq_remaining, List.mem_append] at hb
    rcases hb with hb | hb
    · unfold node_remaining at hb
      obtain ⟨i, _, rfl⟩ := List.mem_map.mp hb
      exact node_byte_lt n i
    · exact ih b hb

/-- The read loop on a queue whose nodes all have their cursor below their
length: the bytes come off the front of the remaining sequence, zeros follow
once it is used up. -/
theorem gdrom_data_reg_read_loop_spec (len : Nat) (q : List gdrom_bufq_node)
    (h : ∀ n ∈ q, n.idx < n.len) :
    (gdrom_data_reg_read_loop len q).1
      = (bufq_remaining q).take len
        ++ List.replicate (len - min len (bufq_remaining q).length) 0
    ∧ bufq_remaining (gdrom_data_reg_read_loop len q).2 = (bufq_remaining q).drop len
    ∧ ∀ n ∈ (gdrom_data_reg_read_loop len q).2, n.idx < n.len := by
  induction len generalizing q with
  | zero => exact ⟨by simp [gdrom_data_reg_read_loop], rfl, h⟩
  | succ k ih =>
    obtain ⟨h1, h2, h3⟩ := bufq_consume_byte_spec q h
    obtain ⟨i1, i2, i3⟩ := ih (bufq_consume_byte q).2 h3
    simp only [gdrom_data_reg_read_loop]
    rw [i1, i2, h1, h2]
    refine ⟨?_, ?_, i3⟩
    · cases hB : bufq_remaining q with
      | nil => simp [List.replicate_succ]
      | cons b bs =>
        have hb : b < 256 := bufq_remaining_lt q b (by rw [hB]; exact List.mem_cons_self _ _)
        simp only [List.head?_cons, List.tail_cons, List.take_succ_cons, List.length_cons,
          Nat.mod_eq_of_lt hb, List.cons_append, Nat.add_min_add_right, Nat.add_sub_add_right]
    · cases hB : bufq_remaining q with
      | nil => simp
      | cons b bs => simp

theorem gdrom_data_reg_read_handler_eq (env : Env) (w : World) (addr len : Nat) :
    gdrom_data_reg_read_handler env w addr len
      = { ret := Ret.MEM_ACCESS_SUCCESS,
          buf := (gdrom_data_reg_read_loop len w.bufq).1,
          w := if (gdrom_data_reg_read_loop len w.bufq).2 = [] then
                 { w with
                   bufq := [],
                   stat_reg := mask_clear w.stat_reg (STAT_DRQ_MASK ||| STAT_BSY_MASK)
                                 ||| STAT_DRDY_MASK,
                   holly := if flag w.dev_ctrl_reg DEV_CTRL_NIEN_MASK then w.holly
                            else w.holly ++ [holly_call.raise_ext_int] }
               else { w with bufq := (gdrom_data_reg_read_loop len w.bufq).2 } } := by
  unfold gdrom_data_reg_read_handler
  simp only [raise_int_unless_nien_eq]
  by_cases hq : (gdrom_data_reg_read_loop len w.bufq).2 = []
  · simp [hq]
  · simp [hq]

/-- C4: on a queue in which every node has its cursor below its valid length,
with remaining byte sequence B, a data-register read of N bytes returns the
first min(N, |B|) bytes of B followed by N - min(N, |B|) zero bytes; the
remaining byte sequence of the queue afterwards is B without its first
min(N, |B|) bytes, and every node left still has its cursor below its length.
The read returns success and leaves the error attributes alone, also when the
queue runs out.  For N up to 4 this is what `gdrom_reg_read` does at the
data register. -/
theorem C4_data_read_takes_queue_front (env : Env) (w : World) (addr N : Nat)
    (h : ∀ n ∈ w.bufq, n.idx < n.len) :
    (gdrom_data_reg_read_handler env w addr N).buf
      = (bufq_remaining w.bufq).take (min N (bufq_remaining w.bufq).length)
        ++ List.replicate (N - min N (bufq_remaining w.bufq).length) 0
    ∧ bufq_remaining (gdrom_data_reg_read_handler env w addr N).w.bufq
      = (bufq_remaining w.bufq).drop (min N (bufq_remaining w.bufq).length)
    ∧ (∀ n ∈ (gdrom_data_reg_read_handler env w addr N).w.bufq, n.idx < n.len)
    ∧ (gdrom_data_reg_read_handler env w addr N).ret = Ret.MEM_ACCESS_SUCCESS
    ∧ (gdrom_data_reg_read_handler env w addr N).w.err = w.err
    ∧ (N ≤ 4 → gdrom_reg_read env w 0x5f7080 N
          = gdrom_data_reg_read_handler env w 0x5f7080 N) := by
  obtain ⟨h1, h2, h3⟩ := gdrom_data_reg_read_loop_spec N w.bufq h
  have htake : ∀ l : List Nat, l.take (min N l.length) = l.take N := by
    intro l
    rcases Nat.le_total N l.length with hle | hle
    · rw [Nat.min_eq_left hle]
    · rw [Nat.min_eq_right hle, List.take_length, List.take_of_length_le hle]
  have hdrop : ∀ l : List Nat, l.drop (min N l.length) = l.drop N := by
    intro l
    rcases Nat.le_total N l.length with hle | hle
    · rw [Nat.min_eq_left hle]
    · rw [Nat.min_eq_right hle, List.drop_length, List.drop_eq_nil_of_le hle]
  rw [gdrom_data_reg_read_handler_eq, htake, hdrop]
  refine ⟨h1, ?_, ?_, rfl, ?_, fun hN => gdrom_reg_read_data env w N hN⟩
  · by_cases hq : (gdrom_data_reg_read_loop N w.bufq).2 = []
    · rw [if_pos hq, ← h2, hq]
    · rw [if_neg hq, ← h2]
  · by_cases hq : (gdrom_data_reg_read_loop N w.bufq).2 = []
    · rw [if_pos hq]
      intro n hn
      cases hn
    · rw [if_neg hq]
      exact h3
  · by_cases hq : (gdrom_data_reg_read_loop N w.bufq).2 = []
    · rw [if_pos hq]
    · rw [if_neg hq]

/-- Witness for C4: a 4-byte read from a queue with two bytes left gives those two bytes and two
zeros. -/
theorem C4_data_read_takes_queue_front_witness :
    (∀ n ∈ [({ idx := 1, len := 3, dat := [7, 8, 9] } : gdrom_bufq_node)], n.idx < n.len)
    ∧ (gdrom_data_reg_read_handler Env.sample
        { World.init with bufq := [{ idx := 1, len := 3, dat := [7, 8, 9] }] } 0x5f7080 4).buf
      = [8, 9, 0, 0] :=
  have h : ∀ n ∈ [({ idx := 1, len := 3, dat := [7, 8, 9] } : gdrom_bufq_node)],
      n.idx < n.len := by decide
  ⟨h, (C4_data_read_takes_queue_front Env.sample
      { World.init with bufq := [{ idx := 1, len := 3, dat := [7, 8, 9] }] } 0x5f7080 4 h).1⟩

/-- The world right after an IDENTIFY command, with the cursor of the queued
node advanced by `k` one-byte reads. -/
theorem data_reg_reads_after_identify (env : Env) (w : World) (k : Nat) (hk : k ≤ 79) :
    data_reg_reads env (gdrom_cmd_identify w) k
      = { gdrom_cmd_identify w with
          bufq := [{ idx := k, len := 80, dat := gdrom_ident_str }] } := by
  induction k with
  | zero => rfl
  | succ j ih =>
    have hj : j ≤ 79 := by omega
    have hlast : ¬ j + 1 ≥ 80 := by omega
    rw [data_reg_reads, ih hj, gdrom_reg_read_data _ _ 1 (by decide),
      gdrom_data_reg_read_handler_eq]
    simp [gdrom_data_reg_read_loop, bufq_consume_byte, hlast]

/-- C5: after a data-register read that leaves the queue empty, DRQ and BSY
are clear, DRDY is set, and the GD-ROM interrupt has been raised exactly when
NIEN is clear; after one that leaves the queue non-empty the status register
is unchanged and no call to the interrupt controller has been made.  After an
IDENTIFY command, each of the first 79 one-byte reads of the data register
leaves the queue non-empty with DRQ set, and the 80th leaves it empty with
DRDY set and DRQ and BSY clear. -/
theorem C5_read_completion_status (env : Env) (w : World) (buf : List Nat) (addr N len : Nat)
    (hlen : len ≤ 4) (hcmd : written_word buf len = GDROM_CMD_IDENTIFY) :
    ((gdrom_data_reg_read_handler env w addr N).w.bufq = [] →
        drq_signal (gdrom_data_reg_read_handler env w addr N).w = false
        ∧ bsy_signal (gdrom_data_reg_read_handler env w addr N).w = false
        ∧ flag (gdrom_data_reg_read_handler env w addr N).w.stat_reg STAT_DRDY_MASK = true
        ∧ (gdrom_data_reg_read_handler env w addr N).w.holly
            = if flag w.dev_ctrl_reg DEV_CTRL_NIEN_MASK then w.holly
              else w.holly ++ [holly_call.raise_ext_int])
    ∧ ((gdrom_data_reg_read_handler env w addr N).w.bufq ≠ [] →
        (gdrom_data_reg_read_handler env w addr N).w.stat_reg = w.stat_reg
        ∧ (gdrom_data_reg_read_handler env w addr N).w.holly = w.holly)
    ∧ (∀ k, k ≤ 79 →
        (data_reg_reads env (gdrom_reg_write env w buf 0x5f709c len).w k).bufq ≠ []
        ∧ drq_signal (data_reg_reads env (gdrom_reg_write env w buf 0x5f709c len).w k) = true)
    ∧ (data_reg_reads env (gdrom_reg_write env w buf 0x5f709c len).w 80).bufq = []
    ∧ flag (data_reg_reads env (gdrom_reg_write env w buf 0x5f709c len).w 80).stat_reg
        STAT_DRDY_MASK = true
    ∧ drq_signal (data_reg_reads env (gdrom_reg_write env w buf 0x5f709c len).w 80) = false
    ∧ bsy_signal (data_reg_reads env (gdrom_reg_write env w buf 0x5f709c len).w 80) = false := by
  rw [gdrom_reg_write_cmd env w buf len hlen,
    gdrom_cmd_reg_write_handler_identify env w buf _ len hcmd]
  refine ⟨?_, ?_, ?_, ?_⟩
  · rw [gdrom_data_reg_read_handler_eq]
    by_cases hq : (gdrom_data_reg_read_loop N w.bufq).2 = []
    · intro _
      simp only [if_pos hq, drq_signal, bsy_signal, ← flag.eq_1]
      simp +decide [-Nat.testBit_zero, testBit_mask_clear]
    · intro he
      simp only [if_neg hq] at he
      exact absurd he hq
  · rw [gdrom_data_reg_read_handler_eq]
    by_cases hq : (gdrom_data_reg_read_loop N w.bufq).2 = []
    · intro hne
      simp only [if_pos hq] at hne
      exact absurd rfl hne
    · intro _
      rw [if_neg hq]
      exact ⟨rfl, rfl⟩
  · intro k hk
    rw [data_reg_reads_after_identify env w k hk]
    refine ⟨by simp, ?_⟩
    simp only [gdrom_cmd_identify, raise_int_unless_nien_eq, bufq_clear, drq_signal, ← flag.eq_1]
    simp +decide [-Nat.testBit_zero, testBit_mask_clear]
  · have h80 : data_reg_reads env (gdrom_cmd_identify w) 80
        = (gdrom_reg_read env (data_reg_reads env (gdrom_cmd_identify w) 79) 0x5f7080 1).w := rfl
    rw [h80, data_reg_reads_after_identify env w 79 (by decide),
      gdrom_reg_read_data _ _ 1 (by decide), gdrom_data_reg_read_handler_eq]
    simp only [gdrom_data_reg_read_loop, bufq_consume_byte, drq_signal, bsy_signal, ← flag.eq_1]
    simp +decide [-Nat.testBit_zero, testBit_mask_clear]

/-- Witness for C5: IDENTIFY in the initial state followed by 80 one-byte reads empties the queue. -/
theorem C5_read_completion_status_witness :
    (4 ≤ 4) ∧ written_word [0xa1, 0, 0, 0] 4 = GDROM_CMD_IDENTIFY
    ∧ (data_reg_reads Env.sample
        (gdrom_reg_write Env.sample World.init [0xa1, 0, 0, 0] 0x5f709c 4).w 80).bufq = [] :=
  ⟨Nat.le_refl 4, written_word_le_bytes_a1,
    (C5_read_completion_status Env.sample World.init [0xa1, 0, 0, 0] 0x5f7080 1 4
      (Nat.le_refl 4) written_word_le_bytes_a1).2.2.2.1⟩

/-! ## Packet input through the data register -/

theorem pkt_buf_with_nil (p : Nat → Nat) (n : Nat) : pkt_buf_with p n [] = p := by
  funext i
  unfold pkt_buf_with
  split <;> rfl

theorem pkt_buf_with_store (p : Nat → Nat) (n a b : Nat) (cs : List Nat) :
    pkt_buf_with (Function.update (Function.update p n a) (n + 1) b) (n + 2) cs
      = pkt_buf_with p n (a :: b :: cs) := by
  funext i
  unfold pkt_buf_with
  by_cases h2 : n + 2 ≤ i
  · have h0 : n ≤ i := by omega
    have e : i - n = (i - (n + 2)) + 2 := by omega
    have hn1 : i ≠ n + 1 := by omega
    have hn0 : i ≠ n := by omega
    rw [if_pos h2, if_pos h0, e]
    simp [List.getD_cons_succ, Function.update_noteq hn1, Function.update_noteq hn0]
  · rw [if_neg h2]
    by_cases h1 : i = n + 1
    · subst h1
      simp
    · by_cases h0 : i = n
      · subst h0
        simp
      · have hlt : ¬ n ≤ i := by omega
        rw [if_neg hlt, Function.update_noteq h1, Function.update_noteq h0]

theorem packet_bytes_length (ws : List (List Nat × Nat)) :
    (packet_bytes ws).length = 2 * ws.length := by
  induction ws with
  | nil => rfl
  | cons x rest ih =>
    simp only [packet_bytes, word_bytes, List.length_append, List.length_cons, List.length_nil, ih]
    omega

theorem packet_bytes_append (a b : List (List Nat × Nat)) :
    packet_bytes (a ++ b) = packet_bytes a ++ packet_bytes b := by
  induction a with
  | nil => rfl
  | cons x rest ih =>
    show word_bytes x ++ packet_bytes (rest ++ b)
      = (word_bytes x ++ packet_bytes rest) ++ packet_bytes b
    rw [ih, List.append_assoc]

/-- A data-register write in state GDROM_STATE_INPUT_PKT that does not
complete the packet. -/
theorem gdrom_reg_write_data_accumulate (env : Env) (w : World) (x : List Nat × Nat)
    (hs : w.state = gdrom_state.GDROM_STATE_INPUT_PKT) (hn : w.n_bytes_received + 2 < 12)
    (hlen : x.2 ≤ 4) :
    gdrom_reg_write env w x.1 0x5f7080 x.2
      = { ret := Ret.MEM_ACCESS_SUCCESS, buf := [],
          w := { w with
                 pkt_buf := pkt_buf_with w.pkt_buf w.n_bytes_received (word_bytes x),
                 n_bytes_received := w.n_bytes_received + 2 } } := by
  have hmod : (w.n_bytes_received + 2) % 2 ^ 32 = w.n_bytes_received + 2 :=
    Nat.mod_eq_of_lt (by omega)
  have hge : ¬ w.n_bytes_received + 2 ≥ 12 := by omega
  rw [gdrom_reg_write_data env w x.1 x.2 hlen]
  unfold gdrom_data_reg_write_handler
  simp only [hs, if_true, hmod, if_neg hge]
  rw [← pkt_buf_with_nil
    (Function.update (Function.update w.pkt_buf w.n_bytes_received
      (memcpy_u32 0 x.1 (if x.2 < 4 then x.2 else 4) &&& 0xff)) (w.n_bytes_received + 1)
      ((memcpy_u32 0 x.1 (if x.2 < 4 then x.2 else 4) >>> 8) &&& 0xff)) (w.n_bytes_received + 2),
    pkt_buf_with_store]
  rfl

/-- The data-register write in state GDROM_STATE_INPUT_PKT that brings the
byte counter to 12: the packet is dispatched with the counter reset to 0. -/
theorem gdrom_reg_write_data_dispatch (env : Env) (w : World) (x : List Nat × Nat)
    (hs : w.state = gdrom_state.GDROM_STATE_INPUT_PKT) (hn : w.n_bytes_received = 10)
    (hlen : x.2 ≤ 4) :
    gdrom_reg_write env w x.1 0x5f7080 x.2
      = (gdrom_input_packet env
          { w with
            pkt_buf := pkt_buf_with w.pkt_buf 10 (word_bytes x),
            n_bytes_received := 0 }).returning Ret.MEM_ACCESS_SUCCESS := by
  rw [gdrom_reg_write_data env w x.1 x.2 hlen]
  unfold gdrom_data_reg_write_handler
  simp only [hs, if_true, hn]
  rw [← pkt_buf_with_nil
    (Function.update (Function.update w.pkt_buf 10
      (memcpy_u32 0 x.1 (if x.2 < 4 then x.2 else 4) &&& 0xff)) (10 + 1)
      ((memcpy_u32 0 x.1 (if x.2 < 4 then x.2 else 4) >>> 8) &&& 0xff)) (10 + 2),
    pkt_buf_with_store]
  rfl

theorem data_reg_writes_append (env : Env) (r : Result) (a b : List (List Nat × Nat)) :
    data_reg_writes env r (a ++ b) = data_reg_writes env (data_reg_writes env r a) b := by
  induction a generalizing r with
  | nil => rfl
  | cons x rest ih =>
    cases hr : r.ret with
    | RAISED e =>
      have h1 : data_reg_writes env r (x :: rest ++ b) = r := by
        show data_reg_writes env r (x :: (rest ++ b)) = r
        simp only [data_reg_writes, hr]
      have h2 : data_reg_writes env r (x :: rest) = r := by
        simp only [data_reg_writes, hr]
      rw [h1, h2]
      cases b with
      | nil => rfl
      | cons y bs => simp only [data_reg_writes, hr]
    | MEM_ACCESS_SUCCESS =>
      show data_reg_writes env r (x :: (rest ++ b)) = _
      simp only [data_reg_writes, hr, ih]
    | MEM_ACCESS_FAILURE =>
      show data_reg_writes env r (x :: (rest ++ b)) = _
      simp only [data_reg_writes, hr, ih]

theorem pkt_buf_with_append (p : Nat → Nat) (n : Nat) (bs cs : List Nat) :
    pkt_buf_with (pkt_buf_with p n bs) (n + bs.length) cs = pkt_buf_with p n (bs ++ cs) := by
  funext i
  unfold pkt_buf_with
  by_cases h2 : n + bs.length ≤ i
  · have h0 : n ≤ i := by omega
    have hge : bs.length ≤ i - n := by omega
    have e : i - (n + bs.length) = i - n - bs.length := by omega
    rw [if_pos h2, if_pos h0, if_pos h0, e, List.getD_append_right _ _ _ _ hge,
      List.getD_eq_default bs (p i) hge]
  · rw [if_neg h2]
    by_cases h0 : n ≤ i
    · have hlt : i - n < bs.length := by omega
      rw [if_pos h0, if_pos h0, List.getD_append _ _ _ _ hlt]
    · rw [if_neg h0, if_neg h0]

/-- Data-register writes that keep the byte counter below 12 only fill the
packet buffer. -/
theorem data_reg_writes_accumulate (env : Env) (ws : List (List Nat × Nat)) (r : Result)
    (hret : r.ret = Ret.MEM_ACCESS_SUCCESS) (hbuf : r.buf = [])
    (hs : r.w.state = gdrom_state.GDROM_STATE_INPUT_PKT)
    (hn : r.w.n_bytes_received + 2 * ws.length < 12) (hlen : ∀ x ∈ ws, x.2 ≤ 4) :
    data_reg_writes env r ws
      = { ret := Ret.MEM_ACCESS_SUCCESS, buf := [],
          w := { r.w with
                 pkt_buf := pkt_buf_with r.w.pkt_buf r.w.n_bytes_received (packet_bytes ws),
                 n_bytes_received := r.w.n_bytes_received + 2 * ws.length } } := by
  induction ws generalizing r with
  | nil =>
    cases r with
    | mk ret buf w =>
      simp only at hret hbuf
      subst hret hbuf
      simp only [data_reg_writes, packet_bytes, pkt_buf_with_nil, List.length_nil, Nat.mul_zero,
        Nat.add_zero]
  | cons x rest ih =>
    have hx : x.2 ≤ 4 := hlen x (List.mem_cons_self _ _)
    have hrest : ∀ y ∈ rest, y.2 ≤ 4 := fun y hy => hlen y (List.mem_cons_of_mem _ hy)
    have hlen2 : (x :: rest).length = rest.length + 1 := rfl
    have hn1 : r.w.n_bytes_received + 2 < 12 := by omega
    have hstep := gdrom_reg_write_data_accumulate env r.w x hs hn1 hx
    have hr' := ih (gdrom_reg_write env r.w x.1 0x5f7080 x.2) (by rw [hstep]) (by rw [hstep])
      (by rw [hstep]; exact hs) (by rw [hstep]; simp only; omega) hrest
    simp only [data_reg_writes, hret]
    rw [hr', hstep]
    simp only [packet_bytes]
    have e : r.w.n_bytes_received + 2 = r.w.n_bytes_received + (word_bytes x).length := rfl
    rw [e, pkt_buf_with_append]
    have e2 : r.w.n_bytes_received + (word_bytes x).length + 2 * rest.length
        = r.w.n_bytes_received + 2 * (x :: rest).length := by
      simp only [word_bytes, List.length_cons, List.length_nil]
      omega
    rw [e2]

/-- Six data-register writes after the byte counter was reset: the sixth
dispatches the packet made of their twelve bytes. -/
theorem data_reg_writes_six (env : Env) (ws : List (List Nat × Nat)) (r : Result)
    (hret : r.ret = Ret.MEM_ACCESS_SUCCESS) (hbuf : r.buf = [])
    (hs : r.w.state = gdrom_state.GDROM_STATE_INPUT_PKT) (hn : r.w.n_bytes_received = 0)
    (h6 : ws.length = 6) (hlen : ∀ x ∈ ws, x.2 ≤ 4) :
    data_reg_writes env r ws
      = (gdrom_input_packet env
          { r.w with
            pkt_buf := pkt_buf_with r.w.pkt_buf 0 (packet_bytes ws),
            n_bytes_received := 0 }).returning Ret.MEM_ACCESS_SUCCESS := by
  have hne : ws ≠ [] := by
    intro h
    rw [h] at h6
    cases h6
  have hsplit := List.dropLast_append_getLast hne
  have hdl : ws.dropLast.length = 5 := by rw [List.length_dropLast, h6]
  have hdlen : ∀ x ∈ ws.dropLast, x.2 ≤ 4 :=
    fun x hx => hlen x (List.dropLast_subset ws hx)
  have hlast : (ws.getLast hne).2 ≤ 4 := hlen _ (List.getLast_mem hne)
  have hacc := data_reg_writes_accumulate env ws.dropLast r hret hbuf hs (by omega) hdlen
  have h5r : (data_reg_writes env r ws.dropLast).ret = Ret.MEM_ACCESS_SUCCESS := by rw [hacc]
  have h5s : (data_reg_writes env r ws.dropLast).w.state = gdrom_state.GDROM_STATE_INPUT_PKT := by
    rw [hacc]
    exact hs
  have h5n : (data_reg_writes env r ws.dropLast).w.n_bytes_received = 10 := by
    rw [hacc]
    simp only
    omega
  have hd := gdrom_reg_write_data_dispatch env (data_reg_writes env r ws.dropLast).w
    (ws.getLast hne) h5s h5n hlast
  have hgoal : data_reg_writes env r (ws.dropLast ++ [ws.getLast hne])
      = (gdrom_input_packet env
          { r.w with
            pkt_buf := pkt_buf_with r.w.pkt_buf 0
              (packet_bytes (ws.dropLast ++ [ws.getLast hne])),
            n_bytes_received := 0 }).returning Ret.MEM_ACCESS_SUCCESS := by
    rw [data_reg_writes_append]
    simp only [data_reg_writes, h5r]
    rw [hd, hacc, packet_bytes_append]
    have e10 : 10 = r.w.n_bytes_received + (packet_bytes ws.dropLast).length := by
      rw [packet_bytes_length, hdl, hn]
    have ew : packet_bytes [ws.getLast hne] = word_bytes (ws.getLast hne) := by
      simp only [packet_bytes, List.append_nil]
    rw [ew]
    simp only
    rw [e10, pkt_buf_with_append, hn]
  rw [hsplit] at hgoal
  exact hgoal

theorem packet_bytes_getD (ws : List (List Nat × Nat)) (k d : Nat) (y : List Nat × Nat)
    (h : ws[k]? = some y) :
    (packet_bytes ws).getD (2 * k) d = written_word y.1 y.2 &&& 0xff
    ∧ (packet_bytes ws).getD (2 * k + 1) d = (written_word y.1 y.2 >>> 8) &&& 0xff := by
  induction ws generalizing k with
  | nil => simp at h
  | cons x rest ih =>
    cases k with
    | zero =>
      simp only [List.getElem?_cons_zero, Option.some.injEq] at h
      subst h
      exact ⟨rfl, rfl⟩
    | succ j =>
      simp only [List.getElem?_cons_succ] at h
      have e0 : 2 * (j + 1) = 2 * j + 1 + 1 := by omega
      obtain ⟨i0, i1⟩ := ih j h
      rw [e0]
      simp only [packet_bytes, word_bytes, List.cons_append, List.nil_append,
        List.getD_cons_succ]
      exact ⟨i0, i1⟩

theorem and_255_mod (x : Nat) : (x &&& 0xff) % 256 = x &&& 0xff :=
  Nat.mod_eq_of_lt (Nat.lt_of_le_of_lt Nat.and_le_right (by decide))

/-! ## Packet dispatch -/

theorem input_packet_entry_eq (w : World) :
    input_packet_entry w
      = { w with
          stat_reg := mask_clear w.stat_reg (STAT_DRQ_MASK ||| STAT_BSY_MASK),
          holly := if flag w.dev_ctrl_reg DEV_CTRL_NIEN_MASK then w.holly
                   else w.holly ++ [holly_call.raise_ext_int] } := by
  unfold input_packet_entry
  rw [raise_int_unless_nien_eq]

theorem gdrom_input_packet_eq (env : Env) (w : World) :
    gdrom_input_packet env w =
      if pkt_byte w 0 = GDROM_PKT_TEST_UNIT then
        { raised := none, w := gdrom_input_test_unit_packet env (input_packet_entry w) }
      else if pkt_byte w 0 = GDROM_PKT_REQ_STAT then
        { raised := none,
          w := { input_packet_entry w with state := gdrom_state.GDROM_STATE_NORM } }
      else if pkt_byte w 0 = GDROM_PKT_REQ_MODE then
        { raised := none, w := gdrom_input_req_mode_packet (input_packet_entry w) }
      else if pkt_byte w 0 = GDROM_PKT_SET_MODE then
        gdrom_input_set_mode_packet (input_packet_entry w)
      else if pkt_byte w 0 = GDROM_PKT_REQ_ERROR then
        { raised := none, w := gdrom_input_req_error_packet (input_packet_entry w) }
      else if pkt_byte w 0 = GDROM_PKT_START_DISK then
        { raised := none, w := gdrom_input_start_disk_packet (input_packet_entry w) }
      else if pkt_byte w 0 = GDROM_PKT_READ_TOC then
        { raised := none, w := gdrom_input_read_toc_packet env (input_packet_entry w) }
      else if pkt_byte w 0 = GDROM_PKT_READ then
        gdrom_input_read_packet env (input_packet_entry w)
      else if pkt_byte w 0 = GDROM_PKT_UNKNOWN_71 then
        { raised := none, w := gdrom_input_packet_71 (input_packet_entry w) }
      else
        { raised := some error_type.ERROR_UNIMPLEMENTED,
          w := error_set_gdrom_command
            (error_set_feature (input_packet_entry w) "unknown GD-ROM packet command")
            (pkt_byte w 0) } := by
  have hp : pkt_byte (input_packet_entry w) 0 = pkt_byte w 0 := by
    rw [input_packet_entry_eq]
    rfl
  unfold gdrom_input_packet
  simp only [← input_packet_entry.eq_1, hp]

theorem packet_bytes_lt (ws : List (List Nat × Nat)) : ∀ b ∈ packet_bytes ws, b < 256 := by
  induction ws with
  | nil => intro b hb; cases hb
  | cons x rest ih =>
    intro b hb
    simp only [packet_bytes, word_bytes, List.cons_append, List.nil_append, List.mem_cons] at hb
    rcases hb with rfl | rfl | hb
    · exact Nat.lt_of_le_of_lt Nat.and_le_right (by decide)
    · exact Nat.lt_of_le_of_lt Nat.and_le_right (by decide)
    · exact ih b hb

/-- The bytes of the packet buffer seen by the packet handlers after six
data-register writes. -/
theorem pkt_byte_after_writes (w : World) (p : Nat → Nat) (ws : List (List Nat × Nat))
    (i : Nat) (h6 : ws.length = 6) (hi : i < 12)
    (hp : w.pkt_buf = pkt_buf_with p 0 (packet_bytes ws)) :
    pkt_byte w i = (packet_bytes ws).getD i 0 := by
  have hlen : (packet_bytes ws).length = 12 := by rw [packet_bytes_length, h6]
  have hil : i < (packet_bytes ws).length := by rw [hlen]; exact hi
  unfold pkt_byte
  rw [hp]
  simp only [pkt_buf_with, Nat.zero_le, if_true, Nat.sub_zero]
  rw [List.getD_eq_getElem _ _ hil, List.getD_eq_getElem _ _ hil]
  exact Nat.mod_eq_of_lt (packet_bytes_lt ws _ (List.getElem_mem hil))

theorem packet_command_eq (env : Env) (w : World) (cbuf : List Nat) (clen : Nat)
    (ws : List (List Nat × Nat)) (hclen : clen ≤ 4)
    (hcmd : written_word cbuf clen = GDROM_CMD_PKT) (h6 : ws.length = 6)
    (hws : ∀ y ∈ ws, y.2 ≤ 4) :
    packet_command env w cbuf clen ws
      = (gdrom_input_packet env
          { gdrom_cmd_begin_packet w with
            pkt_buf := pkt_buf_with w.pkt_buf 0 (packet_bytes ws),
            n_bytes_received := 0 }).returning Ret.MEM_ACCESS_SUCCESS := by
  unfold packet_command
  rw [gdrom_reg_write_cmd env w cbuf clen hclen,
    gdrom_cmd_reg_write_handler_pkt env w cbuf _ clen hcmd]
  exact data_reg_writes_six env ws
    { ret := Ret.MEM_ACCESS_SUCCESS, buf := [], w := gdrom_cmd_begin_packet w }
    rfl rfl rfl rfl h6 hws

/-- C3: a PACKET command followed by six data-register writes whose first
byte is TEST_UNIT_READY (0x00) returns success and leaves the protocol state
NORMAL, BSY and DRQ clear, DRDY set, COD and IO set in the interrupt-reason
register.  CHECK is set exactly when `mount_check` reports no medium; with no
medium the sense key is NOT_READY (2) and additional_sense is NO_DISC (0x3a),
with a medium the error register is zero. -/
theorem C3_test_unit_ready_packet (env : Env) (w : World) (cbuf : List Nat) (clen : Nat)
    (ws : List (List Nat × Nat)) (hclen : clen ≤ 4)
    (hcmd : written_word cbuf clen = GDROM_CMD_PKT) (h6 : ws.length = 6)
    (hws : ∀ y ∈ ws, y.2 ≤ 4)
    (hop : (packet_bytes ws).getD 0 0 = GDROM_PKT_TEST_UNIT) :
    (packet_command env w cbuf clen ws).ret = Ret.MEM_ACCESS_SUCCESS
    ∧ (packet_command env w cbuf clen ws).w.state = gdrom_state.GDROM_STATE_NORM
    ∧ bsy_signal (packet_command env w cbuf clen ws).w = false
    ∧ drq_signal (packet_command env w cbuf clen ws).w = false
    ∧ flag (packet_command env w cbuf clen ws).w.stat_reg STAT_DRDY_MASK = true
    ∧ flag (packet_command env w cbuf clen ws).w.int_reason_reg INT_REASON_COD_MASK = true
    ∧ flag (packet_command env w cbuf clen ws).w.int_reason_reg INT_REASON_IO_MASK = true
    ∧ flag (packet_command env w cbuf clen ws).w.stat_reg STAT_CHECK_MASK = !env.mount_check
    ∧ (env.mount_check = false →
        (packet_command env w cbuf clen ws).w.error_reg.sense_key = SENSE_KEY_NOT_READY
        ∧ (packet_command env w cbuf clen ws).w.additional_sense = ADDITIONAL_SENSE_NO_DISC)
    ∧ (env.mount_check = true →
        (packet_command env w cbuf clen ws).w.error_reg = error_reg_zero
        ∧ error_reg_raw (packet_command env w cbuf clen ws).w.error_reg = 0) := by
  have hb : pkt_byte { gdrom_cmd_begin_packet w with
        pkt_buf := pkt_buf_with w.pkt_buf 0 (packet_bytes ws),
        n_bytes_received := 0 } 0 = GDROM_PKT_TEST_UNIT := by
    rw [pkt_byte_after_writes _ w.pkt_buf ws 0 h6 (by decide) rfl, hop]
  rw [packet_command_eq env w cbuf clen ws hclen hcmd h6 hws, gdrom_input_packet_eq, if_pos hb]
  simp only [Exec.returning, gdrom_input_test_unit_packet, input_packet_entry_eq,
    gdrom_cmd_begin_packet, bsy_signal, drq_signal, ← flag.eq_1]
  cases hm : env.mount_check
  · simp +decide [-Nat.testBit_zero, testBit_mask_clear, SENSE_KEY_NOT_READY,
      ADDITIONAL_SENSE_NO_DISC]
  · simp +decide [-Nat.testBit_zero, testBit_mask_clear, error_reg_raw_zero]

/-- Witness for C3 with no disc mounted: CHECK is set and the state is NORMAL after the packet. -/
theorem C3_test_unit_ready_packet_witness :
    (1 ≤ 4) ∧ written_word [0xa0] 1 = GDROM_CMD_PKT
    ∧ (packet_bytes [([0, 0], 2), ([0, 0], 2), ([0, 0], 2), ([0, 0], 2), ([0, 0], 2),
        ([0, 0], 2)]).getD 0 0 = GDROM_PKT_TEST_UNIT
    ∧ flag (packet_command Env.no_disc World.init [0xa0] 1
        [([0, 0], 2), ([0, 0], 2), ([0, 0], 2), ([0, 0], 2), ([0, 0], 2), ([0, 0], 2)]).w.stat_reg
        STAT_CHECK_MASK = true
    ∧ (packet_command Env.no_disc World.init [0xa0] 1
        [([0, 0], 2), ([0, 0], 2), ([0, 0], 2), ([0, 0], 2), ([0, 0], 2), ([0, 0], 2)]).w.state
        = gdrom_state.GDROM_STATE_NORM :=
  have t := C3_test_unit_ready_packet Env.no_disc World.init [0xa0] 1
    [([0, 0], 2), ([0, 0], 2), ([0, 0], 2), ([0, 0], 2), ([0, 0], 2), ([0, 0], 2)]
    (by decide) written_word_le_bytes_a0 rfl (by decide) (by decide)
  ⟨by decide, written_word_le_bytes_a0, by decide, t.2.2.2.2.2.2.2.1, t.2.1⟩

/-! ## State after a dispatched packet -/

theorem reads_succeed_succ (env : Env) (first fad k : Nat) :
    reads_succeed env first fad (k + 1)
      ↔ (env.mount_read_sectors first fad 1).isSome = true
        ∧ reads_succeed env (first + 1) fad k := by
  unfold reads_succeed
  constructor
  · intro h
    refine ⟨by simpa using h 0 (Nat.succ_pos k), ?_⟩
    intro i hi
    have := h (i + 1) (Nat.succ_lt_succ hi)
    rwa [Nat.add_assoc, Nat.add_comm 1 i]
  · intro h i hi
    cases i with
    | zero => simpa using h.1
    | succ j =>
      have := h.2 j (Nat.lt_of_succ_lt_succ hi)
      rwa [Nat.add_assoc, Nat.add_comm 1 j] at this

/-- The sector loop of a READ packet: it runs to the end exactly when every
sector read succeeds; then it leaves the protocol state alone, otherwise it
sets it to NORMAL.  It never changes the features register. -/
theorem gdrom_input_read_packet_loop_spec (env : Env) (fad k : Nat) (w : World) :
    ((gdrom_input_read_packet_loop env fad k w).2 = true
        ↔ reads_succeed env w.mount_reads.length fad k)
    ∧ ((gdrom_input_read_packet_loop env fad k w).2 = true →
        (gdrom_input_read_packet_loop env fad k w).1.state = w.state)
    ∧ ((gdrom_input_read_packet_loop env fad k w).2 = false →
        (gdrom_input_read_packet_loop env fad k w).1.state = gdrom_state.GDROM_STATE_NORM)
    ∧ (gdrom_input_read_packet_loop env fad k w).1.feat_reg = w.feat_reg := by
  induction k generalizing w with
  | zero =>
    refine ⟨⟨fun _ i hi => absurd hi (Nat.not_lt_zero i), fun _ => rfl⟩,
      fun _ => rfl, ?_, rfl⟩
    intro h
    cases h
  | succ j ih =>
    rw [reads_succeed_succ]
    cases hans : env.mount_read_sectors w.mount_reads.length fad 1 with
    | none =>
      simp only [gdrom_input_read_packet_loop, hans]
      simp
    | some dat =>
      simp only [gdrom_input_read_packet_loop, hans]
      have hi := ih { w with
        mount_reads := w.mount_reads ++ [(fad, 1)],
        bufq := w.bufq ++ [{ idx := 0, len := env.CDROM_FRAME_DATA_SIZE, dat := dat }] }
      simp only [List.length_append, List.length_singleton] at hi
      simpa using hi

theorem gdrom_input_test_unit_packet_state (env : Env) (w : World) :
    (gdrom_input_test_unit_packet env w).state = gdrom_state.GDROM_STATE_NORM := by
  unfold gdrom_input_test_unit_packet
  cases env.mount_check <;> rfl

theorem gdrom_input_read_packet_tail_spec (r : World × Bool) :
    (gdrom_input_read_packet_tail r).raised = none
    ∧ (r.2 = false → (gdrom_input_read_packet_tail r).w = r.1)
    ∧ (r.2 = true → flag r.1.feat_reg FEAT_REG_DMA_MASK = true →
        (gdrom_input_read_packet_tail r).w = r.1)
    ∧ (r.2 = true → flag r.1.feat_reg FEAT_REG_DMA_MASK = false →
        (gdrom_input_read_packet_tail r).w.state = gdrom_state.GDROM_STATE_NORM) := by
  unfold gdrom_input_read_packet_tail
  cases h2 : r.2
  · simp
  · have hne : ¬ (true = false) := by decide
    by_cases hd : r.1.feat_reg &&& FEAT_REG_DMA_MASK = 0
    · have hf : flag r.1.feat_reg FEAT_REG_DMA_MASK = false := by
        unfold flag
        rw [hd]
        rfl
      have hn : ¬ (r.1.feat_reg &&& FEAT_REG_DMA_MASK ≠ 0) := fun h => h hd
      simp only [if_neg hne, if_neg hn, hf]
      refine ⟨trivial, fun h => absurd h hne, fun _ h => ?_, fun _ _ => trivial⟩
      cases h
    · have hf : flag r.1.feat_reg FEAT_REG_DMA_MASK = true := by
        unfold flag
        exact bne_iff_ne.mpr hd
      have hn : r.1.feat_reg &&& FEAT_REG_DMA_MASK ≠ 0 := hd
      simp only [if_neg hne, if_pos hn, hf]
      refine ⟨trivial, fun h => absurd h hne, fun _ _ => trivial, fun _ h => ?_⟩
      cases h

/-- The protocol state after `gdrom_input_read_packet` returns. -/
theorem gdrom_input_read_packet_state (env : Env) (w : World)
    (hr : (gdrom_input_read_packet env w).raised = none) :
    ((flag w.feat_reg FEAT_REG_DMA_MASK = true
        ∧ reads_succeed env w.mount_reads.length
            (((pkt_byte w 2) <<< 16) ||| ((pkt_byte w 3) <<< 8) ||| pkt_byte w 4)
            (((pkt_byte w 8) <<< 16) ||| ((pkt_byte w 9) <<< 8) ||| pkt_byte w 10)) →
      (gdrom_input_read_packet env w).w.state = w.state)
    ∧ (¬ (flag w.feat_reg FEAT_REG_DMA_MASK = true
        ∧ reads_succeed env w.mount_reads.length
            (((pkt_byte w 2) <<< 16) ||| ((pkt_byte w 3) <<< 8) ||| pkt_byte w 4)
            (((pkt_byte w 8) <<< 16) ||| ((pkt_byte w 9) <<< 8) ||| pkt_byte w 10)) →
      (gdrom_input_read_packet env w).w.state = gdrom_state.GDROM_STATE_NORM) := by
  by_cases h1 : pkt_byte w 1 >>> 4 ≠ 0x2
  · simp only [gdrom_input_read_packet, if_pos h1] at hr
    cases hr
  by_cases h2 : pkt_byte w 1 &&& 1 ≠ 0
  · simp only [gdrom_input_read_packet, if_neg h1, if_pos h2] at hr
    cases hr
  obtain ⟨l1, l2, l3, l4⟩ := gdrom_input_read_packet_loop_spec env
    (((pkt_byte w 2) <<< 16) ||| ((pkt_byte w 3) <<< 8) ||| pkt_byte w 4)
    (((pkt_byte w 8) <<< 16) ||| ((pkt_byte w 9) <<< 8) ||| pkt_byte w 10)
    { bufq_clear w with
      data_byte_count := (env.CDROM_FRAME_DATA_SIZE
        * (((pkt_byte w 8) <<< 16) ||| ((pkt_byte w 9) <<< 8) ||| pkt_byte w 10)) % 2 ^ 32 }
  simp only [gdrom_input_read_packet, if_neg h1, if_neg h2]
  generalize gdrom_input_read_packet_loop env
    (((pkt_byte w 2) <<< 16) ||| ((pkt_byte w 3) <<< 8) ||| pkt_byte w 4)
    (((pkt_byte w 8) <<< 16) ||| ((pkt_byte w 9) <<< 8) ||| pkt_byte w 10)
    { bufq_clear w with
      data_byte_count := (env.CDROM_FRAME_DATA_SIZE
        * (((pkt_byte w 8) <<< 16) ||| ((pkt_byte w 9) <<< 8) ||| pkt_byte w 10)) % 2 ^ 32 }
    = L at l1 l2 l3 l4 ⊢
  have hst : ({ bufq_clear w with
      data_byte_count := (env.CDROM_FRAME_DATA_SIZE
        * (((pkt_byte w 8) <<< 16) ||| ((pkt_byte w 9) <<< 8) ||| pkt_byte w 10)) % 2 ^ 32 }
      : World).state = w.state := rfl
  have hfe : ({ bufq_clear w with
      data_byte_count := (env.CDROM_FRAME_DATA_SIZE
        * (((pkt_byte w 8) <<< 16) ||| ((pkt_byte w 9) <<< 8) ||| pkt_byte w 10)) % 2 ^ 32 }
      : World).feat_reg = w.feat_reg := rfl
  have hmr : ({ bufq_clear w with
      data_byte_count := (env.CDROM_FRAME_DATA_SIZE
        * (((pkt_byte w 8) <<< 16) ||| ((pkt_byte w 9) <<< 8) ||| pkt_byte w 10)) % 2 ^ 32 }
      : World).mount_reads.length = w.mount_reads.length := rfl
  rw [hst] at l2
  rw [hfe] at l4
  rw [hmr] at l1
  obtain ⟨_, t1, t2, t3⟩ := gdrom_input_read_packet_tail_spec L
  cases hL2 : L.2
  · have hfail : ¬ reads_succeed env w.mount_reads.length
        (((pkt_byte w 2) <<< 16) ||| ((pkt_byte w 3) <<< 8) ||| pkt_byte w 4)
        (((pkt_byte w 8) <<< 16) ||| ((pkt_byte w 9) <<< 8) ||| pkt_byte w 10) := by
      intro hs
      rw [l1.mpr hs] at hL2
      cases hL2
    refine ⟨fun h => absurd h.2 hfail, fun _ => ?_⟩
    rw [t1 hL2]
    exact l3 hL2
  · have hsucc := l1.mp hL2
    cases hd : flag w.feat_reg FEAT_REG_DMA_MASK
    · refine ⟨fun h => ?_, fun _ => t3 hL2 (by rw [l4]; exact hd)⟩
      cases h.1
    · refine ⟨fun _ => ?_, fun h => absurd ⟨rfl, hsucc⟩ h⟩
      rw [t2 hL2 (by rw [l4]; exact hd)]
      exact l2 hL2

theorem pkt_byte_input_packet_entry (w : World) (i : Nat) :
    pkt_byte (input_packet_entry w) i = pkt_byte w i := by
  rw [input_packet_entry_eq]
  rfl

theorem input_packet_entry_feat_reg (w : World) :
    (input_packet_entry w).feat_reg = w.feat_reg := by
  rw [input_packet_entry_eq]

theorem input_packet_entry_mount_reads (w : World) :
    (input_packet_entry w).mount_reads = w.mount_reads := by
  rw [input_packet_entry_eq]

theorem input_packet_entry_state (w : World) :
    (input_packet_entry w).state = w.state := by
  rw [input_packet_entry_eq]

/-- The protocol state after `gdrom_input_packet` has dispatched a packet
other than SET_MODE and returned. -/
theorem gdrom_input_packet_state (env : Env) (w : World)
    (hr : (gdrom_input_packet env w).raised = none)
    (hop : pkt_byte w 0 ≠ GDROM_PKT_SET_MODE) :
    ((pkt_byte w 0 = GDROM_PKT_READ ∧ flag w.feat_reg FEAT_REG_DMA_MASK = true
        ∧ reads_succeed env w.mount_reads.length
            (((pkt_byte w 2) <<< 16) ||| ((pkt_byte w 3) <<< 8) ||| pkt_byte w 4)
            (((pkt_byte w 8) <<< 16) ||| ((pkt_byte w 9) <<< 8) ||| pkt_byte w 10)) →
      (gdrom_input_packet env w).w.state = w.state)
    ∧ (¬ (pkt_byte w 0 = GDROM_PKT_READ ∧ flag w.feat_reg FEAT_REG_DMA_MASK = true
        ∧ reads_succeed env w.mount_reads.length
            (((pkt_byte w 2) <<< 16) ||| ((pkt_byte w 3) <<< 8) ||| pkt_byte w 4)
            (((pkt_byte w 8) <<< 16) ||| ((pkt_byte w 9) <<< 8) ||| pkt_byte w 10)) →
      (gdrom_input_packet env w).w.state = gdrom_state.GDROM_STATE_NORM) := by
  rw [gdrom_input_packet_eq] at hr ⊢
  by_cases h0 : pkt_byte w 0 = GDROM_PKT_TEST_UNIT
  · rw [if_pos h0]
    have hne : pkt_byte w 0 ≠ GDROM_PKT_READ := by rw [h0]; decide
    exact ⟨fun h => absurd h.1 hne, fun _ => gdrom_input_test_unit_packet_state env _⟩
  rw [if_neg h0] at hr ⊢
  by_cases h1 : pkt_byte w 0 = GDROM_PKT_REQ_STAT
  · rw [if_pos h1]
    have hne : pkt_byte w 0 ≠ GDROM_PKT_READ := by rw [h1]; decide
    exact ⟨fun h => absurd h.1 hne, fun _ => rfl⟩
  rw [if_neg h1] at hr ⊢
  by_cases h2 : pkt_byte w 0 = GDROM_PKT_REQ_MODE
  · rw [if_pos h2]
    have hne : pkt_byte w 0 ≠ GDROM_PKT_READ := by rw [h2]; decide
    exact ⟨fun h => absurd h.1 hne, fun _ => rfl⟩
  rw [if_neg h2, if_neg hop] at hr ⊢
  by_cases h3 : pkt_byte w 0 = GDROM_PKT_REQ_ERROR
  · rw [if_pos h3]
    have hne : pkt_byte w 0 ≠ GDROM_PKT_READ := by rw [h3]; decide
    exact ⟨fun h => absurd h.1 hne, fun _ => rfl⟩
  rw [if_neg h3] at hr ⊢
  by_cases h4 : pkt_byte w 0 = GDROM_PKT_START_DISK
  · rw [if_pos h4]
    have hne : pkt_byte w 0 ≠ GDROM_PKT_READ := by rw [h4]; decide
    exact ⟨fun h => absurd h.1 hne, fun _ => rfl⟩
  rw [if_neg h4] at hr ⊢
  by_cases h5 : pkt_byte w 0 = GDROM_PKT_READ_TOC
  · rw [if_pos h5]
    have hne : pkt_byte w 0 ≠ GDROM_PKT_READ := by rw [h5]; decide
    exact ⟨fun h => absurd h.1 hne, fun _ => rfl⟩
  rw [if_neg h5] at hr ⊢
  by_cases h6 : pkt_byte w 0 = GDROM_PKT_READ
  · rw [if_pos h6] at hr ⊢
    have hs := gdrom_input_read_packet_state env (input_packet_entry w) hr
    simp only [pkt_byte_input_packet_entry, input_packet_entry_feat_reg,
      input_packet_entry_mount_reads, input_packet_entry_state] at hs
    exact ⟨fun h => hs.1 h.2, fun h => hs.2 (fun h' => h ⟨h6, h'⟩)⟩
  rw [if_neg h6] at hr ⊢
  by_cases h7 : pkt_byte w 0 = GDROM_PKT_UNKNOWN_71
  · rw [if_pos h7]
    exact ⟨fun h => absurd h.1 h6, fun _ => rfl⟩
  rw [if_neg h7] at hr
  cases hr

theorem returning_ret_success (e : Exec)
    (h : (e.returning Ret.MEM_ACCESS_SUCCESS).ret = Ret.MEM_ACCESS_SUCCESS) :
    e.raised = none := by
  unfold Exec.returning at h
  cases hr : e.raised with
  | none => rfl
  | some err =>
    rw [hr] at h
    cases h

theorem returning_w (e : Exec) (ret : Ret) : (e.returning ret).w = e.w := by
  unfold Exec.returning
  cases e.raised <;> rfl

/-- The protocol state after a PACKET command and the six data-register
writes of a packet other than SET_MODE, when the dispatch returned. -/
theorem packet_command_state (env : Env) (w : World) (cbuf : List Nat) (clen : Nat)
    (ws : List (List Nat × Nat)) (hclen : clen ≤ 4)
    (hcmd : written_word cbuf clen = GDROM_CMD_PKT) (h6 : ws.length = 6)
    (hws : ∀ y ∈ ws, y.2 ≤ 4)
    (hret : (packet_command env w cbuf clen ws).ret = Ret.MEM_ACCESS_SUCCESS)
    (hop : (packet_bytes ws).getD 0 0 ≠ GDROM_PKT_SET_MODE) :
    (((packet_bytes ws).getD 0 0 = GDROM_PKT_READ
        ∧ flag w.feat_reg FEAT_REG_DMA_MASK = true
        ∧ reads_succeed env w.mount_reads.length (read_start_addr (packet_bytes ws))
            (read_trans_len (packet_bytes ws))) →
      (packet_command env w cbuf clen ws).w.state = gdrom_state.GDROM_STATE_INPUT_PKT)
    ∧ (¬ ((packet_bytes ws).getD 0 0 = GDROM_PKT_READ
        ∧ flag w.feat_reg FEAT_REG_DMA_MASK = true
        ∧ reads_succeed env w.mount_reads.length (read_start_addr (packet_bytes ws))
            (read_trans_len (packet_bytes ws))) →
      (packet_command env w cbuf clen ws).w.state = gdrom_state.GDROM_STATE_NORM) := by
  have hb : ∀ i, i < 12 →
      pkt_byte { gdrom_cmd_begin_packet w with
        pkt_buf := pkt_buf_with w.pkt_buf 0 (packet_bytes ws),
        n_bytes_received := 0 } i = (packet_bytes ws).getD i 0 :=
    fun i hi => pkt_byte_after_writes _ w.pkt_buf ws i h6 hi rfl
  rw [packet_command_eq env w cbuf clen ws hclen hcmd h6 hws] at hret ⊢
  have hr := returning_ret_success _ hret
  rw [returning_w]
  have hs := gdrom_input_packet_state env _ hr (by rw [hb 0 (by decide)]; exact hop)
  rw [hb 0 (by decide), hb 2 (by decide), hb 3 (by decide), hb 4 (by decide),
    hb 8 (by decide), hb 9 (by decide), hb 10 (by decide)] at hs
  exact hs

theorem gdrom_input_read_packet_loop_pkt_buf (env : Env) (fad k : Nat) (w : World) :
    (gdrom_input_read_packet_loop env fad k w).1.pkt_buf = w.pkt_buf := by
  induction k generalizing w with
  | zero => rfl
  | succ j ih =>
    cases hans : env.mount_read_sectors w.mount_reads.length fad 1 with
    | none => simp only [gdrom_input_read_packet_loop, hans]
    | some dat =>
      simp only [gdrom_input_read_packet_loop, hans]
      rw [ih]

theorem gdrom_input_read_packet_tail_pkt_buf (r : World × Bool) :
    (gdrom_input_read_packet_tail r).w.pkt_buf = r.1.pkt_buf := by
  unfold gdrom_input_read_packet_tail
  simp only [raise_int_unless_nien_eq]
  split
  · rfl
  · split <;> rfl

theorem gdrom_input_read_packet_pkt_buf (env : Env) (w : World) :
    (gdrom_input_read_packet env w).w.pkt_buf = w.pkt_buf := by
  unfold gdrom_input_read_packet
  simp only []
  split
  · rfl
  · split
    · rfl
    · rw [gdrom_input_read_packet_tail_pkt_buf, gdrom_input_read_packet_loop_pkt_buf]
      rfl

/-- No packet handler writes to the packet buffer. -/
theorem gdrom_input_packet_pkt_buf (env : Env) (w : World) :
    (gdrom_input_packet env w).w.pkt_buf = w.pkt_buf := by
  have he : (input_packet_entry w).pkt_buf = w.pkt_buf := by
    rw [input_packet_entry_eq]
  rw [gdrom_input_packet_eq]
  split
  · unfold gdrom_input_test_unit_packet
    cases env.mount_check <;> exact he
  split
  · exact he
  split
  · unfold gdrom_input_req_mode_packet
    simp only [raise_int_unless_nien_eq, bufq_clear]
    split <;> exact he
  split
  · unfold gdrom_input_set_mode_packet
    simp only []
    split <;> exact he
  split
  · unfold gdrom_input_req_error_packet
    simp only [raise_int_unless_nien_eq, bufq_clear]
    split <;> split <;> exact he
  split
  · exact he
  split
  · unfold gdrom_input_read_toc_packet
    simp only [raise_int_unless_nien_eq, bufq_clear]
    exact he
  split
  · rw [gdrom_input_read_packet_pkt_buf]
    exact he
  split
  · unfold gdrom_input_packet_71
    simp only [raise_int_unless_nien_eq, bufq_clear]
    exact he
  · exact he

/-- A data-register write in state GDROM_STATE_INPUT_PKT stores exactly the
two bytes of the written word at the byte counter, whether or not it
completes the packet. -/
theorem gdrom_reg_write_data_pkt_buf (env : Env) (w : World) (x : List Nat × Nat)
    (hs : w.state = gdrom_state.GDROM_STATE_INPUT_PKT) (hlen : x.2 ≤ 4) :
    (gdrom_reg_write env w x.1 0x5f7080 x.2).w.pkt_buf
      = pkt_buf_with w.pkt_buf w.n_bytes_received (word_bytes x) := by
  have hstore : Function.update (Function.update w.pkt_buf w.n_bytes_received
      (memcpy_u32 0 x.1 (if x.2 < 4 then x.2 else 4) &&& 0xff)) (w.n_bytes_received + 1)
      ((memcpy_u32 0 x.1 (if x.2 < 4 then x.2 else 4) >>> 8) &&& 0xff)
      = pkt_buf_with w.pkt_buf w.n_bytes_received (word_bytes x) := by
    rw [← pkt_buf_with_nil
      (Function.update (Function.update w.pkt_buf w.n_bytes_received
        (memcpy_u32 0 x.1 (if x.2 < 4 then x.2 else 4) &&& 0xff)) (w.n_bytes_received + 1)
        ((memcpy_u32 0 x.1 (if x.2 < 4 then x.2 else 4) >>> 8) &&& 0xff))
      (w.n_bytes_received + 2), pkt_buf_with_store]
    rfl
  rw [gdrom_reg_write_data env w x.1 x.2 hlen]
  unfold gdrom_data_reg_write_handler
  simp only [hs, if_true]
  split
  · rw [returning_w, gdrom_input_packet_pkt_buf]
    exact hstore
  · exact hstore


/-- C8: after a PACKET command, each data-register write of access length at
most 4 stores exactly two bytes in the packet buffer, the low byte of the
written word and then its second byte.  After i < 6 such writes the outcome
is success, the byte counter is 2 * i, the state is still
GDROM_STATE_INPUT_PKT and nothing but the packet buffer and the byte counter
differs from the state right after the PACKET command (no packet was
dispatched); pkt_buf[2k] and pkt_buf[2k+1] hold the two bytes of write k for
every k < i, and the bytes from index 2 * i on are untouched.  The write
after five of them runs `gdrom_input_packet` on a packet buffer holding the
twelve bytes of the six writes, with the byte counter reset to 0.  In any
state with protocol state GDROM_STATE_INPUT_PKT a data-register write changes
the packet buffer by exactly those two stores at the byte counter. -/
theorem C8_data_writes_fill_packet (env : Env) (w : World) (cbuf : List Nat) (clen : Nat)
    (ws : List (List Nat × Nat)) (x : List Nat × Nat)
    (hclen : clen ≤ 4) (hcmd : written_word cbuf clen = GDROM_CMD_PKT)
    (hi : ws.length < 6) (hws : ∀ y ∈ ws, y.2 ≤ 4) (hx : x.2 ≤ 4) :
    (∀ (w1 : World) (y : List Nat × Nat),
        w1.state = gdrom_state.GDROM_STATE_INPUT_PKT → y.2 ≤ 4 →
        (gdrom_reg_write env w1 y.1 0x5f7080 y.2).w.pkt_buf
          = pkt_buf_with w1.pkt_buf w1.n_bytes_received (word_bytes y))
    ∧ data_reg_writes env (gdrom_reg_write env w cbuf 0x5f709c clen) ws
      = { ret := Ret.MEM_ACCESS_SUCCESS, buf := [],
          w := { gdrom_cmd_begin_packet w with
                 pkt_buf := pkt_buf_with w.pkt_buf 0 (packet_bytes ws),
                 n_bytes_received := 2 * ws.length } }
    ∧ (data_reg_writes env (gdrom_reg_write env w cbuf 0x5f709c clen) ws).w.state
        = gdrom_state.GDROM_STATE_INPUT_PKT
    ∧ (∀ k y, ws[k]? = some y →
        (data_reg_writes env (gdrom_reg_write env w cbuf 0x5f709c clen) ws).w.pkt_buf (2 * k)
          = written_word y.1 y.2 &&& 0xff
        ∧ (data_reg_writes env (gdrom_reg_write env w cbuf 0x5f709c clen) ws).w.pkt_buf (2 * k + 1)
          = (written_word y.1 y.2 >>> 8) &&& 0xff)
    ∧ (∀ j, 2 * ws.length ≤ j →
        (data_reg_writes env (gdrom_reg_write env w cbuf 0x5f709c clen) ws).w.pkt_buf j
          = w.pkt_buf j)
    ∧ (ws.length = 5 →
        data_reg_writes env (gdrom_reg_write env w cbuf 0x5f709c clen) (ws ++ [x])
          = (gdrom_input_packet env
              { gdrom_cmd_begin_packet w with
                pkt_buf := pkt_buf_with w.pkt_buf 0 (packet_bytes (ws ++ [x])),
                n_bytes_received := 0 }).returning Ret.MEM_ACCESS_SUCCESS
        ∧ ∀ k y, (ws ++ [x])[k]? = some y →
            pkt_byte { gdrom_cmd_begin_packet w with
                       pkt_buf := pkt_buf_with w.pkt_buf 0 (packet_bytes (ws ++ [x])),
                       n_bytes_received := 0 } (2 * k)
              = written_word y.1 y.2 &&& 0xff
            ∧ pkt_byte { gdrom_cmd_begin_packet w with
                         pkt_buf := pkt_buf_with w.pkt_buf 0 (packet_bytes (ws ++ [x])),
                         n_bytes_received := 0 } (2 * k + 1)
              = (written_word y.1 y.2 >>> 8) &&& 0xff) := by
  have hr0 : gdrom_reg_write env w cbuf 0x5f709c clen
      = { ret := Ret.MEM_ACCESS_SUCCESS, buf := [], w := gdrom_cmd_begin_packet w } := by
    rw [gdrom_reg_write_cmd env w cbuf clen hclen,
      gdrom_cmd_reg_write_handler_pkt env w cbuf _ clen hcmd]
  have hacc := data_reg_writes_accumulate env ws
    { ret := Ret.MEM_ACCESS_SUCCESS, buf := [], w := gdrom_cmd_begin_packet w } rfl rfl rfl
    (by show 0 + 2 * ws.length < 12; omega) hws
  have hacc' : data_reg_writes env
      { ret := Ret.MEM_ACCESS_SUCCESS, buf := [], w := gdrom_cmd_begin_packet w } ws
      = { ret := Ret.MEM_ACCESS_SUCCESS, buf := [],
          w := { gdrom_cmd_begin_packet w with
                 pkt_buf := pkt_buf_with w.pkt_buf 0 (packet_bytes ws),
                 n_bytes_received := 2 * ws.length } } := by
    rw [hacc]
    simp only [gdrom_cmd_begin_packet, Nat.zero_add]
  refine ⟨fun w1 y hs hl => gdrom_reg_write_data_pkt_buf env w1 y hs hl, ?_⟩
  rw [hr0, hacc']
  refine ⟨rfl, rfl, ?_, ?_, ?_⟩
  · intro k y hk
    obtain ⟨g0, g1⟩ := packet_bytes_getD ws k (w.pkt_buf (2 * k)) y hk
    have g1' := (packet_bytes_getD ws k (w.pkt_buf (2 * k + 1)) y hk).2
    simp only [pkt_buf_with, Nat.zero_le, if_true, Nat.sub_zero]
    exact ⟨g0, g1'⟩
  · intro j hj
    have hge : (packet_bytes ws).length ≤ j - 0 := by
      rw [packet_bytes_length]
      omega
    simp only [pkt_buf_with, Nat.zero_le, if_true]
    exact List.getD_eq_default _ _ hge
  · intro h5
    have h6 : (ws ++ [x]).length = 6 := by
      rw [List.length_append, h5]
      rfl
    have hall : ∀ y ∈ ws ++ [x], y.2 ≤ 4 := by
      intro y hy
      rcases List.mem_append.mp hy with hy | hy
      · exact hws y hy
      · rw [List.mem_singleton.mp hy]
        exact hx
    have hsix := data_reg_writes_six env (ws ++ [x])
      { ret := Ret.MEM_ACCESS_SUCCESS, buf := [], w := gdrom_cmd_begin_packet w }
      rfl rfl rfl rfl h6 hall
    refine ⟨hsix, ?_⟩
    intro k y hk
    obtain ⟨g0, _⟩ := packet_bytes_getD (ws ++ [x]) k (w.pkt_buf (2 * k)) y hk
    have g1 := (packet_bytes_getD (ws ++ [x]) k (w.pkt_buf (2 * k + 1)) y hk).2
    simp only [pkt_byte, pkt_buf_with, Nat.zero_le, if_true, Nat.sub_zero]
    rw [show (gdrom_cmd_begin_packet w).pkt_buf = w.pkt_buf from rfl] at *
    rw [g0, g1, and_255_mod, and_255_mod]
    exact ⟨rfl, rfl⟩

/-- Witness for C8: after PACKET, the writes of 0x1234 (2 bytes) and 0xffffabcd (4 bytes) leave the
byte counter at 4 and 0xab in pkt_buf[3]. -/
theorem C8_data_writes_fill_packet_witness :
    (1 ≤ 4) ∧ written_word [0xa0] 1 = GDROM_CMD_PKT
    ∧ (data_reg_writes Env.sample (gdrom_reg_write Env.sample World.init [0xa0] 0x5f709c 1)
        [([0x34, 0x12], 2), ([0xcd, 0xab, 0xff, 0xff], 4)]).w.n_bytes_received = 4
    ∧ (data_reg_writes Env.sample (gdrom_reg_write Env.sample World.init [0xa0] 0x5f709c 1)
        [([0x34, 0x12], 2), ([0xcd, 0xab, 0xff, 0xff], 4)]).w.pkt_buf 3 = 0xab :=
  have t := C8_data_writes_fill_packet Env.sample World.init [0xa0] 1
    [([0x34, 0x12], 2), ([0xcd, 0xab, 0xff, 0xff], 4)] ([0, 0], 2)
    (by decide) written_word_le_bytes_a0 (by decide) (by decide) (by decide)
  ⟨by decide, written_word_le_bytes_a0, congrArg (fun r => r.w.n_bytes_received) t.2.1,
    ((t.2.2.2.1 1 ([0xcd, 0xab, 0xff, 0xff], 4) rfl).2).trans (by decide)⟩

/-- C9 (amended): after a PACKET command and the six data-register writes of
a packet other than SET_MODE whose dispatch raised no error, the protocol
state is NORMAL, except when the packet is a READ received while the DMA bit
of the features register is set and none of its sector reads fails: then the
state is left at GDROM_STATE_INPUT_PKT. -/
theorem C9_state_after_dispatched_packet (env : Env) (w : World) (cbuf : List Nat) (clen : Nat)
    (ws : List (List Nat × Nat)) (hclen : clen ≤ 4)
    (hcmd : written_word cbuf clen = GDROM_CMD_PKT) (h6 : ws.length = 6)
    (hws : ∀ y ∈ ws, y.2 ≤ 4)
    (hret : (packet_command env w cbuf clen ws).ret = Ret.MEM_ACCESS_SUCCESS)
    (hop : (packet_bytes ws).getD 0 0 ≠ GDROM_PKT_SET_MODE) :
    (¬ ((packet_bytes ws).getD 0 0 = GDROM_PKT_READ
        ∧ flag w.feat_reg FEAT_REG_DMA_MASK = true
        ∧ reads_succeed env w.mount_reads.length (read_start_addr (packet_bytes ws))
            (read_trans_len (packet_bytes ws))) →
      (packet_command env w cbuf clen ws).w.state = gdrom_state.GDROM_STATE_NORM)
    ∧ (((packet_bytes ws).getD 0 0 = GDROM_PKT_READ
        ∧ flag w.feat_reg FEAT_REG_DMA_MASK = true
        ∧ reads_succeed env w.mount_reads.length (read_start_addr (packet_bytes ws))
            (read_trans_len (packet_bytes ws))) →
      (packet_command env w cbuf clen ws).w.state = gdrom_state.GDROM_STATE_INPUT_PKT) :=
  have h := packet_command_state env w cbuf clen ws hclen hcmd h6 hws hret hop
  ⟨h.2, h.1⟩

/-- Witness for C9 (amended): a START_DISK packet (0x70) in the initial state leaves the state
NORMAL. -/
theorem C9_state_after_dispatched_packet_witness :
    (1 ≤ 4) ∧ written_word [0xa0] 1 = GDROM_CMD_PKT
    ∧ (packet_command Env.sample World.init [0xa0] 1
        [([0x70, 0], 2), ([0, 0], 2), ([0, 0], 2), ([0, 0], 2), ([0, 0], 2), ([0, 0], 2)]).ret
        = Ret.MEM_ACCESS_SUCCESS
    ∧ (packet_bytes [([0x70, 0], 2), ([0, 0], 2), ([0, 0], 2), ([0, 0], 2), ([0, 0], 2),
        ([0, 0], 2)]).getD 0 0 ≠ GDROM_PKT_SET_MODE
    ∧ (packet_command Env.sample World.init [0xa0] 1
        [([0x70, 0], 2), ([0, 0], 2), ([0, 0], 2), ([0, 0], 2), ([0, 0], 2), ([0, 0], 2)]).w.state
        = gdrom_state.GDROM_STATE_NORM :=
  ⟨by decide, written_word_le_bytes_a0, by decide, by decide,
    (C9_state_after_dispatched_packet Env.sample World.init [0xa0] 1
      [([0x70, 0], 2), ([0, 0], 2), ([0, 0], 2), ([0, 0], 2), ([0, 0], 2), ([0, 0], 2)]
      (by decide) written_word_le_bytes_a0 rfl (by decide) (by decide) (by decide)).1
      (fun h => absurd h.1 (by decide))⟩

/-- C9 as stated fails: with the DMA bit of the features register set (written
through the features register), a READ packet for one sector of a mounted
disc is dispatched without an error, and the protocol state afterwards is
GDROM_STATE_INPUT_PKT, not NORMAL. -/
theorem C9_counterexample_read_with_dma :
    ¬ ((packet_command Env.sample (gdrom_reg_write Env.sample World.init [1] 0x5f7084 1).w
            [0xa0] 1
            [([0x30, 0x20], 2), ([0, 0], 2), ([0, 0], 2), ([0, 0], 2), ([0, 0], 2),
              ([1, 0], 2)]).ret = Ret.MEM_ACCESS_SUCCESS →
        (packet_bytes [([0x30, 0x20], 2), ([0, 0], 2), ([0, 0], 2), ([0, 0], 2), ([0, 0], 2),
            ([1, 0], 2)]).getD 0 0 ∈ [GDROM_PKT_TEST_UNIT, GDROM_PKT_REQ_STAT,
            GDROM_PKT_REQ_MODE, GDROM_PKT_REQ_ERROR, GDROM_PKT_READ_TOC, GDROM_PKT_READ,
            GDROM_PKT_START_DISK, GDROM_PKT_UNKNOWN_71] →
        (packet_command Env.sample (gdrom_reg_write Env.sample World.init [1] 0x5f7084 1).w
            [0xa0] 1
            [([0x30, 0x20], 2), ([0, 0], 2), ([0, 0], 2), ([0, 0], 2), ([0, 0], 2),
              ([1, 0], 2)]).w.state = gdrom_state.GDROM_STATE_NORM) := by
  decide

/-- The SET_MODE packet with the DMA bit of the features register clear: what
`gdrom_input_set_mode_packet` does, seen through the registers.  The
protocol state is not changed by it. -/
theorem packet_command_set_mode (env : Env) (w : World) (cbuf : List Nat) (clen : Nat)
    (ws : List (List Nat × Nat)) (hclen : clen ≤ 4)
    (hcmd : written_word cbuf clen = GDROM_CMD_PKT) (h6 : ws.length = 6)
    (hws : ∀ y ∈ ws, y.2 ≤ 4)
    (hop : (packet_bytes ws).getD 0 0 = GDROM_PKT_SET_MODE)
    (hdma : flag w.feat_reg FEAT_REG_DMA_MASK = false) :
    (packet_command env w cbuf clen ws).ret = Ret.MEM_ACCESS_SUCCESS
    ∧ (packet_command env w cbuf clen ws).w.state = gdrom_state.GDROM_STATE_INPUT_PKT
    ∧ (packet_command env w cbuf clen ws).w.n_bytes_received = 0
    ∧ (packet_command env w cbuf clen ws).w.set_mode_bytes_remaining
        = int_of_unsigned w.data_byte_count
    ∧ flag (packet_command env w cbuf clen ws).w.int_reason_reg INT_REASON_IO_MASK = true
    ∧ flag (packet_command env w cbuf clen ws).w.int_reason_reg INT_REASON_COD_MASK = false
    ∧ drq_signal (packet_command env w cbuf clen ws).w = true := by
  have hb : pkt_byte { gdrom_cmd_begin_packet w with
        pkt_buf := pkt_buf_with w.pkt_buf 0 (packet_bytes ws),
        n_bytes_received := 0 } 0 = GDROM_PKT_SET_MODE := by
    rw [pkt_byte_after_writes _ w.pkt_buf ws 0 h6 (by decide) rfl, hop]
  have hf : ¬ (w.feat_reg &&& 1 ≠ 0) := by
    intro hne
    have : flag w.feat_reg FEAT_REG_DMA_MASK = true := bne_iff_ne.mpr hne
    rw [hdma] at this
    cases this
  rw [packet_command_eq env w cbuf clen ws hclen hcmd h6 hws, gdrom_input_packet_eq, hb,
    if_neg (by decide), if_neg (by decide), if_neg (by decide), if_pos rfl]
  unfold gdrom_input_set_mode_packet
  rw [input_packet_entry_eq]
  simp only [gdrom_cmd_begin_packet, if_neg hf, Exec.returning, drq_signal, ← flag.eq_1]
  simp +decide [-Nat.testBit_zero, testBit_mask_clear]

/-- C10, the code at the failing input: after byte-count-low is set to 10 and
a SET_MODE packet (0x12) is sent with the DMA bit of the features register
clear, the packet is accepted, set_mode_bytes_remaining is 10, IO is set, COD
is clear and DRQ is set, but the protocol state is still
GDROM_STATE_INPUT_PKT, not GDROM_STATE_SET_MODE; the next data-register write
is taken as the first two bytes of a new packet and does not count down
set_mode_bytes_remaining. -/
theorem C10_set_mode_packet_keeps_input_pkt_state :
    (packet_bytes [([0x12, 0], 2), ([0, 0], 2), ([0, 0], 2), ([0, 0], 2), ([0, 0], 2),
        ([0, 0], 2)]).getD 0 0 = GDROM_PKT_SET_MODE
    ∧ flag (gdrom_reg_write Env.sample World.init [0x0a] 0x5f7090 1).w.feat_reg
        FEAT_REG_DMA_MASK = false
    ∧ (packet_command Env.sample (gdrom_reg_write Env.sample World.init [0x0a] 0x5f7090 1).w
        [0xa0] 1
        [([0x12, 0], 2), ([0, 0], 2), ([0, 0], 2), ([0, 0], 2), ([0, 0], 2), ([0, 0], 2)]).ret
        = Ret.MEM_ACCESS_SUCCESS
    ∧ (packet_command Env.sample (gdrom_reg_write Env.sample World.init [0x0a] 0x5f7090 1).w
        [0xa0] 1
        [([0x12, 0], 2), ([0, 0], 2), ([0, 0], 2), ([0, 0], 2), ([0, 0], 2),
          ([0, 0], 2)]).w.set_mode_bytes_remaining = 10
    ∧ (packet_command Env.sample (gdrom_reg_write Env.sample World.init [0x0a] 0x5f7090 1).w
        [0xa0] 1
        [([0x12, 0], 2), ([0, 0], 2), ([0, 0], 2), ([0, 0], 2), ([0, 0], 2),
          ([0, 0], 2)]).w.state = gdrom_state.GDROM_STATE_INPUT_PKT
    ∧ (packet_command Env.sample (gdrom_reg_write Env.sample World.init [0x0a] 0x5f7090 1).w
        [0xa0] 1
        [([0x12, 0], 2), ([0, 0], 2), ([0, 0], 2), ([0, 0], 2), ([0, 0], 2),
          ([0, 0], 2)]).w.state ≠ gdrom_state.GDROM_STATE_SET_MODE
    ∧ (packet_command Env.sample (gdrom_reg_write Env.sample World.init [0x0a] 0x5f7090 1).w
        [0xa0] 1
        [([0x12, 0], 2), ([0, 0], 2), ([0, 0], 2), ([0, 0], 2), ([0, 0], 2), ([0, 0], 2),
          ([0xff, 0xff], 2)]).w.set_mode_bytes_remaining = 10
    ∧ (packet_command Env.sample (gdrom_reg_write Env.sample World.init [0x0a] 0x5f7090 1).w
        [0xa0] 1
        [([0x12, 0], 2), ([0, 0], 2), ([0, 0], 2), ([0, 0], 2), ([0, 0], 2), ([0, 0], 2),
          ([0xff, 0xff], 2)]).w.n_bytes_received = 2 := by
  decide

/-! ## ATA commands: which are accepted -/

theorem gdrom_cmd_reg_write_handler_set_feat (env : Env) (w : World) (buf : List Nat)
    (addr len : Nat) (hcmd : written_word buf len = GDROM_CMD_SET_FEAT) :
    gdrom_cmd_reg_write_handler env w buf addr len
      = { ret := Ret.MEM_ACCESS_SUCCESS, buf := [],
          w := raise_int_unless_nien
            { gdrom_cmd_set_features w with
              int_reason_reg := (gdrom_cmd_set_features w).int_reason_reg
                                  ||| INT_REASON_COD_MASK } } := by
  unfold written_word at hcmd
  have h1 : ¬ GDROM_CMD_SET_FEAT = GDROM_CMD_PKT := by decide
  have h2 : ¬ GDROM_CMD_SET_FEAT = GDROM_CMD_IDENTIFY := by decide
  simp only [gdrom_cmd_reg_write_handler, hcmd, if_neg h1, if_neg h2, if_true]

theorem gdrom_cmd_reg_write_handler_unknown (env : Env) (w : World) (buf : List Nat)
    (addr len : Nat) (h1 : written_word buf len ≠ GDROM_CMD_PKT)
    (h2 : written_word buf len ≠ GDROM_CMD_IDENTIFY)
    (h3 : written_word buf len ≠ GDROM_CMD_SET_FEAT) :
    gdrom_cmd_reg_write_handler env w buf addr len
      = { ret := Ret.RAISED error_type.ERROR_UNIMPLEMENTED, buf := [],
          w := { w with err := { w.err with
                   feature := some "unknown GD-ROM command",
                   gdrom_command := some (written_word buf len) } } } := by
  unfold written_word at h1 h2 h3
  simp only [gdrom_cmd_reg_write_handler, if_neg h1, if_neg h2, if_neg h3]
  rfl

/-- The fields that `gdrom_cmd_set_features` never touches. -/
theorem gdrom_cmd_set_features_frame (w : World) :
    (gdrom_cmd_set_features w).bufq = w.bufq
    ∧ (gdrom_cmd_set_features w).data_byte_count = w.data_byte_count
    ∧ (gdrom_cmd_set_features w).holly = w.holly
    ∧ (gdrom_cmd_set_features w).dev_ctrl_reg = w.dev_ctrl_reg
    ∧ (gdrom_cmd_set_features w).err = w.err
    ∧ (gdrom_cmd_set_features w).state = w.state
    ∧ (gdrom_cmd_set_features w).int_reason_reg = w.int_reason_reg := by
  unfold gdrom_cmd_set_features
  split
  · simp only []
    split
    · exact ⟨rfl, rfl, rfl, rfl, rfl, rfl, rfl⟩
    split
    · exact ⟨rfl, rfl, rfl, rfl, rfl, rfl, rfl⟩
    split
    · exact ⟨rfl, rfl, rfl, rfl, rfl, rfl, rfl⟩
    split
    · exact ⟨rfl, rfl, rfl, rfl, rfl, rfl, rfl⟩
    split
    · exact ⟨rfl, rfl, rfl, rfl, rfl, rfl, rfl⟩
    · exact ⟨rfl, rfl, rfl, rfl, rfl, rfl, rfl⟩
  · exact ⟨rfl, rfl, rfl, rfl, rfl, rfl, rfl⟩

/-- What a command-register write does for each value of the command: the
three commands PACKET, IDENTIFY and SET_FEATURES return success and leave the
error attributes alone; every other value raises ERROR_UNIMPLEMENTED with the
value recorded and nothing else changed. -/
theorem gdrom_reg_write_cmd_outcome (env : Env) (w : World) (buf : List Nat) (len : Nat)
    (hlen : len ≤ 4) :
    (written_word buf len ∈ [GDROM_CMD_PKT, GDROM_CMD_IDENTIFY, GDROM_CMD_SET_FEAT] →
      (gdrom_reg_write env w buf 0x5f709c len).ret = Ret.MEM_ACCESS_SUCCESS
      ∧ (gdrom_reg_write env w buf 0x5f709c len).w.err = w.err)
    ∧ (written_word buf len ∉ [GDROM_CMD_PKT, GDROM_CMD_IDENTIFY, GDROM_CMD_SET_FEAT] →
      gdrom_reg_write env w buf 0x5f709c len
        = { ret := Ret.RAISED error_type.ERROR_UNIMPLEMENTED, buf := [],
            w := { w with err := { w.err with
                     feature := some "unknown GD-ROM command",
                     gdrom_command := some (written_word buf len) } } }) := by
  rw [gdrom_reg_write_cmd env w buf len hlen]
  constructor
  · intro hmem
    simp only [List.mem_cons, List.mem_singleton, List.not_mem_nil, or_false] at hmem
    rcases hmem with h | h | h
    · rw [gdrom_cmd_reg_write_handler_pkt env w buf _ len h]
      exact ⟨rfl, rfl⟩
    · rw [gdrom_cmd_reg_write_handler_identify env w buf _ len h]
      refine ⟨rfl, ?_⟩
      simp only [gdrom_cmd_identify, raise_int_unless_nien_eq, bufq_clear]
    · rw [gdrom_cmd_reg_write_handler_set_feat env w buf _ len h, raise_int_unless_nien_eq]
      exact ⟨rfl, (gdrom_cmd_set_features_frame w).2.2.2.2.1⟩
  · intro hmem
    simp only [List.mem_cons, List.mem_singleton, List.not_mem_nil, or_false, not_or] at hmem
    exact gdrom_cmd_reg_write_handler_unknown env w buf _ len hmem.1 hmem.2.1 hmem.2.2

theorem written_word_ef : written_word [0xef] 1 = GDROM_CMD_SET_FEAT := by decide

/-- C11 (amended): a command-register write of each of the three implemented
ATA commands PACKET (0xa0), IDENTIFY (0xa1) and SET_FEATURES (0xef) is
accepted in every state: it returns success and sets no error attribute.
RESET (0x08), DIAGNOSTIC (0x90) and NOP (0x00) are not implemented: a write of
one of them raises ERROR_UNIMPLEMENTED carrying the command value. -/
theorem C11_implemented_commands_accepted (env : Env) (w : World) (buf : List Nat) (len : Nat)
    (hlen : len ≤ 4) :
    (written_word buf len ∈ [GDROM_CMD_PKT, GDROM_CMD_IDENTIFY, GDROM_CMD_SET_FEAT] →
      (gdrom_reg_write env w buf 0x5f709c len).ret = Ret.MEM_ACCESS_SUCCESS
      ∧ (gdrom_reg_write env w buf 0x5f709c len).w.err = w.err)
    ∧ (written_word buf len ∈ [GDROM_CMD_RESET, GDROM_CMD_DIAG, GDROM_CMD_NOP] →
      (gdrom_reg_write env w buf 0x5f709c len).ret = Ret.RAISED error_type.ERROR_UNIMPLEMENTED
      ∧ (gdrom_reg_write env w buf 0x5f709c len).w.err.gdrom_command
          = some (written_word buf len)) := by
  obtain ⟨hacc, hrej⟩ := gdrom_reg_write_cmd_outcome env w buf len hlen
  refine ⟨hacc, ?_⟩
  intro hmem
  have hnot : written_word buf len ∉ [GDROM_CMD_PKT, GDROM_CMD_IDENTIFY, GDROM_CMD_SET_FEAT] := by
    simp only [List.mem_cons, List.mem_singleton, List.not_mem_nil, or_false] at hmem ⊢
    rcases hmem with h | h | h <;> rw [h] <;> decide
  rw [hrej hnot]
  exact ⟨rfl, rfl⟩

/-- Witness for C11 (amended): SET_FEATURES is accepted in the initial state, RESET is not. -/
theorem C11_implemented_commands_accepted_witness :
    (1 ≤ 4)
    ∧ (gdrom_reg_write Env.sample World.init [0xef] 0x5f709c 1).ret = Ret.MEM_ACCESS_SUCCESS
    ∧ (gdrom_reg_write Env.sample World.init [0x08] 0x5f709c 1).ret
        = Ret.RAISED error_type.ERROR_UNIMPLEMENTED :=
  ⟨by decide,
    ((C11_implemented_commands_accepted Env.sample World.init [0xef] 1 (by decide)).1
      (by decide)).1,
    ((C11_implemented_commands_accepted Env.sample World.init [0x08] 1 (by decide)).2
      (by decide)).1⟩

/-- C11 as stated fails: in the initial state, whose protocol state is NORMAL,
a 1-byte write of RESET (0x08) to the command register does not return
success; it raises ERROR_UNIMPLEMENTED with the command value 0x08 recorded. -/
theorem C11_counterexample_reset_raises :
    World.init.state = gdrom_state.GDROM_STATE_NORM
    ∧ written_word [0x08] 1 = GDROM_CMD_RESET
    ∧ ¬ ((gdrom_reg_write Env.sample World.init [0x08] 0x5f709c 1).ret = Ret.MEM_ACCESS_SUCCESS)
    ∧ (gdrom_reg_write Env.sample World.init [0x08] 0x5f709c 1).ret
        = Ret.RAISED error_type.ERROR_UNIMPLEMENTED
    ∧ (gdrom_reg_write Env.sample World.init [0x08] 0x5f709c 1).w.err.gdrom_command
        = some 0x08 := by
  decide

/-- C12: a command-register write of a value outside
{0x08, 0x90, 0x00, 0xa0, 0xa1, 0xef} raises ERROR_UNIMPLEMENTED with that value
recorded as the command.  The state afterwards is the state before with only
the error attributes `feature` and `gdrom_command` set: the status,
interrupt-reason and error registers, the protocol state, the queue and the
interrupt log are unchanged. -/
theorem C12_unknown_command_raises (env : Env) (w : World) (buf : List Nat) (len : Nat)
    (hlen : len ≤ 4)
    (hcmd : written_word buf len ∉ [GDROM_CMD_RESET, GDROM_CMD_DIAG, GDROM_CMD_NOP,
      GDROM_CMD_PKT, GDROM_CMD_IDENTIFY, GDROM_CMD_SET_FEAT]) :
    gdrom_reg_write env w buf 0x5f709c len
      = { ret := Ret.RAISED error_type.ERROR_UNIMPLEMENTED, buf := [],
          w := { w with err := { w.err with
                   feature := some "unknown GD-ROM command",
                   gdrom_command := some (written_word buf len) } } }
    ∧ (gdrom_reg_write env w buf 0x5f709c len).w.stat_reg = w.stat_reg
    ∧ (gdrom_reg_write env w buf 0x5f709c len).w.int_reason_reg = w.int_reason_reg
    ∧ (gdrom_reg_write env w buf 0x5f709c len).w.error_reg = w.error_reg
    ∧ (gdrom_reg_write env w buf 0x5f709c len).w.additional_sense = w.additional_sense
    ∧ (gdrom_reg_write env w buf 0x5f709c len).w.state = w.state
    ∧ (gdrom_reg_write env w buf 0x5f709c len).w.bufq = w.bufq
    ∧ (gdrom_reg_write env w buf 0x5f709c len).w.holly = w.holly := by
  have hnot : written_word buf len ∉ [GDROM_CMD_PKT, GDROM_CMD_IDENTIFY, GDROM_CMD_SET_FEAT] := by
    simp only [List.mem_cons, List.mem_singleton, List.not_mem_nil, or_false, not_or] at hcmd ⊢
    exact ⟨hcmd.2.2.2.1, hcmd.2.2.2.2.1, hcmd.2.2.2.2.2⟩
  rw [(gdrom_reg_write_cmd_outcome env w buf len hlen).2 hnot]
  exact ⟨rfl, rfl, rfl, rfl, rfl, rfl, rfl, rfl⟩

/-- Witness for C12: the command value 0x55 written as one byte in the initial state. -/
theorem C12_unknown_command_raises_witness :
    (1 ≤ 4)
    ∧ written_word [0x55] 1 ∉ [GDROM_CMD_RESET, GDROM_CMD_DIAG, GDROM_CMD_NOP,
        GDROM_CMD_PKT, GDROM_CMD_IDENTIFY, GDROM_CMD_SET_FEAT]
    ∧ (gdrom_reg_write Env.sample World.init [0x55] 0x5f709c 1).w.err.gdrom_command
        = some 0x55 :=
  ⟨by decide, by decide,
    congrArg (fun r => r.w.err.gdrom_command)
      (C12_unknown_command_raises Env.sample World.init [0x55] 1 (by decide) (by decide)).1⟩

/-- C15 (amended): a SET_FEATURES command write (0xef) returns success and
queues no data: the buffer queue and data_byte_count are unchanged, for every
value of the features, sector-count and device-control registers.
`gdrom_cmd_set_features` itself makes no call to the interrupt controller, but
the command-register handler then sets COD in the interrupt-reason register
and raises the GD-ROM interrupt exactly when NIEN is clear. -/
theorem C15_set_features_command_effects (env : Env) (w : World) (buf : List Nat) (len : Nat)
    (hlen : len ≤ 4) (hcmd : written_word buf len = GDROM_CMD_SET_FEAT) :
    (gdrom_reg_write env w buf 0x5f709c len).ret = Ret.MEM_ACCESS_SUCCESS
    ∧ (gdrom_reg_write env w buf 0x5f709c len).w.bufq = w.bufq
    ∧ (gdrom_reg_write env w buf 0x5f709c len).w.data_byte_count = w.data_byte_count
    ∧ (gdrom_cmd_set_features w).holly = w.holly
    ∧ (gdrom_reg_write env w buf 0x5f709c len).w.holly
        = (if flag w.dev_ctrl_reg DEV_CTRL_NIEN_MASK then w.holly
           else w.holly ++ [holly_call.raise_ext_int])
    ∧ flag (gdrom_reg_write env w buf 0x5f709c len).w.int_reason_reg INT_REASON_COD_MASK
        = true := by
  obtain ⟨f1, f2, f3, f4, _, _, f7⟩ := gdrom_cmd_set_features_frame w
  rw [gdrom_reg_write_cmd env w buf len hlen,
    gdrom_cmd_reg_write_handler_set_feat env w buf _ len hcmd, raise_int_unless_nien_eq]
  refine ⟨rfl, f1, f2, f3, ?_, ?_⟩
  · show (if flag (gdrom_cmd_set_features w).dev_ctrl_reg DEV_CTRL_NIEN_MASK
        then (gdrom_cmd_set_features w).holly
        else (gdrom_cmd_set_features w).holly ++ [holly_call.raise_ext_int]) = _
    rw [f3, f4]
  · show flag ((gdrom_cmd_set_features w).int_reason_reg ||| INT_REASON_COD_MASK)
        INT_REASON_COD_MASK = true
    simp +decide [-Nat.testBit_zero]

/-- Witness for C15 (amended): SET_FEATURES written in the initial state. -/
theorem C15_set_features_command_effects_witness :
    (1 ≤ 4) ∧ written_word [0xef] 1 = GDROM_CMD_SET_FEAT
    ∧ (gdrom_reg_write Env.sample World.init [0xef] 0x5f709c 1).w.bufq = World.init.bufq :=
  ⟨by decide, written_word_ef,
    (C15_set_features_command_effects Env.sample World.init [0xef] 1 (by decide)
      written_word_ef).2.1⟩

/-- C15 as stated fails: in the initial state (device-control 0, so NIEN is
clear) a SET_FEATURES command write raises the GD-ROM interrupt. -/
theorem C15_counterexample_interrupt_raised :
    written_word [0xef] 1 = GDROM_CMD_SET_FEAT
    ∧ World.init.holly = []
    ∧ (gdrom_reg_write Env.sample World.init [0xef] 0x5f709c 1).w.holly
        = [holly_call.raise_ext_int]
    ∧ ¬ ((gdrom_reg_write Env.sample World.init [0xef] 0x5f709c 1).w.holly
          = World.init.holly) := by
  decide

/-! ## SET_FEATURES and the transfer-mode table -/

/-- What `gdrom_cmd_set_features` does to the transfer-mode table when the
sector-count value has the multi-word DMA pattern `v & 0xf8 == 0x20`: nothing,
the fourth test of the source compares with the mask 0xf8 and not with the
value 0x20. -/
theorem gdrom_cmd_set_features_multi_word_val (w : World)
    (hv : w.sect_cnt_reg &&& TRANS_MODE_MULTI_WORD_DMA_MASK = TRANS_MODE_MULTI_WORD_DMA_VAL) :
    (gdrom_cmd_set_features w).trans_mode_vals = w.trans_mode_vals := by
  have hv' : w.sect_cnt_reg &&& 0xf8 = 0x20 := hv
  have h0 : ¬ (w.sect_cnt_reg &&& TRANS_MODE_PIO_DFLT_MASK) = TRANS_MODE_PIO_DFLT_VAL := by
    intro h
    have h' : w.sect_cnt_reg &&& 0xfe = 0 := h
    have e : w.sect_cnt_reg &&& 0xf8 = (w.sect_cnt_reg &&& 0xfe) &&& 0xf8 := by
      rw [Nat.and_assoc]
      rfl
    rw [e, h', Nat.zero_and] at hv'
    cases hv'
  have h1 : ¬ (w.sect_cnt_reg &&& TRANS_MODE_PIO_FLOW_CTRL_MASK)
      = TRANS_MODE_PIO_FLOW_CTRL_VAL := by
    intro h
    have h' : w.sect_cnt_reg &&& 0xf8 = 0x08 := h
    rw [hv'] at h'
    cases h'
  have h2 : ¬ (w.sect_cnt_reg &&& TRANS_MODE_SINGLE_WORD_DMA_MASK)
      = TRANS_MODE_SINGLE_WORD_DMA_VAL := by
    intro h
    have h' : w.sect_cnt_reg &&& 0xf8 = 0x10 := h
    rw [hv'] at h'
    cases h'
  have h3 : ¬ (w.sect_cnt_reg &&& TRANS_MODE_MULTI_WORD_DMA_MASK)
      = TRANS_MODE_MULTI_WORD_DMA_MASK := by
    intro h
    have h' : w.sect_cnt_reg &&& 0xf8 = 0xf8 := h
    rw [hv'] at h'
    cases h'
  have h4 : ¬ (w.sect_cnt_reg &&& TRANS_MODE_PSEUDO_DMA_MASK) = TRANS_MODE_PSEUDO_DMA_VAL := by
    intro h
    have h' : w.sect_cnt_reg &&& 0xf8 = 0x18 := h
    rw [hv'] at h'
    cases h'
  unfold gdrom_cmd_set_features
  split
  · simp only [if_neg h0, if_neg h1, if_neg h2, if_neg h3, if_neg h4]
  · rfl

/-- The state in which a packet handler starts, field by field. -/
theorem packet_entry_world_eq (w : World) (ws : List (List Nat × Nat)) :
    packet_entry_world w ws
      = { w with
          stat_reg := mask_clear (mask_clear w.stat_reg STAT_CHECK_MASK ||| STAT_DRQ_MASK)
                        (STAT_DRQ_MASK ||| STAT_BSY_MASK),
          int_reason_reg := mask_clear w.int_reason_reg INT_REASON_IO_MASK
                              ||| INT_REASON_COD_MASK,
          state := gdrom_state.GDROM_STATE_INPUT_PKT,
          pkt_buf := pkt_buf_with w.pkt_buf 0 (packet_bytes ws),
          n_bytes_received := 0,
          holly := if flag w.dev_ctrl_reg DEV_CTRL_NIEN_MASK then w.holly
                   else w.holly ++ [holly_call.raise_ext_int] } := by
  unfold packet_entry_world
  rw [input_packet_entry_eq]
  rfl

theorem pkt_byte_packet_entry_world (w : World) (ws : List (List Nat × Nat)) (i : Nat)
    (h6 : ws.length = 6) (hi : i < 12) :
    pkt_byte (packet_entry_world w ws) i = (packet_bytes ws).getD i 0 := by
  unfold packet_entry_world
  rw [pkt_byte_input_packet_entry]
  exact pkt_byte_after_writes _ w.pkt_buf ws i h6 hi rfl

/-- A PACKET command and its six data-register writes, as the `switch` of
`gdrom_input_packet` on the first packet byte. -/
theorem packet_command_switch (env : Env) (w : World) (cbuf : List Nat) (clen : Nat)
    (ws : List (List Nat × Nat)) (hclen : clen ≤ 4)
    (hcmd : written_word cbuf clen = GDROM_CMD_PKT) (h6 : ws.length = 6)
    (hws : ∀ y ∈ ws, y.2 ≤ 4) :
    packet_command env w cbuf clen ws =
      (if (packet_bytes ws).getD 0 0 = GDROM_PKT_TEST_UNIT then
        { raised := none, w := gdrom_input_test_unit_packet env (packet_entry_world w ws) }
      else if (packet_bytes ws).getD 0 0 = GDROM_PKT_REQ_STAT then
        { raised := none,
          w := { packet_entry_world w ws with state := gdrom_state.GDROM_STATE_NORM } }
      else if (packet_bytes ws).getD 0 0 = GDROM_PKT_REQ_MODE then
        { raised := none, w := gdrom_input_req_mode_packet (packet_entry_world w ws) }
      else if (packet_bytes ws).getD 0 0 = GDROM_PKT_SET_MODE then
        gdrom_input_set_mode_packet (packet_entry_world w ws)
      else if (packet_bytes ws).getD 0 0 = GDROM_PKT_REQ_ERROR then
        { raised := none, w := gdrom_input_req_error_packet (packet_entry_world w ws) }
      else if (packet_bytes ws).getD 0 0 = GDROM_PKT_START_DISK then
        { raised := none, w := gdrom_input_start_disk_packet (packet_entry_world w ws) }
      else if (packet_bytes ws).getD 0 0 = GDROM_PKT_READ_TOC then
        { raised := none, w := gdrom_input_read_toc_packet env (packet_entry_world w ws) }
      else if (packet_bytes ws).getD 0 0 = GDROM_PKT_READ then
        gdrom_input_read_packet env (packet_entry_world w ws)
      else if (packet_bytes ws).getD 0 0 = GDROM_PKT_UNKNOWN_71 then
        { raised := none, w := gdrom_input_packet_71 (packet_entry_world w ws) }
      else
        { raised := some error_type.ERROR_UNIMPLEMENTED,
          w := error_set_gdrom_command
            (error_set_feature (packet_entry_world w ws) "unknown GD-ROM packet command")
            ((packet_bytes ws).getD 0 0) } : Exec).returning Ret.MEM_ACCESS_SUCCESS := by
  rw [packet_command_eq env w cbuf clen ws hclen hcmd h6 hws, gdrom_input_packet_eq,
    pkt_byte_after_writes _ w.pkt_buf ws 0 h6 (by decide) rfl]
  rfl

/-- The dispatch of a packet whose first byte is none of the nine opcodes of
the `switch`. -/
theorem gdrom_input_packet_unknown (env : Env) (w : World)
    (hop : pkt_byte w 0 ∉ [GDROM_PKT_TEST_UNIT, GDROM_PKT_REQ_STAT, GDROM_PKT_REQ_MODE,
      GDROM_PKT_SET_MODE, GDROM_PKT_REQ_ERROR, GDROM_PKT_READ_TOC, GDROM_PKT_READ,
      GDROM_PKT_START_DISK, GDROM_PKT_UNKNOWN_71]) :
    gdrom_input_packet env w
      = { raised := some error_type.ERROR_UNIMPLEMENTED,
          w := { input_packet_entry w with err := { w.err with
                   feature := some "unknown GD-ROM packet command",
                   gdrom_command := some (pkt_byte w 0) } } } := by
  simp only [List.mem_cons, List.mem_singleton, List.not_mem_nil, or_false, not_or] at hop
  obtain ⟨h0, h1, h2, h3, h4, h5, h6, h7, h8⟩ := hop
  rw [gdrom_input_packet_eq, if_neg h0, if_neg h1, if_neg h2, if_neg h3, if_neg h4, if_neg h7,
    if_neg h5, if_neg h6, if_neg h8, input_packet_entry_eq]
  rfl

/-- C13: for a packet whose first byte is none of 0x00, 0x10, 0x11, 0x12, 0x13,
0x14, 0x30, 0x70, 0x71, the data-register write that completes the twelve
bytes raises ERROR_UNIMPLEMENTED with that byte recorded as the command.  No
packet handler runs: `gdrom_input_packet` leaves the queue, data_byte_count,
the error register, additional_sense and the interrupt-reason register as
they were when it was entered, so after the PACKET command and the six writes
the first four are as before the command and the interrupt-reason register
is as the PACKET command left it. -/
theorem C13_unknown_packet_raises (env : Env) (w : World) (cbuf : List Nat) (clen : Nat)
    (ws : List (List Nat × Nat)) (hclen : clen ≤ 4)
    (hcmd : written_word cbuf clen = GDROM_CMD_PKT) (h6 : ws.length = 6)
    (hws : ∀ y ∈ ws, y.2 ≤ 4)
    (hop : (packet_bytes ws).getD 0 0 ∉ [GDROM_PKT_TEST_UNIT, GDROM_PKT_REQ_STAT,
      GDROM_PKT_REQ_MODE, GDROM_PKT_SET_MODE, GDROM_PKT_REQ_ERROR, GDROM_PKT_READ_TOC,
      GDROM_PKT_READ, GDROM_PKT_START_DISK, GDROM_PKT_UNKNOWN_71]) :
    (packet_command env w cbuf clen ws).ret = Ret.RAISED error_type.ERROR_UNIMPLEMENTED
    ∧ (packet_command env w cbuf clen ws).w.err.gdrom_command
        = some ((packet_bytes ws).getD 0 0)
    ∧ (packet_command env w cbuf clen ws).w.err.feature = some "unknown GD-ROM packet command"
    ∧ (packet_command env w cbuf clen ws).w.bufq = w.bufq
    ∧ (packet_command env w cbuf clen ws).w.data_byte_count = w.data_byte_count
    ∧ (packet_command env w cbuf clen ws).w.error_reg = w.error_reg
    ∧ (packet_command env w cbuf clen ws).w.additional_sense = w.additional_sense
    ∧ (packet_command env w cbuf clen ws).w.int_reason_reg
        = (gdrom_reg_write env w cbuf 0x5f709c clen).w.int_reason_reg
    ∧ (∀ wp : World,
        pkt_byte wp 0 ∉ [GDROM_PKT_TEST_UNIT, GDROM_PKT_REQ_STAT, GDROM_PKT_REQ_MODE,
          GDROM_PKT_SET_MODE, GDROM_PKT_REQ_ERROR, GDROM_PKT_READ_TOC, GDROM_PKT_READ,
          GDROM_PKT_START_DISK, GDROM_PKT_UNKNOWN_71] →
        (gdrom_input_packet env wp).raised = some error_type.ERROR_UNIMPLEMENTED
        ∧ (gdrom_input_packet env wp).w.err.gdrom_command = some (pkt_byte wp 0)
        ∧ (gdrom_input_packet env wp).w.bufq = wp.bufq
        ∧ (gdrom_input_packet env wp).w.data_byte_count = wp.data_byte_count
        ∧ (gdrom_input_packet env wp).w.error_reg = wp.error_reg
        ∧ (gdrom_input_packet env wp).w.additional_sense = wp.additional_sense
        ∧ (gdrom_input_packet env wp).w.int_reason_reg = wp.int_reason_reg) := by
  have hb : pkt_byte { gdrom_cmd_begin_packet w with
        pkt_buf := pkt_buf_with w.pkt_buf 0 (packet_bytes ws),
        n_bytes_received := 0 } 0 = (packet_bytes ws).getD 0 0 :=
    pkt_byte_after_writes _ w.pkt_buf ws 0 h6 (by decide) rfl
  have hgen : ∀ wp : World,
      pkt_byte wp 0 ∉ [GDROM_PKT_TEST_UNIT, GDROM_PKT_REQ_STAT, GDROM_PKT_REQ_MODE,
        GDROM_PKT_SET_MODE, GDROM_PKT_REQ_ERROR, GDROM_PKT_READ_TOC, GDROM_PKT_READ,
        GDROM_PKT_START_DISK, GDROM_PKT_UNKNOWN_71] →
      (gdrom_input_packet env wp).raised = some error_type.ERROR_UNIMPLEMENTED
      ∧ (gdrom_input_packet env wp).w.err.gdrom_command = some (pkt_byte wp 0)
      ∧ (gdrom_input_packet env wp).w.bufq = wp.bufq
      ∧ (gdrom_input_packet env wp).w.data_byte_count = wp.data_byte_count
      ∧ (gdrom_input_packet env wp).w.error_reg = wp.error_reg
      ∧ (gdrom_input_packet env wp).w.additional_sense = wp.additional_sense
      ∧ (gdrom_input_packet env wp).w.int_reason_reg = wp.int_reason_reg := by
    intro wp hwp
    rw [gdrom_input_packet_unknown env wp hwp, input_packet_entry_eq]
    exact ⟨rfl, rfl, rfl, rfl, rfl, rfl, rfl⟩
  have hcmdw : (gdrom_reg_write env w cbuf 0x5f709c clen).w = gdrom_cmd_begin_packet w := by
    rw [gdrom_reg_write_cmd env w cbuf clen hclen,
      gdrom_cmd_reg_write_handler_pkt env w cbuf _ clen hcmd]
  rw [packet_command_eq env w cbuf clen ws hclen hcmd h6 hws,
    gdrom_input_packet_unknown env _ (by rw [hb]; exact hop), hb, hcmdw, input_packet_entry_eq]
  exact ⟨rfl, rfl, rfl, rfl, rfl, rfl, rfl, rfl, hgen⟩

/-- Witness for C13: the packet with first byte 0x55 after a PACKET command in the initial
state. -/
theorem C13_unknown_packet_raises_witness :
    (1 ≤ 4) ∧ written_word [0xa0] 1 = GDROM_CMD_PKT
    ∧ (packet_bytes [([0x55, 0], 2), ([0, 0], 2), ([0, 0], 2), ([0, 0], 2), ([0, 0], 2),
        ([0, 0], 2)]).getD 0 0 ∉ [GDROM_PKT_TEST_UNIT, GDROM_PKT_REQ_STAT,
        GDROM_PKT_REQ_MODE, GDROM_PKT_SET_MODE, GDROM_PKT_REQ_ERROR, GDROM_PKT_READ_TOC,
        GDROM_PKT_READ, GDROM_PKT_START_DISK, GDROM_PKT_UNKNOWN_71]
    ∧ (packet_command Env.sample World.init [0xa0] 1
        [([0x55, 0], 2), ([0, 0], 2), ([0, 0], 2), ([0, 0], 2), ([0, 0], 2), ([0, 0], 2)]).ret
        = Ret.RAISED error_type.ERROR_UNIMPLEMENTED :=
  ⟨by decide, written_word_le_bytes_a0, by decide,
    (C13_unknown_packet_raises Env.sample World.init [0xa0] 1
      [([0x55, 0], 2), ([0, 0], 2), ([0, 0], 2), ([0, 0], 2), ([0, 0], 2), ([0, 0], 2)]
      (by decide) written_word_le_bytes_a0 rfl (by decide) (by decide)).1⟩

theorem req_mode_info_length : req_mode_info.length = 32 := by decide

theorem ite_gt_eq_min (a b : Nat) : (if a > b then b else a) = min a b := by
  by_cases h : a > b
  · rw [if_pos h, Nat.min_eq_right (Nat.le_of_lt h)]
  · rw [if_neg h, Nat.min_eq_left (Nat.not_lt.mp h)]

/-- A REQ_MODE packet with a nonzero length byte, seen through the registers:
the state after the PACKET command and the six writes. -/
theorem packet_command_req_mode (env : Env) (w : World) (cbuf : List Nat) (clen : Nat)
    (ws : List (List Nat × Nat)) (hclen : clen ≤ 4)
    (hcmd : written_word cbuf clen = GDROM_CMD_PKT) (h6 : ws.length = 6)
    (hws : ∀ y ∈ ws, y.2 ≤ 4)
    (hop : (packet_bytes ws).getD 0 0 = GDROM_PKT_REQ_MODE)
    (hlen : (packet_bytes ws).getD 4 0 ≠ 0) :
    packet_command env w cbuf clen ws
      = { ret := Ret.MEM_ACCESS_SUCCESS, buf := [],
          w := { packet_entry_world w ws with
            bufq := [{ idx := 0,
                       len := min ((packet_bytes ws).getD 2 0 + (packet_bytes ws).getD 4 0 - 1) 31
                              - min ((packet_bytes ws).getD 2 0) 31 + 1,
                       dat := (req_mode_info.drop (min ((packet_bytes ws).getD 2 0) 31)).take
                         (min ((packet_bytes ws).getD 2 0 + (packet_bytes ws).getD 4 0 - 1) 31
                           - min ((packet_bytes ws).getD 2 0) 31 + 1) }],
            data_byte_count :=
              min ((packet_bytes ws).getD 2 0 + (packet_bytes ws).getD 4 0 - 1) 31
                - min ((packet_bytes ws).getD 2 0) 31 + 1,
            int_reason_reg := mask_clear
              ((packet_entry_world w ws).int_reason_reg ||| INT_REASON_IO_MASK)
              INT_REASON_COD_MASK,
            stat_reg := mask_clear ((packet_entry_world w ws).stat_reg ||| STAT_DRQ_MASK)
              STAT_CHECK_MASK,
            holly := if flag (packet_entry_world w ws).dev_ctrl_reg DEV_CTRL_NIEN_MASK
                     then (packet_entry_world w ws).holly
                     else (packet_entry_world w ws).holly ++ [holly_call.raise_ext_int],
            state := gdrom_state.GDROM_STATE_NORM,
            error_reg := error_reg_zero } } := by
  have e : (packet_bytes ws).getD 2 0 + ((packet_bytes ws).getD 4 0 - 1)
      = (packet_bytes ws).getD 2 0 + (packet_bytes ws).getD 4 0 - 1 := by omega
  rw [packet_command_switch env w cbuf clen ws hclen hcmd h6 hws, hop,
    if_neg (by decide), if_neg (by decide), if_pos rfl]
  unfold gdrom_input_req_mode_packet
  simp only [pkt_byte_packet_entry_world w ws 2 h6 (by decide),
    pkt_byte_packet_entry_world w ws 4 h6 (by decide), if_pos hlen, ite_gt_eq_min, e,
    raise_int_unless_nien_eq, bufq_clear, List.nil_append, Exec.returning]

theorem req_mode_range (pb : List Nat) (hlen : pb.getD 4 0 ≠ 0) :
    req_mode_first pb ≤ req_mode_last pb ∧ req_mode_last pb ≤ 31
    ∧ 1 ≤ req_mode_last pb - req_mode_first pb + 1
    ∧ req_mode_last pb - req_mode_first pb + 1 ≤ 32 := by
  unfold req_mode_first req_mode_last
  omega

theorem req_mode_slice (f n : Nat) (h : f + n ≤ 32) :
    ((req_mode_info.drop f).take n).length = n
    ∧ ∀ i, i < n → ((req_mode_info.drop f).take n).getD i 0 = req_mode_info.getD (f + i) 0 := by
  constructor
  · rw [List.length_take, List.length_drop, req_mode_info_length]
    omega
  · intro i hi
    simp only [List.getD_eq_getElem?_getD, List.getElem?_take, List.getElem?_drop, hi, if_true]

/-- C16: a REQ_MODE packet (0x11) with start = packet byte 2 and a nonzero
len = packet byte 4 returns success and leaves the queue holding exactly one
node with cursor 0 whose bytes are info[f..l] of the 32-byte mode block, where
f = min(start, 31) and l = min(start + len - 1, 31); f <= l <= 31, so the
length l - f + 1 is between 1 and 32 and every byte comes from inside the
block.  data_byte_count is that length, DRQ is set, IO is set and COD clear
in the interrupt-reason register, and the state is NORMAL.  With start 0 and
len 32 the node is the whole block; with start 30 and len 4 it is bytes 30
and 31. -/
theorem C16_req_mode_packet (env : Env) (w : World) (cbuf : List Nat) (clen : Nat)
    (ws : List (List Nat × Nat)) (hclen : clen ≤ 4)
    (hcmd : written_word cbuf clen = GDROM_CMD_PKT) (h6 : ws.length = 6)
    (hws : ∀ y ∈ ws, y.2 ≤ 4)
    (hop : (packet_bytes ws).getD 0 0 = GDROM_PKT_REQ_MODE)
    (hlen : (packet_bytes ws).getD 4 0 ≠ 0) :
    (packet_command env w cbuf clen ws).ret = Ret.MEM_ACCESS_SUCCESS
    ∧ (packet_command env w cbuf clen ws).w.bufq
        = [{ idx := 0,
             len := req_mode_last (packet_bytes ws) - req_mode_first (packet_bytes ws) + 1,
             dat := (req_mode_info.drop (req_mode_first (packet_bytes ws))).take
               (req_mode_last (packet_bytes ws) - req_mode_first (packet_bytes ws) + 1) }]
    ∧ (req_mode_first (packet_bytes ws) ≤ req_mode_last (packet_bytes ws)
        ∧ req_mode_last (packet_bytes ws) ≤ 31
        ∧ 1 ≤ req_mode_last (packet_bytes ws) - req_mode_first (packet_bytes ws) + 1
        ∧ req_mode_last (packet_bytes ws) - req_mode_first (packet_bytes ws) + 1 ≤ 32)
    ∧ ((req_mode_info.drop (req_mode_first (packet_bytes ws))).take
        (req_mode_last (packet_bytes ws) - req_mode_first (packet_bytes ws) + 1)).length
        = req_mode_last (packet_bytes ws) - req_mode_first (packet_bytes ws) + 1
    ∧ (∀ i, i < req_mode_last (packet_bytes ws) - req_mode_first (packet_bytes ws) + 1 →
        ((req_mode_info.drop (req_mode_first (packet_bytes ws))).take
          (req_mode_last (packet_bytes ws) - req_mode_first (packet_bytes ws) + 1)).getD i 0
          = req_mode_info.getD (req_mode_first (packet_bytes ws) + i) 0)
    ∧ (packet_command env w cbuf clen ws).w.data_byte_count
        = req_mode_last (packet_bytes ws) - req_mode_first (packet_bytes ws) + 1
    ∧ drq_signal (packet_command env w cbuf clen ws).w = true
    ∧ flag (packet_command env w cbuf clen ws).w.int_reason_reg INT_REASON_IO_MASK = true
    ∧ flag (packet_command env w cbuf clen ws).w.int_reason_reg INT_REASON_COD_MASK = false
    ∧ (packet_command env w cbuf clen ws).w.state = gdrom_state.GDROM_STATE_NORM
    ∧ ((packet_bytes ws).getD 2 0 = 0 → (packet_bytes ws).getD 4 0 = 32 →
        (packet_command env w cbuf clen ws).w.bufq
          = [{ idx := 0, len := 32, dat := req_mode_info }])
    ∧ ((packet_bytes ws).getD 2 0 = 30 → (packet_bytes ws).getD 4 0 = 4 →
        (packet_command env w cbuf clen ws).w.bufq
          = [{ idx := 0, len := 2, dat := [0x31, 0x36] }]) := by
  obtain ⟨r1, r2, r3, r4⟩ := req_mode_range (packet_bytes ws) hlen
  obtain ⟨s1, s2⟩ := req_mode_slice (req_mode_first (packet_bytes ws))
    (req_mode_last (packet_bytes ws) - req_mode_first (packet_bytes ws) + 1) (by omega)
  rw [packet_command_req_mode env w cbuf clen ws hclen hcmd h6 hws hop hlen]
  refine ⟨rfl, rfl, ⟨r1, r2, r3, r4⟩, s1, s2, rfl, ?_, ?_, ?_, rfl, ?_, ?_⟩
  · simp only [drq_signal, ← flag.eq_1]
    simp +decide [-Nat.testBit_zero, testBit_mask_clear]
  · simp only []
    simp +decide [-Nat.testBit_zero, testBit_mask_clear]
  · simp only []
    simp +decide [-Nat.testBit_zero, testBit_mask_clear]
  · intro h2 h4
    simp only [h2, h4]
    decide
  · intro h2 h4
    simp only [h2, h4]
    decide

/-- Witness for C16: REQ_MODE with start 30 and len 4 in the initial state returns bytes 30
and 31 of the mode block. -/
theorem C16_req_mode_packet_witness :
    (1 ≤ 4) ∧ written_word [0xa0] 1 = GDROM_CMD_PKT
    ∧ (packet_bytes [([0x11, 0], 2), ([30, 0], 2), ([4, 0], 2), ([0, 0], 2), ([0, 0], 2),
        ([0, 0], 2)]).getD 0 0 = GDROM_PKT_REQ_MODE
    ∧ (packet_bytes [([0x11, 0], 2), ([30, 0], 2), ([4, 0], 2), ([0, 0], 2), ([0, 0], 2),
        ([0, 0], 2)]).getD 4 0 ≠ 0
    ∧ (packet_command Env.sample World.init [0xa0] 1
        [([0x11, 0], 2), ([30, 0], 2), ([4, 0], 2), ([0, 0], 2), ([0, 0], 2),
          ([0, 0], 2)]).w.bufq = [{ idx := 0, len := 2, dat := [0x31, 0x36] }] :=
  ⟨by decide, written_word_le_bytes_a0, by decide, by decide,
    (C16_req_mode_packet Env.sample World.init [0xa0] 1
      [([0x11, 0], 2), ([30, 0], 2), ([4, 0], 2), ([0, 0], 2), ([0, 0], 2), ([0, 0], 2)]
      (by decide) written_word_le_bytes_a0 rfl (by decide) (by decide)
      (by decide)).2.2.2.2.2.2.2.2.2.2.2 (by decide) (by decide)⟩

theorem req_error_response_packet_entry_world (w : World) (ws : List (List Nat × Nat)) :
    req_error_response (packet_entry_world w ws) = req_error_response w := by
  rw [packet_entry_world_eq]
  rfl

theorem packet_entry_world_frame (w : World) (ws : List (List Nat × Nat)) :
    (packet_entry_world w ws).data_byte_count = w.data_byte_count
    ∧ (packet_entry_world w ws).error_reg = w.error_reg
    ∧ (packet_entry_world w ws).additional_sense = w.additional_sense
    ∧ (packet_entry_world w ws).mount_reads = w.mount_reads
    ∧ (packet_entry_world w ws).bufq = w.bufq
    ∧ (packet_entry_world w ws).err = w.err
    ∧ (packet_entry_world w ws).feat_reg = w.feat_reg := by
  rw [packet_entry_world_eq]
  exact ⟨rfl, rfl, rfl, rfl, rfl, rfl, rfl⟩

/-- A REQ_ERROR packet, seen through the registers: the state after the
PACKET command and the six writes. -/
theorem packet_command_req_error (env : Env) (w : World) (cbuf : List Nat) (clen : Nat)
    (ws : List (List Nat × Nat)) (hclen : clen ≤ 4)
    (hcmd : written_word cbuf clen = GDROM_CMD_PKT) (h6 : ws.length = 6)
    (hws : ∀ y ∈ ws, y.2 ≤ 4)
    (hop : (packet_bytes ws).getD 0 0 = GDROM_PKT_REQ_ERROR) :
    packet_command env w cbuf clen ws
      = { ret := Ret.MEM_ACCESS_SUCCESS, buf := [],
          w := { packet_entry_world w ws with
            bufq := if (packet_bytes ws).getD 4 0 ≠ 0 then
                      [{ idx := 0, len := min ((packet_bytes ws).getD 4 0) 10,
                         dat := (req_error_response w).take
                           (min ((packet_bytes ws).getD 4 0) 10) }]
                    else [],
            data_byte_count := if (packet_bytes ws).getD 4 0 ≠ 0 then
                                 min ((packet_bytes ws).getD 4 0) 10
                               else w.data_byte_count,
            int_reason_reg := mask_clear
              ((packet_entry_world w ws).int_reason_reg ||| INT_REASON_IO_MASK)
              INT_REASON_COD_MASK,
            stat_reg := (packet_entry_world w ws).stat_reg ||| STAT_DRQ_MASK,
            holly := if flag (packet_entry_world w ws).dev_ctrl_reg DEV_CTRL_NIEN_MASK
                     then (packet_entry_world w ws).holly
                     else (packet_entry_world w ws).holly ++ [holly_call.raise_ext_int],
            state := gdrom_state.GDROM_STATE_NORM } } := by
  rw [packet_command_switch env w cbuf clen ws hclen hcmd h6 hws, hop,
    if_neg (by decide), if_neg (by decide), if_neg (by decide), if_neg (by decide), if_pos rfl]
  rw [← req_error_response_packet_entry_world w ws,
    ← (packet_entry_world_frame w ws).1]
  unfold gdrom_input_req_error_packet req_error_response
  simp only [pkt_byte_packet_entry_world w ws 4 h6 (by decide), ite_gt_eq_min]
  by_cases hn : (packet_bytes ws).getD 4 0 = 0
  · simp only [hn, Nat.zero_min, ne_eq, not_true_eq_false, if_false,
      raise_int_unless_nien_eq, bufq_clear, Exec.returning]
  · have hm : min ((packet_bytes ws).getD 4 0) 10 ≠ 0 := by omega
    simp only [ne_eq, hn, hm, not_false_eq_true, if_true,
      raise_int_unless_nien_eq, bufq_clear, List.nil_append, Exec.returning]

/-- C17: a REQ_ERROR packet (0x13) with requested length n = packet byte 4
returns success; if n is not 0 the queue afterwards holds exactly one node,
with cursor 0, whose bytes are the first min(n, 10) bytes of
[0xf0, 0, sense_key and 0xf, 0, 0, 0, 0, 0, additional_sense (its low byte), 0],
and data_byte_count is min(n, 10); if n is 0 the queue is empty and
data_byte_count is what it was before the command.  In both cases IO is set
and COD clear in the interrupt-reason register, DRQ is set, the state is
NORMAL, and the error register and additional_sense are unchanged. -/
theorem C17_req_error_packet (env : Env) (w : World) (cbuf : List Nat) (clen : Nat)
    (ws : List (List Nat × Nat)) (hclen : clen ≤ 4)
    (hcmd : written_word cbuf clen = GDROM_CMD_PKT) (h6 : ws.length = 6)
    (hws : ∀ y ∈ ws, y.2 ≤ 4)
    (hop : (packet_bytes ws).getD 0 0 = GDROM_PKT_REQ_ERROR) :
    (packet_command env w cbuf clen ws).ret = Ret.MEM_ACCESS_SUCCESS
    ∧ ((packet_bytes ws).getD 4 0 ≠ 0 →
        (packet_command env w cbuf clen ws).w.bufq
          = [{ idx := 0, len := min ((packet_bytes ws).getD 4 0) 10,
               dat := ([0xf0, 0, w.error_reg.sense_key &&& 0xf, 0, 0, 0, 0, 0,
                        w.additional_sense % 256, 0] : List Nat).take
                 (min ((packet_bytes ws).getD 4 0) 10) }]
        ∧ (([0xf0, 0, w.error_reg.sense_key &&& 0xf, 0, 0, 0, 0, 0,
              w.additional_sense % 256, 0] : List Nat).take
            (min ((packet_bytes ws).getD 4 0) 10)).length
            = min ((packet_bytes ws).getD 4 0) 10
        ∧ (packet_command env w cbuf clen ws).w.data_byte_count
            = min ((packet_bytes ws).getD 4 0) 10)
    ∧ ((packet_bytes ws).getD 4 0 = 0 →
        (packet_command env w cbuf clen ws).w.bufq = []
        ∧ (packet_command env w cbuf clen ws).w.data_byte_count = w.data_byte_count)
    ∧ (w.additional_sense < 256 → w.additional_sense % 256 = w.additional_sense)
    ∧ flag (packet_command env w cbuf clen ws).w.int_reason_reg INT_REASON_IO_MASK = true
    ∧ flag (packet_command env w cbuf clen ws).w.int_reason_reg INT_REASON_COD_MASK = false
    ∧ drq_signal (packet_command env w cbuf clen ws).w = true
    ∧ (packet_command env w cbuf clen ws).w.state = gdrom_state.GDROM_STATE_NORM
    ∧ (packet_command env w cbuf clen ws).w.error_reg = w.error_reg
    ∧ (packet_command env w cbuf clen ws).w.additional_sense = w.additional_sense := by
  obtain ⟨-, f2, f3, -, -, -, -⟩ := packet_entry_world_frame w ws
  rw [packet_command_req_error env w cbuf clen ws hclen hcmd h6 hws hop]
  refine ⟨rfl, ?_, ?_, fun h => Nat.mod_eq_of_lt h, ?_, ?_, ?_, rfl, f2, f3⟩
  · intro hn
    refine ⟨?_, ?_, ?_⟩
    · simp only [ne_eq, hn, not_false_eq_true, if_true]
      rfl
    · rw [List.length_take]
      simp only [List.length_cons, List.length_nil]
      omega
    · simp only [ne_eq, hn, not_false_eq_true, if_true]
  · intro hn
    simp only [hn, ne_eq, not_true_eq_false, if_false, and_self]
  · simp only []
    simp +decide [-Nat.testBit_zero, testBit_mask_clear]
  · simp only []
    simp +decide [-Nat.testBit_zero, testBit_mask_clear]
  · simp only [drq_signal, ← flag.eq_1]
    simp +decide [-Nat.testBit_zero, testBit_mask_clear]

/-- Witness for C17: REQ_ERROR asking for 4 bytes in the initial state queues the first four
bytes of the response. -/
theorem C17_req_error_packet_witness :
    (1 ≤ 4) ∧ written_word [0xa0] 1 = GDROM_CMD_PKT
    ∧ (packet_bytes [([0x13, 0], 2), ([0, 0], 2), ([4, 0], 2), ([0, 0], 2), ([0, 0], 2),
        ([0, 0], 2)]).getD 0 0 = GDROM_PKT_REQ_ERROR
    ∧ (packet_command Env.sample World.init [0xa0] 1
        [([0x13, 0], 2), ([0, 0], 2), ([4, 0], 2), ([0, 0], 2), ([0, 0], 2),
          ([0, 0], 2)]).w.data_byte_count = 4 :=
  ⟨by decide, written_word_le_bytes_a0, by decide,
    ((C17_req_error_packet Env.sample World.init [0xa0] 1
      [([0x13, 0], 2), ([0, 0], 2), ([4, 0], 2), ([0, 0], 2), ([0, 0], 2), ([0, 0], 2)]
      (by decide) written_word_le_bytes_a0 rfl (by decide) (by decide)).2.1
      (by decide)).2.2⟩

/-! ## The READ packet -/

theorem read_nodes_length (env : Env) (first fad k : Nat) :
    (read_nodes env first fad k).length = k := by
  induction k generalizing first with
  | zero => rfl
  | succ j ih => simp only [read_nodes, List.length_cons, ih]

theorem read_nodes_mem (env : Env) (first fad k : Nat) (n : gdrom_bufq_node)
    (h : n ∈ read_nodes env first fad k) :
    n.idx = 0 ∧ n.len = env.CDROM_FRAME_DATA_SIZE := by
  induction k generalizing first with
  | zero => cases h
  | succ j ih =>
    simp only [read_nodes, List.mem_cons] at h
    rcases h with h | h
    · rw [h]
      exact ⟨rfl, rfl⟩
    · exact ih (first + 1) h

/-- The sector loop of a READ packet when its first `j` reads succeed and
either `j` is the sector count or the next read fails. -/
theorem gdrom_input_read_packet_loop_run (env : Env) (fad j k : Nat) (w : World)
    (hj : j ≤ k) (hs : reads_succeed env w.mount_reads.length fad j) :
    (j = k →
      gdrom_input_read_packet_loop env fad k w
        = ({ w with
             bufq := w.bufq ++ read_nodes env w.mount_reads.length fad j,
             mount_reads := w.mount_reads ++ List.replicate j (fad, 1) }, true))
    ∧ (j < k → env.mount_read_sectors (w.mount_reads.length + j) fad 1 = none →
      gdrom_input_read_packet_loop env fad k w
        = ({ w with
             bufq := w.bufq ++ read_nodes env w.mount_reads.length fad j,
             mount_reads := w.mount_reads ++ List.replicate (j + 1) (fad, 1),
             error_reg := { w.error_reg with sense_key := SENSE_KEY_ILLEGAL_REQ },
             stat_reg := w.stat_reg ||| STAT_CHECK_MASK,
             state := gdrom_state.GDROM_STATE_NORM }, false)) := by
  induction j generalizing k w with
  | zero =>
    constructor
    · intro hk
      subst hk
      simp only [gdrom_input_read_packet_loop, read_nodes, List.append_nil, List.replicate]
    · intro hk hf
      obtain ⟨k1, rfl⟩ : ∃ k1, k = k1 + 1 := ⟨k - 1, by omega⟩
      rw [Nat.add_zero] at hf
      simp only [gdrom_input_read_packet_loop, hf, read_nodes, List.append_nil,
        List.replicate]
  | succ i ih =>
    obtain ⟨k1, rfl⟩ : ∃ k1, k = k1 + 1 := ⟨k - 1, by omega⟩
    rw [reads_succeed_succ] at hs
    obtain ⟨h0, hrest⟩ := hs
    obtain ⟨dat, hdat⟩ := Option.isSome_iff_exists.mp h0
    have hstep := ih k1
      { w with
        mount_reads := w.mount_reads ++ [(fad, 1)],
        bufq := w.bufq ++ [{ idx := 0, len := env.CDROM_FRAME_DATA_SIZE, dat := dat }] }
      (by omega)
      (by simpa only [List.length_append, List.length_singleton] using hrest)
    simp only [List.length_append, List.length_singleton] at hstep
    constructor
    · intro hk
      have h1 := hstep.1 (by omega)
      simp only [gdrom_input_read_packet_loop, hdat, h1, read_nodes, Option.getD_some,
        List.append_assoc, List.singleton_append, List.replicate_succ]
    · intro hk hf
      have h1 := hstep.2 (by omega) (by rw [← hf]; congr 1; omega)
      simp only [gdrom_input_read_packet_loop, hdat, h1, read_nodes, Option.getD_some,
        List.append_assoc, List.singleton_append, List.replicate_succ]

/-- What the statements after the sector loop leave alone. -/
theorem gdrom_input_read_packet_tail_frame (r : World × Bool) :
    (gdrom_input_read_packet_tail r).raised = none
    ∧ (gdrom_input_read_packet_tail r).w.bufq = r.1.bufq
    ∧ (gdrom_input_read_packet_tail r).w.data_byte_count = r.1.data_byte_count
    ∧ (gdrom_input_read_packet_tail r).w.mount_reads = r.1.mount_reads := by
  unfold gdrom_input_read_packet_tail
  split
  · exact ⟨rfl, rfl, rfl, rfl⟩
  · simp only []
    split
    · exact ⟨rfl, rfl, rfl, rfl⟩
    · simp only [raise_int_unless_nien_eq]
      exact ⟨trivial, trivial, trivial, trivial⟩

/-- A READ packet whose data-selection field is 2 and whose addressing bit is
0, seen through the registers: the queue is cleared, data_byte_count is set,
then the sector loop and the statements after it run. -/
theorem packet_command_read (env : Env) (w : World) (cbuf : List Nat) (clen : Nat)
    (ws : List (List Nat × Nat)) (hclen : clen ≤ 4)
    (hcmd : written_word cbuf clen = GDROM_CMD_PKT) (h6 : ws.length = 6)
    (hws : ∀ y ∈ ws, y.2 ≤ 4)
    (hop : (packet_bytes ws).getD 0 0 = GDROM_PKT_READ)
    (hsel : (packet_bytes ws).getD 1 0 >>> 4 = 2)
    (htp : (packet_bytes ws).getD 1 0 &&& 1 = 0) :
    packet_command env w cbuf clen ws
      = (gdrom_input_read_packet_tail
          (gdrom_input_read_packet_loop env (read_start_addr (packet_bytes ws))
            (read_trans_len (packet_bytes ws))
            { packet_entry_world w ws with
              bufq := [],
              data_byte_count :=
                (env.CDROM_FRAME_DATA_SIZE * read_trans_len (packet_bytes ws)) % 2 ^ 32 })
        ).returning Ret.MEM_ACCESS_SUCCESS := by
  rw [packet_command_switch env w cbuf clen ws hclen hcmd h6 hws, hop,
    if_neg (by decide), if_neg (by decide), if_neg (by decide), if_neg (by decide),
    if_neg (by decide), if_neg (by decide), if_neg (by decide), if_pos rfl]
  unfold gdrom_input_read_packet read_start_addr read_trans_len
  simp only [pkt_byte_packet_entry_world w ws 1 h6 (by decide),
    pkt_byte_packet_entry_world w ws 2 h6 (by decide),
    pkt_byte_packet_entry_world w ws 3 h6 (by decide),
    pkt_byte_packet_entry_world w ws 4 h6 (by decide),
    pkt_byte_packet_entry_world w ws 8 h6 (by decide),
    pkt_byte_packet_entry_world w ws 9 h6 (by decide),
    pkt_byte_packet_entry_world w ws 10 h6 (by decide), hsel, htp, ne_eq,
    not_true_eq_false, if_false, bufq_clear]

theorem returning_ret_of_not_raised (e : Exec) (ret : Ret) (h : e.raised = none) :
    (e.returning ret).ret = ret := by
  unfold Exec.returning
  rw [h]

/-- A READ packet all of whose sector reads succeed. -/
theorem packet_command_read_success (env : Env) (w : World) (cbuf : List Nat) (clen : Nat)
    (ws : List (List Nat × Nat)) (hclen : clen ≤ 4)
    (hcmd : written_word cbuf clen = GDROM_CMD_PKT) (h6 : ws.length = 6)
    (hws : ∀ y ∈ ws, y.2 ≤ 4)
    (hop : (packet_bytes ws).getD 0 0 = GDROM_PKT_READ)
    (hsel : (packet_bytes ws).getD 1 0 >>> 4 = 2)
    (htp : (packet_bytes ws).getD 1 0 &&& 1 = 0)
    (hreads : reads_succeed env w.mount_reads.length (read_start_addr (packet_bytes ws))
      (read_trans_len (packet_bytes ws))) :
    (packet_command env w cbuf clen ws).ret = Ret.MEM_ACCESS_SUCCESS
    ∧ (packet_command env w cbuf clen ws).w.bufq
        = read_nodes env w.mount_reads.length (read_start_addr (packet_bytes ws))
            (read_trans_len (packet_bytes ws))
    ∧ (packet_command env w cbuf clen ws).w.data_byte_count
        = (env.CDROM_FRAME_DATA_SIZE * read_trans_len (packet_bytes ws)) % 2 ^ 32
    ∧ (packet_command env w cbuf clen ws).w.mount_reads
        = w.mount_reads
            ++ List.replicate (read_trans_len (packet_bytes ws))
                 (read_start_addr (packet_bytes ws), 1) := by
  obtain ⟨-, -, -, fm, -, -, -⟩ := packet_entry_world_frame w ws
  have hl := (gdrom_input_read_packet_loop_run env (read_start_addr (packet_bytes ws))
    (read_trans_len (packet_bytes ws)) (read_trans_len (packet_bytes ws))
    { packet_entry_world w ws with
      bufq := [],
      data_byte_count :=
        (env.CDROM_FRAME_DATA_SIZE * read_trans_len (packet_bytes ws)) % 2 ^ 32 }
    (Nat.le_refl _)
    (by
      show reads_succeed env (packet_entry_world w ws).mount_reads.length _ _
      rw [fm]
      exact hreads)).1 rfl
  rw [packet_command_read env w cbuf clen ws hclen hcmd h6 hws hop hsel htp, hl]
  obtain ⟨t1, t2, t3, t4⟩ := gdrom_input_read_packet_tail_frame
    ({ packet_entry_world w ws with
       bufq := [] ++ read_nodes env (packet_entry_world w ws).mount_reads.length
         (read_start_addr (packet_bytes ws)) (read_trans_len (packet_bytes ws)),
       data_byte_count :=
         (env.CDROM_FRAME_DATA_SIZE * read_trans_len (packet_bytes ws)) % 2 ^ 32,
       mount_reads := (packet_entry_world w ws).mount_reads
         ++ List.replicate (read_trans_len (packet_bytes ws))
              (read_start_addr (packet_bytes ws), 1) }, true)
  refine ⟨returning_ret_of_not_raised _ _ t1, ?_, ?_, ?_⟩
  · rw [returning_w]
    refine t2.trans ?_
    show [] ++ read_nodes env (packet_entry_world w ws).mount_reads.length _ _ = _
    rw [fm, List.nil_append]
  · rw [returning_w]
    exact t3
  · rw [returning_w]
    refine t4.trans ?_
    show (packet_entry_world w ws).mount_reads ++ _ = _
    rw [fm]

/-- A READ packet whose first `j` sector reads succeed and whose next one,
still within the sector count, fails. -/
theorem packet_command_read_failure (env : Env) (w : World) (cbuf : List Nat) (clen : Nat)
    (ws : List (List Nat × Nat)) (j : Nat) (hclen : clen ≤ 4)
    (hcmd : written_word cbuf clen = GDROM_CMD_PKT) (h6 : ws.length = 6)
    (hws : ∀ y ∈ ws, y.2 ≤ 4)
    (hop : (packet_bytes ws).getD 0 0 = GDROM_PKT_READ)
    (hsel : (packet_bytes ws).getD 1 0 >>> 4 = 2)
    (htp : (packet_bytes ws).getD 1 0 &&& 1 = 0)
    (hj : j < read_trans_len (packet_bytes ws))
    (hreads : reads_succeed env w.mount_reads.length (read_start_addr (packet_bytes ws)) j)
    (hfail : env.mount_read_sectors (w.mount_reads.length + j)
      (read_start_addr (packet_bytes ws)) 1 = none) :
    (packet_command env w cbuf clen ws).ret = Ret.MEM_ACCESS_SUCCESS
    ∧ (packet_command env w cbuf clen ws).w.bufq
        = read_nodes env w.mount_reads.length (read_start_addr (packet_bytes ws)) j
    ∧ (packet_command env w cbuf clen ws).w.mount_reads
        = w.mount_reads ++ List.replicate (j + 1) (read_start_addr (packet_bytes ws), 1)
    ∧ (packet_command env w cbuf clen ws).w.error_reg.sense_key = SENSE_KEY_ILLEGAL_REQ
    ∧ flag (packet_command env w cbuf clen ws).w.stat_reg STAT_CHECK_MASK = true
    ∧ (packet_command env w cbuf clen ws).w.state = gdrom_state.GDROM_STATE_NORM := by
  obtain ⟨-, -, -, fm, -, -, -⟩ := packet_entry_world_frame w ws
  have hl := (gdrom_input_read_packet_loop_run env (read_start_addr (packet_bytes ws))
    j (read_trans_len (packet_bytes ws))
    { packet_entry_world w ws with
      bufq := [],
      data_byte_count :=
        (env.CDROM_FRAME_DATA_SIZE * read_trans_len (packet_bytes ws)) % 2 ^ 32 }
    (Nat.le_of_lt hj)
    (by
      show reads_succeed env (packet_entry_world w ws).mount_reads.length _ _
      rw [fm]
      exact hreads)).2 hj
    (by
      show env.mount_read_sectors ((packet_entry_world w ws).mount_reads.length + j) _ 1 = none
      rw [fm]
      exact hfail)
  rw [packet_command_read env w cbuf clen ws hclen hcmd h6 hws hop hsel htp, hl]
  obtain ⟨t1, t2, -, -⟩ := gdrom_input_read_packet_tail_spec
    ({ packet_entry_world w ws with
       bufq := [] ++ read_nodes env (packet_entry_world w ws).mount_reads.length
         (read_start_addr (packet_bytes ws)) j,
       data_byte_count :=
         (env.CDROM_FRAME_DATA_SIZE * read_trans_len (packet_bytes ws)) % 2 ^ 32,
       mount_reads := (packet_entry_world w ws).mount_reads
         ++ List.replicate (j + 1) (read_start_addr (packet_bytes ws), 1),
       error_reg := { (packet_entry_world w ws).error_reg with
         sense_key := SENSE_KEY_ILLEGAL_REQ },
       stat_reg := (packet_entry_world w ws).stat_reg ||| STAT_CHECK_MASK,
       state := gdrom_state.GDROM_STATE_NORM }, false)
  have t2 := t2 rfl
  refine ⟨returning_ret_of_not_raised _ _ t1, ?_, ?_, ?_, ?_, ?_⟩
  · rw [returning_w]
    refine (congrArg World.bufq t2).trans ?_
    show [] ++ read_nodes env (packet_entry_world w ws).mount_reads.length _ _ = _
    rw [fm, List.nil_append]
  · rw [returning_w]
    refine (congrArg World.mount_reads t2).trans ?_
    show (packet_entry_world w ws).mount_reads ++ _ = _
    rw [fm]
  · rw [returning_w]
    exact congrArg (fun x => x.error_reg.sense_key) t2
  · rw [returning_w]
    refine (congrArg (fun x => flag x.stat_reg STAT_CHECK_MASK) t2).trans ?_
    show flag ((packet_entry_world w ws).stat_reg ||| STAT_CHECK_MASK) STAT_CHECK_MASK = true
    simp +decide [-Nat.testBit_zero]
  · rw [returning_w]
    exact congrArg World.state t2

/-- C18 (amended): for a READ packet (0x30) with data-selection field
(packet byte 1 >> 4) equal to 2, addressing bit (packet byte 1 and 1) equal to
0, start FAD S = big-endian bytes 2..4 and sector count K = big-endian bytes
8..10, when every sector read succeeds: the access returns success, any
previous queue content is discarded and the queue holds exactly K nodes, each
with cursor 0 and valid length CDROM_FRAME_DATA_SIZE, and data_byte_count is
K * CDROM_FRAME_DATA_SIZE reduced modulo 2^32, which is
K * CDROM_FRAME_DATA_SIZE itself when that product is below 2^32. -/
theorem C18_read_packet_queues_sectors (env : Env) (w : World) (cbuf : List Nat) (clen : Nat)
    (ws : List (List Nat × Nat)) (hclen : clen ≤ 4)
    (hcmd : written_word cbuf clen = GDROM_CMD_PKT) (h6 : ws.length = 6)
    (hws : ∀ y ∈ ws, y.2 ≤ 4)
    (hop : (packet_bytes ws).getD 0 0 = GDROM_PKT_READ)
    (hsel : (packet_bytes ws).getD 1 0 >>> 4 = 2)
    (htp : (packet_bytes ws).getD 1 0 &&& 1 = 0)
    (hreads : reads_succeed env w.mount_reads.length (read_start_addr (packet_bytes ws))
      (read_trans_len (packet_bytes ws))) :
    (packet_command env w cbuf clen ws).ret = Ret.MEM_ACCESS_SUCCESS
    ∧ (packet_command env w cbuf clen ws).w.bufq
        = read_nodes env w.mount_reads.length (read_start_addr (packet_bytes ws))
            (read_trans_len (packet_bytes ws))
    ∧ (packet_command env w cbuf clen ws).w.bufq.length = read_trans_len (packet_bytes ws)
    ∧ (∀ n ∈ (packet_command env w cbuf clen ws).w.bufq,
        n.idx = 0 ∧ n.len = env.CDROM_FRAME_DATA_SIZE)
    ∧ (packet_command env w cbuf clen ws).w.data_byte_count
        = (read_trans_len (packet_bytes ws) * env.CDROM_FRAME_DATA_SIZE) % 2 ^ 32
    ∧ (read_trans_len (packet_bytes ws) * env.CDROM_FRAME_DATA_SIZE < 2 ^ 32 →
        (packet_command env w cbuf clen ws).w.data_byte_count
          = read_trans_len (packet_bytes ws) * env.CDROM_FRAME_DATA_SIZE) := by
  obtain ⟨r1, r2, r3, -⟩ :=
    packet_command_read_success env w cbuf clen ws hclen hcmd h6 hws hop hsel htp hreads
  rw [Nat.mul_comm] at r3
  refine ⟨r1, r2, ?_, ?_, r3, fun h => ?_⟩
  · rw [r2, read_nodes_length]
  · intro n hn
    rw [r2] at hn
    exact read_nodes_mem env _ _ _ n hn
  · rw [r3, Nat.mod_eq_of_lt h]

/-- Witness for C18: a READ of 2 sectors from FAD 100 in the initial state, every read
succeeding, leaves data_byte_count at 4096. -/
theorem C18_read_packet_queues_sectors_witness :
    (1 ≤ 4) ∧ written_word [0xa0] 1 = GDROM_CMD_PKT
    ∧ (packet_bytes [([0x30, 0x20], 2), ([0, 0], 2), ([100, 0], 2), ([0, 0], 2), ([0, 0], 2),
        ([2, 0], 2)]).getD 0 0 = GDROM_PKT_READ
    ∧ (packet_bytes [([0x30, 0x20], 2), ([0, 0], 2), ([100, 0], 2), ([0, 0], 2), ([0, 0], 2),
        ([2, 0], 2)]).getD 1 0 >>> 4 = 2
    ∧ (packet_bytes [([0x30, 0x20], 2), ([0, 0], 2), ([100, 0], 2), ([0, 0], 2), ([0, 0], 2),
        ([2, 0], 2)]).getD 1 0 &&& 1 = 0
    ∧ reads_succeed Env.sample World.init.mount_reads.length 100 2
    ∧ (packet_command Env.sample World.init [0xa0] 1
        [([0x30, 0x20], 2), ([0, 0], 2), ([100, 0], 2), ([0, 0], 2), ([0, 0], 2),
          ([2, 0], 2)]).w.data_byte_count = 4096 :=
  ⟨by decide, written_word_le_bytes_a0, by decide, by decide, by decide, fun _ _ => rfl,
    (C18_read_packet_queues_sectors Env.sample World.init [0xa0] 1
      [([0x30, 0x20], 2), ([0, 0], 2), ([100, 0], 2), ([0, 0], 2), ([0, 0], 2), ([2, 0], 2)]
      (by decide) written_word_le_bytes_a0 rfl (by decide) (by decide) (by decide)
      (by decide) (fun _ _ => rfl)).2.2.2.2.2 (by decide)⟩

/-- C18, counterexample to the unamended text: with CDROM_FRAME_DATA_SIZE = 2048,
a READ packet with data-selection 2, addressing bit 0, start FAD 0 and sector
count K = 0x200000, every sector read succeeding, leaves K nodes in the queue
and data_byte_count at 0, while K * CDROM_FRAME_DATA_SIZE is 2^32. -/
theorem C18_counterexample_byte_count_wraps :
    (packet_bytes [([0x30, 0x20], 2), ([0, 0], 2), ([0, 0], 2), ([0, 0], 2), ([0x20, 0], 2),
        ([0, 0], 2)]).getD 0 0 = GDROM_PKT_READ
    ∧ (packet_bytes [([0x30, 0x20], 2), ([0, 0], 2), ([0, 0], 2), ([0, 0], 2), ([0x20, 0], 2),
        ([0, 0], 2)]).getD 1 0 >>> 4 = 2
    ∧ (packet_bytes [([0x30, 0x20], 2), ([0, 0], 2), ([0, 0], 2), ([0, 0], 2), ([0x20, 0], 2),
        ([0, 0], 2)]).getD 1 0 &&& 1 = 0
    ∧ read_trans_len (packet_bytes [([0x30, 0x20], 2), ([0, 0], 2), ([0, 0], 2), ([0, 0], 2),
        ([0x20, 0], 2), ([0, 0], 2)]) = 0x200000
    ∧ reads_succeed Env.sample World.init.mount_reads.length 0 0x200000
    ∧ (packet_command Env.sample World.init [0xa0] 1
        [([0x30, 0x20], 2), ([0, 0], 2), ([0, 0], 2), ([0, 0], 2), ([0x20, 0], 2),
          ([0, 0], 2)]).w.bufq.length = 0x200000
    ∧ (packet_command Env.sample World.init [0xa0] 1
        [([0x30, 0x20], 2), ([0, 0], 2), ([0, 0], 2), ([0, 0], 2), ([0x20, 0], 2),
          ([0, 0], 2)]).w.data_byte_count = 0
    ∧ 0x200000 * Env.sample.CDROM_FRAME_DATA_SIZE = 2 ^ 32 := by
  have h := packet_command_read_success Env.sample World.init [0xa0] 1
    [([0x30, 0x20], 2), ([0, 0], 2), ([0, 0], 2), ([0, 0], 2), ([0x20, 0], 2), ([0, 0], 2)]
    (by decide) written_word_le_bytes_a0 rfl (by decide) (by decide) (by decide)
    (by decide) (fun _ _ => rfl)
  refine ⟨by decide, by decide, by decide, by decide, fun _ _ => rfl, ?_, ?_, by decide⟩
  · rw [h.2.1, read_nodes_length]
    decide
  · rw [h.2.2.1]
    decide

/-- C19: for a READ packet (data-selection 2, addressing bit 0) requesting
K sectors in which the reads of sectors 1..M-1 succeed and the read of the
M-th sector (1 <= M <= K) fails: the access returns success, the queue holds
exactly the M-1 nodes read so far, exactly M sector reads have been
attempted (none after the failing one), the sense key is ILLEGAL_REQUEST (5),
the CHECK status bit is set, and the protocol state is NORMAL. -/
theorem C19_read_packet_sector_failure (env : Env) (w : World) (cbuf : List Nat) (clen : Nat)
    (ws : List (List Nat × Nat)) (M : Nat) (hclen : clen ≤ 4)
    (hcmd : written_word cbuf clen = GDROM_CMD_PKT) (h6 : ws.length = 6)
    (hws : ∀ y ∈ ws, y.2 ≤ 4)
    (hop : (packet_bytes ws).getD 0 0 = GDROM_PKT_READ)
    (hsel : (packet_bytes ws).getD 1 0 >>> 4 = 2)
    (htp : (packet_bytes ws).getD 1 0 &&& 1 = 0)
    (hM1 : 1 ≤ M) (hMK : M ≤ read_trans_len (packet_bytes ws))
    (hreads : reads_succeed env w.mount_reads.length (read_start_addr (packet_bytes ws))
      (M - 1))
    (hfail : env.mount_read_sectors (w.mount_reads.length + (M - 1))
      (read_start_addr (packet_bytes ws)) 1 = none) :
    (packet_command env w cbuf clen ws).ret = Ret.MEM_ACCESS_SUCCESS
    ∧ (packet_command env w cbuf clen ws).w.bufq
        = read_nodes env w.mount_reads.length (read_start_addr (packet_bytes ws)) (M - 1)
    ∧ (packet_command env w cbuf clen ws).w.bufq.length = M - 1
    ∧ (packet_command env w cbuf clen ws).w.mount_reads
        = w.mount_reads ++ List.replicate M (read_start_addr (packet_bytes ws), 1)
    ∧ (packet_command env w cbuf clen ws).w.error_reg.sense_key = SENSE_KEY_ILLEGAL_REQ
    ∧ SENSE_KEY_ILLEGAL_REQ = 5
    ∧ flag (packet_command env w cbuf clen ws).w.stat_reg STAT_CHECK_MASK = true
    ∧ (packet_command env w cbuf clen ws).w.state = gdrom_state.GDROM_STATE_NORM := by
  obtain ⟨r1, r2, r3, r4, r5, r6⟩ :=
    packet_command_read_failure env w cbuf clen ws (M - 1) hclen hcmd h6 hws hop hsel htp
      (by omega) hreads hfail
  have hM : M - 1 + 1 = M := by omega
  rw [hM] at r3
  refine ⟨r1, r2, ?_, r3, r4, rfl, r5, r6⟩
  rw [r2, read_nodes_length]

/-- Witness for C19: a READ of 3 sectors from FAD 100 in the initial state, where the second
read fails, leaves one node in the queue. -/
theorem C19_read_packet_sector_failure_witness :
    (1 ≤ 4) ∧ written_word [0xa0] 1 = GDROM_CMD_PKT
    ∧ (packet_bytes [([0x30, 0x20], 2), ([0, 0], 2), ([100, 0], 2), ([0, 0], 2), ([0, 0], 2),
        ([3, 0], 2)]).getD 0 0 = GDROM_PKT_READ
    ∧ (packet_bytes [([0x30, 0x20], 2), ([0, 0], 2), ([100, 0], 2), ([0, 0], 2), ([0, 0], 2),
        ([3, 0], 2)]).getD 1 0 >>> 4 = 2
    ∧ (packet_bytes [([0x30, 0x20], 2), ([0, 0], 2), ([100, 0], 2), ([0, 0], 2), ([0, 0], 2),
        ([3, 0], 2)]).getD 1 0 &&& 1 = 0
    ∧ (1 ≤ 2)
    ∧ 2 ≤ read_trans_len (packet_bytes [([0x30, 0x20], 2), ([0, 0], 2), ([100, 0], 2),
        ([0, 0], 2), ([0, 0], 2), ([3, 0], 2)])
    ∧ reads_succeed (Env.read_failure_at 1) World.init.mount_reads.length 100 (2 - 1)
    ∧ (Env.read_failure_at 1).mount_read_sectors (World.init.mount_reads.length + (2 - 1))
        100 1 = none
    ∧ (packet_command (Env.read_failure_at 1) World.init [0xa0] 1
        [([0x30, 0x20], 2), ([0, 0], 2), ([100, 0], 2), ([0, 0], 2), ([0, 0], 2),
          ([3, 0], 2)]).w.bufq.length = 1 :=
  ⟨by decide, written_word_le_bytes_a0, by decide, by decide, by decide, by decide, by decide,
    by unfold reads_succeed; decide, rfl,
    (C19_read_packet_sector_failure (Env.read_failure_at 1) World.init [0xa0] 1
      [([0x30, 0x20], 2), ([0, 0], 2), ([100, 0], 2), ([0, 0], 2), ([0, 0], 2), ([3, 0], 2)]
      2 (by decide) written_word_le_bytes_a0 rfl (by decide) (by decide) (by decide)
      (by decide) (by decide) (by decide) (by unfold reads_succeed; decide) rfl).2.2.1⟩

/-- C20: a READ packet whose data-selection field (packet byte 1 >> 4) is not
2, or whose addressing bit (packet byte 1 and 1) is not 0, raises
ERROR_UNIMPLEMENTED, naming the feature "CD-ROM header/subheader access" in
the first case and "MSF format CD-ROM access" otherwise; no sector read has
been attempted, and the queue and data_byte_count are as before the
command. -/
theorem C20_read_packet_unimplemented_modes (env : Env) (w : World) (cbuf : List Nat)
    (clen : Nat) (ws : List (List Nat × Nat)) (hclen : clen ≤ 4)
    (hcmd : written_word cbuf clen = GDROM_CMD_PKT) (h6 : ws.length = 6)
    (hws : ∀ y ∈ ws, y.2 ≤ 4)
    (hop : (packet_bytes ws).getD 0 0 = GDROM_PKT_READ)
    (hbad : (packet_bytes ws).getD 1 0 >>> 4 ≠ 2 ∨ (packet_bytes ws).getD 1 0 &&& 1 ≠ 0) :
    (packet_command env w cbuf clen ws).ret = Ret.RAISED error_type.ERROR_UNIMPLEMENTED
    ∧ (packet_command env w cbuf clen ws).w.err.feature
        = some (if (packet_bytes ws).getD 1 0 >>> 4 ≠ 2 then "CD-ROM header/subheader access"
                else "MSF format CD-ROM access")
    ∧ (packet_command env w cbuf clen ws).w.mount_reads = w.mount_reads
    ∧ (packet_command env w cbuf clen ws).w.bufq = w.bufq
    ∧ (packet_command env w cbuf clen ws).w.data_byte_count = w.data_byte_count := by
  obtain ⟨f1, -, -, f4, f5, -, -⟩ := packet_entry_world_frame w ws
  rw [packet_command_switch env w cbuf clen ws hclen hcmd h6 hws, hop,
    if_neg (by decide), if_neg (by decide), if_neg (by decide), if_neg (by decide),
    if_neg (by decide), if_neg (by decide), if_neg (by decide), if_pos rfl]
  unfold gdrom_input_read_packet
  simp only [pkt_byte_packet_entry_world w ws 1 h6 (by decide)]
  by_cases hsel : (packet_bytes ws).getD 1 0 >>> 4 = 2
  · have htp : (packet_bytes ws).getD 1 0 &&& 1 ≠ 0 := by
      rcases hbad with h | h
      · exact absurd hsel h
      · exact h
    rw [if_neg (not_not.mpr hsel), if_pos htp, if_neg (not_not.mpr hsel)]
    exact ⟨rfl, rfl, f4, f5, f1⟩
  · rw [if_pos hsel, if_pos hsel]
    exact ⟨rfl, rfl, f4, f5, f1⟩

/-- Witness for C20: a READ packet with data-selection field 1 in the initial state. -/
theorem C20_read_packet_unimplemented_modes_witness :
    (1 ≤ 4) ∧ written_word [0xa0] 1 = GDROM_CMD_PKT
    ∧ (packet_bytes [([0x30, 0x10], 2), ([0, 0], 2), ([100, 0], 2), ([0, 0], 2), ([0, 0], 2),
        ([2, 0], 2)]).getD 0 0 = GDROM_PKT_READ
    ∧ ((packet_bytes [([0x30, 0x10], 2), ([0, 0], 2), ([100, 0], 2), ([0, 0], 2), ([0, 0], 2),
        ([2, 0], 2)]).getD 1 0 >>> 4 ≠ 2
      ∨ (packet_bytes [([0x30, 0x10], 2), ([0, 0], 2), ([100, 0], 2), ([0, 0], 2),
        ([0, 0], 2), ([2, 0], 2)]).getD 1 0 &&& 1 ≠ 0)
    ∧ (packet_command Env.sample World.init [0xa0] 1
        [([0x30, 0x10], 2), ([0, 0], 2), ([100, 0], 2), ([0, 0], 2), ([0, 0], 2),
          ([2, 0], 2)]).ret = Ret.RAISED error_type.ERROR_UNIMPLEMENTED :=
  ⟨by decide, written_word_le_bytes_a0, by decide, by decide,
    (C20_read_packet_unimplemented_modes Env.sample World.init [0xa0] 1
      [([0x30, 0x10], 2), ([0, 0], 2), ([100, 0], 2), ([0, 0], 2), ([0, 0], 2), ([2, 0], 2)]
      (by decide) written_word_le_bytes_a0 rfl (by decide) (by decide) (by decide)).1⟩

/-! ## The READ_TOC packet -/

theorem range_map_getD_eq_take (l : List Nat) (m : Nat) (h : m ≤ l.length) :
    (List.range m).map (fun i => l.getD i 0) = l.take m := by
  apply List.ext_getElem
  · rw [List.length_map, List.length_range, List.length_take, Nat.min_eq_left h]
  · intro i h1 h2
    rw [List.length_map, List.length_range] at h1
    rw [List.getElem_map, List.getElem_range, List.getElem_take,
      List.getD_eq_getElem _ _ (Nat.lt_of_lt_of_le h1 h)]

/-- A READ_TOC packet, seen through the registers: the state after the
PACKET command and the six writes. -/
theorem packet_command_read_toc (env : Env) (w : World) (cbuf : List Nat) (clen : Nat)
    (ws : List (List Nat × Nat)) (hclen : clen ≤ 4)
    (hcmd : written_word cbuf clen = GDROM_CMD_PKT) (h6 : ws.length = 6)
    (hws : ∀ y ∈ ws, y.2 ≤ 4)
    (hop : (packet_bytes ws).getD 0 0 = GDROM_PKT_READ_TOC) :
    packet_command env w cbuf clen ws
      = { ret := Ret.MEM_ACCESS_SUCCESS, buf := [],
          w := { packet_entry_world w ws with
            bufq := [{ idx := 0, len := read_toc_len env (packet_bytes ws),
                       dat := (List.range (read_toc_len env (packet_bytes ws))).map
                         (fun i => (encoded_toc env
                           (read_toc_session (packet_bytes ws))).getD i 0) }],
            data_byte_count := read_toc_len env (packet_bytes ws),
            int_reason_reg := mask_clear
              ((packet_entry_world w ws).int_reason_reg ||| INT_REASON_IO_MASK)
              INT_REASON_COD_MASK,
            stat_reg := mask_clear ((packet_entry_world w ws).stat_reg ||| STAT_DRQ_MASK)
              STAT_CHECK_MASK,
            holly := if flag (packet_entry_world w ws).dev_ctrl_reg DEV_CTRL_NIEN_MASK
                     then (packet_entry_world w ws).holly
                     else (packet_entry_world w ws).holly ++ [holly_call.raise_ext_int],
            state := gdrom_state.GDROM_STATE_NORM,
            error_reg := error_reg_zero } } := by
  rw [packet_command_switch env w cbuf clen ws hclen hcmd h6 hws, hop,
    if_neg (by decide), if_neg (by decide), if_neg (by decide), if_neg (by decide),
    if_neg (by decide), if_neg (by decide), if_pos rfl]
  unfold gdrom_input_read_toc_packet read_toc_len read_toc_session encoded_toc
  simp only [pkt_byte_packet_entry_world w ws 1 h6 (by decide),
    pkt_byte_packet_entry_world w ws 3 h6 (by decide),
    pkt_byte_packet_entry_world w ws 4 h6 (by decide), ite_gt_eq_min,
    raise_int_unless_nien_eq, bufq_clear, List.nil_append, Exec.returning]

/-- C30: a READ_TOC packet (0x14) with session = packet byte 1 and 1 and
requested length n = (packet byte 3 << 8) | packet byte 4 returns success and
leaves the queue holding exactly one node, with cursor 0 and valid length
m = min(n, CDROM_TOC_SIZE), whose m bytes are the first m bytes of the encoded
table of contents of that session (as far as the encoding reaches);
data_byte_count is m; DRQ is set, IO is set and COD clear in the
interrupt-reason register, CHECK and the error register are cleared and the
state is NORMAL. -/
theorem C30_read_toc_packet (env : Env) (w : World) (cbuf : List Nat) (clen : Nat)
    (ws : List (List Nat × Nat)) (hclen : clen ≤ 4)
    (hcmd : written_word cbuf clen = GDROM_CMD_PKT) (h6 : ws.length = 6)
    (hws : ∀ y ∈ ws, y.2 ≤ 4)
    (hop : (packet_bytes ws).getD 0 0 = GDROM_PKT_READ_TOC) :
    (packet_command env w cbuf clen ws).ret = Ret.MEM_ACCESS_SUCCESS
    ∧ (∃ dat : List Nat,
        (packet_command env w cbuf clen ws).w.bufq
          = [{ idx := 0, len := read_toc_len env (packet_bytes ws), dat := dat }]
        ∧ dat.length = read_toc_len env (packet_bytes ws)
        ∧ (∀ i, i < read_toc_len env (packet_bytes ws) →
            dat.getD i 0
              = (encoded_toc env (read_toc_session (packet_bytes ws))).getD i 0)
        ∧ (read_toc_len env (packet_bytes ws)
              ≤ (encoded_toc env (read_toc_session (packet_bytes ws))).length →
            dat = (encoded_toc env (read_toc_session (packet_bytes ws))).take
              (read_toc_len env (packet_bytes ws))))
    ∧ (packet_command env w cbuf clen ws).w.data_byte_count
        = read_toc_len env (packet_bytes ws)
    ∧ drq_signal (packet_command env w cbuf clen ws).w = true
    ∧ flag (packet_command env w cbuf clen ws).w.int_reason_reg INT_REASON_IO_MASK = true
    ∧ flag (packet_command env w cbuf clen ws).w.int_reason_reg INT_REASON_COD_MASK = false
    ∧ flag (packet_command env w cbuf clen ws).w.stat_reg STAT_CHECK_MASK = false
    ∧ (packet_command env w cbuf clen ws).w.error_reg = error_reg_zero
    ∧ (packet_command env w cbuf clen ws).w.state = gdrom_state.GDROM_STATE_NORM := by
  rw [packet_command_read_toc env w cbuf clen ws hclen hcmd h6 hws hop]
  refine ⟨rfl, ⟨_, rfl, ?_, ?_, ?_⟩, rfl, ?_, ?_, ?_, ?_, rfl, rfl⟩
  · rw [List.length_map, List.length_range]
  · intro i hi
    rw [List.getD_eq_getElem _ _ (by rw [List.length_map, List.length_range]; exact hi),
      List.getElem_map, List.getElem_range]
  · intro hle
    exact range_map_getD_eq_take _ _ hle
  · simp only [drq_signal, ← flag.eq_1]
    simp +decide [-Nat.testBit_zero, testBit_mask_clear]
  · simp only []
    simp +decide [-Nat.testBit_zero, testBit_mask_clear]
  · simp only []
    simp +decide [-Nat.testBit_zero, testBit_mask_clear]
  · simp only []
    simp +decide [-Nat.testBit_zero, testBit_mask_clear]

/-- Witness for C30: READ_TOC of session 1 asking for 6 bytes in the initial state. -/
theorem C30_read_toc_packet_witness :
    (1 ≤ 4) ∧ written_word [0xa0] 1 = GDROM_CMD_PKT
    ∧ (packet_bytes [([0x14, 1], 2), ([0, 0], 2), ([6, 0], 2), ([0, 0], 2), ([0, 0], 2),
        ([0, 0], 2)]).getD 0 0 = GDROM_PKT_READ_TOC
    ∧ (packet_command Env.sample World.init [0xa0] 1
        [([0x14, 1], 2), ([0, 0], 2), ([6, 0], 2), ([0, 0], 2), ([0, 0], 2),
          ([0, 0], 2)]).w.data_byte_count = 6 :=
  ⟨by decide, written_word_le_bytes_a0, by decide,
    (C30_read_toc_packet Env.sample World.init [0xa0] 1
      [([0x14, 1], 2), ([0, 0], 2), ([6, 0], 2), ([0, 0], 2), ([0, 0], 2), ([0, 0], 2)]
      (by decide) written_word_le_bytes_a0 rfl (by decide) (by decide)).2.2.1⟩

/-! ## SET_MODE: the DMA check and the mode-data phase -/

/-- What `gdrom_input_set_mode_packet` does when the DMA bit of the features
register is set. -/
theorem gdrom_input_set_mode_packet_dma (w : World) (hdma : flag w.feat_reg 1 = true) :
    gdrom_input_set_mode_packet w
      = { raised := some error_type.ERROR_UNIMPLEMENTED,
          w := { w with
            set_mode_bytes_remaining := int_of_unsigned w.data_byte_count,
            err := { w.err with feature := some "GD-ROM SET_MODE command DMA support" } } } := by
  have h : w.feat_reg &&& 1 ≠ 0 := by
    intro h0
    unfold flag at hdma
    rw [h0] at hdma
    cases hdma
  unfold gdrom_input_set_mode_packet
  simp only []
  rw [if_pos h]
  rfl

/-- C27: when the DMA bit (bit 0) of the features register is set,
`gdrom_input_set_mode_packet` raises ERROR_UNIMPLEMENTED (feature "GD-ROM
SET_MODE command DMA support") and changes neither the status register (so
not DRQ), nor the interrupt-reason register, nor the protocol state; it has
only copied data_byte_count into the remaining counter.  Seen through the
registers, the data-register write that completes a SET_MODE packet then
raises that error with the interrupt-reason register and the protocol state
as the PACKET command left them; DRQ, which the PACKET command had set, is
clear, `gdrom_input_packet` having cleared it before it called the handler. -/
theorem C27_set_mode_packet_with_dma (env : Env) (w : World) (cbuf : List Nat) (clen : Nat)
    (ws : List (List Nat × Nat)) (hclen : clen ≤ 4)
    (hcmd : written_word cbuf clen = GDROM_CMD_PKT) (h6 : ws.length = 6)
    (hws : ∀ y ∈ ws, y.2 ≤ 4)
    (hop : (packet_bytes ws).getD 0 0 = GDROM_PKT_SET_MODE)
    (hdma : flag w.feat_reg 1 = true) :
    (∀ wp : World, flag wp.feat_reg 1 = true →
      (gdrom_input_set_mode_packet wp).raised = some error_type.ERROR_UNIMPLEMENTED
      ∧ (gdrom_input_set_mode_packet wp).w.err.feature
          = some "GD-ROM SET_MODE command DMA support"
      ∧ (gdrom_input_set_mode_packet wp).w.stat_reg = wp.stat_reg
      ∧ drq_signal (gdrom_input_set_mode_packet wp).w = drq_signal wp
      ∧ (gdrom_input_set_mode_packet wp).w.int_reason_reg = wp.int_reason_reg
      ∧ (gdrom_input_set_mode_packet wp).w.state = wp.state
      ∧ (gdrom_input_set_mode_packet wp).w.set_mode_bytes_remaining
          = int_of_unsigned wp.data_byte_count)
    ∧ (packet_command env w cbuf clen ws).ret = Ret.RAISED error_type.ERROR_UNIMPLEMENTED
    ∧ (packet_command env w cbuf clen ws).w.err.feature
        = some "GD-ROM SET_MODE command DMA support"
    ∧ (packet_command env w cbuf clen ws).w.int_reason_reg
        = (gdrom_reg_write env w cbuf 0x5f709c clen).w.int_reason_reg
    ∧ (packet_command env w cbuf clen ws).w.state
        = (gdrom_reg_write env w cbuf 0x5f709c clen).w.state
    ∧ (packet_command env w cbuf clen ws).w.state = gdrom_state.GDROM_STATE_INPUT_PKT
    ∧ drq_signal (gdrom_reg_write env w cbuf 0x5f709c clen).w = true
    ∧ drq_signal (packet_command env w cbuf clen ws).w = false := by
  have hgen : ∀ wp : World, flag wp.feat_reg 1 = true →
      (gdrom_input_set_mode_packet wp).raised = some error_type.ERROR_UNIMPLEMENTED
      ∧ (gdrom_input_set_mode_packet wp).w.err.feature
          = some "GD-ROM SET_MODE command DMA support"
      ∧ (gdrom_input_set_mode_packet wp).w.stat_reg = wp.stat_reg
      ∧ drq_signal (gdrom_input_set_mode_packet wp).w = drq_signal wp
      ∧ (gdrom_input_set_mode_packet wp).w.int_reason_reg = wp.int_reason_reg
      ∧ (gdrom_input_set_mode_packet wp).w.state = wp.state
      ∧ (gdrom_input_set_mode_packet wp).w.set_mode_bytes_remaining
          = int_of_unsigned wp.data_byte_count := by
    intro wp hwp
    rw [gdrom_input_set_mode_packet_dma wp hwp]
    exact ⟨rfl, rfl, rfl, rfl, rfl, rfl, rfl⟩
  have hf : flag (packet_entry_world w ws).feat_reg 1 = true := by
    rw [(packet_entry_world_frame w ws).2.2.2.2.2.2]
    exact hdma
  refine ⟨hgen, ?_⟩
  rw [packet_command_switch env w cbuf clen ws hclen hcmd h6 hws, hop,
    if_neg (by decide), if_neg (by decide), if_neg (by decide), if_pos rfl,
    gdrom_input_set_mode_packet_dma _ hf, gdrom_reg_write_cmd env w cbuf clen hclen,
    gdrom_cmd_reg_write_handler_pkt env w cbuf _ clen hcmd, packet_entry_world_eq]
  refine ⟨rfl, rfl, rfl, rfl, rfl, ?_, ?_⟩
  · simp only [drq_signal, ← flag.eq_1, gdrom_cmd_begin_packet]
    simp +decide [-Nat.testBit_zero, testBit_mask_clear]
  · simp only [drq_signal, ← flag.eq_1, Exec.returning]
    simp +decide [-Nat.testBit_zero, testBit_mask_clear]

/-- Witness for C27: a SET_MODE packet after the DMA bit of the features register has been
set from the initial state. -/
theorem C27_set_mode_packet_with_dma_witness :
    (1 ≤ 4) ∧ written_word [0xa0] 1 = GDROM_CMD_PKT
    ∧ (packet_bytes [([0x12, 0], 2), ([0, 0], 2), ([0, 0], 2), ([0, 0], 2), ([0, 0], 2),
        ([0, 0], 2)]).getD 0 0 = GDROM_PKT_SET_MODE
    ∧ flag (gdrom_reg_write Env.sample World.init [1] 0x5f7084 1).w.feat_reg 1 = true
    ∧ (packet_command Env.sample (gdrom_reg_write Env.sample World.init [1] 0x5f7084 1).w
        [0xa0] 1
        [([0x12, 0], 2), ([0, 0], 2), ([0, 0], 2), ([0, 0], 2), ([0, 0], 2),
          ([0, 0], 2)]).ret = Ret.RAISED error_type.ERROR_UNIMPLEMENTED :=
  ⟨by decide, written_word_le_bytes_a0, by decide, by decide,
    (C27_set_mode_packet_with_dma Env.sample
      (gdrom_reg_write Env.sample World.init [1] 0x5f7084 1).w [0xa0] 1
      [([0x12, 0], 2), ([0, 0], 2), ([0, 0], 2), ([0, 0], 2), ([0, 0], 2), ([0, 0], 2)]
      (by decide) written_word_le_bytes_a0 rfl (by decide) (by decide) (by decide)).2.1⟩

theorem int_of_unsigned_sub (r : Int) (n : Nat) (h1 : -(2 ^ 31) ≤ r - n) (h2 : r < 2 ^ 31)
    (h3 : n < 2 ^ 32) :
    int_of_unsigned ((unsigned_of_int r + 2 ^ 32 - n % 2 ^ 32) % 2 ^ 32) = r - n := by
  unfold int_of_unsigned unsigned_of_int
  have e : n % 2 ^ 32 = n := Nat.mod_eq_of_lt h3
  rw [e, Nat.mod_mod]
  split <;> omega

/-- A data-register write in the state GDROM_STATE_SET_MODE. -/
theorem gdrom_data_reg_write_handler_set_mode (env : Env) (w : World) (buf : List Nat)
    (addr len : Nat) (hs : w.state = gdrom_state.GDROM_STATE_SET_MODE) :
    gdrom_data_reg_write_handler env w buf addr len
      = { ret := Ret.MEM_ACCESS_SUCCESS, buf := [],
          w := if int_of_unsigned ((unsigned_of_int w.set_mode_bytes_remaining + 2 ^ 32
                    - len % 2 ^ 32) % 2 ^ 32) ≤ 0 then
                 { w with
                   set_mode_bytes_remaining := int_of_unsigned
                     ((unsigned_of_int w.set_mode_bytes_remaining + 2 ^ 32
                       - len % 2 ^ 32) % 2 ^ 32),
                   stat_reg := mask_clear w.stat_reg STAT_DRQ_MASK,
                   state := gdrom_state.GDROM_STATE_NORM,
                   holly := if flag w.dev_ctrl_reg DEV_CTRL_NIEN_MASK then w.holly
                            else w.holly ++ [holly_call.raise_ext_int] }
               else
                 { w with
                   set_mode_bytes_remaining := int_of_unsigned
                     ((unsigned_of_int w.set_mode_bytes_remaining + 2 ^ 32
                       - len % 2 ^ 32) % 2 ^ 32) } } := by
  unfold gdrom_data_reg_write_handler
  simp only [hs, raise_int_unless_nien_eq, if_true]
  rfl

/-- The branch of the data-register write for the state GDROM_STATE_SET_MODE,
seen through the dispatch: a write of N bytes (N at most 4) returns success
and sets the counter to r - N computed in 32-bit arithmetic, which is r - N
itself whenever r is an `int` and r - N is not below -2^31.  If the new
counter is at most 0 the write clears DRQ, sets the state to NORMAL and raises
the GD-ROM interrupt exactly when NIEN is clear; if it is positive the state,
the status register and the interrupt log are unchanged.  The packet buffer
and the queue are not modified.  No reachable state takes this branch: the
state GDROM_STATE_SET_MODE is never entered. -/
theorem gdrom_reg_write_data_set_mode (env : Env) (w : World) (buf : List Nat) (N : Nat)
    (hN : N ≤ 4) (hs : w.state = gdrom_state.GDROM_STATE_SET_MODE) :
    (gdrom_reg_write env w buf 0x5f7080 N).ret = Ret.MEM_ACCESS_SUCCESS
    ∧ (gdrom_reg_write env w buf 0x5f7080 N).w.set_mode_bytes_remaining
        = int_of_unsigned
            ((unsigned_of_int w.set_mode_bytes_remaining + 2 ^ 32 - N % 2 ^ 32) % 2 ^ 32)
    ∧ (-(2 ^ 31) ≤ w.set_mode_bytes_remaining - N → w.set_mode_bytes_remaining < 2 ^ 31 →
        (gdrom_reg_write env w buf 0x5f7080 N).w.set_mode_bytes_remaining
          = w.set_mode_bytes_remaining - N)
    ∧ ((gdrom_reg_write env w buf 0x5f7080 N).w.set_mode_bytes_remaining ≤ 0 →
        drq_signal (gdrom_reg_write env w buf 0x5f7080 N).w = false
        ∧ (gdrom_reg_write env w buf 0x5f7080 N).w.state = gdrom_state.GDROM_STATE_NORM
        ∧ (gdrom_reg_write env w buf 0x5f7080 N).w.holly
            = (if flag w.dev_ctrl_reg DEV_CTRL_NIEN_MASK then w.holly
               else w.holly ++ [holly_call.raise_ext_int]))
    ∧ (0 < (gdrom_reg_write env w buf 0x5f7080 N).w.set_mode_bytes_remaining →
        (gdrom_reg_write env w buf 0x5f7080 N).w.state = gdrom_state.GDROM_STATE_SET_MODE
        ∧ (gdrom_reg_write env w buf 0x5f7080 N).w.stat_reg = w.stat_reg
        ∧ (gdrom_reg_write env w buf 0x5f7080 N).w.holly = w.holly)
    ∧ (gdrom_reg_write env w buf 0x5f7080 N).w.pkt_buf = w.pkt_buf
    ∧ (gdrom_reg_write env w buf 0x5f7080 N).w.bufq = w.bufq := by
  rw [gdrom_reg_write_data env w buf N hN,
    gdrom_data_reg_write_handler_set_mode env w buf _ N hs]
  by_cases hR : int_of_unsigned
      ((unsigned_of_int w.set_mode_bytes_remaining + 2 ^ 32 - N % 2 ^ 32) % 2 ^ 32) ≤ 0
  · simp only [if_pos hR]
    refine ⟨trivial, trivial, fun h1 h2 => int_of_unsigned_sub _ N h1 h2 (by omega),
      fun _ => ⟨?_, trivial, trivial⟩, fun h => absurd hR (Int.not_le.mpr h), trivial, trivial⟩
    simp only [drq_signal, ← flag.eq_1]
    simp +decide [-Nat.testBit_zero, testBit_mask_clear]
  · simp only [if_neg hR]
    exact ⟨trivial, trivial, fun h1 h2 => int_of_unsigned_sub _ N h1 h2 (by omega),
      fun h => absurd h hR, fun _ => ⟨hs, trivial, trivial⟩, trivial, trivial⟩

/-- C29, the code at a failing input.  In the initial state with a disc
mounted on which sector s holds 2048 bytes of value s mod 256, a READ packet
(data-selection 2, addressing bit 0) with start FAD 100 and sector count 2
returns success after two calls of `mount_read_sectors`, both with start FAD
100 and count 1: `start_addr` is not advanced in the loop.  The second node
holds the data of sector 100 again and not the data of sector 101. -/
theorem C29_read_packet_rereads_start_sector :
    (packet_bytes [([0x30, 0x20], 2), ([0, 0], 2), ([100, 0], 2), ([0, 0], 2), ([0, 0], 2),
        ([2, 0], 2)]).getD 0 0 = GDROM_PKT_READ
    ∧ read_start_addr (packet_bytes [([0x30, 0x20], 2), ([0, 0], 2), ([100, 0], 2),
        ([0, 0], 2), ([0, 0], 2), ([2, 0], 2)]) = 100
    ∧ read_trans_len (packet_bytes [([0x30, 0x20], 2), ([0, 0], 2), ([100, 0], 2),
        ([0, 0], 2), ([0, 0], 2), ([2, 0], 2)]) = 2
    ∧ (packet_command Env.sample World.init [0xa0] 1
        [([0x30, 0x20], 2), ([0, 0], 2), ([100, 0], 2), ([0, 0], 2), ([0, 0], 2),
          ([2, 0], 2)]).ret = Ret.MEM_ACCESS_SUCCESS
    ∧ (packet_command Env.sample World.init [0xa0] 1
        [([0x30, 0x20], 2), ([0, 0], 2), ([100, 0], 2), ([0, 0], 2), ([0, 0], 2),
          ([2, 0], 2)]).w.mount_reads = [(100, 1), (100, 1)]
    ∧ (packet_command Env.sample World.init [0xa0] 1
        [([0x30, 0x20], 2), ([0, 0], 2), ([100, 0], 2), ([0, 0], 2), ([0, 0], 2),
          ([2, 0], 2)]).w.bufq
        = [{ idx := 0, len := 2048, dat := List.replicate 2048 100 },
           { idx := 0, len := 2048, dat := List.replicate 2048 100 }]
    ∧ Env.sample.mount_read_sectors 1 101 1 = some (List.replicate 2048 101)
    ∧ (List.replicate 2048 100).getD 0 0 ≠ (List.replicate 2048 101).getD 0 0 := by
  obtain ⟨r1, r2, -, r4⟩ := packet_command_read_success Env.sample World.init [0xa0] 1
    [([0x30, 0x20], 2), ([0, 0], 2), ([100, 0], 2), ([0, 0], 2), ([0, 0], 2), ([2, 0], 2)]
    (by decide) written_word_le_bytes_a0 rfl (by decide) (by decide) (by decide)
    (by decide) (fun _ _ => rfl)
  refine ⟨by decide, by decide, by decide, r1, ?_, ?_, rfl, by decide⟩
  · rw [r4]
    rfl
  · rw [r2]
    rfl

/-- The statements after the sector loop of a READ packet when every sector
has been read and the DMA bit of the features register is clear. -/
theorem gdrom_input_read_packet_tail_no_dma (r : World)
    (hd : flag r.feat_reg FEAT_REG_DMA_MASK = false) :
    gdrom_input_read_packet_tail (r, true)
      = { raised := none,
          w := { r with
            int_reason_reg := mask_clear (r.int_reason_reg ||| INT_REASON_IO_MASK)
              INT_REASON_COD_MASK,
            stat_reg := mask_clear (r.stat_reg ||| STAT_DRQ_MASK) STAT_CHECK_MASK,
            holly := if flag r.dev_ctrl_reg DEV_CTRL_NIEN_MASK then r.holly
                     else r.holly ++ [holly_call.raise_ext_int],
            state := gdrom_state.GDROM_STATE_NORM,
            error_reg := error_reg_zero } } := by
  have h0 : r.feat_reg &&& FEAT_REG_DMA_MASK = 0 := by
    by_contra hne
    have : flag r.feat_reg FEAT_REG_DMA_MASK = true := by
      unfold flag
      simpa using hne
    rw [this] at hd
    cases hd
  have hne : ¬ ((r, true) : World × Bool).2 = false := by
    intro h
    cases h
  unfold gdrom_input_read_packet_tail
  rw [if_neg hne]
  simp only []
  rw [if_neg (not_not.mpr h0)]
  simp only [raise_int_unless_nien_eq]

/-- A READ packet all of whose sector reads succeed: the state in which the
statements after the sector loop start. -/
theorem packet_command_read_success_eq (env : Env) (w : World) (cbuf : List Nat) (clen : Nat)
    (ws : List (List Nat × Nat)) (hclen : clen ≤ 4)
    (hcmd : written_word cbuf clen = GDROM_CMD_PKT) (h6 : ws.length = 6)
    (hws : ∀ y ∈ ws, y.2 ≤ 4)
    (hop : (packet_bytes ws).getD 0 0 = GDROM_PKT_READ)
    (hsel : (packet_bytes ws).getD 1 0 >>> 4 = 2)
    (htp : (packet_bytes ws).getD 1 0 &&& 1 = 0)
    (hreads : reads_succeed env w.mount_reads.length (read_start_addr (packet_bytes ws))
      (read_trans_len (packet_bytes ws))) :
    ∃ R : World,
      packet_command env w cbuf clen ws
        = (gdrom_input_read_packet_tail (R, true)).returning Ret.MEM_ACCESS_SUCCESS
      ∧ R.feat_reg = w.feat_reg
      ∧ R.dev_ctrl_reg = w.dev_ctrl_reg
      ∧ R.stat_reg = mask_clear (mask_clear w.stat_reg STAT_CHECK_MASK ||| STAT_DRQ_MASK)
                       (STAT_DRQ_MASK ||| STAT_BSY_MASK)
      ∧ R.int_reason_reg = mask_clear w.int_reason_reg INT_REASON_IO_MASK
                             ||| INT_REASON_COD_MASK
      ∧ R.holly = (if flag w.dev_ctrl_reg DEV_CTRL_NIEN_MASK then w.holly
                   else w.holly ++ [holly_call.raise_ext_int])
      ∧ R.dma_len_reg = w.dma_len_reg := by
  obtain ⟨-, -, -, fm, -, -, -⟩ := packet_entry_world_frame w ws
  have hl := (gdrom_input_read_packet_loop_run env (read_start_addr (packet_bytes ws))
    (read_trans_len (packet_bytes ws)) (read_trans_len (packet_bytes ws))
    { packet_entry_world w ws with
      bufq := [],
      data_byte_count :=
        (env.CDROM_FRAME_DATA_SIZE * read_trans_len (packet_bytes ws)) % 2 ^ 32 }
    (Nat.le_refl _)
    (by
      show reads_succeed env (packet_entry_world w ws).mount_reads.length _ _
      rw [fm]
      exact hreads)).1 rfl
  refine ⟨(gdrom_input_read_packet_loop env (read_start_addr (packet_bytes ws))
    (read_trans_len (packet_bytes ws))
    { packet_entry_world w ws with
      bufq := [],
      data_byte_count :=
        (env.CDROM_FRAME_DATA_SIZE * read_trans_len (packet_bytes ws)) % 2 ^ 32 }).1,
    ?_, ?_, ?_, ?_, ?_, ?_, ?_⟩
  · rw [packet_command_read env w cbuf clen ws hclen hcmd h6 hws hop hsel htp, hl]
  all_goals
    rw [hl, packet_entry_world_eq]

/-- The interrupts and the status bits after a READ packet all of whose
sector reads succeed, for each value of the DMA bit. -/
theorem packet_command_read_signals (env : Env) (w : World) (cbuf : List Nat) (clen : Nat)
    (ws : List (List Nat × Nat)) (hclen : clen ≤ 4)
    (hcmd : written_word cbuf clen = GDROM_CMD_PKT) (h6 : ws.length = 6)
    (hws : ∀ y ∈ ws, y.2 ≤ 4)
    (hop : (packet_bytes ws).getD 0 0 = GDROM_PKT_READ)
    (hsel : (packet_bytes ws).getD 1 0 >>> 4 = 2)
    (htp : (packet_bytes ws).getD 1 0 &&& 1 = 0)
    (hreads : reads_succeed env w.mount_reads.length (read_start_addr (packet_bytes ws))
      (read_trans_len (packet_bytes ws))) :
    (flag w.feat_reg FEAT_REG_DMA_MASK = true →
      drq_signal (packet_command env w cbuf clen ws).w = false
      ∧ (packet_command env w cbuf clen ws).w.holly
          = (if flag w.dev_ctrl_reg DEV_CTRL_NIEN_MASK then w.holly
             else w.holly ++ [holly_call.raise_ext_int])
      ∧ (packet_command env w cbuf clen ws).w.int_reason_reg
          = mask_clear w.int_reason_reg INT_REASON_IO_MASK ||| INT_REASON_COD_MASK)
    ∧ (flag w.feat_reg FEAT_REG_DMA_MASK = false →
      drq_signal (packet_command env w cbuf clen ws).w = true
      ∧ flag (packet_command env w cbuf clen ws).w.int_reason_reg INT_REASON_IO_MASK = true
      ∧ flag (packet_command env w cbuf clen ws).w.int_reason_reg INT_REASON_COD_MASK = false
      ∧ (packet_command env w cbuf clen ws).w.holly
          = (if flag w.dev_ctrl_reg DEV_CTRL_NIEN_MASK then w.holly
             else w.holly ++ [holly_call.raise_ext_int, holly_call.raise_ext_int])) := by
  obtain ⟨R, hR, f1, f2, f3, f4, f5, -⟩ :=
    packet_command_read_success_eq env w cbuf clen ws hclen hcmd h6 hws hop hsel htp hreads
  rw [hR, returning_w]
  constructor
  · intro hd
    rw [(gdrom_input_read_packet_tail_spec (R, true)).2.2.1 rfl (by rw [f1]; exact hd)]
    refine ⟨?_, f5, f4⟩
    unfold drq_signal
    show (R.stat_reg &&& STAT_DRQ_MASK != 0) = false
    rw [f3, ← flag.eq_1]
    simp +decide [-Nat.testBit_zero, testBit_mask_clear]
  · intro hd
    rw [gdrom_input_read_packet_tail_no_dma R (by rw [f1]; exact hd)]
    refine ⟨?_, ?_, ?_, ?_⟩
    · simp only [drq_signal, ← flag.eq_1]
      simp +decide [-Nat.testBit_zero, testBit_mask_clear]
    · simp only []
      simp +decide [-Nat.testBit_zero, testBit_mask_clear]
    · simp only []
      simp +decide [-Nat.testBit_zero, testBit_mask_clear]
    · show (if flag R.dev_ctrl_reg DEV_CTRL_NIEN_MASK then R.holly
          else R.holly ++ [holly_call.raise_ext_int]) = _
      rw [f2, f5]
      by_cases hn : flag w.dev_ctrl_reg DEV_CTRL_NIEN_MASK = true
      · rw [if_pos hn, if_pos hn, if_pos hn]
      · rw [if_neg hn, if_neg hn, if_neg hn, List.append_assoc]
        rfl

/-- C21 (amended): for a READ packet (data-selection 2, addressing bit 0) all
of whose sector reads succeed.  With the DMA bit (bit 0) of the features
register set, DRQ is clear afterwards, the interrupt-reason register is as the
PACKET command left it, and the READ handler raises no interrupt: the only
interrupt of the sequence is the one that `gdrom_input_packet` raises on
receipt of the twelfth byte, exactly when NIEN is clear.  With the DMA bit
clear, DRQ is set, IO is set and COD clear in the interrupt-reason register,
and when NIEN is clear the interrupt is raised twice, on receipt of the packet
and on completion of the read; when NIEN is set it is not raised. -/
theorem C21_read_packet_signals (env : Env) (w : World) (cbuf : List Nat) (clen : Nat)
    (ws : List (List Nat × Nat)) (hclen : clen ≤ 4)
    (hcmd : written_word cbuf clen = GDROM_CMD_PKT) (h6 : ws.length = 6)
    (hws : ∀ y ∈ ws, y.2 ≤ 4)
    (hop : (packet_bytes ws).getD 0 0 = GDROM_PKT_READ)
    (hsel : (packet_bytes ws).getD 1 0 >>> 4 = 2)
    (htp : (packet_bytes ws).getD 1 0 &&& 1 = 0)
    (hreads : reads_succeed env w.mount_reads.length (read_start_addr (packet_bytes ws))
      (read_trans_len (packet_bytes ws))) :
    (flag w.feat_reg FEAT_REG_DMA_MASK = true →
      drq_signal (packet_command env w cbuf clen ws).w = false
      ∧ (packet_command env w cbuf clen ws).w.holly
          = (if flag w.dev_ctrl_reg DEV_CTRL_NIEN_MASK then w.holly
             else w.holly ++ [holly_call.raise_ext_int])
      ∧ (packet_command env w cbuf clen ws).w.int_reason_reg
          = (gdrom_reg_write env w cbuf 0x5f709c clen).w.int_reason_reg)
    ∧ (flag w.feat_reg FEAT_REG_DMA_MASK = false →
      drq_signal (packet_command env w cbuf clen ws).w = true
      ∧ flag (packet_command env w cbuf clen ws).w.int_reason_reg INT_REASON_IO_MASK = true
      ∧ flag (packet_command env w cbuf clen ws).w.int_reason_reg INT_REASON_COD_MASK = false
      ∧ (packet_command env w cbuf clen ws).w.holly
          = (if flag w.dev_ctrl_reg DEV_CTRL_NIEN_MASK then w.holly
             else w.holly ++ [holly_call.raise_ext_int, holly_call.raise_ext_int])) := by
  obtain ⟨h1, h2⟩ :=
    packet_command_read_signals env w cbuf clen ws hclen hcmd h6 hws hop hsel htp hreads
  refine ⟨fun hd => ⟨(h1 hd).1, (h1 hd).2.1, ?_⟩, h2⟩
  rw [(h1 hd).2.2, gdrom_reg_write_cmd env w cbuf clen hclen,
    gdrom_cmd_reg_write_handler_pkt env w cbuf _ clen hcmd]
  rfl

/-- Witness for C21 (amended): a READ of 2 sectors from FAD 100 in the initial state, where
the DMA bit is clear and NIEN is clear, raises the interrupt twice. -/
theorem C21_read_packet_signals_witness :
    (1 ≤ 4) ∧ written_word [0xa0] 1 = GDROM_CMD_PKT
    ∧ (packet_bytes [([0x30, 0x20], 2), ([0, 0], 2), ([100, 0], 2), ([0, 0], 2), ([0, 0], 2),
        ([2, 0], 2)]).getD 0 0 = GDROM_PKT_READ
    ∧ (packet_bytes [([0x30, 0x20], 2), ([0, 0], 2), ([100, 0], 2), ([0, 0], 2), ([0, 0], 2),
        ([2, 0], 2)]).getD 1 0 >>> 4 = 2
    ∧ (packet_bytes [([0x30, 0x20], 2), ([0, 0], 2), ([100, 0], 2), ([0, 0], 2), ([0, 0], 2),
        ([2, 0], 2)]).getD 1 0 &&& 1 = 0
    ∧ reads_succeed Env.sample World.init.mount_reads.length 100 2
    ∧ flag World.init.feat_reg FEAT_REG_DMA_MASK = false
    ∧ (packet_command Env.sample World.init [0xa0] 1
        [([0x30, 0x20], 2), ([0, 0], 2), ([100, 0], 2), ([0, 0], 2), ([0, 0], 2),
          ([2, 0], 2)]).w.holly = [holly_call.raise_ext_int, holly_call.raise_ext_int] :=
  ⟨by decide, written_word_le_bytes_a0, by decide, by decide, by decide, fun _ _ => rfl,
    by decide,
    ((C21_read_packet_signals Env.sample World.init [0xa0] 1
      [([0x30, 0x20], 2), ([0, 0], 2), ([100, 0], 2), ([0, 0], 2), ([0, 0], 2), ([2, 0], 2)]
      (by decide) written_word_le_bytes_a0 rfl (by decide) (by decide) (by decide)
      (by decide) (fun _ _ => rfl)).2 (by decide)).2.2.2⟩

/-- C21 as stated fails: with the DMA bit of the features register set
(written through the features register from the initial state, where NIEN is
clear), receiving a READ packet for 2 sectors of a mounted disc raises the
GD-ROM interrupt once. -/
theorem C21_counterexample_interrupt_on_receipt :
    flag (gdrom_reg_write Env.sample World.init [1] 0x5f7084 1).w.feat_reg FEAT_REG_DMA_MASK
      = true
    ∧ flag (gdrom_reg_write Env.sample World.init [1] 0x5f7084 1).w.dev_ctrl_reg
        DEV_CTRL_NIEN_MASK = false
    ∧ (gdrom_reg_write Env.sample World.init [1] 0x5f7084 1).w.holly = []
    ∧ (packet_command Env.sample (gdrom_reg_write Env.sample World.init [1] 0x5f7084 1).w
        [0xa0] 1
        [([0x30, 0x20], 2), ([0, 0], 2), ([100, 0], 2), ([0, 0], 2), ([0, 0], 2),
          ([2, 0], 2)]).ret = Ret.MEM_ACCESS_SUCCESS
    ∧ (packet_command Env.sample (gdrom_reg_write Env.sample World.init [1] 0x5f7084 1).w
        [0xa0] 1
        [([0x30, 0x20], 2), ([0, 0], 2), ([100, 0], 2), ([0, 0], 2), ([0, 0], 2),
          ([2, 0], 2)]).w.holly = [holly_call.raise_ext_int] := by
  decide

/-! ## DMA completion -/

/-- The final `bytes_transmitted` of the loop of `gdrom_complete_dma` depends
on the valid lengths of the nodes only. -/
theorem gdrom_complete_dma_loop_transmitted (top bot btt : Nat) (q : List gdrom_bufq_node)
    (bt addr : Nat) (xs : List dma_xfer) :
    (gdrom_complete_dma_loop top bot btt q bt addr xs).2.1
      = dma_bytes_transmitted btt (q.map (fun n => n.len)) bt := by
  induction q generalizing bt addr xs with
  | nil => rfl
  | cons n rest ih =>
    simp only [gdrom_complete_dma_loop, List.map_cons, dma_bytes_transmitted]
    split
    · exact ih _ _ _
    · rfl

/-- Without wrap-around of the 32-bit counters the loop transmits the
requested length, or all that is queued if that is less. -/
theorem dma_bytes_transmitted_eq_min (btt : Nat) (lens : List Nat) (bt : Nat)
    (h1 : bt ≤ btt) (h2 : bt + lens.sum < 2 ^ 32) :
    dma_bytes_transmitted btt lens bt = min btt (bt + lens.sum) := by
  induction lens generalizing bt with
  | nil =>
    simp only [dma_bytes_transmitted, List.sum_nil, Nat.add_zero]
    omega
  | cons l rest ih =>
    simp only [List.sum_cons] at h2
    simp only [dma_bytes_transmitted, List.sum_cons, u32_add, u32_sub]
    by_cases hlt : bt < btt
    · rw [if_pos hlt]
      have e1 : (l + bt) % 2 ^ 32 = l + bt := Nat.mod_eq_of_lt (by omega)
      rw [e1]
      by_cases hgt : l + bt > btt
      · rw [if_pos hgt]
        have e2 : (bt + (btt % 2 ^ 32 + 2 ^ 32 - bt % 2 ^ 32) % 2 ^ 32) % 2 ^ 32 = btt := by
          omega
        rw [e2, ih btt (Nat.le_refl _) (by omega)]
        omega
      · rw [if_neg hgt]
        have e2 : (bt + l) % 2 ^ 32 = bt + l := Nat.mod_eq_of_lt (by omega)
        rw [e2, ih (bt + l) (by omega) (by omega)]
        omega
    · rw [if_neg hlt]
      omega

/-- The loop on a run of `k` nodes of the same valid length `c` that fit
into what remains to be transmitted. -/
theorem dma_bytes_transmitted_replicate (btt c k : Nat) (rest : List Nat) (bt : Nat)
    (hc : 0 < c) (h1 : bt + k * c ≤ btt) (h2 : btt < 2 ^ 32) :
    dma_bytes_transmitted btt (List.replicate k c ++ rest) bt
      = dma_bytes_transmitted btt rest (bt + k * c) := by
  induction k generalizing bt with
  | zero => simp only [List.replicate_zero, List.nil_append, Nat.zero_mul, Nat.add_zero]
  | succ j ih =>
    have hm : (j + 1) * c = c + j * c := by rw [Nat.add_mul, Nat.one_mul, Nat.add_comm]
    rw [hm] at h1
    have hlt : bt < btt := by
      have : 0 ≤ j * c := Nat.zero_le _
      omega
    have e1 : (c + bt) % 2 ^ 32 = c + bt := Nat.mod_eq_of_lt (by omega)
    have hgt : ¬ (c + bt > btt) := by omega
    have e2 : (bt + c) % 2 ^ 32 = bt + c := Nat.mod_eq_of_lt (by omega)
    simp only [List.replicate_succ, List.cons_append, dma_bytes_transmitted, u32_add, if_pos hlt,
      e1, if_neg hgt, e2]
    show dma_bytes_transmitted btt (List.replicate j c ++ rest) (bt + c) = _
    rw [ih (bt + c) (by omega), hm]
    congr 1
    omega

theorem read_nodes_lens (env : Env) (first fad k : Nat) :
    (read_nodes env first fad k).map (fun n => n.len)
      = List.replicate k env.CDROM_FRAME_DATA_SIZE := by
  induction k generalizing first with
  | zero => rfl
  | succ j ih => simp only [read_nodes, List.map_cons, ih, List.replicate_succ]

theorem bufq_total_read_nodes (env : Env) (first fad k : Nat) :
    bufq_total (read_nodes env first fad k) = k * env.CDROM_FRAME_DATA_SIZE := by
  unfold bufq_total
  rw [read_nodes_lens, List.sum_replicate, smul_eq_mul]

/-- What a write of a nonzero value to GDST leaves in GDLEND and GDST. -/
theorem gdrom_gdst_reg_write_handler_gdlend (env : Env) (w : World) (buf : List Nat)
    (addr len : Nat) (hnz : memcpy_u32 w.dma_start_reg buf 4 ≠ 0) :
    (gdrom_gdst_reg_write_handler env w buf addr len).ret = Ret.MEM_ACCESS_SUCCESS
    ∧ (gdrom_gdst_reg_write_handler env w buf addr len).w.gdlend_reg
        = dma_bytes_transmitted w.dma_len_reg (w.bufq.map (fun n => n.len)) 0
    ∧ (gdrom_gdst_reg_write_handler env w buf addr len).w.dma_start_reg = 0 := by
  unfold gdrom_gdst_reg_write_handler
  simp only [ne_eq, hnz, not_false_eq_true, if_true, raise_int_unless_nien_eq,
    gdrom_complete_dma, gdrom_complete_dma_loop_transmitted]
  exact ⟨trivial, trivial, trivial⟩

theorem gdrom_input_read_packet_tail_dma_len (r : World × Bool) :
    (gdrom_input_read_packet_tail r).w.dma_len_reg = r.1.dma_len_reg := by
  unfold gdrom_input_read_packet_tail
  split
  · rfl
  · simp only []
    split
    · rfl
    · simp only [raise_int_unless_nien_eq]

theorem memcpy_u32_four (old : Nat) (buf : List Nat) :
    memcpy_u32 old buf 4 = memcpy_u32 0 buf 4 := by
  unfold memcpy_u32
  rfl

/-- C22 (amended): a write of a nonzero value to GDST, on a queue whose valid
lengths sum to less than 2^32, returns success and leaves GDLEND equal to
min(GDLEN, sum of the valid lengths of the queued nodes) and GDST equal to 0,
so that GDST reads back 0.  The cursors of the nodes play no part.  The value
of GDLEND is the same for every value of the protection register GDAPRO and
of the start address GDSTAR. -/
theorem C22_dma_completion_length (env : Env) (w : World) (buf : List Nat) (addr len : Nat)
    (hnz : memcpy_u32 w.dma_start_reg buf 4 ≠ 0) (htot : bufq_total w.bufq < 2 ^ 32) :
    (gdrom_gdst_reg_write_handler env w buf addr len).ret = Ret.MEM_ACCESS_SUCCESS
    ∧ (gdrom_gdst_reg_write_handler env w buf addr len).w.gdlend_reg
        = min w.dma_len_reg (bufq_total w.bufq)
    ∧ (gdrom_gdst_reg_write_handler env w buf addr len).w.dma_start_reg = 0
    ∧ (gdrom_gdst_reg_read_handler env
        (gdrom_gdst_reg_write_handler env w buf addr len).w addr 4).buf = [0, 0, 0, 0]
    ∧ (∀ gdapro gdstar : Nat,
        (gdrom_gdst_reg_write_handler env
          { w with gdapro_reg := gdapro, dma_start_addr_reg := gdstar }
          buf addr len).w.gdlend_reg = min w.dma_len_reg (bufq_total w.bufq)) := by
  have hmin : dma_bytes_transmitted w.dma_len_reg (w.bufq.map (fun n => n.len)) 0
      = min w.dma_len_reg (bufq_total w.bufq) := by
    rw [dma_bytes_transmitted_eq_min _ _ 0 (Nat.zero_le _)
      (by rw [Nat.zero_add]; exact htot), Nat.zero_add]
    rfl
  obtain ⟨r1, r2, r3⟩ := gdrom_gdst_reg_write_handler_gdlend env w buf addr len hnz
  refine ⟨r1, r2.trans hmin, r3, ?_, ?_⟩
  · unfold gdrom_gdst_reg_read_handler
    rw [r3]
    rfl
  · intro gdapro gdstar
    exact (gdrom_gdst_reg_write_handler_gdlend env
      { w with gdapro_reg := gdapro, dma_start_addr_reg := gdstar } buf addr len hnz).2.1.trans
      hmin

/-- Witness for C22 (amended): after IDENTIFY has queued 80 bytes, a DMA of GDLEN = 32 bytes
to 0x0c000000 leaves GDLEND = 32. -/
theorem C22_dma_completion_length_witness :
    memcpy_u32
        (gdrom_gdlen_reg_write_handler Env.sample
          (gdrom_reg_write Env.sample World.init [0xa1] 0x5f709c 1).w
          [0x20, 0, 0, 0] 0 4).w.dma_start_reg [1, 0, 0, 0] 4 ≠ 0
    ∧ bufq_total
        (gdrom_gdlen_reg_write_handler Env.sample
          (gdrom_reg_write Env.sample World.init [0xa1] 0x5f709c 1).w
          [0x20, 0, 0, 0] 0 4).w.bufq < 2 ^ 32
    ∧ (gdrom_gdst_reg_write_handler Env.sample
        (gdrom_gdlen_reg_write_handler Env.sample
          (gdrom_reg_write Env.sample World.init [0xa1] 0x5f709c 1).w
          [0x20, 0, 0, 0] 0 4).w
        [1, 0, 0, 0] 0 4).w.gdlend_reg = 32 :=
  ⟨by decide, by decide,
    (C22_dma_completion_length Env.sample
      (gdrom_gdlen_reg_write_handler Env.sample
        (gdrom_reg_write Env.sample World.init [0xa1] 0x5f709c 1).w
        [0x20, 0, 0, 0] 0 4).w
      [1, 0, 0, 0] 0 4 (by decide) (by decide)).2.1.trans (by decide)⟩

/-- GDLEN after a READ packet all of whose sector reads succeed. -/
theorem packet_command_read_success_dma_len (env : Env) (w : World) (cbuf : List Nat)
    (clen : Nat) (ws : List (List Nat × Nat)) (hclen : clen ≤ 4)
    (hcmd : written_word cbuf clen = GDROM_CMD_PKT) (h6 : ws.length = 6)
    (hws : ∀ y ∈ ws, y.2 ≤ 4)
    (hop : (packet_bytes ws).getD 0 0 = GDROM_PKT_READ)
    (hsel : (packet_bytes ws).getD 1 0 >>> 4 = 2)
    (htp : (packet_bytes ws).getD 1 0 &&& 1 = 0)
    (hreads : reads_succeed env w.mount_reads.length (read_start_addr (packet_bytes ws))
      (read_trans_len (packet_bytes ws))) :
    (packet_command env w cbuf clen ws).w.dma_len_reg = w.dma_len_reg := by
  obtain ⟨R, hR, -, -, -, -, -, f6⟩ :=
    packet_command_read_success_eq env w cbuf clen ws hclen hcmd h6 hws hop hsel htp hreads
  rw [hR, returning_w, gdrom_input_read_packet_tail_dma_len]
  exact f6

/-- A write of 1 to GDST on a queue of `k + 1` nodes left by a READ, when the
first `k` nodes fit into GDLEN. -/
theorem gdrom_gdst_reg_write_handler_read_nodes (env : Env) (W : World) (f s k : Nat)
    (hq : W.bufq = read_nodes env f s (k + 1)) (hc : 0 < env.CDROM_FRAME_DATA_SIZE)
    (h1 : k * env.CDROM_FRAME_DATA_SIZE ≤ W.dma_len_reg) (h2 : W.dma_len_reg < 2 ^ 32) :
    (gdrom_gdst_reg_write_handler env W [1, 0, 0, 0] 0 4).w.gdlend_reg
      = dma_bytes_transmitted W.dma_len_reg [env.CDROM_FRAME_DATA_SIZE]
          (k * env.CDROM_FRAME_DATA_SIZE) := by
  have hnz : memcpy_u32 W.dma_start_reg [1, 0, 0, 0] 4 ≠ 0 := by
    rw [memcpy_u32_four]
    decide
  rw [(gdrom_gdst_reg_write_handler_gdlend env W [1, 0, 0, 0] 0 4 hnz).2.1, hq,
    read_nodes_lens, List.replicate_succ',
    dma_bytes_transmitted_replicate _ _ _ _ _ hc (by rw [Nat.zero_add]; exact h1) h2,
    Nat.zero_add]

/-- The queue and GDLEN after, from the initial state, a write of 0xffffffff
to GDLEN and a READ packet of 0x200000 sectors from FAD 0 on the sample
disc. -/
theorem read_2m_sectors_after_gdlen :
    (packet_command Env.sample
        (gdrom_gdlen_reg_write_handler Env.sample World.init [0xff, 0xff, 0xff, 0xff] 0 4).w
        [0xa0] 1
        [([0x30, 0x20], 2), ([0, 0], 2), ([0, 0], 2), ([0, 0], 2), ([0x20, 0], 2),
          ([0, 0], 2)]).w.bufq = read_nodes Env.sample 0 0 (0x1fffff + 1)
    ∧ (packet_command Env.sample
        (gdrom_gdlen_reg_write_handler Env.sample World.init [0xff, 0xff, 0xff, 0xff] 0 4).w
        [0xa0] 1
        [([0x30, 0x20], 2), ([0, 0], 2), ([0, 0], 2), ([0, 0], 2), ([0x20, 0], 2),
          ([0, 0], 2)]).w.dma_len_reg = 0xffffffff := by
  have hK : read_trans_len (packet_bytes [([0x30, 0x20], 2), ([0, 0], 2), ([0, 0], 2),
      ([0, 0], 2), ([0x20, 0], 2), ([0, 0], 2)]) = 0x1fffff + 1 := by decide
  have hS : read_start_addr (packet_bytes [([0x30, 0x20], 2), ([0, 0], 2), ([0, 0], 2),
      ([0, 0], 2), ([0x20, 0], 2), ([0, 0], 2)]) = 0 := by decide
  have hM : (gdrom_gdlen_reg_write_handler Env.sample World.init
      [0xff, 0xff, 0xff, 0xff] 0 4).w.mount_reads.length = 0 := rfl
  have hg : (gdrom_gdlen_reg_write_handler Env.sample World.init
      [0xff, 0xff, 0xff, 0xff] 0 4).w.dma_len_reg = 0xffffffff := by decide
  have hq := (packet_command_read_success Env.sample
    (gdrom_gdlen_reg_write_handler Env.sample World.init [0xff, 0xff, 0xff, 0xff] 0 4).w
    [0xa0] 1
    [([0x30, 0x20], 2), ([0, 0], 2), ([0, 0], 2), ([0, 0], 2), ([0x20, 0], 2), ([0, 0], 2)]
    (by decide) written_word_le_bytes_a0 rfl (by decide) (by decide) (by decide)
    (by decide) (fun _ _ => rfl)).2.1
  have hl := packet_command_read_success_dma_len Env.sample
    (gdrom_gdlen_reg_write_handler Env.sample World.init [0xff, 0xff, 0xff, 0xff] 0 4).w
    [0xa0] 1
    [([0x30, 0x20], 2), ([0, 0], 2), ([0, 0], 2), ([0, 0], 2), ([0x20, 0], 2), ([0, 0], 2)]
    (by decide) written_word_le_bytes_a0 rfl (by decide) (by decide) (by decide)
    (by decide) (fun _ _ => rfl)
  rw [hK, hS, hM] at hq
  exact ⟨hq, hl.trans hg⟩

/-- C22 as stated fails when the 32-bit counter wraps.  From the initial
state, with CDROM_FRAME_DATA_SIZE = 2048: after GDLEN has been set to
0xffffffff and a READ packet of 0x200000 sectors has queued 0x200000 nodes of
2048 bytes, each with cursor 0 (2^32 bytes in all), a write of 1 to GDST
leaves GDLEND = 0, whereas min(GDLEN, sum of the valid lengths) is
0xffffffff. -/
theorem C22_counterexample_length_wraps :
    (packet_command Env.sample
        (gdrom_gdlen_reg_write_handler Env.sample World.init [0xff, 0xff, 0xff, 0xff] 0 4).w
        [0xa0] 1
        [([0x30, 0x20], 2), ([0, 0], 2), ([0, 0], 2), ([0, 0], 2), ([0x20, 0], 2),
          ([0, 0], 2)]).w.dma_len_reg = 0xffffffff
    ∧ (packet_command Env.sample
        (gdrom_gdlen_reg_write_handler Env.sample World.init [0xff, 0xff, 0xff, 0xff] 0 4).w
        [0xa0] 1
        [([0x30, 0x20], 2), ([0, 0], 2), ([0, 0], 2), ([0, 0], 2), ([0x20, 0], 2),
          ([0, 0], 2)]).w.bufq.length = 0x200000
    ∧ (∀ n ∈ (packet_command Env.sample
        (gdrom_gdlen_reg_write_handler Env.sample World.init [0xff, 0xff, 0xff, 0xff] 0 4).w
        [0xa0] 1
        [([0x30, 0x20], 2), ([0, 0], 2), ([0, 0], 2), ([0, 0], 2), ([0x20, 0], 2),
          ([0, 0], 2)]).w.bufq, n.idx = 0 ∧ n.len = 2048)
    ∧ bufq_total (packet_command Env.sample
        (gdrom_gdlen_reg_write_handler Env.sample World.init [0xff, 0xff, 0xff, 0xff] 0 4).w
        [0xa0] 1
        [([0x30, 0x20], 2), ([0, 0], 2), ([0, 0], 2), ([0, 0], 2), ([0x20, 0], 2),
          ([0, 0], 2)]).w.bufq = 2 ^ 32
    ∧ (gdrom_gdst_reg_write_handler Env.sample
        (packet_command Env.sample
          (gdrom_gdlen_reg_write_handler Env.sample World.init [0xff, 0xff, 0xff, 0xff] 0 4).w
          [0xa0] 1
          [([0x30, 0x20], 2), ([0, 0], 2), ([0, 0], 2), ([0, 0], 2), ([0x20, 0], 2),
            ([0, 0], 2)]).w
        [1, 0, 0, 0] 0 4).w.gdlend_reg = 0
    ∧ min (0xffffffff : Nat) (2 ^ 32) = 0xffffffff := by
  obtain ⟨hq, hlen⟩ := read_2m_sectors_after_gdlen
  refine ⟨hlen, ?_, ?_, ?_, ?_, by decide⟩
  · rw [hq, read_nodes_length]
  · intro n hn
    rw [hq] at hn
    exact read_nodes_mem Env.sample _ _ _ n hn
  · rw [hq, bufq_total_read_nodes]
    decide
  · rw [gdrom_gdst_reg_write_handler_read_nodes Env.sample _ 0 0 0x1fffff hq (by decide)
      (by rw [hlen]; decide) (by rw [hlen]; decide), hlen]
    decide

/-- C23, the code at a failing input.  From the initial state: IDENTIFY queues
80 bytes, GDAPRO is set to 0x8843407f (top bound 0x0c000000, bottom bound
0x0fffffff), GDSTAR to 0x10000010, which is above the bottom bound, GDLEN to
0x20, and 1 is written to GDST.  `gdrom_complete_dma` then makes one call
`sh4_dmac_transfer_to_mem(0x10000010, 0xfffffff0, 1, dat)`: the size is
`bot - addr + 1` wrapped around in 32-bit arithmetic, it is not 0, and the
first address written, like all that follow it, is above the bottom bound. -/
theorem C23_dma_transfer_above_bottom_bound :
    gdrom_dma_prot_top (identify_then_dma Env.sample 0x8843407f 0x10000010 0x20) = 0x0c000000
    ∧ gdrom_dma_prot_bot (identify_then_dma Env.sample 0x8843407f 0x10000010 0x20)
        = 0x0fffffff
    ∧ (identify_then_dma Env.sample 0x8843407f 0x10000010 0x20).dma_xfers
        = [{ addr := 0x10000010, sz := 0xfffffff0, dat := gdrom_ident_str }]
    ∧ (∀ x ∈ (identify_then_dma Env.sample 0x8843407f 0x10000010 0x20).dma_xfers,
        0 < x.sz
        ∧ gdrom_dma_prot_bot (identify_then_dma Env.sample 0x8843407f 0x10000010 0x20)
            < x.addr
        ∧ ¬ (x.addr + x.sz - 1
              ≤ gdrom_dma_prot_bot (identify_then_dma Env.sample 0x8843407f 0x10000010 0x20))
        ∧ x.byte_at 0x10000010 = some 0x20) := by
  decide

/-- C24, the code at a failing input.  From the initial state: IDENTIFY queues
80 bytes, GDAPRO is set to 0x8843407f (top bound 0x0c000000, bottom bound
0x0fffffff), GDSTAR to 0x0bfffff0, GDLEN to 0x20, and 1 is written to GDST.
The chunk of c = 32 bytes destined for a = 0x0bfffff0 straddles the top bound
(a < top <= a + c, a + c - 1 <= bot).  The transfer made copies 16 bytes to
0x0c000000 from the start of the node's array: guest address top + i receives
the source byte at offset i, not the one at offset top - a + i = 16 + i.
Guest address 0x0c000000 receives 0x20, byte 0 of the identification string,
whose byte 16 is 0x53. -/
theorem C24_dma_straddling_top_copies_chunk_start :
    gdrom_dma_prot_top (identify_then_dma Env.sample 0x8843407f 0x0bfffff0 0x20) = 0x0c000000
    ∧ gdrom_dma_prot_bot (identify_then_dma Env.sample 0x8843407f 0x0bfffff0 0x20)
        = 0x0fffffff
    ∧ (0x0bfffff0 < 0x0c000000 ∧ 0x0c000000 ≤ 0x0bfffff0 + 0x20
        ∧ 0x0bfffff0 + 0x20 - 1 ≤ 0x0fffffff)
    ∧ (identify_then_dma Env.sample 0x8843407f 0x0bfffff0 0x20).dma_xfers
        = [{ addr := 0x0c000000, sz := 16, dat := gdrom_ident_str }]
    ∧ (∀ i, i < 16 →
        ∀ x ∈ (identify_then_dma Env.sample 0x8843407f 0x0bfffff0 0x20).dma_xfers,
          x.byte_at (0x0c000000 + i) = some (gdrom_ident_str.getD i 0))
    ∧ gdrom_ident_str.getD 0 0 = 0x20
    ∧ gdrom_ident_str.getD (0x0c000000 - 0x0bfffff0) 0 = 0x53
    ∧ (identify_then_dma Env.sample 0x8843407f 0x0bfffff0 0x20).gdlend_reg = 0x20 := by
  decide

/-! ## What an access leaves alone -/

/-- A quantity that does not depend on the error attributes is preserved by
`gdrom_reg_read` as soon as the read handlers bound at the address preserve
it. -/
theorem gdrom_reg_read_from_inv {α : Type} (f : World → α)
    (hf : ∀ (w : World) (e : error_attrs), f { w with err := e } = f w)
    (curs : List gdrom_mem_mapped_reg) (env : Env) (w : World) (addr len : Nat)
    (h : ∀ c ∈ curs, c.addr = addr → f (c.on_read env w addr len).w = f w) :
    f (gdrom_reg_read_from curs env w addr len).w = f w := by
  induction curs with
  | nil => exact (hf _ _).trans (hf _ _)
  | cons c rest ih =>
    unfold gdrom_reg_read_from
    by_cases hc : c.addr = addr
    · rw [if_pos hc]
      by_cases hl : c.len ≥ len
      · rw [if_pos hl]
        exact h c (List.mem_cons_self _ _) hc
      · rw [if_neg hl]
        exact (hf _ _).trans ((hf _ _).trans ((hf _ _).trans (hf _ _)))
    · rw [if_neg hc]
      exact ih (fun d hd => h d (List.mem_cons_of_mem _ hd))

/-- A quantity that does not depend on the error attributes is preserved by
`gdrom_reg_write` as soon as the write handlers bound at the address preserve
it. -/
theorem gdrom_reg_write_from_inv {α : Type} (f : World → α)
    (hf : ∀ (w : World) (e : error_attrs), f { w with err := e } = f w)
    (curs : List gdrom_mem_mapped_reg) (env : Env) (w : World) (buf : List Nat)
    (addr len : Nat)
    (h : ∀ c ∈ curs, c.addr = addr → f (c.on_write env w buf addr len).w = f w) :
    f (gdrom_reg_write_from curs env w buf addr len).w = f w := by
  induction curs with
  | nil => exact (hf _ _).trans (hf _ _)
  | cons c rest ih =>
    unfold gdrom_reg_write_from
    by_cases hc : c.addr = addr
    · rw [if_pos hc]
      by_cases hl : c.len ≥ len
      · rw [if_pos hl]
        exact h c (List.mem_cons_self _ _) hc
      · rw [if_neg hl]
        exact (hf _ _).trans ((hf _ _).trans ((hf _ _).trans (hf _ _)))
    · rw [if_neg hc]
      exact ih (fun d hd => h d (List.mem_cons_of_mem _ hd))

theorem gdrom_data_reg_read_handler_state (env : Env) (w : World) (addr len : Nat) :
    (gdrom_data_reg_read_handler env w addr len).w.state = w.state := by
  rw [gdrom_data_reg_read_handler_eq]
  simp only []
  split <;> rfl

/-- No read through `gdrom_reg_read` changes the protocol state. -/
theorem gdrom_reg_read_state (env : Env) (w : World) (addr len : Nat) :
    (gdrom_reg_read env w addr len).w.state = w.state := by
  apply gdrom_reg_read_from_inv World.state (fun _ _ => rfl)
  intro c hc _
  simp only [gdrom_reg_info, List.mem_cons, List.mem_singleton, List.not_mem_nil,
    or_false] at hc
  rcases hc with rfl | rfl | rfl | rfl | rfl | rfl | rfl | rfl | rfl
  · rfl
  · rfl
  · rfl
  · exact gdrom_data_reg_read_handler_state env w addr len
  · rfl
  · rfl
  · rfl
  · rfl
  · rfl

/-- No write through `gdrom_reg_write` to an address other than those of the
command and data registers changes the protocol state. -/
theorem gdrom_reg_write_state (env : Env) (w : World) (buf : List Nat) (addr len : Nat)
    (h1 : addr ≠ 0x5f709c) (h2 : addr ≠ 0x5f7080) :
    (gdrom_reg_write env w buf addr len).w.state = w.state := by
  apply gdrom_reg_write_from_inv World.state (fun _ _ => rfl)
  intro c hc ha
  simp only [gdrom_reg_info, List.mem_cons, List.mem_singleton, List.not_mem_nil,
    or_false] at hc
  rcases hc with rfl | rfl | rfl | rfl | rfl | rfl | rfl | rfl | rfl
  · rfl
  · rfl
  · exact absurd ha.symm h1
  · exact absurd ha.symm h2
  · rfl
  · rfl
  · rfl
  · rfl
  · rfl

theorem gdrom_gdapro_reg_write_handler_state (env : Env) (w : World) (buf : List Nat)
    (addr len : Nat) :
    (gdrom_gdapro_reg_write_handler env w buf addr len).w.state = w.state := by
  unfold gdrom_gdapro_reg_write_handler
  simp only []
  split <;> rfl

theorem gdrom_gdst_reg_write_handler_state (env : Env) (w : World) (buf : List Nat)
    (addr len : Nat) :
    (gdrom_gdst_reg_write_handler env w buf addr len).w.state
      = gdrom_state.GDROM_STATE_NORM := rfl

/-- C25 (amended): the protocol state changes only as a result of writes to
the command register (0x5f709c), to the data register (0x5f7080) and to the
DMA start register GDST.  Every read through `gdrom_reg_read`, every write
through `gdrom_reg_write` to another address, every read of a GD-ROM DMA
register (GDAPRO, G1GDRC, GDSTAR, GDLEN, GDDIR, GDEN, GDST, GDLEND) and every
write to a DMA register other than GDST leaves the protocol state unchanged;
a write to GDST, of any value, sets it to NORMAL. -/
theorem C25_state_changing_accesses (env : Env) (w : World) :
    (∀ addr len, (gdrom_reg_read env w addr len).w.state = w.state)
    ∧ (∀ buf addr len, addr ≠ 0x5f709c → addr ≠ 0x5f7080 →
        (gdrom_reg_write env w buf addr len).w.state = w.state)
    ∧ (∀ h ∈ gdrom_dma_read_handlers, ∀ addr len, (h env w addr len).w.state = w.state)
    ∧ (∀ h ∈ gdrom_dma_write_handlers_but_gdst, ∀ buf addr len,
        (h env w buf addr len).w.state = w.state)
    ∧ (∀ buf addr len,
        (gdrom_gdst_reg_write_handler env w buf addr len).w.state
          = gdrom_state.GDROM_STATE_NORM) := by
  refine ⟨gdrom_reg_read_state env w, gdrom_reg_write_state env w, ?_, ?_,
    gdrom_gdst_reg_write_handler_state env w⟩
  · intro h hh addr len
    simp only [gdrom_dma_read_handlers, List.mem_cons, List.mem_singleton, List.not_mem_nil,
      or_false] at hh
    rcases hh with rfl | rfl | rfl | rfl | rfl | rfl | rfl | rfl <;> rfl
  · intro h hh buf addr len
    simp only [gdrom_dma_write_handlers_but_gdst, List.mem_cons, List.mem_singleton,
      List.not_mem_nil, or_false] at hh
    rcases hh with rfl | rfl | rfl | rfl | rfl | rfl
    · exact gdrom_gdapro_reg_write_handler_state env w buf addr len
    · rfl
    · rfl
    · rfl
    · rfl
    · rfl

/-- C25 as stated fails: after a PACKET command written in the initial state
the protocol state is GDROM_STATE_INPUT_PKT, and a write to GDST (here of the
value 0) sets it to NORMAL. -/
theorem C25_counterexample_gdst_write_sets_norm :
    (gdrom_reg_write Env.sample World.init [0xa0] 0x5f709c 1).w.state
      = gdrom_state.GDROM_STATE_INPUT_PKT
    ∧ (gdrom_gdst_reg_write_handler Env.sample
        (gdrom_reg_write Env.sample World.init [0xa0] 0x5f709c 1).w
        [0, 0, 0, 0] 0 4).w.state = gdrom_state.GDROM_STATE_NORM
    ∧ (gdrom_gdst_reg_write_handler Env.sample
        (gdrom_reg_write Env.sample World.init [0xa0] 0x5f709c 1).w
        [0, 0, 0, 0] 0 4).w.state
      ≠ (gdrom_reg_write Env.sample World.init [0xa0] 0x5f709c 1).w.state := by
  decide

/-! ## The interrupt mask NIEN -/

theorem raised_count_err (w : World) (e : error_attrs) :
    raised_count { w with err := e } = raised_count w := rfl

theorem raised_count_of_holly (w w2 : World) (h : w2.holly = w.holly) :
    raised_count w2 = raised_count w := by
  unfold raised_count
  rw [h]

/-- With NIEN set the recurring statement raises nothing. -/
theorem raise_int_unless_nien_masked (w : World)
    (hn : flag w.dev_ctrl_reg DEV_CTRL_NIEN_MASK = true) :
    raise_int_unless_nien w = w := by
  rw [raise_int_unless_nien_eq, if_pos hn]

theorem gdrom_input_read_packet_loop_quiet (env : Env) (fad k : Nat) (w : World) :
    (gdrom_input_read_packet_loop env fad k w).1.holly = w.holly
    ∧ (gdrom_input_read_packet_loop env fad k w).1.dev_ctrl_reg = w.dev_ctrl_reg := by
  induction k generalizing w with
  | zero => exact ⟨rfl, rfl⟩
  | succ j ih =>
    cases hans : env.mount_read_sectors w.mount_reads.length fad 1 with
    | none =>
      simp only [gdrom_input_read_packet_loop, hans]
      exact ⟨trivial, trivial⟩
    | some dat =>
      simp only [gdrom_input_read_packet_loop, hans]
      exact ih _

theorem gdrom_input_read_packet_tail_quiet (r : World × Bool)
    (hn : flag r.1.dev_ctrl_reg DEV_CTRL_NIEN_MASK = true) :
    (gdrom_input_read_packet_tail r).w.holly = r.1.holly := by
  unfold gdrom_input_read_packet_tail
  split
  · rfl
  · simp only []
    split
    · rfl
    · simp only [raise_int_unless_nien_eq, hn, if_true]

theorem gdrom_input_read_packet_quiet (env : Env) (w : World)
    (hn : flag w.dev_ctrl_reg DEV_CTRL_NIEN_MASK = true) :
    (gdrom_input_read_packet env w).w.holly = w.holly := by
  unfold gdrom_input_read_packet
  simp only []
  split
  · rfl
  · split
    · rfl
    · obtain ⟨l1, l2⟩ := gdrom_input_read_packet_loop_quiet env
        (((pkt_byte w 2) <<< 16) ||| ((pkt_byte w 3) <<< 8) ||| pkt_byte w 4)
        (((pkt_byte w 8) <<< 16) ||| ((pkt_byte w 9) <<< 8) ||| pkt_byte w 10)
        { bufq_clear w with
          data_byte_count := (env.CDROM_FRAME_DATA_SIZE
            * (((pkt_byte w 8) <<< 16) ||| ((pkt_byte w 9) <<< 8) ||| pkt_byte w 10))
            % 2 ^ 32 }
      rw [gdrom_input_read_packet_tail_quiet _ (by rw [l2]; exact hn), l1]
      rfl

theorem gdrom_input_test_unit_packet_quiet (env : Env) (w : World) :
    (gdrom_input_test_unit_packet env w).holly = w.holly := by
  unfold gdrom_input_test_unit_packet
  simp only []
  split <;> rfl

theorem gdrom_input_req_mode_packet_quiet (w : World)
    (hn : flag w.dev_ctrl_reg DEV_CTRL_NIEN_MASK = true) :
    (gdrom_input_req_mode_packet w).holly = w.holly := by
  unfold gdrom_input_req_mode_packet
  simp only [raise_int_unless_nien_eq, bufq_clear, apply_ite World.holly,
    apply_ite World.dev_ctrl_reg, ite_self, hn, if_true]

theorem gdrom_input_req_error_packet_quiet (w : World)
    (hn : flag w.dev_ctrl_reg DEV_CTRL_NIEN_MASK = true) :
    (gdrom_input_req_error_packet w).holly = w.holly := by
  unfold gdrom_input_req_error_packet
  simp only [raise_int_unless_nien_eq, bufq_clear, apply_ite World.holly,
    apply_ite World.dev_ctrl_reg, ite_self, hn, if_true]

theorem gdrom_input_read_toc_packet_quiet (env : Env) (w : World)
    (hn : flag w.dev_ctrl_reg DEV_CTRL_NIEN_MASK = true) :
    (gdrom_input_read_toc_packet env w).holly = w.holly := by
  unfold gdrom_input_read_toc_packet
  simp only [raise_int_unless_nien_eq, bufq_clear, hn, if_true]

theorem gdrom_input_packet_71_quiet (w : World)
    (hn : flag w.dev_ctrl_reg DEV_CTRL_NIEN_MASK = true) :
    (gdrom_input_packet_71 w).holly = w.holly := by
  unfold gdrom_input_packet_71
  simp only [raise_int_unless_nien_eq, bufq_clear, hn, if_true]

theorem gdrom_input_set_mode_packet_quiet (w : World) :
    (gdrom_input_set_mode_packet w).w.holly = w.holly := by
  unfold gdrom_input_set_mode_packet
  simp only []
  split <;> rfl

/-- With NIEN set, `gdrom_input_packet` raises no interrupt, whatever the
packet. -/
theorem gdrom_input_packet_quiet (env : Env) (w : World)
    (hn : flag w.dev_ctrl_reg DEV_CTRL_NIEN_MASK = true) :
    (gdrom_input_packet env w).w.holly = w.holly := by
  have he : (input_packet_entry w).holly = w.holly
      ∧ (input_packet_entry w).dev_ctrl_reg = w.dev_ctrl_reg := by
    rw [input_packet_entry_eq]
    exact ⟨if_pos hn, rfl⟩
  have hn2 : flag (input_packet_entry w).dev_ctrl_reg DEV_CTRL_NIEN_MASK = true := by
    rw [he.2]
    exact hn
  rw [gdrom_input_packet_eq]
  split
  · exact (gdrom_input_test_unit_packet_quiet env _).trans he.1
  split
  · exact he.1
  split
  · exact (gdrom_input_req_mode_packet_quiet _ hn2).trans he.1
  split
  · exact (gdrom_input_set_mode_packet_quiet _).trans he.1
  split
  · exact (gdrom_input_req_error_packet_quiet _ hn2).trans he.1
  split
  · exact he.1
  split
  · exact (gdrom_input_read_toc_packet_quiet env _ hn2).trans he.1
  split
  · exact (gdrom_input_read_packet_quiet env _ hn2).trans he.1
  split
  · exact (gdrom_input_packet_71_quiet _ hn2).trans he.1
  · exact he.1

theorem gdrom_cmd_reg_write_handler_quiet (env : Env) (w : World) (buf : List Nat)
    (addr len : Nat) (hn : flag w.dev_ctrl_reg DEV_CTRL_NIEN_MASK = true) :
    (gdrom_cmd_reg_write_handler env w buf addr len).w.holly = w.holly := by
  obtain ⟨-, -, f3, f4, -, -, -⟩ := gdrom_cmd_set_features_frame w
  unfold gdrom_cmd_reg_write_handler
  simp only []
  generalize memcpy_u32 0 buf (if len < 4 then len else 4) = cmd
  split
  · rfl
  split
  · unfold gdrom_cmd_identify
    simp only [raise_int_unless_nien_eq, bufq_clear, hn, if_true]
  split
  · simp only [raise_int_unless_nien_eq, f3, f4, hn, if_true]
  · rfl

theorem gdrom_data_reg_read_handler_quiet (env : Env) (w : World) (addr len : Nat)
    (hn : flag w.dev_ctrl_reg DEV_CTRL_NIEN_MASK = true) :
    (gdrom_data_reg_read_handler env w addr len).w.holly = w.holly := by
  rw [gdrom_data_reg_read_handler_eq]
  simp only [apply_ite World.holly, hn, if_true, ite_self]

theorem gdrom_data_reg_write_handler_quiet (env : Env) (w : World) (buf : List Nat)
    (addr len : Nat) (hn : flag w.dev_ctrl_reg DEV_CTRL_NIEN_MASK = true) :
    (gdrom_data_reg_write_handler env w buf addr len).w.holly = w.holly := by
  unfold gdrom_data_reg_write_handler
  simp only []
  generalize memcpy_u32 0 buf (if len < 4 then len else 4) = dat
  split
  · split
    · rw [returning_w]
      exact gdrom_input_packet_quiet env _ hn
    · rfl
  · split
    · simp only [raise_int_unless_nien_eq, apply_ite World.holly, hn, if_true, ite_self]
    · rfl

theorem gdrom_gdst_reg_write_handler_quiet (env : Env) (w : World) (buf : List Nat)
    (addr len : Nat) (hn : flag w.dev_ctrl_reg DEV_CTRL_NIEN_MASK = true) :
    (gdrom_gdst_reg_write_handler env w buf addr len).w.holly = w.holly := by
  unfold gdrom_gdst_reg_write_handler
  simp only [raise_int_unless_nien_eq, gdrom_complete_dma, apply_ite World.holly,
    apply_ite World.dev_ctrl_reg, ite_self, hn, if_true]

theorem gdrom_gdapro_reg_write_handler_quiet (env : Env) (w : World) (buf : List Nat)
    (addr len : Nat) :
    (gdrom_gdapro_reg_write_handler env w buf addr len).w.holly = w.holly := by
  unfold gdrom_gdapro_reg_write_handler
  simp only []
  split <;> rfl

/-- With NIEN set, no read through `gdrom_reg_read` raises the interrupt. -/
theorem gdrom_reg_read_quiet (env : Env) (w : World) (addr len : Nat)
    (hn : flag w.dev_ctrl_reg DEV_CTRL_NIEN_MASK = true) :
    raised_count (gdrom_reg_read env w addr len).w = raised_count w := by
  apply gdrom_reg_read_from_inv raised_count raised_count_err
  intro c hc _
  simp only [gdrom_reg_info, List.mem_cons, List.mem_singleton, List.not_mem_nil,
    or_false] at hc
  rcases hc with rfl | rfl | rfl | rfl | rfl | rfl | rfl | rfl | rfl
  · rfl
  · rfl
  · show List.count holly_call.raise_ext_int (w.holly ++ [holly_call.clear_ext_int])
      = List.count holly_call.raise_ext_int w.holly
    rw [List.count_append]
    rfl
  · exact raised_count_of_holly _ _ (gdrom_data_reg_read_handler_quiet env w addr len hn)
  · rfl
  · rfl
  · rfl
  · rfl
  · rfl

/-- With NIEN set, no write through `gdrom_reg_write` raises the interrupt. -/
theorem gdrom_reg_write_quiet (env : Env) (w : World) (buf : List Nat) (addr len : Nat)
    (hn : flag w.dev_ctrl_reg DEV_CTRL_NIEN_MASK = true) :
    raised_count (gdrom_reg_write env w buf addr len).w = raised_count w := by
  apply gdrom_reg_write_from_inv raised_count raised_count_err
  intro c hc _
  simp only [gdrom_reg_info, List.mem_cons, List.mem_singleton, List.not_mem_nil,
    or_false] at hc
  rcases hc with rfl | rfl | rfl | rfl | rfl | rfl | rfl | rfl | rfl
  · rfl
  · rfl
  · exact raised_count_of_holly _ _ (gdrom_cmd_reg_write_handler_quiet env w buf addr len hn)
  · exact raised_count_of_holly _ _ (gdrom_data_reg_write_handler_quiet env w buf addr len hn)
  · rfl
  · rfl
  · rfl
  · rfl
  · rfl

/-- C26: in every state in which the NIEN bit (bit 1) of the device-control
register is set, no access raises the GD-ROM external interrupt: the number
of calls of `holly_raise_ext_int` is the same after as before every read
through `gdrom_reg_read`, every write through `gdrom_reg_write` (whatever the
address, the length and the value, for every command and every packet), every
read and write of a GD-ROM DMA register, and in particular every write to
GDST, with or without a DMA transfer. -/
theorem C26_nien_masks_interrupt (env : Env) (w : World)
    (hn : flag w.dev_ctrl_reg DEV_CTRL_NIEN_MASK = true) :
    (∀ addr len, raised_count (gdrom_reg_read env w addr len).w = raised_count w)
    ∧ (∀ buf addr len, raised_count (gdrom_reg_write env w buf addr len).w = raised_count w)
    ∧ (∀ h ∈ gdrom_dma_read_handlers, ∀ addr len,
        raised_count (h env w addr len).w = raised_count w)
    ∧ (∀ h ∈ gdrom_dma_write_handlers_but_gdst, ∀ buf addr len,
        raised_count (h env w buf addr len).w = raised_count w)
    ∧ (∀ buf addr len,
        raised_count (gdrom_gdst_reg_write_handler env w buf addr len).w = raised_count w) := by
  refine ⟨fun addr len => gdrom_reg_read_quiet env w addr len hn,
    fun buf addr len => gdrom_reg_write_quiet env w buf addr len hn, ?_, ?_,
    fun buf addr len =>
      raised_count_of_holly _ _ (gdrom_gdst_reg_write_handler_quiet env w buf addr len hn)⟩
  · intro h hh addr len
    simp only [gdrom_dma_read_handlers, List.mem_cons, List.mem_singleton, List.not_mem_nil,
      or_false] at hh
    rcases hh with rfl | rfl | rfl | rfl | rfl | rfl | rfl | rfl <;> rfl
  · intro h hh buf addr len
    simp only [gdrom_dma_write_handlers_but_gdst, List.mem_cons, List.mem_singleton,
      List.not_mem_nil, or_false] at hh
    rcases hh with rfl | rfl | rfl | rfl | rfl | rfl
    · exact raised_count_of_holly _ _ (gdrom_gdapro_reg_write_handler_quiet env w buf addr len)
    · rfl
    · rfl
    · rfl
    · rfl
    · rfl

/-- Witness for C26: after NIEN has been set through the device-control register
(0x5f7018) from the initial state, an IDENTIFY command raises no interrupt, while in the
initial state it raises one. -/
theorem C26_nien_masks_interrupt_witness :
    flag (gdrom_reg_write Env.sample World.init [2] 0x5f7018 1).w.dev_ctrl_reg
      DEV_CTRL_NIEN_MASK = true
    ∧ raised_count (gdrom_reg_write Env.sample
        (gdrom_reg_write Env.sample World.init [2] 0x5f7018 1).w [0xa1] 0x5f709c 1).w = 0
    ∧ raised_count (gdrom_reg_write Env.sample World.init [0xa1] 0x5f709c 1).w = 1 :=
  ⟨by decide,
    ((C26_nien_masks_interrupt Env.sample
      (gdrom_reg_write Env.sample World.init [2] 0x5f7018 1).w (by decide)).2.1
      [0xa1] 0x5f709c 1).trans (by decide),
    by decide⟩

/-- Witness for C25 (amended): a write to the features register after a PACKET command
leaves the protocol state at GDROM_STATE_INPUT_PKT. -/
theorem C25_state_changing_accesses_witness :
    (0x5f7084 ≠ 0x5f709c) ∧ (0x5f7084 ≠ 0x5f7080)
    ∧ (gdrom_reg_write Env.sample
        (gdrom_reg_write Env.sample World.init [0xa0] 0x5f709c 1).w [1] 0x5f7084 1).w.state
      = gdrom_state.GDROM_STATE_INPUT_PKT :=
  ⟨by decide, by decide,
    ((C25_state_changing_accesses Env.sample
      (gdrom_reg_write Env.sample World.init [0xa0] 0x5f709c 1).w).2.1
      [1] 0x5f7084 1 (by decide) (by decide)).trans (by decide)⟩


/-! ## Invariants of runs -/

theorem packet_frame_refl (w : World) : packet_frame w w :=
  ⟨rfl, rfl, Or.inl rfl, fun h => h, Or.inl rfl⟩

theorem packet_frame_of_eq (w w2 : World) (h1 : w2.sect_cnt_reg = w.sect_cnt_reg)
    (h2 : w2.n_bytes_received = w.n_bytes_received)
    (h3 : w2.state = w.state ∨ w2.state = gdrom_state.GDROM_STATE_NORM)
    (h4 : w2.data_byte_count < 2 ^ 32)
    (h5 : w2.additional_sense = w.additional_sense) : packet_frame w w2 :=
  ⟨h1, h2, h3, fun _ => h4, Or.inl h5⟩

theorem gdrom_input_read_packet_loop_frame (env : Env) (fad k : Nat) (w : World) :
    packet_frame w (gdrom_input_read_packet_loop env fad k w).1
    ∧ (gdrom_input_read_packet_loop env fad k w).1.data_byte_count = w.data_byte_count := by
  induction k generalizing w with
  | zero => exact ⟨packet_frame_refl w, rfl⟩
  | succ j ih =>
    cases hans : env.mount_read_sectors w.mount_reads.length fad 1 with
    | none =>
      simp only [gdrom_input_read_packet_loop, hans]
      exact ⟨⟨rfl, rfl, Or.inr rfl, fun h => h, Or.inl rfl⟩, trivial⟩
    | some dat =>
      simp only [gdrom_input_read_packet_loop, hans]
      exact ih _

theorem gdrom_input_read_packet_tail_frame2 (r : World × Bool) :
    packet_frame r.1 (gdrom_input_read_packet_tail r).w := by
  unfold gdrom_input_read_packet_tail
  split
  · exact packet_frame_refl _
  · simp only []
    split
    · exact packet_frame_refl _
    · simp only [raise_int_unless_nien_eq]
      exact ⟨rfl, rfl, Or.inr rfl, fun h => h, Or.inl rfl⟩

theorem packet_frame_trans (w w1 w2 : World) (h1 : packet_frame w w1)
    (h2 : packet_frame w1 w2) : packet_frame w w2 := by
  obtain ⟨a1, a2, a3, a4, a5⟩ := h1
  obtain ⟨b1, b2, b3, b4, b5⟩ := h2
  refine ⟨b1.trans a1, b2.trans a2, ?_, fun h => b4 (a4 h), ?_⟩
  · rcases b3 with b3 | b3
    · rw [b3]; exact a3
    · exact Or.inr b3
  · rcases b5 with b5 | b5
    · rw [b5]; exact a5
    · exact Or.inr b5

theorem gdrom_input_read_packet_frame (env : Env) (w : World) :
    packet_frame w (gdrom_input_read_packet env w).w := by
  unfold gdrom_input_read_packet
  simp only []
  split
  · exact packet_frame_refl _
  · split
    · exact packet_frame_refl _
    · refine packet_frame_trans _ _ _ ?_ (gdrom_input_read_packet_tail_frame2 _)
      refine packet_frame_trans _ _ _ ?_ (gdrom_input_read_packet_loop_frame env _ _ _).1
      exact ⟨rfl, rfl, Or.inl rfl, fun _ => Nat.mod_lt _ (by decide), Or.inl rfl⟩

theorem gdrom_input_test_unit_packet_frame (env : Env) (w : World) :
    packet_frame w (gdrom_input_test_unit_packet env w) := by
  unfold gdrom_input_test_unit_packet
  simp only []
  split
  · exact ⟨rfl, rfl, Or.inr rfl, fun h => h, Or.inl rfl⟩
  · exact ⟨rfl, rfl, Or.inr rfl, fun h => h, Or.inr rfl⟩

theorem gdrom_input_req_mode_packet_frame (w : World) :
    packet_frame w (gdrom_input_req_mode_packet w) := by
  unfold gdrom_input_req_mode_packet
  simp only [raise_int_unless_nien_eq, bufq_clear]
  refine ⟨?_, ?_, Or.inr rfl, ?_, Or.inl ?_⟩
  · simp only [apply_ite World.sect_cnt_reg, ite_self]
  · simp only [apply_ite World.n_bytes_received, ite_self]
  · intro h
    simp only [apply_ite World.data_byte_count]
    split_ifs <;> omega
  · simp only [apply_ite World.additional_sense, ite_self]

theorem gdrom_input_req_error_packet_frame (w : World) :
    packet_frame w (gdrom_input_req_error_packet w) := by
  unfold gdrom_input_req_error_packet
  simp only [raise_int_unless_nien_eq, bufq_clear]
  refine ⟨?_, ?_, Or.inr rfl, ?_, Or.inl ?_⟩
  · simp only [apply_ite World.sect_cnt_reg, ite_self]
  · simp only [apply_ite World.n_bytes_received, ite_self]
  · intro h
    simp only [apply_ite World.data_byte_count]
    have : pkt_byte w 4 < 256 := Nat.mod_lt _ (by decide)
    split_ifs <;> omega
  · simp only [apply_ite World.additional_sense, ite_self]

theorem gdrom_input_read_toc_packet_frame (env : Env) (w : World) :
    packet_frame w (gdrom_input_read_toc_packet env w) := by
  unfold gdrom_input_read_toc_packet
  simp only [raise_int_unless_nien_eq, bufq_clear]
  refine ⟨rfl, rfl, Or.inr rfl, fun _ => ?_, Or.inl rfl⟩
  show (if ((pkt_byte w 3) <<< 8) ||| pkt_byte w 4 > env.CDROM_TOC_SIZE then env.CDROM_TOC_SIZE
        else ((pkt_byte w 3) <<< 8) ||| pkt_byte w 4) < 2 ^ 32
  have h3 : pkt_byte w 3 < 2 ^ 8 := Nat.mod_lt _ (by decide)
  have h4 : pkt_byte w 4 < 2 ^ 16 := lt_trans (Nat.mod_lt _ (by decide)) (by decide)
  have hs : (pkt_byte w 3) <<< 8 < 2 ^ 16 := by
    rw [Nat.shiftLeft_eq]
    omega
  have ho : ((pkt_byte w 3) <<< 8) ||| pkt_byte w 4 < 2 ^ 16 := Nat.or_lt_two_pow hs h4
  split <;> omega

theorem gdrom_input_packet_71_frame (w : World) :
    packet_frame w (gdrom_input_packet_71 w) := by
  unfold gdrom_input_packet_71
  simp only [raise_int_unless_nien_eq, bufq_clear]
  refine ⟨rfl, rfl, Or.inr rfl, fun _ => ?_, Or.inl rfl⟩
  show PKT_71_RESP_LEN < 2 ^ 32
  decide

theorem gdrom_input_start_disk_packet_frame (w : World) :
    packet_frame w (gdrom_input_start_disk_packet w) :=
  ⟨rfl, rfl, Or.inr rfl, fun h => h, Or.inl rfl⟩

theorem gdrom_input_set_mode_packet_frame (w : World) :
    packet_frame w (gdrom_input_set_mode_packet w).w := by
  unfold gdrom_input_set_mode_packet
  simp only []
  split <;> exact ⟨rfl, rfl, Or.inl rfl, fun h => h, Or.inl rfl⟩

theorem input_packet_entry_frame (w : World) : packet_frame w (input_packet_entry w) := by
  rw [input_packet_entry_eq]
  exact packet_frame_refl w

/-- What `gdrom_input_packet` may do to the variables followed through a run,
whatever the packet. -/
theorem gdrom_input_packet_frame (env : Env) (w : World) :
    packet_frame w (gdrom_input_packet env w).w := by
  have he := input_packet_entry_frame w
  rw [gdrom_input_packet_eq]
  split
  · exact packet_frame_trans _ _ _ he (gdrom_input_test_unit_packet_frame env _)
  split
  · exact packet_frame_trans _ _ _ he ⟨rfl, rfl, Or.inr rfl, fun h => h, Or.inl rfl⟩
  split
  · exact packet_frame_trans _ _ _ he (gdrom_input_req_mode_packet_frame _)
  split
  · exact packet_frame_trans _ _ _ he (gdrom_input_set_mode_packet_frame _)
  split
  · exact packet_frame_trans _ _ _ he (gdrom_input_req_error_packet_frame _)
  split
  · exact packet_frame_trans _ _ _ he (gdrom_input_start_disk_packet_frame _)
  split
  · exact packet_frame_trans _ _ _ he (gdrom_input_read_toc_packet_frame env _)
  split
  · exact packet_frame_trans _ _ _ he (gdrom_input_read_packet_frame env _)
  split
  · exact packet_frame_trans _ _ _ he (gdrom_input_packet_71_frame _)
  · exact packet_frame_trans _ _ _ he (packet_frame_refl _)

theorem access_frame_refl (w : World) : access_frame w w :=
  ⟨rfl, Or.inl rfl, Or.inl rfl, fun h => h, Or.inl rfl⟩

theorem access_frame_of_packet_frame (w w2 : World) (h : packet_frame w w2) :
    access_frame w w2 := by
  obtain ⟨a1, a2, a3, a4, a5⟩ := h
  refine ⟨a1, Or.inl a2, ?_, a4, a5⟩
  rcases a3 with a3 | a3
  · exact Or.inl a3
  · exact Or.inr (Or.inl a3)

theorem gdrom_cmd_set_features_frame2 (w : World) :
    packet_frame w (gdrom_cmd_set_features w) := by
  unfold gdrom_cmd_set_features
  simp only []
  split_ifs <;> exact ⟨rfl, rfl, Or.inl rfl, fun h => h, Or.inl rfl⟩

theorem gdrom_cmd_reg_write_handler_frame (env : Env) (w : World) (buf : List Nat)
    (addr len : Nat) :
    access_frame w (gdrom_cmd_reg_write_handler env w buf addr len).w := by
  unfold gdrom_cmd_reg_write_handler
  simp only []
  generalize memcpy_u32 0 buf (if len < 4 then len else 4) = cmd
  split
  · exact ⟨rfl, Or.inr (Or.inl rfl), Or.inr (Or.inr rfl), fun h => h, Or.inl rfl⟩
  split
  · unfold gdrom_cmd_identify
    simp only [raise_int_unless_nien_eq, bufq_clear]
    refine ⟨rfl, Or.inl rfl, Or.inr (Or.inl rfl), fun _ => ?_, Or.inl rfl⟩
    show 80 < 2 ^ 32
    decide
  split
  · simp only [raise_int_unless_nien_eq]
    exact access_frame_of_packet_frame _ _ (gdrom_cmd_set_features_frame2 w)
  · exact access_frame_refl w

theorem gdrom_data_reg_read_handler_frame (env : Env) (w : World) (addr len : Nat) :
    access_frame w (gdrom_data_reg_read_handler env w addr len).w := by
  rw [gdrom_data_reg_read_handler_eq]
  simp only []
  split <;> exact access_frame_refl w

theorem gdrom_data_reg_write_handler_frame (env : Env) (w : World) (buf : List Nat)
    (addr len : Nat) :
    access_frame w (gdrom_data_reg_write_handler env w buf addr len).w := by
  unfold gdrom_data_reg_write_handler
  simp only []
  generalize memcpy_u32 0 buf (if len < 4 then len else 4) = dat
  split
  · split
    · rw [returning_w]
      obtain ⟨a1, a2, a3, a4, a5⟩ := gdrom_input_packet_frame env
        { w with
          pkt_buf := Function.update
            (Function.update w.pkt_buf w.n_bytes_received (dat &&& 0xff))
            (w.n_bytes_received + 1) ((dat >>> 8) &&& 0xff),
          n_bytes_received := 0 }
      refine ⟨a1, Or.inr (Or.inl a2), ?_, a4, a5⟩
      rcases a3 with a3 | a3
      · exact Or.inl a3
      · exact Or.inr (Or.inl a3)
    · rename_i hlt
      exact ⟨rfl, Or.inr (Or.inr ⟨rfl, Nat.lt_of_not_le hlt⟩), Or.inl rfl, fun h => h,
        Or.inl rfl⟩
  · split
    · simp only [raise_int_unless_nien_eq]
      refine ⟨?_, Or.inl ?_, ?_, ?_, Or.inl ?_⟩
      · simp only [apply_ite World.sect_cnt_reg, ite_self]
      · simp only [apply_ite World.n_bytes_received, ite_self]
      · simp only [apply_ite World.state]
        split
        · exact Or.inr (Or.inl rfl)
        · exact Or.inl rfl
      · simp only [apply_ite World.data_byte_count, ite_self]
        exact fun h => h
      · simp only [apply_ite World.additional_sense, ite_self]
    · exact access_frame_refl w

theorem gdrom_byte_count_low_reg_write_handler_frame (env : Env) (w : World) (buf : List Nat)
    (addr len : Nat) :
    access_frame w (gdrom_byte_count_low_reg_write_handler env w buf addr len).w := by
  refine ⟨rfl, Or.inl rfl, Or.inl rfl, fun _ => ?_, Or.inl rfl⟩
  show (mask_clear w.data_byte_count 0xff) ||| (written_word buf len &&& 0xff) < 2 ^ 32
  refine Nat.or_lt_two_pow ?_ (lt_of_le_of_lt Nat.and_le_right (by decide))
  exact lt_of_le_of_lt Nat.and_le_right (by decide)

theorem gdrom_byte_count_high_reg_write_handler_frame (env : Env) (w : World) (buf : List Nat)
    (addr len : Nat) :
    access_frame w (gdrom_byte_count_high_reg_write_handler env w buf addr len).w := by
  refine ⟨rfl, Or.inl rfl, Or.inl rfl, fun _ => ?_, Or.inl rfl⟩
  show (mask_clear w.data_byte_count 0xff00) ||| ((written_word buf len &&& 0xff) <<< 8)
    < 2 ^ 32
  refine Nat.or_lt_two_pow (lt_of_le_of_lt Nat.and_le_right (by decide)) ?_
  have h : written_word buf len &&& 0xff ≤ 0xff := Nat.and_le_right
  rw [Nat.shiftLeft_eq]
  omega

theorem gdrom_gdst_reg_write_handler_frame (env : Env) (w : World) (buf : List Nat)
    (addr len : Nat) :
    access_frame w (gdrom_gdst_reg_write_handler env w buf addr len).w := by
  unfold gdrom_gdst_reg_write_handler
  simp only [raise_int_unless_nien_eq, gdrom_complete_dma]
  refine ⟨?_, Or.inl ?_, Or.inr (Or.inl rfl), ?_, Or.inl ?_⟩
  · simp only [apply_ite World.sect_cnt_reg, ite_self]
  · simp only [apply_ite World.n_bytes_received, ite_self]
  · simp only [apply_ite World.data_byte_count, ite_self]
    exact fun h => h
  · simp only [apply_ite World.additional_sense, ite_self]

theorem gdrom_gdapro_reg_write_handler_frame (env : Env) (w : World) (buf : List Nat)
    (addr len : Nat) :
    access_frame w (gdrom_gdapro_reg_write_handler env w buf addr len).w := by
  unfold gdrom_gdapro_reg_write_handler
  simp only []
  split <;> exact access_frame_refl w

/-- A property of the state that does not depend on the error attributes
holds after `gdrom_reg_read` as soon as it holds before and after the read
handlers bound at the address. -/
theorem gdrom_reg_read_from_pred (P : World → Prop)
    (hP : ∀ (w : World) (e : error_attrs), P w → P { w with err := e })
    (curs : List gdrom_mem_mapped_reg) (env : Env) (w : World) (addr len : Nat) (hw : P w)
    (h : ∀ c ∈ curs, c.addr = addr → P (c.on_read env w addr len).w) :
    P (gdrom_reg_read_from curs env w addr len).w := by
  induction curs with
  | nil => exact hP _ _ (hP _ _ hw)
  | cons c rest ih =>
    unfold gdrom_reg_read_from
    by_cases hc : c.addr = addr
    · rw [if_pos hc]
      by_cases hl : c.len ≥ len
      · rw [if_pos hl]
        exact h c (List.mem_cons_self _ _) hc
      · rw [if_neg hl]
        exact hP _ _ (hP _ _ (hP _ _ (hP _ _ hw)))
    · rw [if_neg hc]
      exact ih (fun d hd => h d (List.mem_cons_of_mem _ hd))

/-- A property of the state that does not depend on the error attributes
holds after `gdrom_reg_write` as soon as it holds before and after the write
handlers bound at the address. -/
theorem gdrom_reg_write_from_pred (P : World → Prop)
    (hP : ∀ (w : World) (e : error_attrs), P w → P { w with err := e })
    (curs : List gdrom_mem_mapped_reg) (env : Env) (w : World) (buf : List Nat)
    (addr len : Nat) (hw : P w)
    (h : ∀ c ∈ curs, c.addr = addr → P (c.on_write env w buf addr len).w) :
    P (gdrom_reg_write_from curs env w buf addr len).w := by
  induction curs with
  | nil => exact hP _ _ (hP _ _ hw)
  | cons c rest ih =>
    unfold gdrom_reg_write_from
    by_cases hc : c.addr = addr
    · rw [if_pos hc]
      by_cases hl : c.len ≥ len
      · rw [if_pos hl]
        exact h c (List.mem_cons_self _ _) hc
      · rw [if_neg hl]
        exact hP _ _ (hP _ _ (hP _ _ (hP _ _ hw)))
    · rw [if_neg hc]
      exact ih (fun d hd => h d (List.mem_cons_of_mem _ hd))

theorem gdrom_reg_read_frame (env : Env) (w : World) (addr len : Nat) :
    access_frame w (gdrom_reg_read env w addr len).w := by
  apply gdrom_reg_read_from_pred (access_frame w) (fun _ _ h => h) _ _ _ _ _
    (access_frame_refl w)
  intro c hc _
  simp only [gdrom_reg_info, List.mem_cons, List.mem_singleton, List.not_mem_nil,
    or_false] at hc
  rcases hc with rfl | rfl | rfl | rfl | rfl | rfl | rfl | rfl | rfl
  · exact access_frame_refl w
  · exact access_frame_refl w
  · exact access_frame_refl w
  · exact gdrom_data_reg_read_handler_frame env w addr len
  · exact access_frame_refl w
  · exact access_frame_refl w
  · exact access_frame_refl w
  · exact access_frame_refl w
  · exact access_frame_refl w

theorem gdrom_reg_write_frame (env : Env) (w : World) (buf : List Nat) (addr len : Nat) :
    access_frame w (gdrom_reg_write env w buf addr len).w := by
  apply gdrom_reg_write_from_pred (access_frame w) (fun _ _ h => h) _ _ _ _ _ _
    (access_frame_refl w)
  intro c hc _
  simp only [gdrom_reg_info, List.mem_cons, List.mem_singleton, List.not_mem_nil,
    or_false] at hc
  rcases hc with rfl | rfl | rfl | rfl | rfl | rfl | rfl | rfl | rfl
  · exact access_frame_refl w
  · exact access_frame_refl w
  · exact gdrom_cmd_reg_write_handler_frame env w buf addr len
  · exact gdrom_data_reg_write_handler_frame env w buf addr len
  · exact access_frame_refl w
  · exact access_frame_refl w
  · exact access_frame_refl w
  · exact gdrom_byte_count_low_reg_write_handler_frame env w buf addr len
  · exact gdrom_byte_count_high_reg_write_handler_frame env w buf addr len

/-- What one access, of any kind, may do to the variables followed through a
run. -/
theorem access_run_frame (env : Env) (w : World) (a : access) :
    access_frame w (a.run env w).w := by
  cases a with
  | reg_read addr len => exact gdrom_reg_read_frame env w addr len
  | reg_write buf addr len => exact gdrom_reg_write_frame env w buf addr len
  | dma_read reg addr len => cases reg <;> exact access_frame_refl w
  | dma_write reg buf addr len =>
    cases reg
    · exact gdrom_gdapro_reg_write_handler_frame env w buf addr len
    · exact access_frame_refl w
    · exact access_frame_refl w
    · exact access_frame_refl w
    · exact access_frame_refl w
    · exact access_frame_refl w
    · exact gdrom_gdst_reg_write_handler_frame env w buf addr len

/-- A property that holds in the state `w` and is kept by every access holds
after every sequence of accesses from `w`. -/
theorem run_accesses_inv (env : Env) (P : World → Prop)
    (hstep : ∀ (w : World) (a : access), P w → P (a.run env w).w)
    (accs : List access) (w : World) (hw : P w) : P (run_accesses env w accs) := by
  induction accs generalizing w with
  | nil => exact hw
  | cons a rest ih =>
    unfold run_accesses
    split
    · exact hstep w a hw
    · exact ih _ (hstep w a hw)

/-- The invariant of the reachable states: the sector-count register is 0,
the protocol state is not AWAITING_MODE_DATA, `n_bytes_received` is even and
at most 10, and the data-byte-count is below 2^32. -/
theorem reachable_invariant (env : Env) (w : World) (h : reachable env w) :
    w.sect_cnt_reg = 0 ∧ w.state ≠ gdrom_state.GDROM_STATE_SET_MODE
    ∧ w.n_bytes_received % 2 = 0 ∧ w.n_bytes_received ≤ 10
    ∧ w.data_byte_count < 2 ^ 32 := by
  obtain ⟨accs, rfl⟩ := h
  apply run_accesses_inv env
    (fun w => w.sect_cnt_reg = 0 ∧ w.state ≠ gdrom_state.GDROM_STATE_SET_MODE
      ∧ w.n_bytes_received % 2 = 0 ∧ w.n_bytes_received ≤ 10
      ∧ w.data_byte_count < 2 ^ 32)
  · intro w a ⟨i1, i2, i3, i4, i5⟩
    obtain ⟨a1, a2, a3, a4, -⟩ := access_run_frame env w a
    refine ⟨a1.trans i1, ?_, ?_, ?_, a4 i5⟩
    · rcases a3 with a3 | a3 | a3
      · rw [a3]; exact i2
      · rw [a3]; decide
      · rw [a3]; decide
    · rcases a2 with a2 | a2 | ⟨a2, -⟩
      · rw [a2]; exact i3
      · rw [a2]
      · rw [a2]; omega
    · rcases a2 with a2 | a2 | ⟨a2, a2b⟩
      · rw [a2]; exact i4
      · rw [a2]; exact Nat.zero_le _
      · rw [a2] at a2b ⊢
        omega
  · exact ⟨rfl, by decide, rfl, by decide, by decide⟩


/-- C35: the protocol state GDROM_STATE_SET_MODE (AWAITING_MODE_DATA) is never
entered: in every state reachable from the initial state by a sequence of
reads and writes through `gdrom_reg_read` / `gdrom_reg_write` and of reads
and writes of the GD-ROM DMA registers, the protocol state is NORMAL or
AWAITING_PACKET. -/
theorem C35_set_mode_state_never_entered (env : Env) (w : World) (h : reachable env w) :
    w.state = gdrom_state.GDROM_STATE_NORM ∨ w.state = gdrom_state.GDROM_STATE_INPUT_PKT := by
  have h2 := (reachable_invariant env w h).2.1
  cases hs : w.state with
  | GDROM_STATE_NORM => exact Or.inl rfl
  | GDROM_STATE_INPUT_PKT => exact Or.inr rfl
  | GDROM_STATE_SET_MODE => exact absurd hs h2

/-- Witness for C35: after a SET_MODE packet (0x12), sent from the initial state, the
protocol state is still AWAITING_PACKET. -/
theorem C35_set_mode_state_never_entered_witness :
    reachable Env.sample
      (run_accesses Env.sample World.init
        (packet_accesses [0x12, 0, 0, 0, 10, 0, 0, 0, 0, 0, 0, 0]))
    ∧ (run_accesses Env.sample World.init
        (packet_accesses [0x12, 0, 0, 0, 10, 0, 0, 0, 0, 0, 0, 0])).state
      = gdrom_state.GDROM_STATE_INPUT_PKT
    ∧ ((run_accesses Env.sample World.init
          (packet_accesses [0x12, 0, 0, 0, 10, 0, 0, 0, 0, 0, 0, 0])).state
        = gdrom_state.GDROM_STATE_NORM
      ∨ (run_accesses Env.sample World.init
          (packet_accesses [0x12, 0, 0, 0, 10, 0, 0, 0, 0, 0, 0, 0])).state
        = gdrom_state.GDROM_STATE_INPUT_PKT) :=
  ⟨⟨_, rfl⟩, by decide, C35_set_mode_state_never_entered Env.sample _ ⟨_, rfl⟩⟩

/-- C36: in every state reachable from the initial state by register and
DMA-register accesses, and so whenever the protocol state is AWAITING_PACKET,
the packet-byte counter `n_bytes_received` is even and at most 10; the two
stores `pkt_buf[n_bytes_received]` and `pkt_buf[n_bytes_received + 1]` of a
data-register write are therefore inside the 12-byte packet buffer. -/
theorem C36_packet_counter_in_bounds (env : Env) (w : World) (h : reachable env w) :
    w.n_bytes_received % 2 = 0 ∧ w.n_bytes_received ≤ 10
    ∧ pkt_stores_in_bounds w.n_bytes_received := by
  obtain ⟨-, -, i3, i4, -⟩ := reachable_invariant env w h
  refine ⟨i3, i4, ?_⟩
  unfold pkt_stores_in_bounds PKT_LEN
  omega

/-- Witness for C36: after a PACKET command and five of the six data-register writes of
a packet the state is AWAITING_PACKET and the counter is 10. -/
theorem C36_packet_counter_in_bounds_witness :
    reachable Env.sample
      (run_accesses Env.sample World.init
        ((packet_accesses [0x13, 0, 0, 0, 10, 0, 0, 0, 0, 0, 0, 0]).take 6))
    ∧ (run_accesses Env.sample World.init
        ((packet_accesses [0x13, 0, 0, 0, 10, 0, 0, 0, 0, 0, 0, 0]).take 6)).state
      = gdrom_state.GDROM_STATE_INPUT_PKT
    ∧ (run_accesses Env.sample World.init
        ((packet_accesses [0x13, 0, 0, 0, 10, 0, 0, 0, 0, 0, 0, 0]).take 6)).n_bytes_received
      = 10
    ∧ pkt_stores_in_bounds (run_accesses Env.sample World.init
        ((packet_accesses [0x13, 0, 0, 0, 10, 0, 0, 0, 0, 0, 0, 0]).take 6)).n_bytes_received :=
  ⟨⟨_, rfl⟩, by decide, by decide,
    (C36_packet_counter_in_bounds Env.sample _ ⟨_, rfl⟩).2.2⟩


theorem testBit_0xff (i : Nat) : (0xff : Nat).testBit i = decide (i < 8) :=
  Nat.testBit_two_pow_sub_one 8 i

theorem testBit_0xffff (i : Nat) : (0xffff : Nat).testBit i = decide (i < 16) :=
  Nat.testBit_two_pow_sub_one 16 i

theorem testBit_0xff00 (i : Nat) :
    (0xff00 : Nat).testBit i = (decide (8 ≤ i) && decide (i < 16)) := by
  rw [show (0xff00 : Nat) = 0xff <<< 8 from rfl, Nat.testBit_shiftLeft, testBit_0xff]
  by_cases h8 : 8 ≤ i <;> by_cases h16 : i < 16 <;> simp [h8, h16] <;> omega

theorem testBit_mask_clear_all (x m i : Nat) :
    (mask_clear x m).testBit i = (x.testBit i && (decide (i < 32) ^^ m.testBit i)) := by
  unfold mask_clear U32_MAX
  rw [Nat.testBit_and, Nat.testBit_xor, show (0xffffffff : Nat) = 2 ^ 32 - 1 from rfl,
    Nat.testBit_two_pow_sub_one]

theorem byte_count_low_write_eq (env : Env) (w : World) (buf : List Nat) (len : Nat)
    (h : len ≤ 4) :
    (byte_count_low_write env w buf len).data_byte_count
      = (mask_clear w.data_byte_count 0xff) ||| (written_word buf len &&& 0xff) := by
  have h4 : (4 : Nat) ≥ len := h
  simp [byte_count_low_write, gdrom_reg_write, gdrom_reg_info, gdrom_reg_write_from, h4,
    gdrom_byte_count_low_reg_write_handler, written_word]

theorem byte_count_high_write_eq (env : Env) (w : World) (buf : List Nat) (len : Nat)
    (h : len ≤ 4) :
    (byte_count_high_write env w buf len).data_byte_count
      = (mask_clear w.data_byte_count 0xff00) ||| ((written_word buf len &&& 0xff) <<< 8) := by
  have h4 : (4 : Nat) ≥ len := h
  simp [byte_count_high_write, gdrom_reg_write, gdrom_reg_info, gdrom_reg_write_from, h4,
    gdrom_byte_count_high_reg_write_handler, written_word]

theorem gdrom_reg_read_byte_count_low (env : Env) (w : World) (len : Nat) (h : len ≤ 4) :
    gdrom_reg_read env w 0x5f7090 len
      = { ret := Ret.MEM_ACCESS_SUCCESS, buf := le_bytes (w.data_byte_count &&& 0xff) len,
          w := w } := by
  have h4 : (4 : Nat) ≥ len := h
  have hm : (if len < 4 then len else 4) = len := by split <;> omega
  simp [gdrom_reg_read, gdrom_reg_info, gdrom_reg_read_from, h4,
    gdrom_byte_count_low_reg_read_handler, hm]

theorem gdrom_reg_read_byte_count_high (env : Env) (w : World) (len : Nat) (h : len ≤ 4) :
    gdrom_reg_read env w 0x5f7094 len
      = { ret := Ret.MEM_ACCESS_SUCCESS,
          buf := le_bytes ((w.data_byte_count &&& 0xff00) >>> 8) len, w := w } := by
  have h4 : (4 : Nat) ≥ len := h
  have hm : (if len < 4 then len else 4) = len := by split <;> omega
  simp [gdrom_reg_read, gdrom_reg_info, gdrom_reg_read_from, h4,
    gdrom_byte_count_high_reg_read_handler, hm]

/-- Bits of the data-byte-count after a write of `v` to byte-count-low. -/
theorem testBit_low_write (x v i : Nat) :
    ((mask_clear x 0xff) ||| (v &&& 0xff)).testBit i
      = if i < 8 then v.testBit i else (x.testBit i && decide (i < 32)) := by
  rw [Nat.testBit_or, Nat.testBit_and, testBit_mask_clear_all, testBit_0xff]
  by_cases h8 : i < 8
  · have h32 : i < 32 := by omega
    simp [h8, h32]
  · simp [h8]

/-- Bits of the data-byte-count after a write of `v` to byte-count-high. -/
theorem testBit_high_write (x v i : Nat) :
    ((mask_clear x 0xff00) ||| ((v &&& 0xff) <<< 8)).testBit i
      = if 8 ≤ i ∧ i < 16 then v.testBit (i - 8) else (x.testBit i && decide (i < 32)) := by
  rw [Nat.testBit_or, Nat.testBit_shiftLeft, Nat.testBit_and, testBit_mask_clear_all,
    testBit_0xff00, testBit_0xff]
  by_cases h8 : 8 ≤ i
  · by_cases h16 : i < 16
    · have h32 : i < 32 := by omega
      have h7 : i - 8 < 8 := by omega
      simp [h8, h16, h32, h7]
    · have h7 : ¬ i - 8 < 8 := by omega
      simp [h8, h16, h7]
  · have h16 : i < 16 := by omega
    simp [h8, h16]

theorem and_0xff_of_bits (y v : Nat) (h : ∀ i, i < 8 → y.testBit i = v.testBit i) :
    y &&& 0xff = v &&& 0xff := by
  apply Nat.eq_of_testBit_eq
  intro i
  rw [Nat.testBit_and, Nat.testBit_and, testBit_0xff]
  by_cases h8 : i < 8
  · simp [h8, h i h8]
  · simp [h8]

theorem high_byte_of_bits (y v : Nat) (h : ∀ i, i < 8 → y.testBit (8 + i) = v.testBit i) :
    (y &&& 0xff00) >>> 8 = v &&& 0xff := by
  apply Nat.eq_of_testBit_eq
  intro i
  rw [Nat.testBit_shiftRight, Nat.testBit_and, Nat.testBit_and, testBit_0xff00, testBit_0xff]
  by_cases h8 : i < 8
  · have a : 8 ≤ 8 + i := by omega
    have b : 8 + i < 16 := by omega
    simp [h8, h i h8, a, b]
  · have b : ¬ 8 + i < 16 := by omega
    simp [h8, b]

theorem and_0xffff_of_bits (y lo hi : Nat) (hl : ∀ i, i < 8 → y.testBit i = lo.testBit i)
    (hh : ∀ i, i < 8 → y.testBit (8 + i) = hi.testBit i) :
    y &&& 0xffff = ((hi &&& 0xff) <<< 8) ||| (lo &&& 0xff) := by
  apply Nat.eq_of_testBit_eq
  intro i
  rw [Nat.testBit_and, Nat.testBit_or, Nat.testBit_shiftLeft, Nat.testBit_and, Nat.testBit_and,
    testBit_0xffff, testBit_0xff, testBit_0xff]
  by_cases h8 : i < 8
  · have a : i < 16 := by omega
    have b : ¬ 8 ≤ i := by omega
    simp [h8, a, b, hl i h8]
  · by_cases h16 : i < 16
    · have a : 8 ≤ i := by omega
      have b : i - 8 < 8 := by omega
      have c := hh (i - 8) b
      rw [show 8 + (i - 8) = i by omega] at c
      simp [h8, h16, a, b, c]
    · have a : 8 ≤ i := by omega
      have b : ¬ i - 8 < 8 := by omega
      simp [h8, h16, a, b]

theorem gdrom_reg_write_byte_count_ret (env : Env) (w : World) (buf : List Nat) (len : Nat)
    (h : len ≤ 4) :
    (gdrom_reg_write env w buf 0x5f7090 len).ret = Ret.MEM_ACCESS_SUCCESS
    ∧ (gdrom_reg_write env w buf 0x5f7094 len).ret = Ret.MEM_ACCESS_SUCCESS := by
  have h4 : (4 : Nat) ≥ len := h
  constructor
  · simp [gdrom_reg_write, gdrom_reg_info, gdrom_reg_write_from, h4,
      gdrom_byte_count_low_reg_write_handler]
  · simp [gdrom_reg_write, gdrom_reg_info, gdrom_reg_write_from, h4,
      gdrom_byte_count_high_reg_write_handler]

/-- The bits of the data-byte-count after a write to byte-count-low. -/
theorem byte_count_low_write_bits (env : Env) (w : World) (buf : List Nat) (len : Nat)
    (h : len ≤ 4) (i : Nat) :
    (byte_count_low_write env w buf len).data_byte_count.testBit i
      = if i < 8 then (written_word buf len).testBit i
        else (w.data_byte_count.testBit i && decide (i < 32)) := by
  rw [byte_count_low_write_eq env w buf len h, testBit_low_write]

/-- The bits of the data-byte-count after a write to byte-count-high. -/
theorem byte_count_high_write_bits (env : Env) (w : World) (buf : List Nat) (len : Nat)
    (h : len ≤ 4) (i : Nat) :
    (byte_count_high_write env w buf len).data_byte_count.testBit i
      = if 8 ≤ i ∧ i < 16 then (written_word buf len).testBit (i - 8)
        else (w.data_byte_count.testBit i && decide (i < 32)) := by
  rw [byte_count_high_write_eq env w buf len h, testBit_high_write]

/-- What the two byte-count registers read back in a state whose
data-byte-count has the bits of `lo` at 0..7 and the bits of `hi` at 8..15. -/
theorem byte_count_read_back (env : Env) (W : World) (lo hi rlen : Nat) (hr : rlen ≤ 4)
    (hl : ∀ i, i < 8 → W.data_byte_count.testBit i = lo.testBit i)
    (hh : ∀ i, i < 8 → W.data_byte_count.testBit (8 + i) = hi.testBit i) :
    gdrom_reg_read env W 0x5f7090 rlen
      = { ret := Ret.MEM_ACCESS_SUCCESS, buf := le_bytes (lo &&& 0xff) rlen, w := W }
    ∧ gdrom_reg_read env W 0x5f7094 rlen
      = { ret := Ret.MEM_ACCESS_SUCCESS, buf := le_bytes (hi &&& 0xff) rlen, w := W }
    ∧ W.data_byte_count &&& 0xffff = ((hi &&& 0xff) <<< 8) ||| (lo &&& 0xff) := by
  refine ⟨?_, ?_, and_0xffff_of_bits _ _ _ hl hh⟩
  · rw [gdrom_reg_read_byte_count_low env W rlen hr, and_0xff_of_bits _ _ hl]
  · rw [gdrom_reg_read_byte_count_high env W rlen hr, high_byte_of_bits _ _ hh]

/-- C33: byte-count register round trip.  A write (of at most 4 bytes) of a
value to byte-count-low (0x5f7090) returns success, sets bits 0..7 of the
data-byte-count to the low byte of the value and leaves its bits 8..31
unchanged; a write to byte-count-high (0x5f7094) returns success, sets bits
8..15 to the low byte of the value and leaves bits 0..7 and 16..31 unchanged.
After the two writes, in either order, a read of byte-count-low returns
`lo & 0xff`, a read of byte-count-high returns `hi & 0xff`, and
`data_byte_count & 0xffff` is `((hi & 0xff) << 8) | (lo & 0xff)`. -/
theorem C33_byte_count_round_trip (env : Env) (w : World) (lo hi : List Nat)
    (llen hlen rlen : Nat) (hl : llen ≤ 4) (hh : hlen ≤ 4) (hr : rlen ≤ 4) :
    (gdrom_reg_write env w lo 0x5f7090 llen).ret = Ret.MEM_ACCESS_SUCCESS
    ∧ (∀ i, i < 8 → (byte_count_low_write env w lo llen).data_byte_count.testBit i
          = (written_word lo llen).testBit i)
    ∧ (∀ i, 8 ≤ i → i < 32 → (byte_count_low_write env w lo llen).data_byte_count.testBit i
          = w.data_byte_count.testBit i)
    ∧ (gdrom_reg_write env w hi 0x5f7094 hlen).ret = Ret.MEM_ACCESS_SUCCESS
    ∧ (∀ i, i < 8 → (byte_count_high_write env w hi hlen).data_byte_count.testBit (8 + i)
          = (written_word hi hlen).testBit i)
    ∧ (∀ i, i < 32 → (i < 8 ∨ 16 ≤ i) →
          (byte_count_high_write env w hi hlen).data_byte_count.testBit i
          = w.data_byte_count.testBit i)
    ∧ (∀ W : World,
        (W = byte_count_high_write env (byte_count_low_write env w lo llen) hi hlen
          ∨ W = byte_count_low_write env (byte_count_high_write env w hi hlen) lo llen) →
        gdrom_reg_read env W 0x5f7090 rlen
          = { ret := Ret.MEM_ACCESS_SUCCESS,
              buf := le_bytes (written_word lo llen &&& 0xff) rlen, w := W }
        ∧ gdrom_reg_read env W 0x5f7094 rlen
          = { ret := Ret.MEM_ACCESS_SUCCESS,
              buf := le_bytes (written_word hi hlen &&& 0xff) rlen, w := W }
        ∧ W.data_byte_count &&& 0xffff
          = ((written_word hi hlen &&& 0xff) <<< 8) ||| (written_word lo llen &&& 0xff)) := by
  refine ⟨(gdrom_reg_write_byte_count_ret env w lo llen hl).1, ?_, ?_,
    (gdrom_reg_write_byte_count_ret env w hi hlen hh).2, ?_, ?_, ?_⟩
  · intro i hi8
    rw [byte_count_low_write_bits env w lo llen hl, if_pos hi8]
  · intro i h8 h32
    rw [byte_count_low_write_bits env w lo llen hl, if_neg (by omega)]
    simp [h32]
  · intro i hi8
    rw [byte_count_high_write_bits env w hi hlen hh, if_pos ⟨by omega, by omega⟩,
      show 8 + i - 8 = i by omega]
  · intro i h32 hor
    rw [byte_count_high_write_bits env w hi hlen hh, if_neg (by omega)]
    simp [h32]
  · intro W hW
    apply byte_count_read_back env W _ _ rlen hr
    · intro i hi8
      rcases hW with rfl | rfl
      · rw [byte_count_high_write_bits env _ hi hlen hh, if_neg (by omega),
          byte_count_low_write_bits env w lo llen hl, if_pos hi8]
        simp [show i < 32 by omega]
      · rw [byte_count_low_write_bits env _ lo llen hl, if_pos hi8]
    · intro i hi8
      rcases hW with rfl | rfl
      · rw [byte_count_high_write_bits env _ hi hlen hh, if_pos ⟨by omega, by omega⟩,
          show 8 + i - 8 = i by omega]
      · rw [byte_count_low_write_bits env _ lo llen hl, if_neg (by omega),
          byte_count_high_write_bits env w hi hlen hh, if_pos ⟨by omega, by omega⟩,
          show 8 + i - 8 = i by omega]
        simp [show 8 + i < 32 by omega]

/-- Witness for C33: from the initial state, 0x1234 written to byte-count-low with a
2-byte access and 0xcd to byte-count-high with a 1-byte access; byte-count-low then
reads 0x34 and byte-count-high 0xcd. -/
theorem C33_byte_count_round_trip_witness :
    2 ≤ 4 ∧ 1 ≤ 4
    ∧ (gdrom_reg_read Env.sample
        (byte_count_high_write Env.sample
          (byte_count_low_write Env.sample World.init [0x34, 0x12] 2) [0xcd] 1)
        0x5f7090 1).buf = [0x34]
    ∧ (gdrom_reg_read Env.sample
        (byte_count_high_write Env.sample
          (byte_count_low_write Env.sample World.init [0x34, 0x12] 2) [0xcd] 1)
        0x5f7094 1).buf = [0xcd]
    ∧ (byte_count_high_write Env.sample
          (byte_count_low_write Env.sample World.init [0x34, 0x12] 2) [0xcd] 1).data_byte_count
        = 0xcd34 :=
  ⟨by decide, by decide,
    (congrArg Result.buf
      ((C33_byte_count_round_trip Env.sample World.init [0x34, 0x12] [0xcd] 2 1 1
        (by decide) (by decide) (by decide)).2.2.2.2.2.2 _ (Or.inl rfl)).1).trans (by decide),
    (congrArg Result.buf
      ((C33_byte_count_round_trip Env.sample World.init [0x34, 0x12] [0xcd] 2 1 1
        (by decide) (by decide) (by decide)).2.2.2.2.2.2 _ (Or.inl rfl)).2.1).trans
      (by decide),
    by decide⟩

/-! ## The protection register GDAPRO -/

theorem memcpy_u32_le_bytes (v : Nat) (hv : v < 2 ^ 32) :
    memcpy_u32 0 (le_bytes v 4) 4 = v := by
  unfold memcpy_u32 le_bytes buf_byte le_byte
  simp only [List.range, List.range.loop, List.map, le_val, List.getD_cons_zero,
    List.getD_cons_succ]
  simp
  omega

theorem gdrom_dma_prot_top_bound : ∀ k, k < 128 →
    0x08000000 ≤ ((k <<< 20) ||| 0x08000000) ∧ ((k <<< 20) ||| 0x08000000) ≤ 0x0ff00000 := by
  decide

theorem gdrom_dma_prot_bot_bound : ∀ k, k < 128 →
    0x080fffff ≤ ((k <<< 20) ||| 0x080fffff) ∧ ((k <<< 20) ||| 0x080fffff) ≤ 0x0fffffff := by
  decide

/-- The protection bounds lie in the system-memory window for every value of
the protection register. -/
theorem gdrom_dma_prot_bounds (w : World) :
    0x08000000 ≤ gdrom_dma_prot_top w ∧ gdrom_dma_prot_top w ≤ 0x0ff00000
    ∧ 0x080fffff ≤ gdrom_dma_prot_bot w ∧ gdrom_dma_prot_bot w ≤ 0x0fffffff := by
  have h1 : (w.gdapro_reg &&& 0x7f00) >>> 8 < 128 := by
    have : w.gdapro_reg &&& 0x7f00 ≤ 0x7f00 := Nat.and_le_right
    rw [Nat.shiftRight_eq_div_pow]
    omega
  have h2 : w.gdapro_reg &&& 0x7f < 128 := by
    have : w.gdapro_reg &&& 0x7f ≤ 0x7f := Nat.and_le_right
    omega
  have t := gdrom_dma_prot_top_bound _ h1
  have b := gdrom_dma_prot_bot_bound _ h2
  exact ⟨t.1, t.2, b.1, b.2⟩

/-- C34: a 4-byte write of the value `v` to GDAPRO returns success and stores
`v` in the protection register if and only if `(v & 0xffff0000) == 0x88430000`;
otherwise the register keeps its value; nothing else changes in either case.
The protection bounds are
top = (((gdapro & 0x7f00) >> 8) << 20) | 0x08000000 and
bottom = ((gdapro & 0x7f) << 20) | 0x080fffff, so that for every value of the
register, and in particular after every accepted write,
0x08000000 <= top <= 0x0ff00000 and 0x080fffff <= bottom <= 0x0fffffff. -/
theorem C34_gdapro_write_and_bounds (env : Env) (w : World) (v addr len : Nat)
    (hv : v < 2 ^ 32) :
    gdrom_gdapro_reg_write_handler env w (le_bytes v 4) addr len
      = { ret := Ret.MEM_ACCESS_SUCCESS, buf := [],
          w := { w with gdapro_reg := if v &&& 0xffff0000 = 0x88430000 then v
                                      else w.gdapro_reg } }
    ∧ gdrom_dma_prot_top w = (((w.gdapro_reg &&& 0x7f00) >>> 8) <<< 20) ||| 0x08000000
    ∧ gdrom_dma_prot_bot w = ((w.gdapro_reg &&& 0x7f) <<< 20) ||| 0x080fffff
    ∧ (∀ w2 : World, 0x08000000 ≤ gdrom_dma_prot_top w2 ∧ gdrom_dma_prot_top w2 ≤ 0x0ff00000
        ∧ 0x080fffff ≤ gdrom_dma_prot_bot w2 ∧ gdrom_dma_prot_bot w2 ≤ 0x0fffffff) := by
  refine ⟨?_, rfl, rfl, gdrom_dma_prot_bounds⟩
  unfold gdrom_gdapro_reg_write_handler
  simp only [memcpy_u32_le_bytes v hv]
  by_cases hc : v &&& 0xffff0000 = 0x88430000
  · simp [hc]
  · simp [hc]

/-- Witness for C34: 0x88431234 is accepted and gives top = 0x09200000 and
bottom = 0x0b4fffff; 0x12345678 is refused. -/
theorem C34_gdapro_write_and_bounds_witness :
    0x88431234 < 2 ^ 32
    ∧ (gdrom_gdapro_reg_write_handler Env.sample World.init
        (le_bytes 0x88431234 4) 0 4).w.gdapro_reg = 0x88431234
    ∧ gdrom_dma_prot_top (gdrom_gdapro_reg_write_handler Env.sample World.init
        (le_bytes 0x88431234 4) 0 4).w = 0x09200000
    ∧ gdrom_dma_prot_bot (gdrom_gdapro_reg_write_handler Env.sample World.init
        (le_bytes 0x88431234 4) 0 4).w = 0x0b4fffff
    ∧ (gdrom_gdapro_reg_write_handler Env.sample World.init
        (le_bytes 0x12345678 4) 0 4).w.gdapro_reg = 0x00007f00 :=
  ⟨by decide,
    (congrArg (fun r => r.w.gdapro_reg)
      (C34_gdapro_write_and_bounds Env.sample World.init 0x88431234 0 4 (by decide)).1).trans
      (by decide),
    by decide, by decide, by decide⟩


/-! ## The data-byte-count in the reachable states -/

/-- The two byte-count registers together expose the data-byte-count modulo
2^16. -/
theorem byte_count_halves (x : Nat) :
    (x &&& 0xff) ||| (((x &&& 0xff00) >>> 8) <<< 8) = x % 2 ^ 16 := by
  apply Nat.eq_of_testBit_eq
  intro i
  rw [Nat.testBit_mod_two_pow, Nat.testBit_or, Nat.testBit_shiftLeft, Nat.testBit_shiftRight,
    Nat.testBit_and, Nat.testBit_and, testBit_0xff,
    show (0xff00 : Nat) = 0xff <<< 8 from rfl, Nat.testBit_shiftLeft, testBit_0xff]
  by_cases h8 : i < 8
  · have a : i < 16 := by omega
    have b : ¬ 8 ≤ i := by omega
    simp [h8, a, b]
  · by_cases h16 : i < 16
    · have a : 8 ≤ i := by omega
      have b : 8 + (i - 8) = i := by omega
      have c : i - 8 < 8 := by omega
      simp [h8, h16, a, b, c]
    · have a : 8 ≤ i := by omega
      have b : 8 + (i - 8) = i := by omega
      have c : ¬ i - 8 < 8 := by omega
      simp [h8, h16, a, b, c]

/-- Counterexample to C32 as stated: after a READ packet (0x30) for 32 sectors
of 2048 bytes, sent from the initial state, the data-byte-count is 65536,
which does not fit in 16 bits; both byte-count registers then read 0. -/
theorem C32_counterexample_read_32_sectors :
    reachable Env.sample
      (run_accesses Env.sample World.init
        (packet_accesses [0x30, 0x20, 0, 0, 0, 0, 0, 0, 0, 0, 32, 0]))
    ∧ (run_accesses Env.sample World.init
        (packet_accesses [0x30, 0x20, 0, 0, 0, 0, 0, 0, 0, 0, 32, 0])).data_byte_count = 65536
    ∧ ¬ (run_accesses Env.sample World.init
        (packet_accesses [0x30, 0x20, 0, 0, 0, 0, 0, 0, 0, 0, 32, 0])).data_byte_count < 65536
    ∧ (gdrom_reg_read Env.sample
        (run_accesses Env.sample World.init
          (packet_accesses [0x30, 0x20, 0, 0, 0, 0, 0, 0, 0, 0, 32, 0])) 0x5f7090 4).buf
        = [0, 0, 0, 0]
    ∧ (gdrom_reg_read Env.sample
        (run_accesses Env.sample World.init
          (packet_accesses [0x30, 0x20, 0, 0, 0, 0, 0, 0, 0, 0, 32, 0])) 0x5f7094 4).buf
        = [0, 0, 0, 0] :=
  ⟨⟨_, rfl⟩, by decide, by decide, by decide, by decide⟩

/-- C32 (amended): in every state reachable from the initial state by
register and DMA-register accesses the data-byte-count is below 2^32, the
range of the `unsigned` variable that holds it.  A 4-byte read of
byte-count-low returns `data_byte_count & 0xff` and a 4-byte read of
byte-count-high returns `(data_byte_count & 0xff00) >> 8`, so that the two
registers together expose the data-byte-count modulo 2^16: its full value
exactly when it is below 65536. -/
theorem C32_data_byte_count_bound (env : Env) (w : World) (h : reachable env w) :
    w.data_byte_count < 2 ^ 32
    ∧ gdrom_reg_read env w 0x5f7090 4
        = { ret := Ret.MEM_ACCESS_SUCCESS, buf := le_bytes (w.data_byte_count &&& 0xff) 4,
            w := w }
    ∧ gdrom_reg_read env w 0x5f7094 4
        = { ret := Ret.MEM_ACCESS_SUCCESS,
            buf := le_bytes ((w.data_byte_count &&& 0xff00) >>> 8) 4, w := w }
    ∧ (w.data_byte_count &&& 0xff) ||| (((w.data_byte_count &&& 0xff00) >>> 8) <<< 8)
        = w.data_byte_count % 2 ^ 16
    ∧ ((w.data_byte_count &&& 0xff) ||| (((w.data_byte_count &&& 0xff00) >>> 8) <<< 8)
        = w.data_byte_count ↔ w.data_byte_count < 65536) := by
  refine ⟨(reachable_invariant env w h).2.2.2.2, ?_, ?_, byte_count_halves _, ?_⟩
  · simp [gdrom_reg_read, gdrom_reg_info, gdrom_reg_read_from,
      gdrom_byte_count_low_reg_read_handler]
  · simp [gdrom_reg_read, gdrom_reg_info, gdrom_reg_read_from,
      gdrom_byte_count_high_reg_read_handler]
  · rw [byte_count_halves]
    constructor
    · intro he
      have := Nat.mod_lt w.data_byte_count (show 0 < 2 ^ 16 by decide)
      omega
    · intro hlt
      exact Nat.mod_eq_of_lt hlt

/-- Witness for C32 (amended): the state after a READ packet for 32 sectors of 2048
bytes. -/
theorem C32_data_byte_count_bound_witness :
    reachable Env.sample
      (run_accesses Env.sample World.init
        (packet_accesses [0x30, 0x20, 0, 0, 0, 0, 0, 0, 0, 0, 32, 0]))
    ∧ (run_accesses Env.sample World.init
        (packet_accesses [0x30, 0x20, 0, 0, 0, 0, 0, 0, 0, 0, 32, 0])).data_byte_count
      < 2 ^ 32 :=
  ⟨⟨_, rfl⟩, (C32_data_byte_count_bound Env.sample _ ⟨_, rfl⟩).1⟩

/-! ## Zero-length node -/

/-- C31 (failing input): a READ_TOC packet (0x14) whose allocation length
(packet bytes 3 and 4) is 0, sent from the initial state, returns with a node
of valid length 0 in the queue: its cursor, 0, is not below its valid length.
The next one-byte read of the data register returns success with the element
`dat[0]` of that node, which lies at its valid length (no byte of the node was
ever stored; the model reads 0), and only then removes the node.  The same
packet with allocation length 1 leaves a node whose cursor is below its valid
length. -/
theorem C31_read_toc_zero_length_node :
    reachable Env.sample
      (run_accesses Env.sample World.init
        (packet_accesses [0x14, 0, 0, 0, 0, 0, 0, 0, 0, 0, 0, 0]))
    ∧ (run_accesses Env.sample World.init
        (packet_accesses [0x14, 0, 0, 0, 0, 0, 0, 0, 0, 0, 0, 0])).bufq
        = [{ idx := 0, len := 0, dat := [] }]
    ∧ ¬ (∀ n ∈ (run_accesses Env.sample World.init
          (packet_accesses [0x14, 0, 0, 0, 0, 0, 0, 0, 0, 0, 0, 0])).bufq,
          node_cursor_valid n)
    ∧ bufq_consume_byte (run_accesses Env.sample World.init
        (packet_accesses [0x14, 0, 0, 0, 0, 0, 0, 0, 0, 0, 0, 0])).bufq = (some 0, [])
    ∧ (gdrom_reg_read Env.sample
        (run_accesses Env.sample World.init
          (packet_accesses [0x14, 0, 0, 0, 0, 0, 0, 0, 0, 0, 0, 0])) 0x5f7080 1).ret
        = Ret.MEM_ACCESS_SUCCESS
    ∧ (gdrom_reg_read Env.sample
        (run_accesses Env.sample World.init
          (packet_accesses [0x14, 0, 0, 0, 0, 0, 0, 0, 0, 0, 0, 0])) 0x5f7080 1).buf = [0]
    ∧ (∀ n ∈ (run_accesses Env.sample World.init
          (packet_accesses [0x14, 0, 0, 0, 1, 0, 0, 0, 0, 0, 0, 0])).bufq,
          node_cursor_valid n) := by
  refine ⟨⟨_, rfl⟩, by decide, by decide, by decide, by decide, by decide, by decide⟩


/-! ## The additional sense code -/

/-- Once `additional_sense` is NO_DISC it is NO_DISC after every sequence of
accesses. -/
theorem run_accesses_additional_sense (env : Env) (w : World) (accs : List access)
    (h : w.additional_sense = ADDITIONAL_SENSE_NO_DISC) :
    (run_accesses env w accs).additional_sense = ADDITIONAL_SENSE_NO_DISC := by
  apply run_accesses_inv env (fun w => w.additional_sense = ADDITIONAL_SENSE_NO_DISC) _ accs w h
  intro w a hw
  rcases (access_run_frame env w a).2.2.2.2 with h5 | h5
  · exact h5.trans hw
  · exact h5

/-- A TEST_UNIT packet with no medium records NO_DISC. -/
theorem packet_command_test_unit_no_disc (env : Env) (w : World) (cbuf : List Nat)
    (clen : Nat) (ws : List (List Nat × Nat)) (hm : env.mount_check = false)
    (hclen : clen ≤ 4) (hcmd : written_word cbuf clen = GDROM_CMD_PKT) (h6 : ws.length = 6)
    (hws : ∀ y ∈ ws, y.2 ≤ 4)
    (hop : (packet_bytes ws).getD 0 0 = GDROM_PKT_TEST_UNIT) :
    (packet_command env w cbuf clen ws).w.additional_sense = ADDITIONAL_SENSE_NO_DISC := by
  rw [packet_command_switch env w cbuf clen ws hclen hcmd h6 hws, hop, if_pos rfl,
    returning_w]
  unfold gdrom_input_test_unit_packet
  simp only [hm]
  rfl

/-- Byte 8 of the response of a REQ_ERROR packet of length at least 9. -/
theorem req_error_response_byte_8 (w : World) (n : Nat) (hn : 9 ≤ n)
    (h : w.additional_sense = ADDITIONAL_SENSE_NO_DISC) :
    ((req_error_response w).take (min n 10)).getD 8 0 % 256 = 0x3a := by
  have hc : min n 10 = 9 ∨ min n 10 = 10 := by omega
  unfold req_error_response
  rw [h]
  rcases hc with hc | hc <;> rw [hc] <;> rfl

/-- C38: no operation resets `additional_sense`.  Once a TEST_UNIT packet
(0x00) sent with no medium mounted has recorded NO_DISC (0x3a),
`additional_sense` is 0x3a after every later sequence of register and
DMA-register accesses, so that a REQ_ERROR packet (0x13) of requested length
n >= 9 sent after them returns success and queues one node, with cursor 0 and
valid length min(n, 10), whose byte 8 is 0x3a; this holds whatever the
accesses in between did to the CHECK bit and to the error register. -/
theorem C38_additional_sense_never_reset (env : Env) (w0 : World) (cbuf : List Nat)
    (clen : Nat) (ws0 ws : List (List Nat × Nat)) (accs : List access)
    (hm : env.mount_check = false) (hclen : clen ≤ 4)
    (hcmd : written_word cbuf clen = GDROM_CMD_PKT)
    (h60 : ws0.length = 6) (hws0 : ∀ y ∈ ws0, y.2 ≤ 4)
    (hop0 : (packet_bytes ws0).getD 0 0 = GDROM_PKT_TEST_UNIT)
    (h6 : ws.length = 6) (hws : ∀ y ∈ ws, y.2 ≤ 4)
    (hop : (packet_bytes ws).getD 0 0 = GDROM_PKT_REQ_ERROR)
    (hn : 9 ≤ (packet_bytes ws).getD 4 0) :
    (packet_command env w0 cbuf clen ws0).w.additional_sense = 0x3a
    ∧ (run_accesses env (packet_command env w0 cbuf clen ws0).w accs).additional_sense = 0x3a
    ∧ (packet_command env (run_accesses env (packet_command env w0 cbuf clen ws0).w accs)
        cbuf clen ws).ret = Ret.MEM_ACCESS_SUCCESS
    ∧ (∃ node : gdrom_bufq_node,
        (packet_command env (run_accesses env (packet_command env w0 cbuf clen ws0).w accs)
          cbuf clen ws).w.bufq = [node]
        ∧ node.idx = 0 ∧ node.len = min ((packet_bytes ws).getD 4 0) 10
        ∧ node.byte 8 = 0x3a)
    ∧ (packet_command env (run_accesses env (packet_command env w0 cbuf clen ws0).w accs)
        cbuf clen ws).w.additional_sense = 0x3a := by
  have h1 := packet_command_test_unit_no_disc env w0 cbuf clen ws0 hm hclen hcmd h60 hws0 hop0
  have h2 := run_accesses_additional_sense env _ accs h1
  have hne : (packet_bytes ws).getD 4 0 ≠ 0 := by omega
  obtain ⟨-, -, f3, -, -, -, -⟩ := packet_entry_world_frame
    (run_accesses env (packet_command env w0 cbuf clen ws0).w accs) ws
  rw [packet_command_req_error env _ cbuf clen ws hclen hcmd h6 hws hop]
  refine ⟨h1, h2, rfl, ⟨_, if_pos hne, rfl, rfl, ?_⟩, f3.trans h2⟩
  exact req_error_response_byte_8 _ _ hn h2

/-- Witness for C38: with no disc, a TEST_UNIT packet from the initial state, then an
IDENTIFY command, which clears CHECK and zeroes the error register, then a REQ_ERROR
packet of length 10. -/
theorem C38_additional_sense_never_reset_witness :
    Env.no_disc.mount_check = false
    ∧ written_word [0xa0] 1 = GDROM_CMD_PKT
    ∧ (packet_bytes (packet_words [0, 0, 0, 0, 0, 0, 0, 0, 0, 0, 0, 0])).getD 0 0
        = GDROM_PKT_TEST_UNIT
    ∧ (packet_bytes (packet_words [0x13, 0, 0, 0, 10, 0, 0, 0, 0, 0, 0, 0])).getD 0 0
        = GDROM_PKT_REQ_ERROR
    ∧ 9 ≤ (packet_bytes (packet_words [0x13, 0, 0, 0, 10, 0, 0, 0, 0, 0, 0, 0])).getD 4 0
    ∧ flag (run_accesses Env.no_disc
        (packet_command Env.no_disc World.init [0xa0] 1
          (packet_words [0, 0, 0, 0, 0, 0, 0, 0, 0, 0, 0, 0])).w
        [access.reg_write [0xa1] 0x5f709c 1]).stat_reg STAT_CHECK_MASK = false
    ∧ (run_accesses Env.no_disc
        (packet_command Env.no_disc World.init [0xa0] 1
          (packet_words [0, 0, 0, 0, 0, 0, 0, 0, 0, 0, 0, 0])).w
        [access.reg_write [0xa1] 0x5f709c 1]).error_reg = error_reg_zero
    ∧ (run_accesses Env.no_disc
        (packet_command Env.no_disc World.init [0xa0] 1
          (packet_words [0, 0, 0, 0, 0, 0, 0, 0, 0, 0, 0, 0])).w
        [access.reg_write [0xa1] 0x5f709c 1]).additional_sense = 0x3a
    ∧ (packet_command Env.no_disc
        (run_accesses Env.no_disc
          (packet_command Env.no_disc World.init [0xa0] 1
            (packet_words [0, 0, 0, 0, 0, 0, 0, 0, 0, 0, 0, 0])).w
          [access.reg_write [0xa1] 0x5f709c 1])
        [0xa0] 1 (packet_words [0x13, 0, 0, 0, 10, 0, 0, 0, 0, 0, 0, 0])).w.bufq
        = [{ idx := 0, len := 10, dat := [0xf0, 0, 0, 0, 0, 0, 0, 0, 0x3a, 0] }] :=
  ⟨rfl, by decide, by decide, by decide, by decide, by decide, by decide,
    (C38_additional_sense_never_reset Env.no_disc World.init [0xa0] 1
      (packet_words [0, 0, 0, 0, 0, 0, 0, 0, 0, 0, 0, 0])
      (packet_words [0x13, 0, 0, 0, 10, 0, 0, 0, 0, 0, 0, 0])
      [access.reg_write [0xa1] 0x5f709c 1]
      rfl (by decide) (by decide) (by decide) (by decide) (by decide) (by decide) (by decide)
      (by decide) (by decide)).2.1,
    by decide⟩


/-! ## Maple bus addresses -/

theorem maple_addr_pack_returns (cfg : maple_config) (port unit : Nat)
    (hcfg : cfg.INVARIANTS = true → port < cfg.MAPLE_PORT_COUNT ∧ unit < cfg.MAPLE_UNIT_COUNT) :
    maple_addr_pack cfg port unit
      = Except.ok ((if unit > 0 then (1 <<< (unit - 1)) &&& 0x1f else 0x20)
          ||| ((port <<< 6) % 2 ^ 32)) := by
  unfold maple_addr_pack
  rw [if_neg]
  rintro ⟨hi, hor⟩
  obtain ⟨hp, hu⟩ := hcfg hi
  omega

theorem maple_addr_unpack_pack : ∀ port, port < 4 → ∀ unit, unit < 6 →
    maple_addr_unpack ((if unit > 0 then (1 <<< (unit - 1)) &&& 0x1f else 0x20)
        ||| ((port <<< 6) % 2 ^ 32))
      = Except.ok (port, unit) := by
  intro port hp unit hu
  interval_cases port <;> interval_cases unit <;> rfl

/-- C39: maple address round trip.  For every port in 0..3 and every unit in
0..5, `maple_addr_pack(port, unit)` returns an address from which
`maple_addr_unpack` yields exactly `(port, unit)`, without raising
ERROR_INTEGRITY.  (When the build defines INVARIANTS, `maple_addr_pack` checks
its arguments against MAPLE_PORT_COUNT and MAPLE_UNIT_COUNT, constants of a
header that is not part of the sources at hand: they are taken to admit the
port and the unit.) -/
theorem C39_maple_addr_round_trip (cfg : maple_config) (port unit : Nat)
    (hp : port ≤ 3) (hu : unit ≤ 5)
    (hcfg : cfg.INVARIANTS = true → port < cfg.MAPLE_PORT_COUNT ∧ unit < cfg.MAPLE_UNIT_COUNT) :
    (∃ addr, maple_addr_pack cfg port unit = Except.ok addr
      ∧ maple_addr_unpack addr = Except.ok (port, unit))
    ∧ maple_addr_round_trip cfg port unit = Except.ok (port, unit) := by
  have h1 := maple_addr_pack_returns cfg port unit hcfg
  have h2 := maple_addr_unpack_pack port (by omega) unit (by omega)
  refine ⟨⟨_, h1, h2⟩, ?_⟩
  unfold maple_addr_round_trip
  rw [h1]
  exact h2

/-- Witness for C39: port 3, unit 5 packs to 0xd0, with the argument check compiled in
and 4 ports of 6 units. -/
theorem C39_maple_addr_round_trip_witness :
    3 ≤ 3 ∧ 5 ≤ 5
    ∧ maple_addr_round_trip
        { INVARIANTS := true, MAPLE_PORT_COUNT := 4, MAPLE_UNIT_COUNT := 6 } 3 5
      = Except.ok (3, 5) :=
  ⟨by decide, by decide,
    (C39_maple_addr_round_trip
      { INVARIANTS := true, MAPLE_PORT_COUNT := 4, MAPLE_UNIT_COUNT := 6 } 3 5
      (by decide) (by decide) (fun _ => ⟨by decide, by decide⟩)).2⟩

/-! ## The dispatch of the system block -/

theorem sys_reg_info_len : ∀ c ∈ sys_reg_info, c.len = 4 := by
  intro c hc
  simp only [sys_reg_info, List.mem_cons, List.mem_singleton, List.not_mem_nil, or_false] at hc
  rcases hc with rfl | rfl | rfl | rfl | rfl | rfl | rfl | rfl | rfl | rfl | rfl | rfl | rfl
    | rfl | rfl | rfl | rfl | rfl | rfl | rfl | rfl | rfl | rfl | rfl | rfl | rfl | rfl | rfl
    | rfl | rfl | rfl | rfl | rfl | rfl | rfl <;> rfl

/-- A read at an address where every entry has another declared length fails
without a call of a handler. -/
theorem sys_block_read_from_refused (curs : List sys_mapped_reg) (env : SysEnv) (w : SysWorld)
    (addr len : Nat) (h : ∀ c ∈ curs, c.addr = addr → c.len ≠ len) :
    sys_block_read_from curs env w addr len
      = if ∃ c ∈ curs, c.addr = addr then
          sys_length_failure w
            "Whatever happens when you use an inappropriate length while writing to a system register"
            addr len
        else sys_address_failure w addr := by
  induction curs with
  | nil => simp [sys_block_read_from]
  | cons c rest ih =>
    have hr := ih (fun d hd => h d (List.mem_cons_of_mem _ hd))
    unfold sys_block_read_from
    by_cases hc : c.addr = addr
    · rw [if_pos hc, if_neg (h c (List.mem_cons_self _ _) hc), if_pos ⟨c, List.mem_cons_self _ _, hc⟩]
    · rw [if_neg hc, hr]
      by_cases he : ∃ d ∈ rest, d.addr = addr
      · obtain ⟨d, hd, hda⟩ := he
        rw [if_pos ⟨d, hd, hda⟩, if_pos ⟨d, List.mem_cons_of_mem _ hd, hda⟩]
      · rw [if_neg he, if_neg]
        rintro ⟨d, hd, hda⟩
        rcases List.mem_cons.mp hd with rfl | hd
        · exact hc hda
        · exact he ⟨d, hd, hda⟩

/-- A write at an address where every entry has another declared length fails
without a call of a handler. -/
theorem sys_block_write_from_refused (curs : List sys_mapped_reg) (env : SysEnv)
    (w : SysWorld) (buf : List Nat) (addr len : Nat)
    (h : ∀ c ∈ curs, c.addr = addr → c.len ≠ len) :
    sys_block_write_from curs env w buf addr len
      = if ∃ c ∈ curs, c.addr = addr then
          sys_length_failure w
            "Whatever happens when you use an inappropriate length while reading from a system register"
            addr len
        else sys_address_failure w addr := by
  induction curs with
  | nil => simp [sys_block_write_from]
  | cons c rest ih =>
    have hr := ih (fun d hd => h d (List.mem_cons_of_mem _ hd))
    unfold sys_block_write_from
    by_cases hc : c.addr = addr
    · rw [if_pos hc, if_neg (h c (List.mem_cons_self _ _) hc), if_pos ⟨c, List.mem_cons_self _ _, hc⟩]
    · rw [if_neg hc, hr]
      by_cases he : ∃ d ∈ rest, d.addr = addr
      · obtain ⟨d, hd, hda⟩ := he
        rw [if_pos ⟨d, hd, hda⟩, if_pos ⟨d, List.mem_cons_of_mem _ hd, hda⟩]
      · rw [if_neg he, if_neg]
        rintro ⟨d, hd, hda⟩
        rcases List.mem_cons.mp hd with rfl | hd
        · exact hc hda
        · exact he ⟨d, hd, hda⟩

theorem sys_failure_unchanged (w : SysWorld) (s : String) (addr len : Nat) :
    (sys_length_failure w s addr len).ret = Ret.MEM_ACCESS_FAILURE
    ∧ sys_registers_unchanged w (sys_length_failure w s addr len).w
    ∧ (sys_address_failure w addr).ret = Ret.MEM_ACCESS_FAILURE
    ∧ sys_registers_unchanged w (sys_address_failure w addr).w :=
  ⟨rfl, ⟨rfl, rfl, rfl, rfl, rfl⟩, rfl, ⟨rfl, rfl, rfl, rfl, rfl⟩⟩

/-- C40: the system-block dispatch accepts an access only at the exact
declared length.  For the address of an entry of `sys_reg_info` and a length
other than the declared length of the entry (every entry declares 4, so in
particular for the lengths 1 and 2), and for an address that no entry has, `sys_block_read` and
`sys_block_write` return MEM_ACCESS_FAILURE with ERROR_UNIMPLEMENTED pending,
and the state afterwards differs from the one before in the error attributes
only: no register of the system block or of the interrupt controller has
changed and no DMA was started.  The outcome is the same whatever the handlers
of holly_intc.c are: no handler is called. -/
theorem C40_sys_block_exact_length (env : SysEnv) (w : SysWorld) (buf : List Nat)
    (addr len : Nat)
    (h : (∃ c ∈ sys_reg_info, c.addr = addr ∧ len ≠ c.len)
      ∨ (∀ c ∈ sys_reg_info, c.addr ≠ addr)) :
    (sys_block_read env w addr len).ret = Ret.MEM_ACCESS_FAILURE
    ∧ (sys_block_write env w buf addr len).ret = Ret.MEM_ACCESS_FAILURE
    ∧ sys_registers_unchanged w (sys_block_read env w addr len).w
    ∧ sys_registers_unchanged w (sys_block_write env w buf addr len).w
    ∧ (sys_block_read env w addr len).w.err.pending = some error_type.ERROR_UNIMPLEMENTED
    ∧ (sys_block_write env w buf addr len).w.err.pending = some error_type.ERROR_UNIMPLEMENTED
    ∧ (sys_block_read env w addr len).buf = []
    ∧ (∀ c ∈ sys_reg_info, c.len = 4)
    ∧ (∀ env2 : SysEnv, sys_block_read env2 w addr len = sys_block_read env w addr len
        ∧ sys_block_write env2 w buf addr len = sys_block_write env w buf addr len) := by
  have hk : ∀ c ∈ sys_reg_info, c.addr = addr → c.len ≠ len := by
    intro c hc ha hl
    rcases h with ⟨d, hd, -, h4⟩ | hn
    · exact h4 (hl.symm.trans ((sys_reg_info_len c hc).trans (sys_reg_info_len d hd).symm))
    · exact hn c hc ha
  have hr : ∀ e : SysEnv, sys_block_read e w addr len = _ :=
    fun e => sys_block_read_from_refused sys_reg_info e w addr len hk
  have hw : ∀ e : SysEnv, sys_block_write e w buf addr len = _ :=
    fun e => sys_block_write_from_refused sys_reg_info e w buf addr len hk
  refine ⟨?_, ?_, ?_, ?_, ?_, ?_, ?_, sys_reg_info_len, fun env2 => ⟨(hr env2).trans (hr env).symm,
    (hw env2).trans (hw env).symm⟩⟩
  · rw [hr env]; split <;> rfl
  · rw [hw env]; split <;> rfl
  · rw [hr env]; split <;> exact ⟨rfl, rfl, rfl, rfl, rfl⟩
  · rw [hw env]; split <;> exact ⟨rfl, rfl, rfl, rfl, rfl⟩
  · rw [hr env]; split <;> rfl
  · rw [hw env]; split <;> rfl
  · rw [hr env]; split <;> rfl

/-- Witness for C40: a 2-byte write to SB_C2DLEN (0x5f6804) is refused and leaves the
register at 0, while the 4-byte write of the same bytes stores them. -/
theorem C40_sys_block_exact_length_witness :
    ((∃ c ∈ sys_reg_info, c.addr = 0x5f6804 ∧ 2 ≠ c.len)
      ∨ (∀ c ∈ sys_reg_info, c.addr ≠ 0x5f6804))
    ∧ (sys_block_write SysEnv.sample SysWorld.sample [0x34, 0x12, 0, 0] 0x5f6804 2).ret
        = Ret.MEM_ACCESS_FAILURE
    ∧ (sys_block_write SysEnv.sample SysWorld.sample [0x34, 0x12, 0, 0] 0x5f6804 2).w.reg_sb_c2dlen
        = 0
    ∧ (sys_block_write SysEnv.sample SysWorld.sample [0x34, 0x12, 0, 0] 0x5f6804 4).w.reg_sb_c2dlen
        = 0x1234 :=
  ⟨Or.inl ⟨_, List.mem_cons_of_mem _ (List.mem_cons_self _ _), rfl, by decide⟩,
    (C40_sys_block_exact_length SysEnv.sample SysWorld.sample [0x34, 0x12, 0, 0] 0x5f6804 2
      (Or.inl ⟨_, List.mem_cons_of_mem _ (List.mem_cons_self _ _), rfl, by decide⟩)).2.1,
    by decide, by decide⟩

end Gdrom
